import Mathlib

/-!
# Bed-probe measurement engine (`Marlin/src/module/probe.cpp`)

A shallow embedding of the probing protocol of the firmware: the descent
primitive `probe_down_to_z`, the statistical estimator `run_z_probe`, the
device actuator `set_deployed`, the point orchestrator `probe_at_point` and the
stall/current coordinator `set_homing_current`.

Conventions of the embedding:

* `float` values are exact rationals; a `float` that may be NaN is an
  `Option ℚ` with `none` for NaN (`FloatQ`).
* Preprocessor switches and configuration constants are fields of `Config`.
* Global and `static` variables are fields of `Machine`; every function is a
  state transformer on `Machine`.
* What the hardware answers (where a descent stops, what the endstop latch
  shows, what a pin reads) comes from an `Env` of oracles indexed by counters
  kept in `Machine`.
* Calls into collaborators that only act on the outside world are recorded in
  `Machine.trace`.
-/

namespace Probe

/-! ## Data model -/

/-- A position vector (`xyz_pos_t`). -/
structure XYZ where
  x : ℚ
  y : ℚ
  z : ℚ
deriving DecidableEq

/-- A `float` that may be NaN: `none` is NaN. -/
abbrev FloatQ := Option ℚ

/-- The NaN failure sentinel. -/
def NAN : FloatQ := none

/-- The test `isnan`. -/
def isnan (v : FloatQ) : Bool := v.isNone

/-- Float addition `a + b` with a possibly-NaN left operand. -/
def FloatQ.add (a : FloatQ) (b : ℚ) : FloatQ := a.map (fun v => v + b)

/-- The policy `ProbePtRaise` handed to `probe_at_point`. -/
inductive ProbePtRaise where
  | PROBE_PT_NONE
  | PROBE_PT_STOW
  | PROBE_PT_LAST_STOW
  | PROBE_PT_RAISE
  | PROBE_PT_BIG_RAISE
deriving DecidableEq

/-- The mutually exclusive device variants dispatched on by
`probe_specific_action`. -/
inductive ProbeKind where
  | SOLENOID_PROBE
  | Z_PROBE_SLED
  | BLTOUCH
  | Z_SERVO_PROBE
  | TOUCH_MI_PROBE
  | Z_PROBE_ALLEN_KEY
  | RACK_AND_PINION_PROBE
  | FIXED
deriving DecidableEq

/-- Calls into collaborators, in the order they are issued. -/
inductive Event where
  | move_to (x y z fr : ℚ)
  | move_to_xy (x y fr : ℚ)
  | move_to_x (x fr : ℚ)
  | move_to_z (z fr : ℚ)
  | z_clearance (z : ℚ)
  | ws1_z_clearance (z : ℚ)
  | wait_for_bed_heating
  | wait_for_hotend_heating
  | wait_for_hotend
  | set_target_hotend (t : ℤ)
  | set_target_bed (t : ℤ)
  | tare_pulse
  | probe_start
  | point_test_idle
  | backlash_measure
  | bltouch_deploy
  | bltouch_stow
  | bltouch_reset
  | solenoid (level : Bool)
  | servo (deploy : Bool)
  | wait_for_user (deploy : Bool)
  | set_anker_endstop (n : ℕ)
  | prove_control (level : Bool)
  | disable_e_steppers
  | stall_prevention (enable : Bool)
  | stop
  | error_msg (code : ℕ)
  | lcd_msg (code : ℕ)
  | closed_overpressure
  | bed_report (x y : ℚ) (z : FloatQ)
deriving DecidableEq

/-- One TMC stepper driver, as far as the probing code touches it. -/
structure Driver where
  val_mA : ℕ
  stealthChop : Bool
  diag1_stall : Bool
deriving DecidableEq

/-- The `sensorless_t` record of saved stealthChop states. -/
structure sensorless_t where
  x : Bool
  y : Bool
  z : Bool
deriving DecidableEq

/-- Build-time configuration: preprocessor switches and constants. -/
structure Config where
  MULTIPLE_PROBING : ℕ
  EXTRA_PROBING : ℕ
  PROBE_TARE : Bool
  ANKER_PROBE_SET : Bool
  ANKER_PROBE_DETECT_TIMES : Bool
  ANKER_LEVEING : Bool
  ANKER_LEVEING_DELAY_BEFORE_PROBING : ℕ
  ANKER_FIX_ENDSTOPR : Bool
  PROVE_CONTROL : Bool
  MEASURE_BACKLASH_WHEN_PROBING : Bool
  DELTA : Bool
  delta_clip_start_height : ℚ
  SENSORLESS_PROBING : Bool
  USE_Z_SENSORLESS : Bool
  USE_Z_SENSORLESS_AS_PROBE : Bool
  Z2_STALL_SENSITIVITY : Bool
  IMPROVE_HOMING_RELIABILITY : Bool
  kind : ProbeKind
  BLTOUCH_SLOW_MODE : Bool
  BLTOUCH_HS_MODE : Bool
  FIX_MOUNTED_PROBE : Bool
  NOZZLE_AS_PROBE : Bool
  HAS_PROBE_XY_OFFSET : Bool
  PAUSE_BEFORE_DEPLOY_STOW : Bool
  PAUSE_PROBE_DEPLOY_WHEN_TRIGGERED : Bool
  PROBE_TRIGGERED_WHEN_STOWED_TEST : Bool
  PREHEAT_BEFORE_PROBING : Bool
  PROBING_NOZZLE_TEMP : ℤ
  PROBING_BED_TEMP : ℤ
  TEMP_WINDOW : ℤ
  TEMP_BED_WINDOW : ℤ
  WS1_HOMING_5X : Bool
  HAS_QUIET_PROBING : Bool
  PROBING_HEATERS_OFF : Bool
  PROBING_FANS_OFF : Bool
  PROBING_ESTEPPERS_OFF : Bool
  PROBING_STEPPERS_OFF : Bool
  WAIT_FOR_BED_HEATER : Bool
  WAIT_FOR_HOTEND : Bool
  G29_RETRY_AND_RECOVER : Bool
  ADAPT_DETACHED_NOZZLE : Bool
  Z_PROBE_FEEDRATE_FAST : ℚ
  Z_PROBE_FEEDRATE_SLOW : ℚ
  HOMING_RISE_SPEED : ℚ
  XY_PROBE_FEEDRATE_MM_S : ℚ
  Z_CLEARANCE_DEPLOY_PROBE : ℚ
  Z_CLEARANCE_BETWEEN_PROBES : ℚ
  Z_CLEARANCE_MULTI_PROBE : ℚ
  Z_PROBE_LOW_POINT : ℚ
  Z_PROBE_DETECTION_DEVIATION : ℚ
  Z_MAX_POS : ℚ
  X_MAX_POS : ℚ
  SLED_DOCKING_OFFSET : ℚ
  TOUCH_MI_RETRACT_Z : ℚ
  TOUCH_MI_DEPLOY_XPOS : ℚ
  Z_PROBE_DEPLOY_X : ℚ
  Z_PROBE_RETRACT_X : ℚ
  TOUCH_MI_MANUAL_DEPLOY : Bool
  TOUCH_MI_DEPLOY_YPOS : Option ℚ
  HAS_SOLENOID_1 : Bool
  EXT_SOLENOID : Bool
  WAIT_FOR_NOZZLE_HEAT : Bool
  WAIT_FOR_BED_HEAT : Bool
  homing_feedrate_z : ℚ
  HOMING_PROBE_Z_RISE : ℚ
  Z_PROBE_ALLEN_KEY_DEPLOY : List (XYZ × ℚ)
  Z_PROBE_ALLEN_KEY_STOW : List (XYZ × ℚ)
  Z_MIN_PROBE : ℕ
  X_MAX : ℕ
  Y_MAX : ℕ
  Z_MAX : ℕ
  X_CURRENT : ℕ
  Y_CURRENT : ℕ
  Z_CURRENT : ℕ
  X_CURRENT_HOME : Option ℕ
  Y_CURRENT_HOME : Option ℕ
  Z_CURRENT_HOME : Option ℕ

/-- What the hardware answers to the `k`-th call of `probe_down_to_z`. -/
structure Descent where
  bltouch_deploy_fail : Bool
  trigger_state : ℕ
  stepper_z : ℚ
  bltouch_stow_fail : Bool

/-- The outside world: answers of the collaborators that are inputs to the
probing code.  `descent k` answers the `k`-th descent; `pin k` is the `k`-th
reading of the probe input (`PROBE_TRIGGERED()` and `bltouch.triggered()`);
`overpressure k` is the `k`-th evaluation of `ANKER_OVERPRESSURE_TRIGGER()`;
`probes_uninit i` is the indeterminate value found in `probes[i]` when the
local array is declared; `user_rounds` is the number of times the user has to
be prompted before a manually moved probe has changed its state. -/
structure Env where
  descent : ℕ → Descent
  pin : ℕ → Bool
  overpressure : ℕ → Bool
  can_reach : XYZ → Bool
  position_is_reachable : XYZ → Bool
  homing_needed_error : Bool
  user_rounds : ℕ
  M3032_Get_move_away : ℕ → ℚ × ℚ
  probes_uninit : ℕ → ℚ
  degTargetHotend : ℤ
  degTargetBed : ℤ
  wholeDegHotend : ℤ
  wholeDegBed : ℤ

/-- Global and static variables read or written by the probing code. -/
structure Machine where
  current_position : XYZ
  stepper_z : ℚ
  offset : XYZ
  z_probe_enabled : Bool
  hit_state : ℕ
  endstops_enabled : Bool
  endstops_enabled_globally : Bool
  axis_trusted : ℕ
  x_enabled : Bool
  y_enabled : Bool
  old_trusted : ℕ
  anker_old_trusted : ℕ
  heaters_paused : Bool
  fans_paused : Bool
  anker_leve_pause : Bool
  point_test_flag : Bool
  test_sensitivity : sensorless_t
  stepperX : Driver
  stepperY : Driver
  stepperZ : Driver
  stepperZ2 : Driver
  saved_current_X : ℤ
  saved_current_Y : ℤ
  saved_current_Z : ℤ
  buff_insert : List ℚ
  running : Bool
  descents : ℕ
  pin_reads : ℕ
  overpressure_reads : ℕ
  trace : List Event

/-- The variables that logging, driver, endstop-arming and quiet-mode calls
leave alone. -/
structure Core where
  current_position : XYZ
  stepper_z : ℚ
  offset : XYZ
  z_probe_enabled : Bool
  hit_state : ℕ
  buff_insert : List ℚ
  point_test_flag : Bool
  running : Bool
  descents : ℕ
  pin_reads : ℕ
  overpressure_reads : ℕ

/-- Projection of a machine onto its `Core`. -/
def Machine.core (s : Machine) : Core :=
  { current_position := s.current_position, stepper_z := s.stepper_z, offset := s.offset,
    z_probe_enabled := s.z_probe_enabled, hit_state := s.hit_state,
    buff_insert := s.buff_insert, point_test_flag := s.point_test_flag, running := s.running,
    descents := s.descents, pin_reads := s.pin_reads,
    overpressure_reads := s.overpressure_reads }

/-! ## Macros and machine integers -/

/-- The macro `TEST(n, b)`: bit `b` of `n`. -/
def TEST (n b : ℕ) : Bool := n.testBit b

/-- The macro `_BV(b)`. -/
def _BV (b : ℕ) : ℕ := 2 ^ b

/-- The macro `ABS`. -/
def ABS (v : ℚ) : ℚ := if v < 0 then -v else v

/-- The macro `MMM_TO_MMS`: millimetres per minute to millimetres per second. -/
def MMM_TO_MMS (v : ℚ) : ℚ := v / 60

/-- The macro `RECIPROCAL(x)`, that is `1.0f / x`. -/
def RECIPROCAL (n : ℤ) : ℚ := 1 / (n : ℚ)

/-- Conversion of a value to `int8_t`. -/
def toInt8 (n : ℤ) : ℤ := (n + 128) % 256 - 128

/-- Conversion of a value to `uint8_t`. -/
def toUInt8 (n : ℤ) : ℕ := (n % 256).toNat

/-- Conversion of a value to `int16_t`. -/
def toInt16 (n : ℤ) : ℤ := (n + 32768) % 65536 - 32768

/-- Conversion of a value to `uint16_t`. -/
def toUInt16 (n : ℤ) : ℕ := (n % 65536).toNat

/-- Axis numbers of `AxisEnum`. -/
def X_AXIS : ℕ := 0

/-- Axis numbers of `AxisEnum`. -/
def Y_AXIS : ℕ := 1

/-- Axis numbers of `AxisEnum`. -/
def Z_AXIS : ℕ := 2

/-- Modelled from the spec: the macro `TOTAL_PROBING` comes from the
configuration headers, which are not among the sources.  The sample set has
"length = configured total-probes count, optionally plus extra-probing count",
and the trimmed mean divides by `MULTIPLE_PROBING`. -/
def Config.TOTAL_PROBING (cfg : Config) : ℕ := cfg.MULTIPLE_PROBING + cfg.EXTRA_PROBING

/-- The constant `z_probe_fast_mm_s` of `probe.h`. -/
def Config.z_probe_fast_mm_s (cfg : Config) : ℚ := MMM_TO_MMS cfg.Z_PROBE_FEEDRATE_FAST

/-- The macro `HAS_CURRENT_HOME(N)`: a homing current is defined and differs
from the normal current. -/
def HAS_CURRENT_HOME (home : Option ℕ) (normal : ℕ) : Bool :=
  match home with
  | some h => h != normal
  | none => false

/-! ## Collaborators -/

/-- Append a collaborator call to the trace. -/
def Machine.log (s : Machine) (e : Event) : Machine := { s with trace := s.trace ++ [e] }

/-- Append a collaborator call to the trace when the switch `c` is on. -/
def Machine.logIf (s : Machine) (c : Bool) (e : Event) : Machine := if c then s.log e else s

/-- Modelled from the spec: `do_blocking_move_to_z` of the motion module, a
blocking move that completes at the commanded Z. -/
def do_blocking_move_to_z (z fr : ℚ) (s : Machine) : Machine :=
  { s with current_position := { s.current_position with z := z }, stepper_z := z,
           trace := s.trace ++ [Event.move_to_z z fr] }

/-- Modelled from the spec: `do_blocking_move_to_x` of the motion module. -/
def do_blocking_move_to_x (x fr : ℚ) (s : Machine) : Machine :=
  { s with current_position := { s.current_position with x := x },
           trace := s.trace ++ [Event.move_to_x x fr] }

/-- Modelled from the spec: `do_blocking_move_to_xy` of the motion module. -/
def do_blocking_move_to_xy (x y fr : ℚ) (s : Machine) : Machine :=
  { s with current_position := { s.current_position with x := x, y := y },
           trace := s.trace ++ [Event.move_to_xy x y fr] }

/-- Modelled from the spec: `do_blocking_move_to` of the motion module with a
full XYZ target. -/
def do_blocking_move_to (p : XYZ) (fr : ℚ) (s : Machine) : Machine :=
  { s with current_position := p, stepper_z := p.z,
           trace := s.trace ++ [Event.move_to p.x p.y p.z fr] }

/-- Modelled from the spec: `do_z_clearance` of the motion module, which raises
Z to at least the given height (never lowers) and caps it at `Z_MAX_POS`. -/
def do_z_clearance (cfg : Config) (zclear : ℚ) (s : Machine) : Machine :=
  do_blocking_move_to_z (min (max zclear s.current_position.z) cfg.Z_MAX_POS)
    cfg.z_probe_fast_mm_s (s.log (Event.z_clearance zclear))

/-- Modelled from the spec: `WS1_do_z_clearance`, the clearance raise used under
`WS1_HOMING_5X`; the same contract as `do_z_clearance`, traced as its own
call. -/
def WS1_do_z_clearance (cfg : Config) (zclear : ℚ) (s : Machine) : Machine :=
  do_blocking_move_to_z (min (max zclear s.current_position.z) cfg.Z_MAX_POS)
    cfg.z_probe_fast_mm_s (s.log (Event.ws1_z_clearance zclear))

/-- Modelled from the spec: `endstops.hit_on_purpose`, which clears the trigger
latch. -/
def hit_on_purpose (s : Machine) : Machine := { s with hit_state := 0 }

/-- Modelled from the spec: `endstops.enable_z_probe`, which sets the
DeviceState flag `z_probe_enabled`. -/
def enable_z_probe (onoff : Bool) (s : Machine) : Machine := { s with z_probe_enabled := onoff }

/-- Modelled from the spec: `set_current_from_steppers_for_axis(Z_AXIS)`, which
resolves Z from the stepper count. -/
def set_current_from_steppers_for_axis_Z (s : Machine) : Machine :=
  { s with current_position := { s.current_position with z := s.stepper_z } }

/-- Modelled from the spec: `stop` of the core, the emergency stop. -/
def stop (s : Machine) : Machine := { s with running := false, trace := s.trace ++ [Event.stop] }

/-- Modelled from the spec: `tmc_enable_stallguard`, which returns the prior
stealthChop state and switches the driver to stall reporting. -/
def tmc_enable_stallguard (d : Driver) : Bool × Driver :=
  (d.stealthChop, { d with stealthChop := false, diag1_stall := true })

/-- Modelled from the spec: `tmc_disable_stallguard`, which restores the given
stealthChop state and switches stall reporting off. -/
def tmc_disable_stallguard (d : Driver) (restore_stealth : Bool) : Driver :=
  { d with stealthChop := restore_stealth, diag1_stall := false }

/-- Modelled from the spec: `anker_tmc2209.tmc_enable_stallguard`, which
switches the driver to stall reporting and returns nothing. -/
def anker_tmc_enable_stallguard (d : Driver) : Driver :=
  { d with stealthChop := false, diag1_stall := true }

/-- Modelled from the spec: `getMilliamps` of a driver. -/
def Driver.getMilliamps (d : Driver) : ℕ := d.val_mA

/-- Modelled from the spec: `rms_current(mA)` of a driver, with a `uint16_t`
argument. -/
def Driver.rms_current (d : Driver) (mA : ℤ) : Driver := { d with val_mA := toUInt16 mA }

/-- Modelled from the spec: the macro `DISABLE_AXIS_X`, which switches the
stepper off and marks the axis untrusted. -/
def DISABLE_AXIS_X (s : Machine) : Machine :=
  { s with x_enabled := false,
           axis_trusted := if TEST s.axis_trusted X_AXIS then s.axis_trusted - _BV X_AXIS
                           else s.axis_trusted }

/-- Modelled from the spec: the macro `DISABLE_AXIS_Y`. -/
def DISABLE_AXIS_Y (s : Machine) : Machine :=
  { s with y_enabled := false,
           axis_trusted := if TEST s.axis_trusted Y_AXIS then s.axis_trusted - _BV Y_AXIS
                           else s.axis_trusted }

/-! ## Stall/current coordinator -/

/-- The block of `set_homing_current(true)` for one axis, compiled in when
`enabled`: save the driver current in the `static int16_t` and set the homing
current.  Returns the driver and the saved value. -/
def homing_current_on (enabled : Bool) (home : ℤ) (d : Driver) (saved : ℤ) : Driver × ℤ :=
  if enabled then (d.rms_current home, toInt16 d.getMilliamps) else (d, saved)

/-- The block of `set_homing_current(false)` for one axis, compiled in when
`enabled`: set the saved current. -/
def homing_current_off (enabled : Bool) (d : Driver) (saved : ℤ) : Driver :=
  if enabled then d.rms_current saved else d

/-- `Probe::set_homing_current`: switch the driver currents to the homing
currents and back, saving the previous values in `static int16_t` variables.
The X and Y blocks are compiled in on a delta only. -/
def set_homing_current (cfg : Config) (onoff : Bool) (s : Machine) : Machine :=
  let hx := HAS_CURRENT_HOME cfg.X_CURRENT_HOME cfg.X_CURRENT
  let hy := HAS_CURRENT_HOME cfg.Y_CURRENT_HOME cfg.Y_CURRENT
  let hz := HAS_CURRENT_HOME cfg.Z_CURRENT_HOME cfg.Z_CURRENT
  if hx || hy || hz then
    if onoff then
      let x := homing_current_on (cfg.DELTA && hx) (cfg.X_CURRENT_HOME.getD 0) s.stepperX
        s.saved_current_X
      let y := homing_current_on (cfg.DELTA && hy) (cfg.Y_CURRENT_HOME.getD 0) s.stepperY
        s.saved_current_Y
      let z := homing_current_on hz (cfg.Z_CURRENT_HOME.getD 0) s.stepperZ s.saved_current_Z
      ({ s with stepperX := x.1, saved_current_X := x.2, stepperY := y.1,
                saved_current_Y := y.2, stepperZ := z.1, saved_current_Z := z.2 }).logIf
        cfg.IMPROVE_HOMING_RELIABILITY (Event.stall_prevention true)
    else
      ({ s with
          stepperX := homing_current_off (cfg.DELTA && hx) s.stepperX s.saved_current_X,
          stepperY := homing_current_off (cfg.DELTA && hy) s.stepperY s.saved_current_Y,
          stepperZ := homing_current_off hz s.stepperZ s.saved_current_Z }).logIf
        cfg.IMPROVE_HOMING_RELIABILITY (Event.stall_prevention false)
  else s

/-! ## Quiet probing -/

/-- The part of `set_probing_paused` shared with
`anker_level_set_probing_paused`, with the static `old_trusted` passed in and
out. -/
def probing_paused_steps (cfg : Config) (dopause : Bool) (old : ℕ) (s : Machine) :
    ℕ × Machine :=
  let s1 := if cfg.PROBING_HEATERS_OFF then { s with heaters_paused := dopause } else s
  let s2 := if cfg.PROBING_FANS_OFF then { s1 with fans_paused := dopause } else s1
  let s3 := if cfg.PROBING_ESTEPPERS_OFF && dopause then s2.log Event.disable_e_steppers else s2
  if cfg.PROBING_STEPPERS_OFF && !cfg.DELTA then
    if dopause then
      (s3.axis_trusted, DISABLE_AXIS_Y (DISABLE_AXIS_X s3))
    else
      let s4 := if TEST old X_AXIS then { s3 with x_enabled := true } else s3
      let s5 := if TEST old Y_AXIS then { s4 with y_enabled := true } else s4
      (old, { s5 with axis_trusted := old })
  else (old, s3)

/-- `Probe::set_probing_paused`. -/
def set_probing_paused (cfg : Config) (dopause : Bool) (s : Machine) : Machine :=
  let r := probing_paused_steps cfg dopause s.old_trusted s
  { r.2 with old_trusted := r.1 }

/-- `Probe::anker_level_set_probing_paused`, which keeps a static
`old_trusted` of its own. -/
def anker_level_set_probing_paused (cfg : Config) (dopause : Bool) (_ms : ℕ) (s : Machine) :
    Machine :=
  let r := probing_paused_steps cfg dopause s.anker_old_trusted s
  { r.2 with anker_old_trusted := r.1 }

/-! ## Descent primitive -/

/-- The trigger test of `probe_down_to_z` on a latched trigger state. -/
def probe_triggered (cfg : Config) (trigger_state : ℕ) : Bool :=
  if cfg.DELTA && cfg.SENSORLESS_PROBING then
    (trigger_state &&& (_BV cfg.X_MAX ||| _BV cfg.Y_MAX ||| _BV cfg.Z_MAX)) != 0
  else
    TEST trigger_state cfg.Z_MIN_PROBE

/-- The arming block of `probe_down_to_z` under `SENSORLESS_PROBING`; returns
the local `stealth_states` (initialised to `false`) and the machine. -/
def sensorless_arm (cfg : Config) (s : Machine) : sensorless_t × Machine :=
  let ex := cfg.DELTA && s.test_sensitivity.x
  let ey := cfg.DELTA && s.test_sensitivity.y
  let ez := s.test_sensitivity.z
  let stealth_states : sensorless_t :=
    { x := if ex then (tmc_enable_stallguard s.stepperX).1 else false,
      y := if ey then (tmc_enable_stallguard s.stepperY).1 else false,
      z := if ez && !cfg.USE_Z_SENSORLESS then (tmc_enable_stallguard s.stepperZ).1 else false }
  let s1 :=
    { s with
      stepperX := if ex then (tmc_enable_stallguard s.stepperX).2 else s.stepperX,
      stepperY := if ey then (tmc_enable_stallguard s.stepperY).2 else s.stepperY,
      stepperZ :=
        if ez then
          if cfg.USE_Z_SENSORLESS then anker_tmc_enable_stallguard s.stepperZ
          else (tmc_enable_stallguard s.stepperZ).2
        else s.stepperZ,
      endstops_enabled := true }
  (stealth_states, set_homing_current cfg true s1)

/-- The release block of `probe_down_to_z` under `SENSORLESS_PROBING`. -/
def sensorless_release (cfg : Config) (st : sensorless_t) (s : Machine) : Machine :=
  let s0 := { s with endstops_enabled := s.endstops_enabled_globally }
  let s1 := if cfg.DELTA && s0.test_sensitivity.x then
      { s0 with stepperX := tmc_disable_stallguard s0.stepperX st.x } else s0
  let s2 := if cfg.DELTA && s1.test_sensitivity.y then
      { s1 with stepperY := tmc_disable_stallguard s1.stepperY st.y } else s1
  let s3 := if s2.test_sensitivity.z then
      { s2 with stepperZ := tmc_disable_stallguard s2.stepperZ st.z } else s2
  set_homing_current cfg false s3

/-- The arming block of `probe_down_to_z` under `USE_Z_SENSORLESS_AS_PROBE`. -/
def sensorless_as_probe_arm (cfg : Config) (s : Machine) : Machine :=
  let s1 := if cfg.ANKER_FIX_ENDSTOPR then s.log (Event.set_anker_endstop 2) else s
  let s2 := if cfg.USE_Z_SENSORLESS then
      let t := { s1 with stepperZ := anker_tmc_enable_stallguard s1.stepperZ }
      if cfg.Z2_STALL_SENSITIVITY then
        { t with stepperZ2 := anker_tmc_enable_stallguard t.stepperZ2 }
      else t
    else s1
  set_homing_current cfg true { s2 with endstops_enabled := true }

/-- The release block of `probe_down_to_z` under `USE_Z_SENSORLESS_AS_PROBE`. -/
def sensorless_as_probe_release (cfg : Config) (s : Machine) : Machine :=
  set_homing_current cfg false { s with endstops_enabled := s.endstops_enabled_globally }

/-- Entering quiet-probing mode in `probe_down_to_z`. -/
def quiet_probing_enter (cfg : Config) (s : Machine) : Machine :=
  let s1 := if cfg.PROVE_CONTROL then s.log (Event.prove_control false) else s
  let s2 :=
    if cfg.HAS_QUIET_PROBING then
      if cfg.ANKER_LEVEING && s1.anker_leve_pause then
        anker_level_set_probing_paused cfg true cfg.ANKER_LEVEING_DELAY_BEFORE_PROBING s1
      else set_probing_paused cfg true s1
    else s1
  if cfg.PROVE_CONTROL then s2.log (Event.prove_control true) else s2

/-- The start of `probe_down_to_z`: heater waits and, in `BLTOUCH_SLOW_MODE`,
the call of `bltouch.deploy`. -/
def descent_entry (cfg : Config) (s : Machine) : Machine :=
  ((s.logIf cfg.WAIT_FOR_BED_HEATER Event.wait_for_bed_heating).logIf cfg.WAIT_FOR_HOTEND
    Event.wait_for_hotend_heating).logIf cfg.BLTOUCH_SLOW_MODE Event.bltouch_deploy

/-- The arming steps of `probe_down_to_z` before the move: stall sensing, then
quiet-probing mode.  Returns the local `stealth_states` and the machine. -/
def descent_arm (cfg : Config) (s : Machine) : sensorless_t × Machine :=
  let armed := if cfg.SENSORLESS_PROBING then sensorless_arm cfg s else (⟨false, false, false⟩, s)
  let s1 := if cfg.USE_Z_SENSORLESS_AS_PROBE then sensorless_as_probe_arm cfg armed.2 else armed.2
  (armed.1, quiet_probing_enter cfg s1)

/-- The release steps of `probe_down_to_z` after the move: leave quiet-probing
mode, then disarm stall sensing. -/
def descent_release (cfg : Config) (stealth_states : sensorless_t) (s : Machine) : Machine :=
  let s1 := s.logIf cfg.PROVE_CONTROL (Event.prove_control false)
  let s2 := if cfg.HAS_QUIET_PROBING then set_probing_paused cfg false s1 else s1
  let s3 := if cfg.SENSORLESS_PROBING then sensorless_release cfg stealth_states s2 else s2
  if cfg.USE_Z_SENSORLESS_AS_PROBE then sensorless_as_probe_release cfg s3 else s3

/-- `Probe::probe_down_to_z`: move down until the probe triggers or the low
limit is reached.  Returns `true` when the probe failed to trigger.  The
blocking move is answered by the next `Descent` of the environment: it gives
the latched trigger state read after the move and the Z of the steppers. -/
def probe_down_to_z (cfg : Config) (env : Env) (z fr_mm_s : ℚ) (s : Machine) :
    Bool × Machine :=
  let o := env.descent s.descents
  let s1 := descent_entry cfg { s with descents := s.descents + 1 }
  if cfg.BLTOUCH_SLOW_MODE && o.bltouch_deploy_fail then (true, s1) else
  let armed := descent_arm cfg s1
  let s2 := do_blocking_move_to_z z fr_mm_s armed.2
  let s3 := { s2 with hit_state := o.trigger_state, stepper_z := o.stepper_z }
  let triggered := probe_triggered cfg s3.hit_state
  let s4 := descent_release cfg armed.1 s3
  let stow_called := triggered && cfg.BLTOUCH_SLOW_MODE
  let s5 := s4.logIf stow_called Event.bltouch_stow
  if stow_called && o.bltouch_stow_fail then (true, s5) else
  (!triggered, set_current_from_steppers_for_axis_Z (hit_on_purpose s5))

/-! ## Statistical estimator -/

/-- `Probe::tare`: pulse the tare pin and clear the endstop latch.  Returns
`true` when the tare could not be completed, which this body never does. -/
def tare (s : Machine) : Bool × Machine :=
  (false, hit_on_purpose (s.log Event.tare_pulse))

/-- The lambda `try_to_probe` of `run_z_probe`: tare if supported, descend, and
apply the sanity check.  Returns `true` on failure. -/
def try_to_probe (cfg : Config) (env : Env) (z_probe_low_point fr_mm_s : ℚ) (scheck : Bool)
    (clearance : ℚ) (s : Machine) : Bool × Machine :=
  let t := if cfg.PROBE_TARE then tare s else (false, s)
  if t.1 then (true, t.2) else
  let r := probe_down_to_z cfg env z_probe_low_point fr_mm_s t.2
  let early_fail := scheck && decide (r.2.current_position.z > -r.2.offset.z + clearance)
  (r.1 || early_fail, r.2)

/-- The local `z_probe_low_point` of `run_z_probe`. -/
def z_probe_low_point (cfg : Config) (s : Machine) : ℚ :=
  if TEST s.axis_trusted Z_AXIS then -s.offset.z + cfg.Z_PROBE_LOW_POINT else -10

/-- `anker_probe_set.probe_start`, compiled in under `ANKER_PROBE_SET`. -/
def probe_start (cfg : Config) (s : Machine) : Machine :=
  if cfg.ANKER_PROBE_SET then s.log Event.probe_start else s

/-- The feedrate of the clearance raise after the fast probe. -/
def raise_feedrate (cfg : Config) : ℚ :=
  if cfg.PROVE_CONTROL || cfg.ANKER_PROBE_SET then MMM_TO_MMS cfg.HOMING_RISE_SPEED
  else cfg.z_probe_fast_mm_s

/-- The block of `run_z_probe` under `TOTAL_PROBING == 2` that precedes the
slow probe: tare, fast probe, clearance raise.  `Except.error v` is an early
`return v`; `Except.ok` carries `first_probe_z`. -/
def double_probe_first (cfg : Config) (env : Env) (sanity_check : Bool) (zlow : ℚ)
    (s : Machine) : Except FloatQ ℚ × Machine :=
  let t := if cfg.PROBE_TARE then tare s else (false, s)
  if t.1 then (Except.error NAN, t.2) else
  let s1 := probe_start cfg t.2
  let r := try_to_probe cfg env zlow cfg.z_probe_fast_mm_s sanity_check
    cfg.Z_CLEARANCE_BETWEEN_PROBES s1
  if r.1 then (Except.error NAN, r.2) else
  let first_probe_z := r.2.current_position.z
  (Except.ok first_probe_z,
    do_blocking_move_to_z (r.2.current_position.z + cfg.Z_CLEARANCE_MULTI_PROBE)
      (raise_feedrate cfg) r.2)

/-- The block of `run_z_probe` under `Z_PROBE_FEEDRATE_FAST !=
Z_PROBE_FEEDRATE_SLOW` (and `TOTAL_PROBING != 2`): a fast descent to the travel
height when the nozzle is well above it. -/
def fast_pre_descent (cfg : Config) (env : Env) (s : Machine) : Machine :=
  let z := cfg.Z_CLEARANCE_DEPLOY_PROBE + 5 + (if s.offset.z < 0 then -s.offset.z else 0)
  if s.current_position.z > z then
    let r := probe_down_to_z cfg env z cfg.z_probe_fast_mm_s s
    if !r.1 then
      do_blocking_move_to_z (r.2.current_position.z + cfg.Z_CLEARANCE_BETWEEN_PROBES)
        cfg.z_probe_fast_mm_s r.2
    else r.2
  else s

/-- The machine in which the first slow probe of `run_z_probe` starts when
`TOTAL_PROBING != 2`: the fast pre-descent has run if it is compiled in. -/
def loop_entry (cfg : Config) (env : Env) (s : Machine) : Machine :=
  if cfg.Z_PROBE_FEEDRATE_FAST ≠ cfg.Z_PROBE_FEEDRATE_SLOW then fast_pre_descent cfg env s else s

/-- The inner `while` of `insertion_sort`, counting `j + 1` down; returns the
array and the final `j + 1`. -/
def insertion_sort_inner (key : ℚ) : ℕ → List ℚ → List ℚ × ℕ
  | 0, arr => (arr, 0)
  | j + 1, arr =>
    if arr.getD j 0 > key then insertion_sort_inner key j (arr.set (j + 1) (arr.getD j 0))
    else (arr, j + 1)

/-- The function `insertion_sort(arr, len)` on an array held as a list. -/
def insertion_sort (arr : List ℚ) (len : ℕ) : List ℚ :=
  (List.range (len - 1)).foldl
    (fun a k =>
      let key := a.getD (k + 1) 0
      let r := insertion_sort_inner key (k + 1) a
      r.1.set r.2 key)
    arr

/-- The assignment `buff_insert[i] = v` to the static array. -/
def Machine.set_buff (s : Machine) (i : ℕ) (v : ℚ) : Machine :=
  { s with buff_insert := s.buff_insert.set i v }

/-- The retry loop of `run_z_probe` under `ANKER_PROBE_DETECT_TIMES`, a `for`
over `try_again` from 0 while `try_again <= 4`.  The state carried round the
loop is `(try_again, insert_count, first_probe_z)`. -/
def detect_times_loop (cfg : Config) (env : Env) (sanity_check : Bool) (zlow : ℚ) :
    ℕ → ℕ → ℕ → ℚ → Machine → Except FloatQ (ℕ × ℕ × ℚ) × Machine
  | 0, try_again, insert_count, first_probe_z, s =>
    (Except.ok (try_again, insert_count, first_probe_z), s)
  | fuel + 1, try_again, insert_count, first_probe_z, s =>
    if try_again > 4 then (Except.ok (try_again, insert_count, first_probe_z), s) else
    let s1 := probe_start cfg s
    let r := try_to_probe cfg env zlow (MMM_TO_MMS cfg.Z_PROBE_FEEDRATE_SLOW) sanity_check
      cfg.Z_CLEARANCE_MULTI_PROBE s1
    if r.1 then (Except.error NAN, r.2) else
    let second_probe_z := r.2.current_position.z
    let insert_count1 := toUInt8 (insert_count + 1)
    let s2 := r.2.set_buff insert_count1 second_probe_z
    if ABS (first_probe_z - second_probe_z) < cfg.Z_PROBE_DETECTION_DEVIATION || try_again ≥ 4 then
      (Except.ok (try_again, insert_count1, first_probe_z), s2)
    else
    let s3 := do_blocking_move_to_z (s2.current_position.z + cfg.Z_CLEARANCE_MULTI_PROBE)
      (MMM_TO_MMS cfg.HOMING_RISE_SPEED) s2
    let move_away := env.M3032_Get_move_away try_again
    let s4 := do_blocking_move_to_xy (move_away.1 + s3.current_position.x)
      (move_away.2 + s3.current_position.y) (MMM_TO_MMS cfg.HOMING_RISE_SPEED) s3
    let s5 := probe_start cfg s4
    let q := try_to_probe cfg env zlow cfg.z_probe_fast_mm_s sanity_check
      cfg.Z_CLEARANCE_BETWEEN_PROBES s5
    if q.1 then (Except.error NAN, q.2) else
    let first_probe_z1 := q.2.current_position.z
    let insert_count2 := toUInt8 (insert_count1 + 1)
    let s6 := q.2.set_buff insert_count2 first_probe_z1
    let s7 := do_blocking_move_to_z (s6.current_position.z + cfg.Z_CLEARANCE_MULTI_PROBE)
      (MMM_TO_MMS cfg.HOMING_RISE_SPEED) s6
    detect_times_loop cfg env sanity_check zlow fuel (try_again + 1) insert_count2 first_probe_z1 s7

/-- The code of the `ANKER_PROBE_DETECT_TIMES` block after its retry loop:
sort the collected samples; after the fifth attempt return the mean of the
sorted samples without the two lowest and the two highest. -/
def detect_times_finish :
    Except FloatQ (ℕ × ℕ × ℚ) × Machine → Except FloatQ ℚ × Machine
  | (Except.error v, s1) => (Except.error v, s1)
  | (Except.ok (try_again, insert_count, first_probe_z1), s1) =>
    let s2 := { s1 with buff_insert := insertion_sort s1.buff_insert (insert_count + 1) }
    if try_again ≥ 4 then
      if insert_count > 4 then
        let probes_z_sum := (List.range (insert_count - 2 + 1 - 2)).foldl
          (fun acc k => acc + s2.buff_insert.getD (2 + k) 0) 0
        (Except.error (some (probes_z_sum * RECIPROCAL ((insert_count : ℤ) - 3))), s2)
      else (Except.error (some (s2.buff_insert.getD insert_count 0)), s2)
    else (Except.ok first_probe_z1, s2)

/-- The slow probe of `run_z_probe` under `ANKER_PROBE_DETECT_TIMES`: retry
until a fast and a slow sample agree, at most five times.  `Except.ok` carries
the final `first_probe_z`. -/
def detect_times_probe (cfg : Config) (env : Env) (sanity_check : Bool) (zlow : ℚ)
    (first_probe_z : ℚ) (s : Machine) : Except FloatQ ℚ × Machine :=
  detect_times_finish
    (detect_times_loop cfg env sanity_check zlow 6 0 0 first_probe_z (s.set_buff 0 first_probe_z))

/-- Whether the `ANKER_PROBE_DETECT_TIMES` block is compiled into the slow
probe.  The block reads and writes `first_probe_z`, which is declared only
under `TOTAL_PROBING == 2`; `first_probe_z` is `none` where it is not
declared. -/
def detect_times_active (cfg : Config) (first_probe_z : Option ℚ) : Bool :=
  cfg.ANKER_PROBE_DETECT_TIMES && first_probe_z.isSome

/-- The slow probe of `run_z_probe` without `ANKER_PROBE_DETECT_TIMES`. -/
def plain_attempt (cfg : Config) (env : Env) (sanity_check : Bool) (zlow : ℚ)
    (first_probe_z : ℚ) (s : Machine) : Except FloatQ ℚ × Machine :=
  let q := try_to_probe cfg env zlow (MMM_TO_MMS cfg.Z_PROBE_FEEDRATE_SLOW) sanity_check
    cfg.Z_CLEARANCE_MULTI_PROBE (probe_start cfg s)
  if q.1 then (Except.error NAN, q.2) else (Except.ok first_probe_z, q.2)

/-- The slow probe of `run_z_probe`, in either variant. -/
def slow_attempt (cfg : Config) (env : Env) (sanity_check : Bool) (zlow : ℚ)
    (first_probe_z : Option ℚ) (s : Machine) : Except FloatQ ℚ × Machine :=
  if detect_times_active cfg first_probe_z then
    detect_times_probe cfg env sanity_check zlow (first_probe_z.getD 0) s
  else plain_attempt cfg env sanity_check zlow (first_probe_z.getD 0) s

/-- The code after the slow probe up to `const float z = current_position.z`. -/
def slow_finish (cfg : Config) :
    Except FloatQ ℚ × Machine → Except FloatQ (ℚ × ℚ) × Machine
  | (Except.error v, s2) => (Except.error v, s2)
  | (Except.ok first_probe_z1, s2) =>
    let s3 := (s2.logIf s2.point_test_flag Event.point_test_idle).logIf
      cfg.MEASURE_BACKLASH_WHEN_PROBING Event.backlash_measure
    (Except.ok (s3.current_position.z, first_probe_z1), s3)

/-- The braced block of `run_z_probe` that performs one slow probe, up to
`const float z = current_position.z`.  `Except.error v` is an early `return v`;
`Except.ok (z, first_probe_z)` carries the sample and the current
`first_probe_z` (0 where it is not declared). -/
def slow_probe (cfg : Config) (env : Env) (sanity_check : Bool) (zlow : ℚ)
    (first_probe_z : Option ℚ) (s : Machine) : Except FloatQ (ℚ × ℚ) × Machine :=
  let t := if cfg.PROBE_TARE then tare s else (false, s)
  if t.1 then (Except.error (some 1), t.2) else
  slow_finish cfg (slow_attempt cfg env sanity_check zlow first_probe_z t.2)

/-- The scan `LOOP_LE_N(i, p)` of the sorted insertion: the first `i` with
`i == p || probes[i] > z`. -/
def find_slot (probes : List ℚ) (p : ℕ) (z : ℚ) : ℕ → ℕ → ℕ
  | 0, i => i
  | n + 1, i => if i == p || probes.getD i 0 > z then i else find_slot probes p z n (i + 1)

/-- The loop `for (int8_t m = p; --m >= i;) probes[m + 1] = probes[m]`, entered
with the current `m`. -/
def shift_items (i : ℕ) : ℕ → ℤ → List ℚ → List ℚ
  | 0, _, probes => probes
  | fuel + 1, m, probes =>
    let m1 := toInt8 (m - 1)
    if m1 ≥ (i : ℤ) then
      shift_items i fuel m1 (probes.set (m1 + 1).toNat (probes.getD m1.toNat 0))
    else probes

/-- Insertion of the `p`-th measurement `z` into `probes[0..p]`, kept sorted
ascending. -/
def insert_sample (probes : List ℚ) (p : ℕ) (z : ℚ) : List ℚ :=
  let i := find_slot probes p z (p + 1) 0
  (shift_items i 256 (toInt8 p) probes).set i z

/-- The probing loop of `run_z_probe` under `EXTRA_PROBING > 0`:
`for (uint8_t p = 0; p < TOTAL_PROBING; p++)`, with `n` iterations to go.  The
counter is not wrapped, so the loop is that of the source for
`TOTAL_PROBING ≤ 255`. -/
def trimmed_loop (cfg : Config) (env : Env) (sanity_check : Bool) (zlow : ℚ) :
    ℕ → ℕ → List ℚ → Machine → Except FloatQ (List ℚ) × Machine
  | 0, _, probes, s => (Except.ok probes, s)
  | n + 1, p, probes, s =>
    match slow_probe cfg env sanity_check zlow none s with
    | (Except.error v, s1) => (Except.error v, s1)
    | (Except.ok (z, _), s1) =>
      let probes1 := insert_sample probes p z
      let s2 := if p < cfg.TOTAL_PROBING - 1 then
          do_blocking_move_to_z (z + cfg.Z_CLEARANCE_MULTI_PROBE) cfg.z_probe_fast_mm_s s1
        else s1
      trimmed_loop cfg env sanity_check zlow n (p + 1) probes1 s2

/-- The probing loop of `run_z_probe` under `EXTRA_PROBING == 0`:
`for (uint8_t p = TOTAL_PROBING; p--;)`, entered with the current `p`. -/
def plain_loop (cfg : Config) (env : Env) (sanity_check : Bool) (zlow : ℚ) :
    ℕ → ℚ → Machine → Except FloatQ ℚ × Machine
  | 0, probes_z_sum, s => (Except.ok probes_z_sum, s)
  | p + 1, probes_z_sum, s =>
    match slow_probe cfg env sanity_check zlow none s with
    | (Except.error v, s1) => (Except.error v, s1)
    | (Except.ok (z, _), s1) =>
      let s2 := if p ≠ 0 then
          do_blocking_move_to_z (z + cfg.Z_CLEARANCE_MULTI_PROBE) cfg.z_probe_fast_mm_s s1
        else s1
      plain_loop cfg env sanity_check zlow p (probes_z_sum + z) s2

/-- The median taken by `run_z_probe` from the sorted `probes`. -/
def probes_median (cfg : Config) (probes : List ℚ) : ℚ :=
  let PHALF := (cfg.TOTAL_PROBING - 1) / 2
  let middle := probes.getD PHALF 0
  if cfg.TOTAL_PROBING % 2 = 1 then middle else (middle + probes.getD (PHALF + 1) 0) * 0.5

/-- The loop `for (uint8_t i = EXTRA_PROBING; i--;)` that removes the values
farthest from the median, entered with the current `i`; returns
`(min_avg_idx, max_avg_idx)`. -/
def trim_loop (probes : List ℚ) (median : ℚ) : ℕ → ℕ → ℕ → ℕ × ℕ
  | 0, min_avg_idx, max_avg_idx => (min_avg_idx, max_avg_idx)
  | i + 1, min_avg_idx, max_avg_idx =>
    if ABS (probes.getD max_avg_idx 0 - median) > ABS (probes.getD min_avg_idx 0 - median) then
      trim_loop probes median i min_avg_idx (toUInt8 ((max_avg_idx : ℤ) - 1))
    else
      trim_loop probes median i (toUInt8 ((min_avg_idx : ℤ) + 1)) max_avg_idx

/-- The loop `LOOP_S_LE_N(i, min_avg_idx, max_avg_idx) probes_z_sum +=
probes[i]`. -/
def sum_range (probes : List ℚ) (min_avg_idx max_avg_idx : ℕ) (probes_z_sum : ℚ) : ℚ :=
  (List.range (max_avg_idx + 1 - min_avg_idx)).foldl
    (fun acc k => acc + probes.getD (min_avg_idx + k) 0) probes_z_sum

/-- The reduction of `run_z_probe` under `EXTRA_PROBING > 0`: median, trimming
and average of the remaining probes. -/
def trimmed_mean (cfg : Config) (probes : List ℚ) : ℚ :=
  let median := probes_median cfg probes
  let r := trim_loop probes median (toUInt8 cfg.EXTRA_PROBING) 0
    (toUInt8 ((cfg.TOTAL_PROBING : ℤ) - 1))
  sum_range probes r.1 r.2 0 * RECIPROCAL cfg.MULTIPLE_PROBING

/-- `Probe::run_z_probe`: probe at the current XY, possibly more than once, to
find the bed Z.  Returns the Z of the bed or NaN on error.  Under
`EXTRA_PROBING > 0` the sampling loop is that of the source for
`TOTAL_PROBING ≤ 255`: beyond that the `uint8_t` counter of the source never
reaches its bound and the loop of the source ends only on a failed descent. -/
def run_z_probe (cfg : Config) (env : Env) (sanity_check : Bool) (s : Machine) :
    FloatQ × Machine :=
  let zlow := z_probe_low_point cfg s
  if cfg.TOTAL_PROBING = 2 then
    match double_probe_first cfg env sanity_check zlow s with
    | (Except.error v, s1) => (v, s1)
    | (Except.ok first_probe_z, s1) =>
      match slow_probe cfg env sanity_check zlow (some first_probe_z) s1 with
      | (Except.error v, s2) => (v, s2)
      | (Except.ok (_, first_probe_z1), s2) =>
        let z2 := s2.current_position.z
        if cfg.ANKER_PROBE_SET then (some z2, s2)
        else (some ((z2 * 3.0 + first_probe_z1 * 2.0) * 0.2), s2)
  else
    let s0 := loop_entry cfg env s
    if cfg.TOTAL_PROBING > 2 then
      if cfg.EXTRA_PROBING > 0 then
        match trimmed_loop cfg env sanity_check zlow cfg.TOTAL_PROBING 0
            ((List.range cfg.TOTAL_PROBING).map env.probes_uninit) s0 with
        | (Except.error v, s1) => (v, s1)
        | (Except.ok probes, s1) => (some (trimmed_mean cfg probes), s1)
      else
        match plain_loop cfg env sanity_check zlow (toUInt8 cfg.TOTAL_PROBING) 0 s0 with
        | (Except.error v, s1) => (v, s1)
        | (Except.ok probes_z_sum, s1) =>
          (some (probes_z_sum * RECIPROCAL cfg.MULTIPLE_PROBING), s1)
    else
      match slow_probe cfg env sanity_check zlow none s0 with
      | (Except.error v, s1) => (v, s1)
      | (Except.ok _, s1) => (some s1.current_position.z, s1)

/-! ## Outcome of a descent in terms of the hardware answer -/

/-- The value `probe_down_to_z` returns when the hardware answers with `o`:
`true` when the per-action BLTOUCH deploy fails, when the latched trigger state
shows no trigger, or when the per-action BLTOUCH stow fails. -/
def descent_fails (cfg : Config) (o : Descent) : Bool :=
  (cfg.BLTOUCH_SLOW_MODE && o.bltouch_deploy_fail) || !probe_triggered cfg o.trigger_state
    || (cfg.BLTOUCH_SLOW_MODE && o.bltouch_stow_fail)

/-- The value `try_to_probe` returns when the hardware answers with `o`: the
descent failed, or the sanity check is on and the resolved Z is above
`-offset.z + clearance`. -/
def rejected (cfg : Config) (scheck : Bool) (offset_z clearance : ℚ) (o : Descent) : Bool :=
  descent_fails cfg o || (scheck && decide (o.stepper_z > -offset_z + clearance))

/-- The Z values resolved by the `n` descents numbered `d`, `d + 1`, ... -/
def resolved (env : Env) (d n : ℕ) : List ℚ :=
  (List.range n).map (fun k => (env.descent (d + k)).stepper_z)

/-- Insertion of the measurements `zs` one after the other, the first as the
`p`-th: the effect of the sorted insertions of consecutive loop iterations. -/
def insert_all : List ℚ → ℕ → List ℚ → List ℚ
  | probes, _, [] => probes
  | probes, p, z :: zs => insert_all (insert_sample probes p z) (p + 1) zs

/-! ## A concrete machine for worked examples -/

/-- A configuration of a fixed-mounted strain-gauge probe on a Cartesian
machine: single probe, tare supported, quiet probing on. -/
def sampleConfig : Config :=
  { MULTIPLE_PROBING := 1, EXTRA_PROBING := 0, PROBE_TARE := true, ANKER_PROBE_SET := false,
    ANKER_PROBE_DETECT_TIMES := false, ANKER_LEVEING := true,
    ANKER_LEVEING_DELAY_BEFORE_PROBING := 100, ANKER_FIX_ENDSTOPR := false,
    PROVE_CONTROL := true, MEASURE_BACKLASH_WHEN_PROBING := false, DELTA := false,
    delta_clip_start_height := 0, SENSORLESS_PROBING := false, USE_Z_SENSORLESS := false,
    USE_Z_SENSORLESS_AS_PROBE := false, Z2_STALL_SENSITIVITY := false,
    IMPROVE_HOMING_RELIABILITY := false, kind := ProbeKind.FIXED, BLTOUCH_SLOW_MODE := false,
    BLTOUCH_HS_MODE := false, FIX_MOUNTED_PROBE := true, NOZZLE_AS_PROBE := false,
    HAS_PROBE_XY_OFFSET := true,
    PAUSE_BEFORE_DEPLOY_STOW := false, PAUSE_PROBE_DEPLOY_WHEN_TRIGGERED := false,
    PROBE_TRIGGERED_WHEN_STOWED_TEST := false, PREHEAT_BEFORE_PROBING := false,
    PROBING_NOZZLE_TEMP := 0, PROBING_BED_TEMP := 0, TEMP_WINDOW := 1, TEMP_BED_WINDOW := 1,
    WS1_HOMING_5X := false, HAS_QUIET_PROBING := true, PROBING_HEATERS_OFF := true,
    PROBING_FANS_OFF := true, PROBING_ESTEPPERS_OFF := false, PROBING_STEPPERS_OFF := false,
    WAIT_FOR_BED_HEATER := false, WAIT_FOR_HOTEND := false, G29_RETRY_AND_RECOVER := false,
    ADAPT_DETACHED_NOZZLE := false, Z_PROBE_FEEDRATE_FAST := 240, Z_PROBE_FEEDRATE_SLOW := 120,
    HOMING_RISE_SPEED := 600, XY_PROBE_FEEDRATE_MM_S := 133, Z_CLEARANCE_DEPLOY_PROBE := 10,
    Z_CLEARANCE_BETWEEN_PROBES := 5, Z_CLEARANCE_MULTI_PROBE := 5, Z_PROBE_LOW_POINT := -2,
    Z_PROBE_DETECTION_DEVIATION := 3 / 50, Z_MAX_POS := 250, X_MAX_POS := 235,
    SLED_DOCKING_OFFSET := 0, TOUCH_MI_RETRACT_Z := 0, TOUCH_MI_DEPLOY_XPOS := 0,
    Z_PROBE_DEPLOY_X := 0, Z_PROBE_RETRACT_X := 0, TOUCH_MI_MANUAL_DEPLOY := false,
    TOUCH_MI_DEPLOY_YPOS := none, HAS_SOLENOID_1 := false, EXT_SOLENOID := false,
    WAIT_FOR_NOZZLE_HEAT := false, WAIT_FOR_BED_HEAT := false, homing_feedrate_z := 4,
    HOMING_PROBE_Z_RISE := 5, Z_PROBE_ALLEN_KEY_DEPLOY := [],
    Z_PROBE_ALLEN_KEY_STOW := [], Z_MIN_PROBE := 6, X_MAX := 3, Y_MAX := 4, Z_MAX := 5,
    X_CURRENT := 800, Y_CURRENT := 800, Z_CURRENT := 800, X_CURRENT_HOME := none,
    Y_CURRENT_HOME := none, Z_CURRENT_HOME := some 500 }

/-- `sampleConfig` with the given `MULTIPLE_PROBING` and `EXTRA_PROBING`. -/
def sampleConfigN (multiple extra : ℕ) : Config :=
  { sampleConfig with MULTIPLE_PROBING := multiple, EXTRA_PROBING := extra }

/-- A world in which every descent triggers the probe input (bit 6), the
`k`-th descent stopping at `samples[k]`, or at `rest` past the end of the
list; every position is reachable and nothing else triggers. -/
def sampleEnv (samples : List ℚ) (rest : ℚ) : Env :=
  { descent := fun k => ⟨false, 64, samples.getD k rest, false⟩, pin := fun _ => false,
    overpressure := fun _ => false, can_reach := fun _ => true,
    position_is_reachable := fun _ => true, homing_needed_error := false, user_rounds := 0,
    M3032_Get_move_away := fun _ => (0, 0), probes_uninit := fun _ => 0,
    degTargetHotend := 0, degTargetBed := 0, wholeDegHotend := 0, wholeDegBed := 0 }

/-- A driver at 800 mA in stealthChop mode. -/
def sampleDriver : Driver := ⟨800, true, false⟩

/-- A homed machine at Z = 10 with probe offset (0, 0, -2), the probe stowed. -/
def sampleMachine : Machine :=
  { current_position := ⟨0, 0, 10⟩, stepper_z := 10, offset := ⟨0, 0, -2⟩,
    z_probe_enabled := false, hit_state := 0, endstops_enabled := false,
    endstops_enabled_globally := false, axis_trusted := 7, x_enabled := true,
    y_enabled := true, old_trusted := 0, anker_old_trusted := 0, heaters_paused := false,
    fans_paused := false, anker_leve_pause := true, point_test_flag := false,
    test_sensitivity := ⟨false, false, true⟩, stepperX := sampleDriver,
    stepperY := sampleDriver, stepperZ := sampleDriver, stepperZ2 := sampleDriver,
    saved_current_X := 0, saved_current_Y := 0, saved_current_Z := 0,
    buff_insert := List.replicate 12 0, running := true, descents := 0, pin_reads := 0,
    overpressure_reads := 0, trace := [] }

/-- The number of the first descent that `run_z_probe` makes through
`try_to_probe`: the fast probe of the double-probe policy, otherwise the first
slow probe (which follows the fast pre-descent if that ran). -/
def tried_from (cfg : Config) (env : Env) (s : Machine) : ℕ :=
  if cfg.TOTAL_PROBING = 2 then s.descents else (loop_entry cfg env s).descents

/-- None of the descents numbered `a`, ..., `b - 1` fails. -/
def clean (cfg : Config) (env : Env) (a b : ℕ) : Prop :=
  ∀ j, a ≤ j → j < b → descent_fails cfg (env.descent j) = false

/-- The world `sampleEnv samples rest`, except that descent number `bad`
reaches its target without any trigger being latched. -/
def sampleEnvFail (samples : List ℚ) (rest : ℚ) (bad : ℕ) : Env :=
  { sampleEnv samples rest with
    descent := fun k => ⟨false, if k = bad then 0 else 64, samples.getD k rest, false⟩ }

/-! ## The trimmed mean as the specification words it -/

/-- The median of the samples: the middle element of the sorted samples, or
the mean of the two middle elements when their number is even. -/
def spec_median (samples : List ℚ) : ℚ :=
  let sorted := samples.insertionSort (· ≤ ·)
  let n := sorted.length
  if n % 2 = 1 then sorted.getD (n / 2) 0
  else (sorted.getD (n / 2 - 1) 0 + sorted.getD (n / 2) 0) / 2

/-- One trim step on the remaining samples, sorted ascending: remove whichever
of the lowest and the highest is farther from the median; when they are
equally far, remove the lowest. -/
def spec_trim_step (median : ℚ) (l : List ℚ) : List ℚ :=
  match l.head?, l.getLast? with
  | some lo, some hi => if |hi - median| > |lo - median| then l.dropLast else l.tail
  | _, _ => l

/-- `k` trim steps. -/
def spec_trim (median : ℚ) : ℕ → List ℚ → List ℚ
  | 0, l => l
  | k + 1, l => spec_trim median k (spec_trim_step median l)

/-- The samples that remain after trimming the `K` samples farthest from the
median of all samples. -/
def spec_retained (K : ℕ) (samples : List ℚ) : List ℚ :=
  spec_trim (spec_median samples) K (samples.insertionSort (· ≤ ·))

/-- The arithmetic mean of the samples that remain after trimming. -/
def spec_trimmed_mean (K : ℕ) (samples : List ℚ) : ℚ :=
  (spec_retained K samples).sum / ((spec_retained K samples).length : ℚ)

/-- Insertion of `z` into an ascending list, before the first element greater
than `z`. -/
def sorted_ins (z : ℚ) : List ℚ → List ℚ
  | [] => [z]
  | b :: l => if b > z then z :: b :: l else b :: sorted_ins z l

/-- The position at which `sorted_ins` inserts. -/
def slot (z : ℚ) : List ℚ → ℕ
  | [] => 0
  | b :: l => if b > z then 0 else slot z l + 1

/-- The elements `l[a]`, ..., `l[b]` of a list. -/
def window (l : List ℚ) (a b : ℕ) : List ℚ := (l.drop a).take (b + 1 - a)

/-! ## Device actuator -/

/-- The macro `PROBE_TRIGGERED()`: one reading of the probe input. -/
def PROBE_TRIGGERED (env : Env) (s : Machine) : Bool × Machine :=
  (env.pin s.pin_reads, { s with pin_reads := s.pin_reads + 1 })

/-- `Probe::do_z_raise`: raise Z to a minimum height to make room for the probe
to move. -/
def do_z_raise (cfg : Config) (z_raise : ℚ) (s : Machine) : Machine :=
  let z_dest := if s.offset.z < 0 then z_raise - s.offset.z else z_raise
  if cfg.WS1_HOMING_5X then WS1_do_z_clearance cfg z_dest s else do_z_clearance cfg z_dest s

/-- The function `dock_sled(stow)` of the sled probe. -/
def dock_sled (cfg : Config) (stow : Bool) (s : Machine) : Machine :=
  let s1 := do_blocking_move_to_x
    (cfg.X_MAX_POS + cfg.SLED_DOCKING_OFFSET - (if stow then 1 else 0)) 0 s
  s1.logIf (cfg.HAS_SOLENOID_1 && !cfg.EXT_SOLENOID) (Event.solenoid (!stow))

/-- The scripted moves `run_deploy_moves_script` and `run_stow_moves_script` of
the Allen-key probe: the waypoints that are defined, in order. -/
def run_moves_script (script : List (XYZ × ℚ)) (s : Machine) : Machine :=
  script.foldl (fun t w => do_blocking_move_to w.1 (MMM_TO_MMS w.2) t) s

/-- The function `run_deploy_moves_script` of the TOUCH_MI probe. -/
def touch_mi_deploy (cfg : Config) (s : Machine) : Machine :=
  if cfg.TOUCH_MI_MANUAL_DEPLOY then s.log (Event.wait_for_user true)
  else match cfg.TOUCH_MI_DEPLOY_YPOS with
    | some y => do_blocking_move_to_xy cfg.TOUCH_MI_DEPLOY_XPOS y 0 s
    | none => do_blocking_move_to_x cfg.TOUCH_MI_DEPLOY_XPOS 0 s

/-- The function `run_stow_moves_script` of the TOUCH_MI probe: switch the
probe off, move down to the bed and back. -/
def touch_mi_stow (cfg : Config) (s : Machine) : Machine :=
  let oldpos := s.current_position
  let s1 := enable_z_probe false s
  let s2 := do_blocking_move_to_z cfg.TOUCH_MI_RETRACT_Z cfg.homing_feedrate_z s1
  do_blocking_move_to oldpos cfg.homing_feedrate_z s2

/-- The `do ... while` of `probe_specific_action` under
`PAUSE_BEFORE_DEPLOY_STOW`: prompt the user and wait; under
`PAUSE_PROBE_DEPLOY_WHEN_TRIGGERED` repeat until the probe input differs from
`deploy`, which takes `env.user_rounds` prompts. -/
def pause_before_deploy_stow (cfg : Config) (env : Env) (deploy : Bool) (s : Machine) :
    Machine :=
  if cfg.PAUSE_PROBE_DEPLOY_WHEN_TRIGGERED then
    let s1 := (List.range env.user_rounds).foldl
      (fun t _ => (PROBE_TRIGGERED env t).2.log (Event.wait_for_user deploy)) s
    (PROBE_TRIGGERED env s1).2
  else s.log (Event.wait_for_user deploy)

/-- The function `probe_specific_action`: the action of the configured device
variant. -/
def probe_specific_action (cfg : Config) (env : Env) (deploy : Bool) (s : Machine) : Machine :=
  let s1 := if cfg.PAUSE_BEFORE_DEPLOY_STOW then pause_before_deploy_stow cfg env deploy s
    else s
  match cfg.kind with
  | ProbeKind.SOLENOID_PROBE => s1.logIf cfg.HAS_SOLENOID_1 (Event.solenoid deploy)
  | ProbeKind.Z_PROBE_SLED => dock_sled cfg (!deploy) s1
  | ProbeKind.BLTOUCH => s1.log (if deploy then Event.bltouch_deploy else Event.bltouch_stow)
  | ProbeKind.Z_SERVO_PROBE => s1.log (Event.servo deploy)
  | ProbeKind.TOUCH_MI_PROBE => if deploy then touch_mi_deploy cfg s1 else touch_mi_stow cfg s1
  | ProbeKind.Z_PROBE_ALLEN_KEY =>
    if deploy then run_moves_script cfg.Z_PROBE_ALLEN_KEY_DEPLOY s1
    else run_moves_script cfg.Z_PROBE_ALLEN_KEY_STOW s1
  | ProbeKind.RACK_AND_PINION_PROBE =>
    do_blocking_move_to_x (if deploy then cfg.Z_PROBE_DEPLOY_X else cfg.Z_PROBE_RETRACT_X) 0 s1
  | ProbeKind.FIXED => s1

/-- `Probe::preheat_for_probing`: raise heater targets that are below the
preheat inputs and wait for stabilisation where needed. -/
def preheat_for_probing (cfg : Config) (env : Env) (hotend_temp bed_temp : ℤ) (s : Machine) :
    Machine :=
  let s1 := s.logIf (cfg.WAIT_FOR_NOZZLE_HEAT && decide (hotend_temp > env.degTargetHotend)
    && decide (hotend_temp ≠ 0)) (Event.set_target_hotend hotend_temp)
  let s2 := s1.logIf (cfg.WAIT_FOR_BED_HEAT && decide (bed_temp > env.degTargetBed)
    && decide (bed_temp ≠ 0)) (Event.set_target_bed bed_temp)
  let s3 := s2.logIf (cfg.WAIT_FOR_NOZZLE_HEAT
    && decide (hotend_temp > env.wholeDegHotend + cfg.TEMP_WINDOW)) Event.wait_for_hotend
  s3.logIf (cfg.WAIT_FOR_BED_HEAT && decide (bed_temp > env.wholeDegBed + cfg.TEMP_BED_WINDOW))
    Event.wait_for_bed_heating

/-- The part of `set_deployed` under `PROBE_TRIGGERED_WHEN_STOWED_TEST`: act
only if needed and check that the probe input has changed.  Returns `true`
when the input is unchanged after the action. -/
def stowed_test_action (cfg : Config) (env : Env) (deploy : Bool) (s : Machine) :
    Bool × Machine :=
  let t1 := PROBE_TRIGGERED env s
  let s1 :=
    if t1.1 == deploy then
      probe_specific_action cfg env deploy
        (if !deploy then enable_z_probe false t1.2 else t1.2)
    else t1.2
  let t2 := PROBE_TRIGGERED env s1
  if t2.1 == deploy then
    (true, stop ((t2.2.logIf t2.2.running (Event.error_msg 1)).logIf t2.2.running
      (Event.lcd_msg 1)))
  else (false, t2.2)

/-- The end of `set_deployed` after the device action: optional preheat, return
to the old XY, update the DeviceState. -/
def set_deployed_finish (cfg : Config) (env : Env) (deploy : Bool) (old_x old_y : ℚ)
    (s : Machine) : Machine :=
  let s1 := if cfg.PREHEAT_BEFORE_PROBING && deploy then
      preheat_for_probing cfg env cfg.PROBING_NOZZLE_TEMP cfg.PROBING_BED_TEMP s
    else s
  enable_z_probe deploy (do_blocking_move_to_xy old_x old_y 0 s1)

/-- `Probe::set_deployed`: attempt to deploy or stow the probe.  Returns `true`
if the probe could not be deployed or stowed. -/
def set_deployed (cfg : Config) (env : Env) (deploy : Bool) (s : Machine) : Bool × Machine :=
  if s.z_probe_enabled == deploy then (false, s) else
  let z_raise_wanted :=
    if (cfg.FIX_MOUNTED_PROBE || cfg.NOZZLE_AS_PROBE) && !cfg.PAUSE_BEFORE_DEPLOY_STOW then deploy
    else true
  let s1 := if z_raise_wanted then
      do_z_raise cfg (max cfg.Z_CLEARANCE_BETWEEN_PROBES cfg.Z_CLEARANCE_DEPLOY_PROBE) s
    else s
  if (cfg.kind == ProbeKind.Z_PROBE_SLED || cfg.kind == ProbeKind.Z_PROBE_ALLEN_KEY)
      && env.homing_needed_error then
    (true, stop (s1.log (Event.error_msg 0)))
  else
  let old_x := s1.current_position.x
  let old_y := s1.current_position.y
  if cfg.PROBE_TRIGGERED_WHEN_STOWED_TEST then
    let r := stowed_test_action cfg env deploy s1
    if r.1 then (true, r.2) else (false, set_deployed_finish cfg env deploy old_x old_y r.2)
  else
    (false, set_deployed_finish cfg env deploy old_x old_y
      (probe_specific_action cfg env deploy s1))

/-- The function `Probe::deploy` of `probe.h`. -/
def deploy (cfg : Config) (env : Env) (s : Machine) : Bool × Machine := set_deployed cfg env true s

/-- The function `Probe::stow` of `probe.h`. -/
def stow (cfg : Config) (env : Env) (s : Machine) : Bool × Machine := set_deployed cfg env false s

/-! ## Point orchestrator -/

/-- The macro `ANKER_OVERPRESSURE_TRIGGER()`: one evaluation. -/
def ANKER_OVERPRESSURE_TRIGGER (env : Env) (s : Machine) : Bool × Machine :=
  (env.overpressure s.overpressure_reads,
    { s with overpressure_reads := s.overpressure_reads + 1 })

/-- The start of `probe_at_point` under `BLTOUCH` with `BLTOUCH_HS_MODE`: reset
a triggered BLTouch. -/
def bltouch_hs_reset (cfg : Config) (env : Env) (s : Machine) : Machine :=
  if cfg.kind == ProbeKind.BLTOUCH && cfg.BLTOUCH_HS_MODE then
    (PROBE_TRIGGERED env s).2.logIf (PROBE_TRIGGERED env s).1 Event.bltouch_reset
  else s

/-- The local `npos` of `probe_at_point` as first initialised: the requested XY
at the current Z, kept below the clip height on a delta. -/
def probe_npos (cfg : Config) (rx ry : ℚ) (s : Machine) : XYZ :=
  ⟨rx, ry, min (if cfg.DELTA then cfg.delta_clip_start_height else s.current_position.z)
    s.current_position.z⟩

/-- The reachability test of `probe_at_point`, in the requested frame. -/
def target_reachable (cfg : Config) (env : Env) (rx ry : ℚ) (probe_relative : Bool)
    (s : Machine) : Bool :=
  if probe_relative then env.can_reach (probe_npos cfg rx ry s)
  else env.position_is_reachable (probe_npos cfg rx ry s)

/-- The move of `probe_at_point` to the starting XYZ, the machine in which
`deploy` is then called. -/
def approach (cfg : Config) (rx ry : ℚ) (probe_relative : Bool) (s : Machine) : Machine :=
  let n := probe_npos cfg rx ry s
  let offset_xy : ℚ × ℚ := if cfg.HAS_PROBE_XY_OFFSET then (s.offset.x, s.offset.y) else (0, 0)
  let npos : XYZ := if probe_relative then ⟨n.x - offset_xy.1, n.y - offset_xy.2, n.z⟩ else n
  (do_blocking_move_to npos cfg.XY_PROBE_FEEDRATE_MM_S s).logIf cfg.PROVE_CONTROL
    (Event.prove_control false)

/-- The block `if (!isnan(measured_z))` of `probe_at_point`: the raise
policy. -/
def apply_raise (cfg : Config) (env : Env) (rx ry : ℚ) (raise_after : ProbePtRaise)
    (verbose_level : ℕ) (measured_z : FloatQ) (s : Machine) : FloatQ × Machine :=
  if isnan measured_z then (measured_z, s) else
  let big_raise := raise_after == ProbePtRaise.PROBE_PT_BIG_RAISE
  let r : FloatQ × Machine :=
    if big_raise || raise_after == ProbePtRaise.PROBE_PT_RAISE then
      (measured_z,
        do_blocking_move_to_z
          (s.current_position.z + (if big_raise then 25 else cfg.Z_CLEARANCE_BETWEEN_PROBES))
          (raise_feedrate cfg) s)
    else if raise_after == ProbePtRaise.PROBE_PT_STOW
        || raise_after == ProbePtRaise.PROBE_PT_LAST_STOW then
      let st := stow cfg env s
      (if st.1 then NAN else measured_z, st.2)
    else (measured_z, s)
  (r.1, r.2.logIf (decide (verbose_level > 2)) (Event.bed_report rx ry r.1))

/-- The block `if (isnan(measured_z) || ANKER_OVERPRESSURE_TRIGGER())` of
`probe_at_point`: on failure stow and report. -/
def failure_stow (cfg : Config) (env : Env) (measured_z : FloatQ) (s : Machine) :
    FloatQ × Machine :=
  let t1 := if isnan measured_z then (true, s) else ANKER_OVERPRESSURE_TRIGGER env s
  if t1.1 then
    let t2 := ANKER_OVERPRESSURE_TRIGGER env t1.2
    let m := if t2.1 then NAN else measured_z
    let s1 := t2.2.logIf t2.1 Event.closed_overpressure
    let s2 := (stow cfg env s1).2.log (Event.lcd_msg 2)
    let s3 := s2.logIf (!cfg.G29_RETRY_AND_RECOVER && cfg.ADAPT_DETACHED_NOZZLE)
      (Event.error_msg 3)
    (m, s3.logIf (!cfg.G29_RETRY_AND_RECOVER) (Event.error_msg 2))
  else (measured_z, t1.2)

/-- `Probe::probe_at_point`: move to the given XY, deploy the probe, probe the
bed, apply the raise policy, and return the probed Z or NaN. -/
def probe_at_point (cfg : Config) (env : Env) (rx ry : ℚ) (raise_after : ProbePtRaise)
    (verbose_level : ℕ) (probe_relative sanity_check : Bool) (s : Machine) :
    FloatQ × Machine :=
  let s0 := bltouch_hs_reset cfg env s
  if !target_reachable cfg env rx ry probe_relative s0 then (NAN, s0) else
  let s1 := approach cfg rx ry probe_relative s0
  let d := deploy cfg env s1
  let m : FloatQ × Machine :=
    if !d.1 then
      let r := run_z_probe cfg env sanity_check d.2
      (r.1.add d.2.offset.z, r.2)
    else (NAN, d.2)
  let a := apply_raise cfg env rx ry raise_after verbose_level m.1 m.2
  failure_stow cfg env a.1 a.2

/-- The lines of `probe_at_point` from the move to the starting XYZ to the end
of the raise policy (lines 1197 to 1223), for a reachable target: the value of
`measured_z` and the machine with which the last block is entered. -/
def measure_and_raise (cfg : Config) (env : Env) (rx ry : ℚ) (raise_after : ProbePtRaise)
    (verbose_level : ℕ) (probe_relative sanity_check : Bool) (s : Machine) : FloatQ × Machine :=
  let d := deploy cfg env (approach cfg rx ry probe_relative (bltouch_hs_reset cfg env s))
  let m : FloatQ × Machine :=
    if !d.1 then
      let r := run_z_probe cfg env sanity_check d.2
      (r.1.add d.2.offset.z, r.2)
    else (NAN, d.2)
  apply_raise cfg env rx ry raise_after verbose_level m.1 m.2

/-- The machine in which the last block of `probe_at_point` calls `stow()`
(line 1231), when the block is entered with `measured_z` in the machine `s`:
the overpressure input has been read and, if triggered, closed. -/
def forced_stow_entry (env : Env) (measured_z : FloatQ) (s : Machine) : Machine :=
  let t1 := if isnan measured_z then (true, s) else ANKER_OVERPRESSURE_TRIGGER env s
  let t2 := ANKER_OVERPRESSURE_TRIGGER env t1.2
  t2.2.logIf t2.1 Event.closed_overpressure

/-- The end of the last block of `probe_at_point`, after its `stow()`: the LCD
message and the error reports (lines 1232 to 1238). -/
def failure_report (cfg : Config) (s : Machine) : Machine :=
  (((s.log (Event.lcd_msg 2)).logIf (!cfg.G29_RETRY_AND_RECOVER && cfg.ADAPT_DETACHED_NOZZLE)
    (Event.error_msg 3)).logIf (!cfg.G29_RETRY_AND_RECOVER) (Event.error_msg 2))

/-- A servo-deployed probe whose input is checked after every deploy or stow
action (`PROBE_TRIGGERED_WHEN_STOWED_TEST`). -/
def servoConfig : Config :=
  { sampleConfig with
    kind := ProbeKind.Z_SERVO_PROBE, FIX_MOUNTED_PROBE := false,
    PROBE_TRIGGERED_WHEN_STOWED_TEST := true }

/-- A world like `sampleEnv [] 0` in which the probe input reads triggered at
every read, whatever the device does. -/
def stuckEnv : Env := { sampleEnv [] 0 with pin := fun _ => true }

/-- A sled probe on the sample machine. -/
def sledConfig : Config :=
  { sampleConfig with
    kind := ProbeKind.Z_PROBE_SLED, FIX_MOUNTED_PROBE := false }

/-- A world like `sampleEnv samples 0` in which the overpressure input reads
triggered at every read. -/
def overpressureEnv (samples : List ℚ) : Env :=
  { sampleEnv samples 0 with overpressure := fun _ => true }

/-- The sample machine with the probe deployed. -/
def deployedMachine : Machine := { sampleMachine with z_probe_enabled := true }

/-! ## The sorted insertion with every array access checked -/

/-- The scan `LOOP_LE_N(i, p)` of the sorted insertion as `find_slot`, with the
read of `probes[i]` failing (`none`) outside the array.  `probes[i]` is read
only when `i == p` is false. -/
def find_slot_checked (probes : List ℚ) (p : ℕ) (z : ℚ) : ℕ → ℕ → Option ℕ
  | 0, i => some i
  | n + 1, i =>
    if i == p then some i
    else match probes[i]? with
      | none => none
      | some v => if v > z then some i else find_slot_checked probes p z n (i + 1)

/-- The shift loop of the sorted insertion as `shift_items`, with the read of
`probes[m]` and the write of `probes[m + 1]` failing outside the array. -/
def shift_items_checked (i : ℕ) : ℕ → ℤ → List ℚ → Option (List ℚ)
  | 0, _, probes => some probes
  | fuel + 1, m, probes =>
    let m1 := toInt8 (m - 1)
    if m1 ≥ (i : ℤ) then
      if 0 ≤ m1 ∧ m1 + 1 < (probes.length : ℤ) then
        shift_items_checked i fuel m1 (probes.set (m1 + 1).toNat (probes.getD m1.toNat 0))
      else none
    else some probes

/-- Insertion of the `p`-th measurement as `insert_sample`, with every access
to `probes` checked against the bounds of the array. -/
def insert_sample_checked (probes : List ℚ) (p : ℕ) (z : ℚ) : Option (List ℚ) :=
  match find_slot_checked probes p z (p + 1) 0 with
  | none => none
  | some i =>
    match shift_items_checked i 256 (toInt8 p) probes with
    | none => none
    | some q => if i < q.length then some (q.set i z) else none

/-- The clearance that `run_z_probe` hands to `try_to_probe` for the `k`-th
descent it makes through `try_to_probe` (counted from 0): under
`TOTAL_PROBING == 2` fast and slow probes alternate, the fast ones (even `k`)
with `Z_CLEARANCE_BETWEEN_PROBES` and the slow ones with
`Z_CLEARANCE_MULTI_PROBE`; otherwise every probe is a slow probe. -/
def tried_clearance (cfg : Config) (k : ℕ) : ℚ :=
  if cfg.TOTAL_PROBING = 2 ∧ k % 2 = 0 then cfg.Z_CLEARANCE_BETWEEN_PROBES
  else cfg.Z_CLEARANCE_MULTI_PROBE

/-- None of the descents numbered `lo`, ..., `hi - 1` is rejected by
`try_to_probe`, the descent numbered `base` being the first that `run_z_probe`
makes through `try_to_probe`. -/
def accepted (cfg : Config) (env : Env) (sc : Bool) (oz : ℚ) (base lo hi : ℕ) : Prop :=
  ∀ j, lo ≤ j → j < hi →
    rejected cfg sc oz (tried_clearance cfg (j - base)) (env.descent j) = false

/-- The sample configuration with the Z stall signal used as the probe:
`USE_Z_SENSORLESS_AS_PROBE` with `USE_Z_SENSORLESS`, without
`SENSORLESS_PROBING`. -/
def stallProbeConfig : Config :=
  { sampleConfig with
    USE_Z_SENSORLESS_AS_PROBE := true, USE_Z_SENSORLESS := true }

/-! ## The call sites of `tare()` for an arbitrary outcome of the tare

`Probe::tare` as it stands always reports success.  The definitions below are
those of `try_to_probe`, ..., `run_z_probe` above with the function called as
`tare()` passed in as `tr`, so that the three call sites can be followed when
the tare reports failure; with `tr := tare` they are the definitions above. -/

/-- The lambda `try_to_probe` with `tr` called as `tare()`. -/
def try_to_probe_with (tr : Machine → Bool × Machine) (cfg : Config) (env : Env)
    (z_probe_low_point fr_mm_s : ℚ) (scheck : Bool) (clearance : ℚ) (s : Machine) :
    Bool × Machine :=
  let t := if cfg.PROBE_TARE then tr s else (false, s)
  if t.1 then (true, t.2) else
  let r := probe_down_to_z cfg env z_probe_low_point fr_mm_s t.2
  let early_fail := scheck && decide (r.2.current_position.z > -r.2.offset.z + clearance)
  (r.1 || early_fail, r.2)

/-- The block `double_probe_first` with `tr` called as `tare()`. -/
def double_probe_first_with (tr : Machine → Bool × Machine) (cfg : Config) (env : Env)
    (sanity_check : Bool) (zlow : ℚ) (s : Machine) : Except FloatQ ℚ × Machine :=
  let t := if cfg.PROBE_TARE then tr s else (false, s)
  if t.1 then (Except.error NAN, t.2) else
  let s1 := probe_start cfg t.2
  let r := try_to_probe_with tr cfg env zlow cfg.z_probe_fast_mm_s sanity_check
    cfg.Z_CLEARANCE_BETWEEN_PROBES s1
  if r.1 then (Except.error NAN, r.2) else
  let first_probe_z := r.2.current_position.z
  (Except.ok first_probe_z,
    do_blocking_move_to_z (r.2.current_position.z + cfg.Z_CLEARANCE_MULTI_PROBE)
      (raise_feedrate cfg) r.2)

/-- The retry loop `detect_times_loop` with `tr` called as `tare()`. -/
def detect_times_loop_with (tr : Machine → Bool × Machine) (cfg : Config) (env : Env)
    (sanity_check : Bool) (zlow : ℚ) :
    ℕ → ℕ → ℕ → ℚ → Machine → Except FloatQ (ℕ × ℕ × ℚ) × Machine
  | 0, try_again, insert_count, first_probe_z, s =>
    (Except.ok (try_again, insert_count, first_probe_z), s)
  | fuel + 1, try_again, insert_count, first_probe_z, s =>
    if try_again > 4 then (Except.ok (try_again, insert_count, first_probe_z), s) else
    let s1 := probe_start cfg s
    let r := try_to_probe_with tr cfg env zlow (MMM_TO_MMS cfg.Z_PROBE_FEEDRATE_SLOW)
      sanity_check cfg.Z_CLEARANCE_MULTI_PROBE s1
    if r.1 then (Except.error NAN, r.2) else
    let second_probe_z := r.2.current_position.z
    let insert_count1 := toUInt8 (insert_count + 1)
    let s2 := r.2.set_buff insert_count1 second_probe_z
    if ABS (first_probe_z - second_probe_z) < cfg.Z_PROBE_DETECTION_DEVIATION || try_again ≥ 4 then
      (Except.ok (try_again, insert_count1, first_probe_z), s2)
    else
    let s3 := do_blocking_move_to_z (s2.current_position.z + cfg.Z_CLEARANCE_MULTI_PROBE)
      (MMM_TO_MMS cfg.HOMING_RISE_SPEED) s2
    let move_away := env.M3032_Get_move_away try_again
    let s4 := do_blocking_move_to_xy (move_away.1 + s3.current_position.x)
      (move_away.2 + s3.current_position.y) (MMM_TO_MMS cfg.HOMING_RISE_SPEED) s3
    let s5 := probe_start cfg s4
    let q := try_to_probe_with tr cfg env zlow cfg.z_probe_fast_mm_s sanity_check
      cfg.Z_CLEARANCE_BETWEEN_PROBES s5
    if q.1 then (Except.error NAN, q.2) else
    let first_probe_z1 := q.2.current_position.z
    let insert_count2 := toUInt8 (insert_count1 + 1)
    let s6 := q.2.set_buff insert_count2 first_probe_z1
    let s7 := do_blocking_move_to_z (s6.current_position.z + cfg.Z_CLEARANCE_MULTI_PROBE)
      (MMM_TO_MMS cfg.HOMING_RISE_SPEED) s6
    detect_times_loop_with tr cfg env sanity_check zlow fuel (try_again + 1) insert_count2
      first_probe_z1 s7

/-- The block `slow_probe` with `tr` called as `tare()`, at the top of the
block and inside `try_to_probe`. -/
def slow_probe_with (tr : Machine → Bool × Machine) (cfg : Config) (env : Env)
    (sanity_check : Bool) (zlow : ℚ) (first_probe_z : Option ℚ) (s : Machine) :
    Except FloatQ (ℚ × ℚ) × Machine :=
  let t := if cfg.PROBE_TARE then tr s else (false, s)
  if t.1 then (Except.error (some 1), t.2) else
  slow_finish cfg
    (if detect_times_active cfg first_probe_z then
      detect_times_finish
        (detect_times_loop_with tr cfg env sanity_check zlow 6 0 0 (first_probe_z.getD 0)
          (t.2.set_buff 0 (first_probe_z.getD 0)))
    else
      let q := try_to_probe_with tr cfg env zlow (MMM_TO_MMS cfg.Z_PROBE_FEEDRATE_SLOW)
        sanity_check cfg.Z_CLEARANCE_MULTI_PROBE (probe_start cfg t.2)
      if q.1 then (Except.error NAN, q.2) else (Except.ok (first_probe_z.getD 0), q.2))

/-- The loop `trimmed_loop` with `tr` called as `tare()`. -/
def trimmed_loop_with (tr : Machine → Bool × Machine) (cfg : Config) (env : Env)
    (sanity_check : Bool) (zlow : ℚ) :
    ℕ → ℕ → List ℚ → Machine → Except FloatQ (List ℚ) × Machine
  | 0, _, probes, s => (Except.ok probes, s)
  | n + 1, p, probes, s =>
    match slow_probe_with tr cfg env sanity_check zlow none s with
    | (Except.error v, s1) => (Except.error v, s1)
    | (Except.ok (z, _), s1) =>
      let probes1 := insert_sample probes p z
      let s2 := if p < cfg.TOTAL_PROBING - 1 then
          do_blocking_move_to_z (z + cfg.Z_CLEARANCE_MULTI_PROBE) cfg.z_probe_fast_mm_s s1
        else s1
      trimmed_loop_with tr cfg env sanity_check zlow n (p + 1) probes1 s2

/-- The loop `plain_loop` with `tr` called as `tare()`. -/
def plain_loop_with (tr : Machine → Bool × Machine) (cfg : Config) (env : Env)
    (sanity_check : Bool) (zlow : ℚ) :
    ℕ → ℚ → Machine → Except FloatQ ℚ × Machine
  | 0, probes_z_sum, s => (Except.ok probes_z_sum, s)
  | p + 1, probes_z_sum, s =>
    match slow_probe_with tr cfg env sanity_check zlow none s with
    | (Except.error v, s1) => (Except.error v, s1)
    | (Except.ok (z, _), s1) =>
      let s2 := if p ≠ 0 then
          do_blocking_move_to_z (z + cfg.Z_CLEARANCE_MULTI_PROBE) cfg.z_probe_fast_mm_s s1
        else s1
      plain_loop_with tr cfg env sanity_check zlow p (probes_z_sum + z) s2

/-- `Probe::run_z_probe` with `tr` called as `tare()`. -/
def run_z_probe_with (tr : Machine → Bool × Machine) (cfg : Config) (env : Env)
    (sanity_check : Bool) (s : Machine) : FloatQ × Machine :=
  let zlow := z_probe_low_point cfg s
  if cfg.TOTAL_PROBING = 2 then
    match double_probe_first_with tr cfg env sanity_check zlow s with
    | (Except.error v, s1) => (v, s1)
    | (Except.ok first_probe_z, s1) =>
      match slow_probe_with tr cfg env sanity_check zlow (some first_probe_z) s1 with
      | (Except.error v, s2) => (v, s2)
      | (Except.ok (_, first_probe_z1), s2) =>
        let z2 := s2.current_position.z
        if cfg.ANKER_PROBE_SET then (some z2, s2)
        else (some ((z2 * 3.0 + first_probe_z1 * 2.0) * 0.2), s2)
  else
    let s0 := loop_entry cfg env s
    if cfg.TOTAL_PROBING > 2 then
      if cfg.EXTRA_PROBING > 0 then
        match trimmed_loop_with tr cfg env sanity_check zlow cfg.TOTAL_PROBING 0
            ((List.range cfg.TOTAL_PROBING).map env.probes_uninit) s0 with
        | (Except.error v, s1) => (v, s1)
        | (Except.ok probes, s1) => (some (trimmed_mean cfg probes), s1)
      else
        match plain_loop_with tr cfg env sanity_check zlow (toUInt8 cfg.TOTAL_PROBING) 0 s0 with
        | (Except.error v, s1) => (v, s1)
        | (Except.ok probes_z_sum, s1) =>
          (some (probes_z_sum * RECIPROCAL cfg.MULTIPLE_PROBING), s1)
    else
      match slow_probe_with tr cfg env sanity_check zlow none s0 with
      | (Except.error v, s1) => (v, s1)
      | (Except.ok _, s1) => (some s1.current_position.z, s1)

/-- The variables of stall sensing: drivers, saved currents, sensitivity
switches and the arming of the endstops. -/
structure Sensing where
  stepperX : Driver
  stepperY : Driver
  stepperZ : Driver
  stepperZ2 : Driver
  saved_current_X : ℤ
  saved_current_Y : ℤ
  saved_current_Z : ℤ
  test_sensitivity : sensorless_t
  endstops_enabled : Bool
  endstops_enabled_globally : Bool

/-- Projection of a machine onto its `Sensing`. -/
def Machine.sensing (s : Machine) : Sensing :=
  { stepperX := s.stepperX, stepperY := s.stepperY, stepperZ := s.stepperZ,
    stepperZ2 := s.stepperZ2, saved_current_X := s.saved_current_X,
    saved_current_Y := s.saved_current_Y, saved_current_Z := s.saved_current_Z,
    test_sensitivity := s.test_sensitivity, endstops_enabled := s.endstops_enabled,
    endstops_enabled_globally := s.endstops_enabled_globally }

/-- The variables of the quiet-probing round trip: the trusted axes, the two
static copies `old_trusted` and the flag that selects the entry function. -/
structure Trust where
  axis_trusted : ℕ
  old_trusted : ℕ
  anker_old_trusted : ℕ
  anker_leve_pause : Bool

/-- Projection of a machine onto its `Trust`. -/
def Machine.trust (s : Machine) : Trust :=
  { axis_trusted := s.axis_trusted, old_trusted := s.old_trusted,
    anker_old_trusted := s.anker_old_trusted, anker_leve_pause := s.anker_leve_pause }

/-- The sample configuration with both stall-sensing blocks of
`probe_down_to_z` compiled in: `SENSORLESS_PROBING` and
`USE_Z_SENSORLESS_AS_PROBE` with `USE_Z_SENSORLESS`. -/
def bothStallConfig : Config :=
  { sampleConfig with
    SENSORLESS_PROBING := true, USE_Z_SENSORLESS_AS_PROBE := true, USE_Z_SENSORLESS := true }

/-- The sample configuration with `Z_CURRENT_HOME` defined as `Z_CURRENT`, so
that the Z axis has no distinct homing current. -/
def sameCurrentConfig : Config := { sampleConfig with Z_CURRENT_HOME := some 800 }

/-! ## The retry loop with every array access checked

The definitions below repeat `detect_times_loop` and `insertion_sort` with
each read and write of the array checked against its size: the result is
`none` as soon as an index is out of bounds.  The checked loop also returns
the pairs `(try_again, insert_count)` found at the start of each iteration. -/

/-- The assignment `buff_insert[i] = v`, `none` when `i` is outside the
array. -/
def Machine.set_buff_checked (s : Machine) (i : ℕ) (v : ℚ) : Option Machine :=
  if i < s.buff_insert.length then some (s.set_buff i v) else none

/-- The loop `detect_times_loop` with the writes to `buff_insert` checked,
returning with the result the list of `(try_again, insert_count)` at the start
of each iteration. -/
def detect_times_loop_checked (cfg : Config) (env : Env) (sanity_check : Bool) (zlow : ℚ) :
    ℕ → ℕ → ℕ → ℚ → Machine →
      Option ((Except FloatQ (ℕ × ℕ × ℚ) × Machine) × List (ℕ × ℕ))
  | 0, try_again, insert_count, first_probe_z, s =>
    some ((Except.ok (try_again, insert_count, first_probe_z), s), [])
  | fuel + 1, try_again, insert_count, first_probe_z, s =>
    if try_again > 4 then some ((Except.ok (try_again, insert_count, first_probe_z), s), []) else
    let s1 := probe_start cfg s
    let r := try_to_probe cfg env zlow (MMM_TO_MMS cfg.Z_PROBE_FEEDRATE_SLOW) sanity_check
      cfg.Z_CLEARANCE_MULTI_PROBE s1
    if r.1 then some ((Except.error NAN, r.2), [(try_again, insert_count)]) else
    let second_probe_z := r.2.current_position.z
    let insert_count1 := toUInt8 (insert_count + 1)
    (r.2.set_buff_checked insert_count1 second_probe_z).bind fun s2 =>
      if ABS (first_probe_z - second_probe_z) < cfg.Z_PROBE_DETECTION_DEVIATION
          || try_again ≥ 4 then
        some ((Except.ok (try_again, insert_count1, first_probe_z), s2),
          [(try_again, insert_count)])
      else
      let s3 := do_blocking_move_to_z (s2.current_position.z + cfg.Z_CLEARANCE_MULTI_PROBE)
        (MMM_TO_MMS cfg.HOMING_RISE_SPEED) s2
      let move_away := env.M3032_Get_move_away try_again
      let s4 := do_blocking_move_to_xy (move_away.1 + s3.current_position.x)
        (move_away.2 + s3.current_position.y) (MMM_TO_MMS cfg.HOMING_RISE_SPEED) s3
      let s5 := probe_start cfg s4
      let q := try_to_probe cfg env zlow cfg.z_probe_fast_mm_s sanity_check
        cfg.Z_CLEARANCE_BETWEEN_PROBES s5
      if q.1 then some ((Except.error NAN, q.2), [(try_again, insert_count)]) else
      let first_probe_z1 := q.2.current_position.z
      let insert_count2 := toUInt8 (insert_count1 + 1)
      (q.2.set_buff_checked insert_count2 first_probe_z1).bind fun s6 =>
        let s7 := do_blocking_move_to_z (s6.current_position.z + cfg.Z_CLEARANCE_MULTI_PROBE)
          (MMM_TO_MMS cfg.HOMING_RISE_SPEED) s6
        (detect_times_loop_checked cfg env sanity_check zlow fuel (try_again + 1)
          insert_count2 first_probe_z1 s7).map
          fun p => (p.1, (try_again, insert_count) :: p.2)

/-- The inner `while` of `insertion_sort` with the accesses `arr[j]` and
`arr[j + 1]` checked. -/
def insertion_sort_inner_checked (key : ℚ) : ℕ → List ℚ → Option (List ℚ × ℕ)
  | 0, arr => some (arr, 0)
  | j + 1, arr =>
    match arr[j]? with
    | none => none
    | some x =>
      if x > key then
        if j + 1 < arr.length then insertion_sort_inner_checked key j (arr.set (j + 1) x)
        else none
      else some (arr, j + 1)

/-- The function `insertion_sort(arr, len)` with the accesses `arr[i]`,
`arr[j]` and `arr[j + 1]` checked. -/
def insertion_sort_checked (arr : List ℚ) (len : ℕ) : Option (List ℚ) :=
  (List.range (len - 1)).foldl
    (fun a k =>
      match a with
      | none => none
      | some a =>
        match a[k + 1]? with
        | none => none
        | some key =>
          match insertion_sort_inner_checked key (k + 1) a with
          | none => none
          | some r => if r.2 < r.1.length then some (r.1.set r.2 key) else none)
    (some arr)

/-- The sample configuration with the double-probe policy and the retry block
of `ANKER_PROBE_DETECT_TIMES`. -/
def retryConfig : Config := { sampleConfigN 2 0 with ANKER_PROBE_DETECT_TIMES := true }

/-- The value `v` is at least the smallest and at most the largest of the
samples. -/
def within_range (samples : List ℚ) (v : ℚ) : Prop :=
  (∃ a ∈ samples, a ≤ v) ∧ (∃ b ∈ samples, v ≤ b)

/-! # Theorems -/

/-! ## Frame lemmas: what the collaborator calls leave unchanged -/

theorem log_core (s : Machine) (e : Event) :
    (s.log e).core = s.core := rfl

@[simp] theorem log_offset (s : Machine) (e : Event) :
    (s.log e).offset = s.offset :=
  congrArg Core.offset (log_core s e)

@[simp] theorem log_descents (s : Machine) (e : Event) :
    (s.log e).descents = s.descents :=
  congrArg Core.descents (log_core s e)

@[simp] theorem log_stepper_z (s : Machine) (e : Event) :
    (s.log e).stepper_z = s.stepper_z :=
  congrArg Core.stepper_z (log_core s e)

@[simp] theorem log_current_position (s : Machine) (e : Event) :
    (s.log e).current_position = s.current_position :=
  congrArg Core.current_position (log_core s e)

@[simp] theorem log_z_probe_enabled (s : Machine) (e : Event) :
    (s.log e).z_probe_enabled = s.z_probe_enabled :=
  congrArg Core.z_probe_enabled (log_core s e)

theorem logIf_core (s : Machine) (c : Bool) (e : Event) :
    (s.logIf c e).core = s.core := by
  unfold Machine.logIf
  split_ifs <;> rfl

@[simp] theorem logIf_offset (s : Machine) (c : Bool) (e : Event) :
    (s.logIf c e).offset = s.offset :=
  congrArg Core.offset (logIf_core s c e)

@[simp] theorem logIf_descents (s : Machine) (c : Bool) (e : Event) :
    (s.logIf c e).descents = s.descents :=
  congrArg Core.descents (logIf_core s c e)

@[simp] theorem logIf_stepper_z (s : Machine) (c : Bool) (e : Event) :
    (s.logIf c e).stepper_z = s.stepper_z :=
  congrArg Core.stepper_z (logIf_core s c e)

@[simp] theorem logIf_current_position (s : Machine) (c : Bool) (e : Event) :
    (s.logIf c e).current_position = s.current_position :=
  congrArg Core.current_position (logIf_core s c e)

@[simp] theorem logIf_z_probe_enabled (s : Machine) (c : Bool) (e : Event) :
    (s.logIf c e).z_probe_enabled = s.z_probe_enabled :=
  congrArg Core.z_probe_enabled (logIf_core s c e)

theorem DISABLE_AXIS_X_core (s : Machine) :
    (DISABLE_AXIS_X s).core = s.core := rfl

theorem DISABLE_AXIS_Y_core (s : Machine) :
    (DISABLE_AXIS_Y s).core = s.core := rfl

theorem set_homing_current_core (cfg : Config) (onoff : Bool) (s : Machine) :
    (set_homing_current cfg onoff s).core = s.core := by
  unfold set_homing_current
  simp only []
  split_ifs <;> simp only [logIf_core] <;> rfl

@[simp] theorem set_homing_current_offset (cfg : Config) (onoff : Bool) (s : Machine) :
    (set_homing_current cfg onoff s).offset = s.offset :=
  congrArg Core.offset (set_homing_current_core cfg onoff s)

@[simp] theorem set_homing_current_descents (cfg : Config) (onoff : Bool) (s : Machine) :
    (set_homing_current cfg onoff s).descents = s.descents :=
  congrArg Core.descents (set_homing_current_core cfg onoff s)

@[simp] theorem set_homing_current_stepper_z (cfg : Config) (onoff : Bool) (s : Machine) :
    (set_homing_current cfg onoff s).stepper_z = s.stepper_z :=
  congrArg Core.stepper_z (set_homing_current_core cfg onoff s)

@[simp] theorem set_homing_current_current_position (cfg : Config) (onoff : Bool) (s : Machine) :
    (set_homing_current cfg onoff s).current_position = s.current_position :=
  congrArg Core.current_position (set_homing_current_core cfg onoff s)

@[simp] theorem set_homing_current_z_probe_enabled (cfg : Config) (onoff : Bool) (s : Machine) :
    (set_homing_current cfg onoff s).z_probe_enabled = s.z_probe_enabled :=
  congrArg Core.z_probe_enabled (set_homing_current_core cfg onoff s)

theorem probing_paused_steps_core (cfg : Config) (dopause : Bool) (old : ℕ) (s : Machine) :
    ((probing_paused_steps cfg dopause old s).2).core = s.core := by
  unfold probing_paused_steps
  simp only []
  split_ifs <;> simp only [DISABLE_AXIS_X_core, DISABLE_AXIS_Y_core, log_core] <;> rfl

@[simp] theorem probing_paused_steps_offset (cfg : Config) (dopause : Bool) (old : ℕ) (s : Machine) :
    ((probing_paused_steps cfg dopause old s).2).offset = s.offset :=
  congrArg Core.offset (probing_paused_steps_core cfg dopause old s)

@[simp] theorem probing_paused_steps_descents (cfg : Config) (dopause : Bool) (old : ℕ) (s : Machine) :
    ((probing_paused_steps cfg dopause old s).2).descents = s.descents :=
  congrArg Core.descents (probing_paused_steps_core cfg dopause old s)

@[simp] theorem probing_paused_steps_stepper_z (cfg : Config) (dopause : Bool) (old : ℕ) (s : Machine) :
    ((probing_paused_steps cfg dopause old s).2).stepper_z = s.stepper_z :=
  congrArg Core.stepper_z (probing_paused_steps_core cfg dopause old s)

@[simp] theorem probing_paused_steps_current_position (cfg : Config) (dopause : Bool) (old : ℕ) (s : Machine) :
    ((probing_paused_steps cfg dopause old s).2).current_position = s.current_position :=
  congrArg Core.current_position (probing_paused_steps_core cfg dopause old s)

@[simp] theorem probing_paused_steps_z_probe_enabled (cfg : Config) (dopause : Bool) (old : ℕ) (s : Machine) :
    ((probing_paused_steps cfg dopause old s).2).z_probe_enabled = s.z_probe_enabled :=
  congrArg Core.z_probe_enabled (probing_paused_steps_core cfg dopause old s)

theorem set_probing_paused_core (cfg : Config) (dopause : Bool) (s : Machine) :
    (set_probing_paused cfg dopause s).core = s.core := by
  unfold set_probing_paused
  exact probing_paused_steps_core cfg dopause s.old_trusted s

@[simp] theorem set_probing_paused_offset (cfg : Config) (dopause : Bool) (s : Machine) :
    (set_probing_paused cfg dopause s).offset = s.offset :=
  congrArg Core.offset (set_probing_paused_core cfg dopause s)

@[simp] theorem set_probing_paused_descents (cfg : Config) (dopause : Bool) (s : Machine) :
    (set_probing_paused cfg dopause s).descents = s.descents :=
  congrArg Core.descents (set_probing_paused_core cfg dopause s)

@[simp] theorem set_probing_paused_stepper_z (cfg : Config) (dopause : Bool) (s : Machine) :
    (set_probing_paused cfg dopause s).stepper_z = s.stepper_z :=
  congrArg Core.stepper_z (set_probing_paused_core cfg dopause s)

@[simp] theorem set_probing_paused_current_position (cfg : Config) (dopause : Bool) (s : Machine) :
    (set_probing_paused cfg dopause s).current_position = s.current_position :=
  congrArg Core.current_position (set_probing_paused_core cfg dopause s)

@[simp] theorem set_probing_paused_z_probe_enabled (cfg : Config) (dopause : Bool) (s : Machine) :
    (set_probing_paused cfg dopause s).z_probe_enabled = s.z_probe_enabled :=
  congrArg Core.z_probe_enabled (set_probing_paused_core cfg dopause s)

theorem anker_level_set_probing_paused_core (cfg : Config) (dopause : Bool) (ms : ℕ) (s : Machine) :
    (anker_level_set_probing_paused cfg dopause ms s).core = s.core := by
  unfold anker_level_set_probing_paused
  exact probing_paused_steps_core cfg dopause s.anker_old_trusted s

@[simp] theorem anker_level_set_probing_paused_offset (cfg : Config) (dopause : Bool) (ms : ℕ) (s : Machine) :
    (anker_level_set_probing_paused cfg dopause ms s).offset = s.offset :=
  congrArg Core.offset (anker_level_set_probing_paused_core cfg dopause ms s)

@[simp] theorem anker_level_set_probing_paused_descents (cfg : Config) (dopause : Bool) (ms : ℕ) (s : Machine) :
    (anker_level_set_probing_paused cfg dopause ms s).descents = s.descents :=
  congrArg Core.descents (anker_level_set_probing_paused_core cfg dopause ms s)

@[simp] theorem anker_level_set_probing_paused_stepper_z (cfg : Config) (dopause : Bool) (ms : ℕ) (s : Machine) :
    (anker_level_set_probing_paused cfg dopause ms s).stepper_z = s.stepper_z :=
  congrArg Core.stepper_z (anker_level_set_probing_paused_core cfg dopause ms s)

@[simp] theorem anker_level_set_probing_paused_current_position (cfg : Config) (dopause : Bool) (ms : ℕ) (s : Machine) :
    (anker_level_set_probing_paused cfg dopause ms s).current_position = s.current_position :=
  congrArg Core.current_position (anker_level_set_probing_paused_core cfg dopause ms s)

@[simp] theorem anker_level_set_probing_paused_z_probe_enabled (cfg : Config) (dopause : Bool) (ms : ℕ) (s : Machine) :
    (anker_level_set_probing_paused cfg dopause ms s).z_probe_enabled = s.z_probe_enabled :=
  congrArg Core.z_probe_enabled (anker_level_set_probing_paused_core cfg dopause ms s)

theorem sensorless_arm_core (cfg : Config) (s : Machine) :
    ((sensorless_arm cfg s).2).core = s.core := by
  unfold sensorless_arm
  simp only [set_homing_current_core]
  rfl

@[simp] theorem sensorless_arm_offset (cfg : Config) (s : Machine) :
    ((sensorless_arm cfg s).2).offset = s.offset :=
  congrArg Core.offset (sensorless_arm_core cfg s)

@[simp] theorem sensorless_arm_descents (cfg : Config) (s : Machine) :
    ((sensorless_arm cfg s).2).descents = s.descents :=
  congrArg Core.descents (sensorless_arm_core cfg s)

@[simp] theorem sensorless_arm_stepper_z (cfg : Config) (s : Machine) :
    ((sensorless_arm cfg s).2).stepper_z = s.stepper_z :=
  congrArg Core.stepper_z (sensorless_arm_core cfg s)

@[simp] theorem sensorless_arm_current_position (cfg : Config) (s : Machine) :
    ((sensorless_arm cfg s).2).current_position = s.current_position :=
  congrArg Core.current_position (sensorless_arm_core cfg s)

@[simp] theorem sensorless_arm_z_probe_enabled (cfg : Config) (s : Machine) :
    ((sensorless_arm cfg s).2).z_probe_enabled = s.z_probe_enabled :=
  congrArg Core.z_probe_enabled (sensorless_arm_core cfg s)

theorem sensorless_release_core (cfg : Config) (st : sensorless_t) (s : Machine) :
    (sensorless_release cfg st s).core = s.core := by
  unfold sensorless_release
  simp only [set_homing_current_core]
  split_ifs <;> rfl

@[simp] theorem sensorless_release_offset (cfg : Config) (st : sensorless_t) (s : Machine) :
    (sensorless_release cfg st s).offset = s.offset :=
  congrArg Core.offset (sensorless_release_core cfg st s)

@[simp] theorem sensorless_release_descents (cfg : Config) (st : sensorless_t) (s : Machine) :
    (sensorless_release cfg st s).descents = s.descents :=
  congrArg Core.descents (sensorless_release_core cfg st s)

@[simp] theorem sensorless_release_stepper_z (cfg : Config) (st : sensorless_t) (s : Machine) :
    (sensorless_release cfg st s).stepper_z = s.stepper_z :=
  congrArg Core.stepper_z (sensorless_release_core cfg st s)

@[simp] theorem sensorless_release_current_position (cfg : Config) (st : sensorless_t) (s : Machine) :
    (sensorless_release cfg st s).current_position = s.current_position :=
  congrArg Core.current_position (sensorless_release_core cfg st s)

@[simp] theorem sensorless_release_z_probe_enabled (cfg : Config) (st : sensorless_t) (s : Machine) :
    (sensorless_release cfg st s).z_probe_enabled = s.z_probe_enabled :=
  congrArg Core.z_probe_enabled (sensorless_release_core cfg st s)

theorem sensorless_as_probe_arm_core (cfg : Config) (s : Machine) :
    (sensorless_as_probe_arm cfg s).core = s.core := by
  unfold sensorless_as_probe_arm
  simp only [set_homing_current_core]
  split_ifs <;> rfl

@[simp] theorem sensorless_as_probe_arm_offset (cfg : Config) (s : Machine) :
    (sensorless_as_probe_arm cfg s).offset = s.offset :=
  congrArg Core.offset (sensorless_as_probe_arm_core cfg s)

@[simp] theorem sensorless_as_probe_arm_descents (cfg : Config) (s : Machine) :
    (sensorless_as_probe_arm cfg s).descents = s.descents :=
  congrArg Core.descents (sensorless_as_probe_arm_core cfg s)

@[simp] theorem sensorless_as_probe_arm_stepper_z (cfg : Config) (s : Machine) :
    (sensorless_as_probe_arm cfg s).stepper_z = s.stepper_z :=
  congrArg Core.stepper_z (sensorless_as_probe_arm_core cfg s)

@[simp] theorem sensorless_as_probe_arm_current_position (cfg : Config) (s : Machine) :
    (sensorless_as_probe_arm cfg s).current_position = s.current_position :=
  congrArg Core.current_position (sensorless_as_probe_arm_core cfg s)

@[simp] theorem sensorless_as_probe_arm_z_probe_enabled (cfg : Config) (s : Machine) :
    (sensorless_as_probe_arm cfg s).z_probe_enabled = s.z_probe_enabled :=
  congrArg Core.z_probe_enabled (sensorless_as_probe_arm_core cfg s)

theorem sensorless_as_probe_release_core (cfg : Config) (s : Machine) :
    (sensorless_as_probe_release cfg s).core = s.core := by
  unfold sensorless_as_probe_release
  simp only [set_homing_current_core]
  rfl

@[simp] theorem sensorless_as_probe_release_offset (cfg : Config) (s : Machine) :
    (sensorless_as_probe_release cfg s).offset = s.offset :=
  congrArg Core.offset (sensorless_as_probe_release_core cfg s)

@[simp] theorem sensorless_as_probe_release_descents (cfg : Config) (s : Machine) :
    (sensorless_as_probe_release cfg s).descents = s.descents :=
  congrArg Core.descents (sensorless_as_probe_release_core cfg s)

@[simp] theorem sensorless_as_probe_release_stepper_z (cfg : Config) (s : Machine) :
    (sensorless_as_probe_release cfg s).stepper_z = s.stepper_z :=
  congrArg Core.stepper_z (sensorless_as_probe_release_core cfg s)

@[simp] theorem sensorless_as_probe_release_current_position (cfg : Config) (s : Machine) :
    (sensorless_as_probe_release cfg s).current_position = s.current_position :=
  congrArg Core.current_position (sensorless_as_probe_release_core cfg s)

@[simp] theorem sensorless_as_probe_release_z_probe_enabled (cfg : Config) (s : Machine) :
    (sensorless_as_probe_release cfg s).z_probe_enabled = s.z_probe_enabled :=
  congrArg Core.z_probe_enabled (sensorless_as_probe_release_core cfg s)

theorem quiet_probing_enter_core (cfg : Config) (s : Machine) :
    (quiet_probing_enter cfg s).core = s.core := by
  unfold quiet_probing_enter
  simp only []
  split_ifs <;> simp only [log_core, set_probing_paused_core, anker_level_set_probing_paused_core]

@[simp] theorem quiet_probing_enter_offset (cfg : Config) (s : Machine) :
    (quiet_probing_enter cfg s).offset = s.offset :=
  congrArg Core.offset (quiet_probing_enter_core cfg s)

@[simp] theorem quiet_probing_enter_descents (cfg : Config) (s : Machine) :
    (quiet_probing_enter cfg s).descents = s.descents :=
  congrArg Core.descents (quiet_probing_enter_core cfg s)

@[simp] theorem quiet_probing_enter_stepper_z (cfg : Config) (s : Machine) :
    (quiet_probing_enter cfg s).stepper_z = s.stepper_z :=
  congrArg Core.stepper_z (quiet_probing_enter_core cfg s)

@[simp] theorem quiet_probing_enter_current_position (cfg : Config) (s : Machine) :
    (quiet_probing_enter cfg s).current_position = s.current_position :=
  congrArg Core.current_position (quiet_probing_enter_core cfg s)

@[simp] theorem quiet_probing_enter_z_probe_enabled (cfg : Config) (s : Machine) :
    (quiet_probing_enter cfg s).z_probe_enabled = s.z_probe_enabled :=
  congrArg Core.z_probe_enabled (quiet_probing_enter_core cfg s)

theorem probe_start_core (cfg : Config) (s : Machine) :
    (probe_start cfg s).core = s.core := by
  unfold probe_start
  split_ifs <;> rfl

@[simp] theorem probe_start_offset (cfg : Config) (s : Machine) :
    (probe_start cfg s).offset = s.offset :=
  congrArg Core.offset (probe_start_core cfg s)

@[simp] theorem probe_start_descents (cfg : Config) (s : Machine) :
    (probe_start cfg s).descents = s.descents :=
  congrArg Core.descents (probe_start_core cfg s)

@[simp] theorem probe_start_stepper_z (cfg : Config) (s : Machine) :
    (probe_start cfg s).stepper_z = s.stepper_z :=
  congrArg Core.stepper_z (probe_start_core cfg s)

@[simp] theorem probe_start_current_position (cfg : Config) (s : Machine) :
    (probe_start cfg s).current_position = s.current_position :=
  congrArg Core.current_position (probe_start_core cfg s)

@[simp] theorem probe_start_z_probe_enabled (cfg : Config) (s : Machine) :
    (probe_start cfg s).z_probe_enabled = s.z_probe_enabled :=
  congrArg Core.z_probe_enabled (probe_start_core cfg s)

theorem descent_entry_core (cfg : Config) (s : Machine) :
    (descent_entry cfg s).core = s.core := by
  unfold descent_entry
  simp only [logIf_core]

@[simp] theorem descent_entry_offset (cfg : Config) (s : Machine) :
    (descent_entry cfg s).offset = s.offset :=
  congrArg Core.offset (descent_entry_core cfg s)

@[simp] theorem descent_entry_descents (cfg : Config) (s : Machine) :
    (descent_entry cfg s).descents = s.descents :=
  congrArg Core.descents (descent_entry_core cfg s)

@[simp] theorem descent_entry_stepper_z (cfg : Config) (s : Machine) :
    (descent_entry cfg s).stepper_z = s.stepper_z :=
  congrArg Core.stepper_z (descent_entry_core cfg s)

@[simp] theorem descent_entry_current_position (cfg : Config) (s : Machine) :
    (descent_entry cfg s).current_position = s.current_position :=
  congrArg Core.current_position (descent_entry_core cfg s)

@[simp] theorem descent_entry_z_probe_enabled (cfg : Config) (s : Machine) :
    (descent_entry cfg s).z_probe_enabled = s.z_probe_enabled :=
  congrArg Core.z_probe_enabled (descent_entry_core cfg s)

theorem descent_arm_core (cfg : Config) (s : Machine) :
    ((descent_arm cfg s).2).core = s.core := by
  unfold descent_arm
  simp only [quiet_probing_enter_core]
  split_ifs <;> simp only [sensorless_as_probe_arm_core, sensorless_arm_core]

@[simp] theorem descent_arm_offset (cfg : Config) (s : Machine) :
    ((descent_arm cfg s).2).offset = s.offset :=
  congrArg Core.offset (descent_arm_core cfg s)

@[simp] theorem descent_arm_descents (cfg : Config) (s : Machine) :
    ((descent_arm cfg s).2).descents = s.descents :=
  congrArg Core.descents (descent_arm_core cfg s)

@[simp] theorem descent_arm_stepper_z (cfg : Config) (s : Machine) :
    ((descent_arm cfg s).2).stepper_z = s.stepper_z :=
  congrArg Core.stepper_z (descent_arm_core cfg s)

@[simp] theorem descent_arm_current_position (cfg : Config) (s : Machine) :
    ((descent_arm cfg s).2).current_position = s.current_position :=
  congrArg Core.current_position (descent_arm_core cfg s)

@[simp] theorem descent_arm_z_probe_enabled (cfg : Config) (s : Machine) :
    ((descent_arm cfg s).2).z_probe_enabled = s.z_probe_enabled :=
  congrArg Core.z_probe_enabled (descent_arm_core cfg s)

theorem descent_release_core (cfg : Config) (st : sensorless_t) (s : Machine) :
    (descent_release cfg st s).core = s.core := by
  unfold descent_release
  simp only []
  split_ifs <;>
    simp only [sensorless_as_probe_release_core, sensorless_release_core,
      set_probing_paused_core, logIf_core]

@[simp] theorem descent_release_offset (cfg : Config) (st : sensorless_t) (s : Machine) :
    (descent_release cfg st s).offset = s.offset :=
  congrArg Core.offset (descent_release_core cfg st s)

@[simp] theorem descent_release_descents (cfg : Config) (st : sensorless_t) (s : Machine) :
    (descent_release cfg st s).descents = s.descents :=
  congrArg Core.descents (descent_release_core cfg st s)

@[simp] theorem descent_release_stepper_z (cfg : Config) (st : sensorless_t) (s : Machine) :
    (descent_release cfg st s).stepper_z = s.stepper_z :=
  congrArg Core.stepper_z (descent_release_core cfg st s)

@[simp] theorem descent_release_current_position (cfg : Config) (st : sensorless_t) (s : Machine) :
    (descent_release cfg st s).current_position = s.current_position :=
  congrArg Core.current_position (descent_release_core cfg st s)

@[simp] theorem descent_release_z_probe_enabled (cfg : Config) (st : sensorless_t) (s : Machine) :
    (descent_release cfg st s).z_probe_enabled = s.z_probe_enabled :=
  congrArg Core.z_probe_enabled (descent_release_core cfg st s)

/-! ## The descent primitive -/

theorem probe_down_to_z_fst (cfg : Config) (env : Env) (z fr : ℚ) (s : Machine) :
    (probe_down_to_z cfg env z fr s).1 = descent_fails cfg (env.descent s.descents) := by
  unfold probe_down_to_z descent_fails
  simp only []
  generalize (env.descent s.descents).bltouch_deploy_fail = df
  generalize (env.descent s.descents).bltouch_stow_fail = sf
  generalize probe_triggered cfg (env.descent s.descents).trigger_state = t
  generalize cfg.BLTOUCH_SLOW_MODE = slow
  cases slow <;> cases df <;> cases t <;> cases sf <;> simp

@[simp] theorem probe_down_to_z_offset (cfg : Config) (env : Env) (z fr : ℚ) (s : Machine) :
    (probe_down_to_z cfg env z fr s).2.offset = s.offset := by
  unfold probe_down_to_z
  simp only []
  split_ifs <;> simp [hit_on_purpose, set_current_from_steppers_for_axis_Z, do_blocking_move_to_z]

@[simp] theorem probe_down_to_z_descents (cfg : Config) (env : Env) (z fr : ℚ) (s : Machine) :
    (probe_down_to_z cfg env z fr s).2.descents = s.descents + 1 := by
  unfold probe_down_to_z
  simp only []
  split_ifs <;> simp [hit_on_purpose, set_current_from_steppers_for_axis_Z, do_blocking_move_to_z]

theorem probe_down_to_z_z (cfg : Config) (env : Env) (z fr : ℚ) (s : Machine)
    (h : descent_fails cfg (env.descent s.descents) = false) :
    (probe_down_to_z cfg env z fr s).2.current_position.z
      = (env.descent s.descents).stepper_z := by
  unfold descent_fails at h
  unfold probe_down_to_z
  simp only []
  generalize (env.descent s.descents).bltouch_deploy_fail = df at h ⊢
  generalize (env.descent s.descents).bltouch_stow_fail = sf at h ⊢
  generalize probe_triggered cfg (env.descent s.descents).trigger_state = t at h ⊢
  generalize cfg.BLTOUCH_SLOW_MODE = slow at h ⊢
  cases slow <;> cases df <;> cases t <;> cases sf <;> simp at h <;>
    simp [hit_on_purpose, set_current_from_steppers_for_axis_Z]

/-! ## The estimator: one probe -/

@[simp] theorem tare_fst (s : Machine) : (tare s).1 = false := rfl

@[simp] theorem tare_offset (s : Machine) : (tare s).2.offset = s.offset := rfl

@[simp] theorem tare_descents (s : Machine) : (tare s).2.descents = s.descents := rfl

theorem try_to_probe_fst (cfg : Config) (env : Env) (zl fr : ℚ) (sc : Bool) (cl : ℚ)
    (s : Machine) :
    (try_to_probe cfg env zl fr sc cl s).1
      = rejected cfg sc s.offset.z cl (env.descent s.descents) := by
  unfold try_to_probe rejected
  simp only []
  cases hf : descent_fails cfg (env.descent s.descents)
  · have h1 := probe_down_to_z_z cfg env zl fr s hf
    have h2 := probe_down_to_z_z cfg env zl fr (tare s).2 (by simpa using hf)
    simp only [tare_descents] at h2
    cases hT : cfg.PROBE_TARE <;>
      simp [probe_down_to_z_fst, hf, h1, h2]
  · cases hT : cfg.PROBE_TARE <;> simp [probe_down_to_z_fst, hf]

@[simp] theorem try_to_probe_offset (cfg : Config) (env : Env) (zl fr : ℚ) (sc : Bool) (cl : ℚ)
    (s : Machine) : (try_to_probe cfg env zl fr sc cl s).2.offset = s.offset := by
  unfold try_to_probe
  cases hT : cfg.PROBE_TARE <;> simp

@[simp] theorem try_to_probe_descents (cfg : Config) (env : Env) (zl fr : ℚ) (sc : Bool)
    (cl : ℚ) (s : Machine) :
    (try_to_probe cfg env zl fr sc cl s).2.descents = s.descents + 1 := by
  unfold try_to_probe
  cases hT : cfg.PROBE_TARE <;> simp

theorem try_to_probe_z (cfg : Config) (env : Env) (zl fr : ℚ) (sc : Bool) (cl : ℚ)
    (s : Machine) (h : rejected cfg sc s.offset.z cl (env.descent s.descents) = false) :
    (try_to_probe cfg env zl fr sc cl s).2.current_position.z
      = (env.descent s.descents).stepper_z := by
  unfold rejected at h
  simp only [Bool.or_eq_false_iff] at h
  unfold try_to_probe
  cases hT : cfg.PROBE_TARE
  · simpa using probe_down_to_z_z cfg env zl fr s h.1
  · simpa using probe_down_to_z_z cfg env zl fr (tare s).2 (by simpa using h.1)

theorem plain_attempt_fst (cfg : Config) (env : Env) (sc : Bool) (zl f : ℚ) (s : Machine) :
    (plain_attempt cfg env sc zl f s).1
      = if rejected cfg sc s.offset.z cfg.Z_CLEARANCE_MULTI_PROBE (env.descent s.descents)
        then Except.error NAN else Except.ok f := by
  unfold plain_attempt
  simp only [try_to_probe_fst, probe_start_offset, probe_start_descents]
  split_ifs <;> rfl

@[simp] theorem plain_attempt_offset (cfg : Config) (env : Env) (sc : Bool) (zl f : ℚ)
    (s : Machine) : (plain_attempt cfg env sc zl f s).2.offset = s.offset := by
  unfold plain_attempt
  simp only []
  split_ifs <;> simp

@[simp] theorem plain_attempt_descents (cfg : Config) (env : Env) (sc : Bool) (zl f : ℚ)
    (s : Machine) : (plain_attempt cfg env sc zl f s).2.descents = s.descents + 1 := by
  unfold plain_attempt
  simp only []
  split_ifs <;> simp

theorem plain_attempt_z (cfg : Config) (env : Env) (sc : Bool) (zl f : ℚ) (s : Machine)
    (h : rejected cfg sc s.offset.z cfg.Z_CLEARANCE_MULTI_PROBE (env.descent s.descents) = false) :
    (plain_attempt cfg env sc zl f s).2.current_position.z
      = (env.descent s.descents).stepper_z := by
  have h1 : rejected cfg sc (probe_start cfg s).offset.z cfg.Z_CLEARANCE_MULTI_PROBE
      (env.descent (probe_start cfg s).descents) = false := by simpa using h
  have z1 := try_to_probe_z cfg env zl (MMM_TO_MMS cfg.Z_PROBE_FEEDRATE_SLOW) sc
    cfg.Z_CLEARANCE_MULTI_PROBE _ h1
  simp only [probe_start_descents] at z1
  unfold plain_attempt
  simp only [try_to_probe_fst, h1, Bool.false_eq_true, if_false]
  exact z1

theorem slow_finish_ok (cfg : Config) (r : Except FloatQ ℚ × Machine) (f : ℚ)
    (h : r.1 = Except.ok f) :
    (slow_finish cfg r).1 = Except.ok (r.2.current_position.z, f)
      ∧ (slow_finish cfg r).2.core = r.2.core := by
  obtain ⟨r1, r2⟩ := r
  simp only at h
  subst h
  simp [slow_finish, logIf_core]

theorem slow_finish_error (cfg : Config) (r : Except FloatQ ℚ × Machine) (v : FloatQ)
    (h : r.1 = Except.error v) :
    slow_finish cfg r = (Except.error v, r.2) := by
  obtain ⟨r1, r2⟩ := r
  simp only at h
  subst h
  rfl

theorem slow_finish_core (cfg : Config) (r : Except FloatQ ℚ × Machine) :
    (slow_finish cfg r).2.core = r.2.core := by
  obtain ⟨r1, r2⟩ := r
  cases r1 with
  | error v => rfl
  | ok f => simp [slow_finish, logIf_core]

theorem slow_probe_eq (cfg : Config) (env : Env) (sc : Bool) (zl : ℚ) (f : Option ℚ)
    (s : Machine) :
    slow_probe cfg env sc zl f s
      = slow_finish cfg (slow_attempt cfg env sc zl f (if cfg.PROBE_TARE then (tare s).2 else s)) := by
  unfold slow_probe
  cases cfg.PROBE_TARE <;> simp

theorem tare_if_offset (c : Bool) (s : Machine) :
    (if c then (tare s).2 else s).offset = s.offset := by
  cases c <;> rfl

theorem tare_if_descents (c : Bool) (s : Machine) :
    (if c then (tare s).2 else s).descents = s.descents := by
  cases c <;> rfl

theorem slow_probe_fst_ok (cfg : Config) (env : Env) (sc : Bool) (zl : ℚ) (f : Option ℚ)
    (s : Machine) (hD : detect_times_active cfg f = false)
    (h : rejected cfg sc s.offset.z cfg.Z_CLEARANCE_MULTI_PROBE (env.descent s.descents) = false) :
    (slow_probe cfg env sc zl f s).1 = Except.ok ((env.descent s.descents).stepper_z, f.getD 0) := by
  rw [slow_probe_eq]
  unfold slow_attempt
  simp only [hD, Bool.false_eq_true, if_false]
  have h1 : rejected cfg sc (if cfg.PROBE_TARE then (tare s).2 else s).offset.z
      cfg.Z_CLEARANCE_MULTI_PROBE
      (env.descent (if cfg.PROBE_TARE then (tare s).2 else s).descents) = false := by
    rw [tare_if_offset, tare_if_descents]; exact h
  have a1 := plain_attempt_fst cfg env sc zl (f.getD 0) (if cfg.PROBE_TARE then (tare s).2 else s)
  rw [h1] at a1
  have a2 := plain_attempt_z cfg env sc zl (f.getD 0) _ h1
  rw [tare_if_descents] at a2
  rw [(slow_finish_ok cfg _ _ a1).1, a2]

theorem slow_probe_fst_rejected (cfg : Config) (env : Env) (sc : Bool) (zl : ℚ) (f : Option ℚ)
    (s : Machine) (hD : detect_times_active cfg f = false)
    (h : rejected cfg sc s.offset.z cfg.Z_CLEARANCE_MULTI_PROBE (env.descent s.descents) = true) :
    (slow_probe cfg env sc zl f s).1 = Except.error NAN := by
  rw [slow_probe_eq]
  unfold slow_attempt
  simp only [hD, Bool.false_eq_true, if_false]
  have h1 : rejected cfg sc (if cfg.PROBE_TARE then (tare s).2 else s).offset.z
      cfg.Z_CLEARANCE_MULTI_PROBE
      (env.descent (if cfg.PROBE_TARE then (tare s).2 else s).descents) = true := by
    rw [tare_if_offset, tare_if_descents]; exact h
  have a1 := plain_attempt_fst cfg env sc zl (f.getD 0) (if cfg.PROBE_TARE then (tare s).2 else s)
  rw [h1] at a1
  rw [slow_finish_error cfg _ _ a1]

theorem slow_probe_offset (cfg : Config) (env : Env) (sc : Bool) (zl : ℚ) (f : Option ℚ)
    (s : Machine) (hD : detect_times_active cfg f = false) :
    (slow_probe cfg env sc zl f s).2.offset = s.offset := by
  rw [slow_probe_eq]
  have c := congrArg Core.offset (slow_finish_core cfg
    (slow_attempt cfg env sc zl f (if cfg.PROBE_TARE then (tare s).2 else s)))
  simp only [Machine.core] at c
  rw [c]
  unfold slow_attempt
  simp only [hD, Bool.false_eq_true, if_false, plain_attempt_offset, tare_if_offset]

theorem slow_probe_descents (cfg : Config) (env : Env) (sc : Bool) (zl : ℚ) (f : Option ℚ)
    (s : Machine) (hD : detect_times_active cfg f = false) :
    (slow_probe cfg env sc zl f s).2.descents = s.descents + 1 := by
  rw [slow_probe_eq]
  have c := congrArg Core.descents (slow_finish_core cfg
    (slow_attempt cfg env sc zl f (if cfg.PROBE_TARE then (tare s).2 else s)))
  simp only [Machine.core] at c
  rw [c]
  unfold slow_attempt
  simp only [hD, Bool.false_eq_true, if_false, plain_attempt_descents, tare_if_descents]

theorem slow_probe_z (cfg : Config) (env : Env) (sc : Bool) (zl : ℚ) (f : Option ℚ)
    (s : Machine) (hD : detect_times_active cfg f = false)
    (h : rejected cfg sc s.offset.z cfg.Z_CLEARANCE_MULTI_PROBE (env.descent s.descents) = false) :
    (slow_probe cfg env sc zl f s).2.current_position.z = (env.descent s.descents).stepper_z := by
  rw [slow_probe_eq]
  have c := congrArg Core.current_position (slow_finish_core cfg
    (slow_attempt cfg env sc zl f (if cfg.PROBE_TARE then (tare s).2 else s)))
  simp only [Machine.core] at c
  rw [c]
  unfold slow_attempt
  simp only [hD, Bool.false_eq_true, if_false]
  have h1 : rejected cfg sc (if cfg.PROBE_TARE then (tare s).2 else s).offset.z
      cfg.Z_CLEARANCE_MULTI_PROBE
      (env.descent (if cfg.PROBE_TARE then (tare s).2 else s).descents) = false := by
    rw [tare_if_offset, tare_if_descents]; exact h
  rw [plain_attempt_z cfg env sc zl (f.getD 0) _ h1, tare_if_descents]

/-! ## The estimator: probing loops -/

@[simp] theorem do_blocking_move_to_z_offset (z fr : ℚ) (s : Machine) :
    (do_blocking_move_to_z z fr s).offset = s.offset := rfl

@[simp] theorem do_blocking_move_to_z_descents (z fr : ℚ) (s : Machine) :
    (do_blocking_move_to_z z fr s).descents = s.descents := rfl

@[simp] theorem do_blocking_move_to_z_z (z fr : ℚ) (s : Machine) :
    (do_blocking_move_to_z z fr s).current_position.z = z := rfl

theorem resolved_succ (env : Env) (d n : ℕ) :
    resolved env d (n + 1) = (env.descent d).stepper_z :: resolved env (d + 1) n := by
  unfold resolved
  rw [List.range_succ_eq_map]
  simp [List.map_map, Function.comp_def, Nat.add_assoc, Nat.add_comm 1]

theorem resolved_length (env : Env) (d n : ℕ) : (resolved env d n).length = n := by
  simp [resolved]

theorem plain_loop_ok (cfg : Config) (env : Env) (sc : Bool) (zl : ℚ)
    (oz : ℚ) :
    ∀ (p : ℕ) (sum : ℚ) (s : Machine), s.offset.z = oz →
      (∀ k, k < p → rejected cfg sc oz cfg.Z_CLEARANCE_MULTI_PROBE
        (env.descent (s.descents + k)) = false) →
      (plain_loop cfg env sc zl p sum s).1 = Except.ok (sum + (resolved env s.descents p).sum)
        ∧ (plain_loop cfg env sc zl p sum s).2.descents = s.descents + p
        ∧ (plain_loop cfg env sc zl p sum s).2.offset.z = oz := by
  intro p
  induction p with
  | zero => intro sum s ho _; simp [plain_loop, resolved, ho]
  | succ p ih =>
    intro sum s ho h
    have h0 : rejected cfg sc s.offset.z cfg.Z_CLEARANCE_MULTI_PROBE
        (env.descent s.descents) = false := by simpa [ho] using h 0 (Nat.succ_pos p)
    have e1 := slow_probe_fst_ok cfg env sc zl none s (by simp [detect_times_active]) h0
    have e2 := slow_probe_descents cfg env sc zl none s (by simp [detect_times_active])
    have e3 := slow_probe_offset cfg env sc zl none s (by simp [detect_times_active])
    have e : slow_probe cfg env sc zl none s
        = (Except.ok ((env.descent s.descents).stepper_z, 0), (slow_probe cfg env sc zl none s).2) :=
      Prod.ext e1 rfl
    unfold plain_loop
    rw [e]
    simp only []
    set s2 := (if p ≠ 0 then
        do_blocking_move_to_z ((env.descent s.descents).stepper_z + cfg.Z_CLEARANCE_MULTI_PROBE)
          cfg.z_probe_fast_mm_s (slow_probe cfg env sc zl none s).2
      else (slow_probe cfg env sc zl none s).2) with hs2
    have d2 : s2.descents = s.descents + 1 := by
      rw [hs2]; split_ifs <;> simp [e2]
    have o2 : s2.offset.z = oz := by
      rw [hs2]; split_ifs <;> simp [e3, ho]
    have hk : ∀ k, k < p → rejected cfg sc oz cfg.Z_CLEARANCE_MULTI_PROBE
        (env.descent (s2.descents + k)) = false := by
      intro k hk
      have := h (k + 1) (Nat.succ_lt_succ hk)
      rw [d2]
      rwa [show s.descents + 1 + k = s.descents + (k + 1) by omega]
    obtain ⟨r1, r2, r3⟩ := ih (sum + (env.descent s.descents).stepper_z) s2 o2 hk
    refine ⟨?_, ?_, r3⟩
    · rw [r1, resolved_succ, d2, List.sum_cons, add_assoc]
    · rw [r2, d2]; omega

theorem plain_loop_rejected (cfg : Config) (env : Env) (sc : Bool) (zl : ℚ)
    (oz : ℚ) :
    ∀ (p : ℕ) (sum : ℚ) (s : Machine), s.offset.z = oz →
      (∃ k, k < p ∧ rejected cfg sc oz cfg.Z_CLEARANCE_MULTI_PROBE
        (env.descent (s.descents + k)) = true) →
      (plain_loop cfg env sc zl p sum s).1 = Except.error NAN := by
  intro p
  induction p with
  | zero => intro sum s _ h; obtain ⟨k, hk, _⟩ := h; omega
  | succ p ih =>
    intro sum s ho h
    unfold plain_loop
    cases h0 : rejected cfg sc s.offset.z cfg.Z_CLEARANCE_MULTI_PROBE (env.descent s.descents)
    · have e1 := slow_probe_fst_ok cfg env sc zl none s (by simp [detect_times_active]) h0
      have e2 := slow_probe_descents cfg env sc zl none s (by simp [detect_times_active])
      have e3 := slow_probe_offset cfg env sc zl none s (by simp [detect_times_active])
      have e : slow_probe cfg env sc zl none s
          = (Except.ok ((env.descent s.descents).stepper_z, 0),
              (slow_probe cfg env sc zl none s).2) := Prod.ext e1 rfl
      rw [e]
      simp only []
      apply ih
      · split_ifs <;> simp [e3, ho]
      · obtain ⟨k, hk, hr⟩ := h
        cases k with
        | zero => rw [ho] at h0; simp [h0] at hr
        | succ k =>
          refine ⟨k, by omega, ?_⟩
          have d2 : ∀ t : Machine, t.descents = s.descents + 1 →
              env.descent (t.descents + k) = env.descent (s.descents + (k + 1)) := by
            intro t ht; rw [ht]; congr 1; omega
          split_ifs <;> (rw [d2 _ (by simp [e2])]; exact hr)
    · have e1 := slow_probe_fst_rejected cfg env sc zl none s (by simp [detect_times_active]) h0
      have e : slow_probe cfg env sc zl none s
          = (Except.error NAN, (slow_probe cfg env sc zl none s).2) := Prod.ext e1 rfl
      rw [e]

/-! ## The estimator: entry of the probing loop -/

@[simp] theorem fast_pre_descent_offset (cfg : Config) (env : Env) (s : Machine) :
    (fast_pre_descent cfg env s).offset = s.offset := by
  unfold fast_pre_descent
  simp only []
  split_ifs <;> simp

@[simp] theorem loop_entry_offset (cfg : Config) (env : Env) (s : Machine) :
    (loop_entry cfg env s).offset = s.offset := by
  unfold loop_entry
  split_ifs <;> simp

theorem pair_of_fst {α β : Type} (x : α × β) (a : α) (h : x.1 = a) : x = (a, x.2) :=
  Prod.ext h rfl

theorem toUInt8_of_le (n : ℕ) (h : n ≤ 255) : toUInt8 (n : ℤ) = n := by
  unfold toUInt8
  omega

/-- C3 (amended).  Plain multi-probe policy: with `TOTAL_PROBING = N`,
`2 < N ≤ 255`, `EXTRA_PROBING = 0` and every one of the `N` slow descents
accepted, `run_z_probe` performs exactly `N` slow descents and returns the
arithmetic mean (sum divided by `N`) of the `N` resolved Z samples. -/
theorem run_z_probe_plain_mean (cfg : Config) (env : Env) (sc : Bool) (s : Machine)
    (hN : 2 < cfg.TOTAL_PROBING) (hN255 : cfg.TOTAL_PROBING ≤ 255)
    (hK : cfg.EXTRA_PROBING = 0)
    (hok : ∀ k, k < cfg.TOTAL_PROBING →
      rejected cfg sc s.offset.z cfg.Z_CLEARANCE_MULTI_PROBE
        (env.descent ((loop_entry cfg env s).descents + k)) = false) :
    (run_z_probe cfg env sc s).1
        = some ((resolved env (loop_entry cfg env s).descents cfg.TOTAL_PROBING).sum
            / (cfg.TOTAL_PROBING : ℚ))
      ∧ (run_z_probe cfg env sc s).2.descents
        = (loop_entry cfg env s).descents + cfg.TOTAL_PROBING := by
  have hM : cfg.MULTIPLE_PROBING = cfg.TOTAL_PROBING := by
    unfold Config.TOTAL_PROBING; omega
  obtain ⟨r1, r2, -⟩ := plain_loop_ok cfg env sc (z_probe_low_point cfg s) s.offset.z
    cfg.TOTAL_PROBING 0 (loop_entry cfg env s) (by simp) hok
  have e := pair_of_fst _ _ r1
  unfold run_z_probe
  simp only [show ¬ cfg.TOTAL_PROBING = 2 by omega, if_false, gt_iff_lt, hN, if_true, hK,
    lt_irrefl, toUInt8_of_le _ hN255]
  rw [e]
  simp only [r2, hM, RECIPROCAL, zero_add, and_true]
  congr 1
  push_cast
  ring

/-! ## Facts about the worked examples -/

theorem sampleEnv_descent_fails (cfg : Config) (hB : cfg.BLTOUCH_SLOW_MODE = false)
    (hD : cfg.DELTA = false) (h6 : cfg.Z_MIN_PROBE = 6) (samples : List ℚ) (rest : ℚ) (k : ℕ) :
    descent_fails cfg ((sampleEnv samples rest).descent k) = false := by
  have h64 : Nat.testBit 64 6 = true := by decide
  simp [descent_fails, probe_triggered, sampleEnv, TEST, h64, hB, hD, h6]

theorem sampleEnv_rejected (cfg : Config) (hB : cfg.BLTOUCH_SLOW_MODE = false)
    (hD : cfg.DELTA = false) (h6 : cfg.Z_MIN_PROBE = 6) (samples : List ℚ) (rest : ℚ)
    (sc : Bool) (oz cl : ℚ) (k : ℕ) (h : samples.getD k rest ≤ -oz + cl) :
    rejected cfg sc oz cl ((sampleEnv samples rest).descent k) = false := by
  unfold rejected
  rw [sampleEnv_descent_fails cfg hB hD h6]
  have h7 : decide (((sampleEnv samples rest).descent k).stepper_z > -oz + cl) = false :=
    decide_eq_false (not_lt.mpr h)
  rw [h7]
  simp

theorem sample_loop_entry (cfg : Config) (env : Env) (h : cfg.Z_CLEARANCE_DEPLOY_PROBE = 10) :
    loop_entry cfg env sampleMachine = sampleMachine := by
  norm_num [loop_entry, fast_pre_descent, sampleMachine, h]

/-- C3, worked example: three probes stopping at 2, 3 and 4 give three
descents and the mean 3. -/
theorem run_z_probe_plain_mean_witness :
    (run_z_probe (sampleConfigN 3 0) (sampleEnv [2, 3, 4] 0) true sampleMachine).1 = some 3
      ∧ (run_z_probe (sampleConfigN 3 0) (sampleEnv [2, 3, 4] 0) true sampleMachine).2.descents
        = 3 := by
  have h := run_z_probe_plain_mean (sampleConfigN 3 0) (sampleEnv [2, 3, 4] 0) true sampleMachine
    (by decide) (by decide) rfl
    (by
      intro k hk
      apply sampleEnv_rejected _ rfl rfl rfl
      have hk3 : k < 3 := hk
      rw [sample_loop_entry _ _ rfl]
      interval_cases k <;> norm_num [sampleMachine, sampleConfigN, sampleConfig])
  rw [sample_loop_entry _ _ rfl] at h
  refine ⟨?_, ?_⟩
  · rw [h.1]
    norm_num [resolved, sampleEnv, sampleMachine, Config.TOTAL_PROBING, sampleConfigN,
      List.range_succ]
  · rw [h.2]
    rfl

/-- C3 as stated fails at `TOTAL_PROBING = 256`: the `uint8_t` loop counter
starts at `256 mod 256 = 0`, so no descent is made and 0 is returned, although
all descents would stop at Z = 2. -/
theorem run_z_probe_plain_mean_counterexample :
    2 < (sampleConfigN 256 0).TOTAL_PROBING ∧ (sampleConfigN 256 0).EXTRA_PROBING = 0
      ∧ (∀ k, k < (sampleConfigN 256 0).TOTAL_PROBING →
          rejected (sampleConfigN 256 0) true sampleMachine.offset.z
            (sampleConfigN 256 0).Z_CLEARANCE_MULTI_PROBE
            ((sampleEnv [] 2).descent
              ((loop_entry (sampleConfigN 256 0) (sampleEnv [] 2) sampleMachine).descents + k))
            = false)
      ∧ (run_z_probe (sampleConfigN 256 0) (sampleEnv [] 2) true sampleMachine).1 = some 0
      ∧ (run_z_probe (sampleConfigN 256 0) (sampleEnv [] 2) true sampleMachine).2.descents
          = (loop_entry (sampleConfigN 256 0) (sampleEnv [] 2) sampleMachine).descents
      ∧ ∀ k, k < 256 → ((sampleEnv [] 2).descent k).stepper_z = 2 := by
  refine ⟨by decide, rfl, ?_, ?_, ?_, ?_⟩
  · intro k _
    apply sampleEnv_rejected _ rfl rfl rfl
    norm_num [sampleMachine, sampleConfigN, sampleConfig]
  · unfold run_z_probe
    rw [sample_loop_entry _ _ rfl]
    norm_num [Config.TOTAL_PROBING, sampleConfigN, toUInt8, plain_loop, RECIPROCAL]
  · unfold run_z_probe
    rw [sample_loop_entry _ _ rfl]
    norm_num [Config.TOTAL_PROBING, sampleConfigN, toUInt8, plain_loop, RECIPROCAL]
  · intro k _
    simp [sampleEnv]

/-! ## Single-probe and double-probe policies -/

theorem run_z_probe_single_value (cfg : Config) (env : Env) (sc : Bool) (s : Machine)
    (h1 : cfg.TOTAL_PROBING = 1)
    (hok : rejected cfg sc s.offset.z cfg.Z_CLEARANCE_MULTI_PROBE
      (env.descent (loop_entry cfg env s).descents) = false) :
    (run_z_probe cfg env sc s).1
      = some (env.descent (loop_entry cfg env s).descents).stepper_z := by
  have hD : detect_times_active cfg none = false := by simp [detect_times_active]
  have hok1 : rejected cfg sc (loop_entry cfg env s).offset.z cfg.Z_CLEARANCE_MULTI_PROBE
      (env.descent (loop_entry cfg env s).descents) = false := by simpa using hok
  have e1 := slow_probe_fst_ok cfg env sc (z_probe_low_point cfg s) none _ hD hok1
  have e2 := slow_probe_z cfg env sc (z_probe_low_point cfg s) none _ hD hok1
  unfold run_z_probe
  simp only [h1, show ¬ (1 = 2) by decide, if_false, gt_iff_lt,
    show ¬ (2 < 1) by decide]
  rw [pair_of_fst _ _ e1]
  simp only [e2]

/-- C4.  Single-probe policy: with `TOTAL_PROBING = 1` and the slow descent
accepted, `run_z_probe` returns exactly the Z resolved by that descent, for
every configuration of the fast pre-descent, every starting height and every
answer the pre-descent may have got. -/
theorem run_z_probe_single (cfg : Config) (env : Env) (sc : Bool) (s : Machine)
    (h1 : cfg.TOTAL_PROBING = 1)
    (hok : rejected cfg sc s.offset.z cfg.Z_CLEARANCE_MULTI_PROBE
      (env.descent (loop_entry cfg env s).descents) = false) :
    (run_z_probe cfg env sc s).1
      = some (env.descent (loop_entry cfg env s).descents).stepper_z :=
  run_z_probe_single_value cfg env sc s h1 hok

theorem double_probe_first_ok (cfg : Config) (env : Env) (sc : Bool) (zl : ℚ) (s : Machine)
    (h : rejected cfg sc s.offset.z cfg.Z_CLEARANCE_BETWEEN_PROBES (env.descent s.descents)
      = false) :
    (double_probe_first cfg env sc zl s).1 = Except.ok (env.descent s.descents).stepper_z
      ∧ (double_probe_first cfg env sc zl s).2.offset = s.offset
      ∧ (double_probe_first cfg env sc zl s).2.descents = s.descents + 1 := by
  have h1 : rejected cfg sc (probe_start cfg s).offset.z cfg.Z_CLEARANCE_BETWEEN_PROBES
      (env.descent (probe_start cfg s).descents) = false := by simpa using h
  have h2 : rejected cfg sc (probe_start cfg (tare s).2).offset.z
      cfg.Z_CLEARANCE_BETWEEN_PROBES
      (env.descent (probe_start cfg (tare s).2).descents) = false := by simpa using h
  unfold double_probe_first
  cases hT : cfg.PROBE_TARE
  · have z1 := try_to_probe_z cfg env zl cfg.z_probe_fast_mm_s sc
      cfg.Z_CLEARANCE_BETWEEN_PROBES _ h1
    simp only [probe_start_descents] at z1
    simp [try_to_probe_fst, h, z1]
  · have z2 := try_to_probe_z cfg env zl cfg.z_probe_fast_mm_s sc
      cfg.Z_CLEARANCE_BETWEEN_PROBES _ h2
    simp only [probe_start_descents, tare_descents] at z2
    simp [try_to_probe_fst, h, z2]

theorem run_z_probe_double_value (cfg : Config) (env : Env) (sc : Bool) (s : Machine)
    (h2 : cfg.TOTAL_PROBING = 2) (hD : cfg.ANKER_PROBE_DETECT_TIMES = false)
    (hfast : rejected cfg sc s.offset.z cfg.Z_CLEARANCE_BETWEEN_PROBES
      (env.descent s.descents) = false)
    (hslow : rejected cfg sc s.offset.z cfg.Z_CLEARANCE_MULTI_PROBE
      (env.descent (s.descents + 1)) = false) :
    (run_z_probe cfg env sc s).1
      = if cfg.ANKER_PROBE_SET then some (env.descent (s.descents + 1)).stepper_z
        else some (((env.descent (s.descents + 1)).stepper_z * 3
          + (env.descent s.descents).stepper_z * 2) / 5) := by
  obtain ⟨f1, f2, f3⟩ := double_probe_first_ok cfg env sc (z_probe_low_point cfg s) s hfast
  have hA : detect_times_active cfg (some (env.descent s.descents).stepper_z) = false := by
    simp [detect_times_active, hD]
  have hok1 : rejected cfg sc
      (double_probe_first cfg env sc (z_probe_low_point cfg s) s).2.offset.z
      cfg.Z_CLEARANCE_MULTI_PROBE
      (env.descent (double_probe_first cfg env sc (z_probe_low_point cfg s) s).2.descents)
      = false := by rw [f2, f3]; exact hslow
  have e1 := slow_probe_fst_ok cfg env sc (z_probe_low_point cfg s)
    (some (env.descent s.descents).stepper_z) _ hA hok1
  have e2 := slow_probe_z cfg env sc (z_probe_low_point cfg s)
    (some (env.descent s.descents).stepper_z) _ hA hok1
  rw [f3] at e1 e2
  unfold run_z_probe
  simp only [h2, if_true]
  rw [pair_of_fst _ _ f1]
  simp only []
  rw [pair_of_fst _ _ e1]
  simp only [e2, Option.getD_some]
  split_ifs
  · rfl
  · norm_num
    ring

/-- C4, worked example: from Z = 30 the fast pre-descent runs first and stops
at 17 without a trigger being needed; the single slow descent resolves 5/2 and
that is the value returned. -/
theorem run_z_probe_single_witness :
    (loop_entry sampleConfig (sampleEnv [17, 5 / 2] 0)
        { sampleMachine with current_position := ⟨0, 0, 30⟩ }).descents = 1
      ∧ (run_z_probe sampleConfig (sampleEnv [17, 5 / 2] 0) true
        { sampleMachine with current_position := ⟨0, 0, 30⟩ }).1 = some (5 / 2) := by
  have e : (loop_entry sampleConfig (sampleEnv [17, 5 / 2] 0)
      { sampleMachine with current_position := ⟨0, 0, 30⟩ }).descents = 1 := by
    norm_num [loop_entry, fast_pre_descent, sampleConfig, sampleMachine, apply_ite Machine.descents]
  have h := run_z_probe_single sampleConfig (sampleEnv [17, 5 / 2] 0) true
    { sampleMachine with current_position := ⟨0, 0, 30⟩ } (by decide)
    (by
      apply sampleEnv_rejected _ rfl rfl rfl
      rw [e]
      norm_num [sampleMachine, sampleConfig])
  rw [e] at h
  exact ⟨e, by rw [h]; simp [sampleEnv]⟩

/-- C2.  Double-probe policy: with `TOTAL_PROBING = 2`, `ANKER_PROBE_DETECT_TIMES`
disabled, and the fast and the slow descent accepted, `run_z_probe` returns
`(s * 3 + f * 2) / 5` for the fast sample `f` and the slow sample `s` when
`ANKER_PROBE_SET` is disabled, and `s` itself when it is enabled. -/
theorem run_z_probe_double (cfg : Config) (env : Env) (sc : Bool) (s : Machine)
    (h2 : cfg.TOTAL_PROBING = 2) (hD : cfg.ANKER_PROBE_DETECT_TIMES = false)
    (hfast : rejected cfg sc s.offset.z cfg.Z_CLEARANCE_BETWEEN_PROBES
      (env.descent s.descents) = false)
    (hslow : rejected cfg sc s.offset.z cfg.Z_CLEARANCE_MULTI_PROBE
      (env.descent (s.descents + 1)) = false) :
    (run_z_probe cfg env sc s).1
      = if cfg.ANKER_PROBE_SET then some (env.descent (s.descents + 1)).stepper_z
        else some (((env.descent (s.descents + 1)).stepper_z * 3
          + (env.descent s.descents).stepper_z * 2) / 5) :=
  run_z_probe_double_value cfg env sc s h2 hD hfast hslow

theorem sample_double_accepted (cfg : Config) (hB : cfg.BLTOUCH_SLOW_MODE = false)
    (hD : cfg.DELTA = false) (h6 : cfg.Z_MIN_PROBE = 6) (cl : ℚ) (hcl : cl = 5) (k : ℕ) :
    rejected cfg true sampleMachine.offset.z cl ((sampleEnv [1, 4 / 5] 0).descent k)
      = false := by
  apply sampleEnv_rejected _ hB hD h6
  subst hcl
  have h : ([1, 4 / 5] : List ℚ).getD k 0 ≤ 1 := by
    rcases k with _ | _ | k <;> norm_num
  have e : -sampleMachine.offset.z + 5 = 7 := by norm_num [sampleMachine]
  rw [e]
  linarith

/-- C2, worked example: fast sample 1 and slow sample 4/5 give
`(4/5 * 3 + 1 * 2) / 5 = 22/25` with the weighted average, and 4/5 under
`ANKER_PROBE_SET`. -/
theorem run_z_probe_double_witness :
    (run_z_probe (sampleConfigN 2 0) (sampleEnv [1, 4 / 5] 0) true sampleMachine).1
        = some (22 / 25)
      ∧ (run_z_probe { sampleConfigN 2 0 with ANKER_PROBE_SET := true }
          (sampleEnv [1, 4 / 5] 0) true sampleMachine).1 = some (4 / 5) := by
  constructor
  · rw [run_z_probe_double (sampleConfigN 2 0) (sampleEnv [1, 4 / 5] 0) true sampleMachine
      (by decide) rfl (sample_double_accepted _ rfl rfl rfl _ rfl _)
      (sample_double_accepted _ rfl rfl rfl _ rfl _)]
    norm_num [sampleEnv, sampleMachine, sampleConfigN, sampleConfig]
  · rw [run_z_probe_double { sampleConfigN 2 0 with ANKER_PROBE_SET := true }
      (sampleEnv [1, 4 / 5] 0) true sampleMachine
      (by decide) rfl (sample_double_accepted _ rfl rfl rfl _ rfl _)
      (sample_double_accepted _ rfl rfl rfl _ rfl _)]
    norm_num [sampleEnv, sampleMachine, sampleConfigN, sampleConfig]

/-- C2 as stated fails in its worked value: fast sample 1.0 and slow sample
0.8 give `(0.8 * 3 + 1.0 * 2) / 5 = 0.88`, not 0.86. -/
theorem run_z_probe_double_counterexample :
    (sampleConfigN 2 0).TOTAL_PROBING = 2
      ∧ (sampleConfigN 2 0).ANKER_PROBE_DETECT_TIMES = false
      ∧ (sampleConfigN 2 0).ANKER_PROBE_SET = false
      ∧ ((sampleEnv [1.0, 0.8] 0).descent sampleMachine.descents).stepper_z = 1.0
      ∧ ((sampleEnv [1.0, 0.8] 0).descent (sampleMachine.descents + 1)).stepper_z = 0.8
      ∧ (run_z_probe (sampleConfigN 2 0) (sampleEnv [1.0, 0.8] 0) true sampleMachine).1
          = some 0.88
      ∧ (run_z_probe (sampleConfigN 2 0) (sampleEnv [1.0, 0.8] 0) true sampleMachine).1
          ≠ some 0.86 := by
  have e : ([1.0, 0.8] : List ℚ) = [1, 4 / 5] := by norm_num
  have h := run_z_probe_double_value (sampleConfigN 2 0) (sampleEnv [1, 4 / 5] 0) true
    sampleMachine (by decide) rfl (sample_double_accepted _ rfl rfl rfl _ rfl _)
    (sample_double_accepted _ rfl rfl rfl _ rfl _)
  rw [e, h]
  refine ⟨by decide, rfl, rfl, ?_, ?_, ?_, ?_⟩ <;>
    norm_num [sampleEnv, sampleMachine, sampleConfigN, sampleConfig]

/-! ## A failed descent aborts the measurement -/

theorem clean_nil (cfg : Config) (env : Env) (a : ℕ) : clean cfg env a a := by
  intro j h1 h2; omega

theorem clean_trans (cfg : Config) (env : Env) (a b c : ℕ) (h1 : clean cfg env a b)
    (h2 : clean cfg env b c) : clean cfg env a c := by
  intro j ha hc
  by_cases hb : j < b
  · exact h1 j ha hb
  · exact h2 j (by omega) hc

theorem clean_one (cfg : Config) (env : Env) (a : ℕ)
    (h : descent_fails cfg (env.descent a) = false) : clean cfg env a (a + 1) := by
  intro j h1 h2
  have : j = a := by omega
  rw [this]; exact h

theorem try_to_probe_clean (cfg : Config) (env : Env) (zl fr : ℚ) (sc : Bool) (cl : ℚ)
    (s : Machine) (h : (try_to_probe cfg env zl fr sc cl s).1 = false) :
    clean cfg env s.descents (try_to_probe cfg env zl fr sc cl s).2.descents := by
  rw [try_to_probe_fst] at h
  unfold rejected at h
  simp only [Bool.or_eq_false_iff] at h
  rw [try_to_probe_descents]
  exact clean_one cfg env _ h.1

@[simp] theorem do_blocking_move_to_xy_descents (x y fr : ℚ) (s : Machine) :
    (do_blocking_move_to_xy x y fr s).descents = s.descents := rfl

@[simp] theorem do_blocking_move_to_xy_offset (x y fr : ℚ) (s : Machine) :
    (do_blocking_move_to_xy x y fr s).offset = s.offset := rfl

@[simp] theorem set_buff_descents (s : Machine) (i : ℕ) (v : ℚ) :
    (s.set_buff i v).descents = s.descents := rfl

@[simp] theorem set_buff_offset (s : Machine) (i : ℕ) (v : ℚ) :
    (s.set_buff i v).offset = s.offset := rfl

@[simp] theorem set_buff_current_position (s : Machine) (i : ℕ) (v : ℚ) :
    (s.set_buff i v).current_position = s.current_position := rfl

theorem detect_times_loop_clean (cfg : Config) (env : Env) (sc : Bool) (zl : ℚ) :
    ∀ (fuel ta ic : ℕ) (f : ℚ) (s : Machine),
      (detect_times_loop cfg env sc zl fuel ta ic f s).1 ≠ Except.error NAN →
      clean cfg env s.descents (detect_times_loop cfg env sc zl fuel ta ic f s).2.descents := by
  intro fuel
  induction fuel with
  | zero => intro ta ic f s _; simp only [detect_times_loop]; exact clean_nil cfg env _
  | succ fuel ih =>
    intro ta ic f s h
    rw [detect_times_loop] at h ⊢
    simp only [] at h ⊢
    by_cases h4 : ta > 4
    · simp only [h4, if_true]; exact clean_nil cfg env _
    · simp only [h4, if_false] at h ⊢
      cases hp : (try_to_probe cfg env zl (MMM_TO_MMS cfg.Z_PROBE_FEEDRATE_SLOW) sc
          cfg.Z_CLEARANCE_MULTI_PROBE (probe_start cfg s)).1
      · have c1 := try_to_probe_clean cfg env zl _ sc _ _ hp
        simp only [probe_start_descents, try_to_probe_descents] at c1
        simp only [hp, Bool.false_eq_true, if_false] at h ⊢
        split_ifs at h ⊢ with hb hq
        · simpa using c1
        · exact absurd rfl h
        · have c2 := try_to_probe_clean cfg env zl _ sc _ _ (Bool.eq_false_iff.mpr hq)
          have c3 := ih _ _ _ _ h
          simp only [probe_start_descents, try_to_probe_descents, set_buff_descents,
            do_blocking_move_to_xy_descents, do_blocking_move_to_z_descents] at c2 c3 ⊢
          exact clean_trans cfg env _ _ _ c1 (clean_trans cfg env _ _ _ c2 c3)
      · simp only [hp, if_true] at h
        exact absurd rfl h

theorem detect_times_finish_descents (r : Except FloatQ (ℕ × ℕ × ℚ) × Machine) :
    (detect_times_finish r).2.descents = r.2.descents := by
  obtain ⟨r1, r2⟩ := r
  cases r1 with
  | error v => rfl
  | ok t =>
    obtain ⟨ta, ic, f1⟩ := t
    simp only [detect_times_finish]
    split_ifs <;> rfl

theorem detect_times_finish_nan (r : Except FloatQ (ℕ × ℕ × ℚ) × Machine)
    (h : (detect_times_finish r).1 ≠ Except.error NAN) : r.1 ≠ Except.error NAN := by
  obtain ⟨r1, r2⟩ := r
  cases r1 with
  | error v => simpa [detect_times_finish] using h
  | ok t => simp

theorem detect_times_probe_clean (cfg : Config) (env : Env) (sc : Bool) (zl f : ℚ)
    (s : Machine) (h : (detect_times_probe cfg env sc zl f s).1 ≠ Except.error NAN) :
    clean cfg env s.descents (detect_times_probe cfg env sc zl f s).2.descents := by
  unfold detect_times_probe at h ⊢
  rw [detect_times_finish_descents]
  exact detect_times_loop_clean cfg env sc zl 6 0 0 f (s.set_buff 0 f)
    (detect_times_finish_nan _ h)

theorem plain_attempt_clean (cfg : Config) (env : Env) (sc : Bool) (zl f : ℚ)
    (s : Machine) (h : (plain_attempt cfg env sc zl f s).1 ≠ Except.error NAN) :
    clean cfg env s.descents (plain_attempt cfg env sc zl f s).2.descents := by
  rw [plain_attempt_descents]
  rw [plain_attempt_fst] at h
  apply clean_one
  cases hr : rejected cfg sc s.offset.z cfg.Z_CLEARANCE_MULTI_PROBE (env.descent s.descents)
  · unfold rejected at hr
    simp only [Bool.or_eq_false_iff] at hr
    exact hr.1
  · rw [hr] at h
    exact absurd rfl h

theorem slow_finish_nan (cfg : Config) (r : Except FloatQ ℚ × Machine)
    (h : (slow_finish cfg r).1 ≠ Except.error NAN) : r.1 ≠ Except.error NAN := by
  obtain ⟨r1, r2⟩ := r
  cases r1 with
  | error v => simpa [slow_finish] using h
  | ok t => simp

theorem slow_probe_clean (cfg : Config) (env : Env) (sc : Bool) (zl : ℚ) (f : Option ℚ)
    (s : Machine) (h : (slow_probe cfg env sc zl f s).1 ≠ Except.error NAN) :
    clean cfg env s.descents (slow_probe cfg env sc zl f s).2.descents := by
  rw [slow_probe_eq] at h ⊢
  have c := congrArg Core.descents (slow_finish_core cfg
    (slow_attempt cfg env sc zl f (if cfg.PROBE_TARE then (tare s).2 else s)))
  simp only [Machine.core] at c
  rw [c]
  have h1 := slow_finish_nan cfg _ h
  have hd := tare_if_descents cfg.PROBE_TARE s
  generalize (if cfg.PROBE_TARE then (tare s).2 else s) = t at h1 hd ⊢
  rw [← hd]
  unfold slow_attempt at h1 ⊢
  split_ifs at h1 ⊢
  · exact detect_times_probe_clean cfg env sc zl (f.getD 0) _ h1
  · exact plain_attempt_clean cfg env sc zl (f.getD 0) _ h1

theorem plain_loop_clean (cfg : Config) (env : Env) (sc : Bool) (zl : ℚ) :
    ∀ (p : ℕ) (sum : ℚ) (s : Machine),
      (plain_loop cfg env sc zl p sum s).1 ≠ Except.error NAN →
      clean cfg env s.descents (plain_loop cfg env sc zl p sum s).2.descents := by
  intro p
  induction p with
  | zero => intro sum s _; exact clean_nil cfg env _
  | succ p ih =>
    intro sum s h
    have c := slow_probe_clean cfg env sc zl none s
    rw [plain_loop] at h ⊢
    generalize slow_probe cfg env sc zl none s = r at h c ⊢
    obtain ⟨r1, r2⟩ := r
    cases r1 with
    | error v => exact c (by simpa using h)
    | ok t =>
      obtain ⟨z, f1⟩ := t
      have c1 := c (by simp)
      simp only [] at h c1 ⊢
      have c2 := ih _ _ h
      refine clean_trans cfg env _ _ _ c1 ?_
      split_ifs at c2 ⊢ <;> simpa using c2

theorem trimmed_loop_clean (cfg : Config) (env : Env) (sc : Bool) (zl : ℚ) :
    ∀ (n p : ℕ) (probes : List ℚ) (s : Machine),
      (trimmed_loop cfg env sc zl n p probes s).1 ≠ Except.error NAN →
      clean cfg env s.descents (trimmed_loop cfg env sc zl n p probes s).2.descents := by
  intro n
  induction n with
  | zero => intro p probes s _; exact clean_nil cfg env _
  | succ n ih =>
    intro p probes s h
    have c := slow_probe_clean cfg env sc zl none s
    rw [trimmed_loop] at h ⊢
    generalize slow_probe cfg env sc zl none s = r at h c ⊢
    obtain ⟨r1, r2⟩ := r
    cases r1 with
    | error v => exact c (by simpa using h)
    | ok t =>
      obtain ⟨z, f1⟩ := t
      have c1 := c (by simp)
      simp only [] at h c1 ⊢
      have c2 := ih _ _ _ h
      refine clean_trans cfg env _ _ _ c1 ?_
      split_ifs at c2 ⊢ <;> simpa using c2

theorem double_probe_first_clean (cfg : Config) (env : Env) (sc : Bool) (zl : ℚ) (s : Machine)
    (h : (double_probe_first cfg env sc zl s).1 ≠ Except.error NAN) :
    clean cfg env s.descents (double_probe_first cfg env sc zl s).2.descents := by
  have key : ∀ t : Machine, t.descents = s.descents →
      (if (try_to_probe cfg env zl cfg.z_probe_fast_mm_s sc cfg.Z_CLEARANCE_BETWEEN_PROBES
            (probe_start cfg t)).1 = true then
          ((Except.error NAN : Except FloatQ ℚ), (try_to_probe cfg env zl cfg.z_probe_fast_mm_s
            sc cfg.Z_CLEARANCE_BETWEEN_PROBES (probe_start cfg t)).2)
        else
          (Except.ok (try_to_probe cfg env zl cfg.z_probe_fast_mm_s sc
              cfg.Z_CLEARANCE_BETWEEN_PROBES (probe_start cfg t)).2.current_position.z,
            do_blocking_move_to_z ((try_to_probe cfg env zl cfg.z_probe_fast_mm_s sc
              cfg.Z_CLEARANCE_BETWEEN_PROBES (probe_start cfg t)).2.current_position.z
                + cfg.Z_CLEARANCE_MULTI_PROBE) (raise_feedrate cfg)
              (try_to_probe cfg env zl cfg.z_probe_fast_mm_s sc cfg.Z_CLEARANCE_BETWEEN_PROBES
                (probe_start cfg t)).2)).1 ≠ Except.error NAN →
      clean cfg env s.descents
        (if (try_to_probe cfg env zl cfg.z_probe_fast_mm_s sc cfg.Z_CLEARANCE_BETWEEN_PROBES
            (probe_start cfg t)).1 = true then
          ((Except.error NAN : Except FloatQ ℚ), (try_to_probe cfg env zl cfg.z_probe_fast_mm_s
            sc cfg.Z_CLEARANCE_BETWEEN_PROBES (probe_start cfg t)).2)
        else
          (Except.ok (try_to_probe cfg env zl cfg.z_probe_fast_mm_s sc
              cfg.Z_CLEARANCE_BETWEEN_PROBES (probe_start cfg t)).2.current_position.z,
            do_blocking_move_to_z ((try_to_probe cfg env zl cfg.z_probe_fast_mm_s sc
              cfg.Z_CLEARANCE_BETWEEN_PROBES (probe_start cfg t)).2.current_position.z
                + cfg.Z_CLEARANCE_MULTI_PROBE) (raise_feedrate cfg)
              (try_to_probe cfg env zl cfg.z_probe_fast_mm_s sc cfg.Z_CLEARANCE_BETWEEN_PROBES
                (probe_start cfg t)).2)).2.descents := by
    intro t ht
    cases hp : (try_to_probe cfg env zl cfg.z_probe_fast_mm_s sc cfg.Z_CLEARANCE_BETWEEN_PROBES
        (probe_start cfg t)).1
    · have c1 := try_to_probe_clean cfg env zl _ sc _ _ hp
      simp only [probe_start_descents, ht] at c1
      intro _
      simpa using c1
    · intro h; exact absurd rfl h
  unfold double_probe_first at h ⊢
  cases hT : cfg.PROBE_TARE
  · simp only [hT, Bool.false_eq_true, if_false] at h ⊢
    exact key s rfl h
  · simp only [hT, if_true, tare_fst, Bool.false_eq_true, if_false] at h ⊢
    exact key (tare s).2 rfl h

theorem run_z_probe_clean (cfg : Config) (env : Env) (sc : Bool) (s : Machine)
    (h : (run_z_probe cfg env sc s).1 ≠ NAN) :
    clean cfg env (tried_from cfg env s) (run_z_probe cfg env sc s).2.descents := by
  unfold run_z_probe tried_from at *
  by_cases h2 : cfg.TOTAL_PROBING = 2
  · simp only [h2, if_true] at h ⊢
    have c := double_probe_first_clean cfg env sc (z_probe_low_point cfg s) s
    generalize double_probe_first cfg env sc (z_probe_low_point cfg s) s = r at h c ⊢
    obtain ⟨r1, r2⟩ := r
    cases r1 with
    | error v => exact c (by simpa using h)
    | ok f =>
      have c1 := c (by simp)
      simp only [] at h c1 ⊢
      have d := slow_probe_clean cfg env sc (z_probe_low_point cfg s) (some f) r2
      generalize slow_probe cfg env sc (z_probe_low_point cfg s) (some f) r2 = q at h d ⊢
      obtain ⟨q1, q2⟩ := q
      cases q1 with
      | error v => exact clean_trans cfg env _ _ _ c1 (d (by simpa using h))
      | ok t =>
        have d1 := d (by simp)
        simp only [] at h d1 ⊢
        split_ifs <;> exact clean_trans cfg env _ _ _ c1 d1
  · simp only [h2, if_false] at h ⊢
    by_cases hT : cfg.TOTAL_PROBING > 2
    · simp only [hT, if_true] at h ⊢
      by_cases hK : cfg.EXTRA_PROBING > 0
      · simp only [hK, if_true] at h ⊢
        have c := trimmed_loop_clean cfg env sc (z_probe_low_point cfg s) cfg.TOTAL_PROBING 0
          ((List.range cfg.TOTAL_PROBING).map env.probes_uninit) (loop_entry cfg env s)
        generalize trimmed_loop cfg env sc (z_probe_low_point cfg s) cfg.TOTAL_PROBING 0
          ((List.range cfg.TOTAL_PROBING).map env.probes_uninit) (loop_entry cfg env s) = r
          at h c ⊢
        obtain ⟨r1, r2⟩ := r
        cases r1 with
        | error v => exact c (by simpa using h)
        | ok f => exact c (by simp)
      · simp only [hK, if_false] at h ⊢
        have c := plain_loop_clean cfg env sc (z_probe_low_point cfg s)
          (toUInt8 cfg.TOTAL_PROBING) 0 (loop_entry cfg env s)
        generalize plain_loop cfg env sc (z_probe_low_point cfg s)
          (toUInt8 cfg.TOTAL_PROBING) 0 (loop_entry cfg env s) = r at h c ⊢
        obtain ⟨r1, r2⟩ := r
        cases r1 with
        | error v => exact c (by simpa using h)
        | ok f => exact c (by simp)
    · simp only [hT, if_false] at h ⊢
      have c := slow_probe_clean cfg env sc (z_probe_low_point cfg s) none
        (loop_entry cfg env s)
      generalize slow_probe cfg env sc (z_probe_low_point cfg s) none
        (loop_entry cfg env s) = r at h c ⊢
      obtain ⟨r1, r2⟩ := r
      cases r1 with
      | error v => exact c (by simpa using h)
      | ok f => exact c (by simp)

/-- C5 (amended).  For every estimator policy, if any descent made through
`try_to_probe` during a call of `run_z_probe` (the fast probe of the
double-probe policy and every slow or retry probe: the descents numbered from
`tried_from` up to the last one of the call) fails, the call returns NaN.  The
optional fast pre-descent is not among these descents. -/
theorem run_z_probe_failed_descent (cfg : Config) (env : Env) (sc : Bool) (s : Machine)
    (j : ℕ) (h1 : tried_from cfg env s ≤ j) (h2 : j < (run_z_probe cfg env sc s).2.descents)
    (hf : descent_fails cfg (env.descent j) = true) :
    (run_z_probe cfg env sc s).1 = NAN := by
  by_contra h
  have := run_z_probe_clean cfg env sc s h j h1 h2
  rw [this] at hf
  exact Bool.false_ne_true hf

theorem run_z_probe_single_descents (cfg : Config) (env : Env) (sc : Bool) (s : Machine)
    (h1 : cfg.TOTAL_PROBING = 1) :
    (run_z_probe cfg env sc s).2.descents = (loop_entry cfg env s).descents + 1 := by
  have d := slow_probe_descents cfg env sc (z_probe_low_point cfg s) none
    (loop_entry cfg env s) (by simp [detect_times_active])
  unfold run_z_probe
  simp only [h1, show ¬ (1 = 2) by decide, if_false, gt_iff_lt, show ¬ (2 < 1) by decide]
  generalize slow_probe cfg env sc (z_probe_low_point cfg s) none (loop_entry cfg env s) = r
    at d ⊢
  obtain ⟨r1, r2⟩ := r
  cases r1 <;> exact d

theorem sampleEnvFail_descent_fails (cfg : Config) (hD : cfg.DELTA = false)
    (h6 : cfg.Z_MIN_PROBE = 6) (samples : List ℚ) (rest : ℚ) (bad : ℕ) :
    descent_fails cfg ((sampleEnvFail samples rest bad).descent bad) = true := by
  simp [descent_fails, probe_triggered, sampleEnvFail, TEST, hD, h6]

theorem sampleEnvFail_rejected (cfg : Config) (hB : cfg.BLTOUCH_SLOW_MODE = false)
    (hD : cfg.DELTA = false) (h6 : cfg.Z_MIN_PROBE = 6) (samples : List ℚ) (rest : ℚ)
    (bad : ℕ) (sc : Bool) (oz cl : ℚ) (k : ℕ) (hk : k ≠ bad)
    (h : samples.getD k rest ≤ -oz + cl) :
    rejected cfg sc oz cl ((sampleEnvFail samples rest bad).descent k) = false := by
  have e : (sampleEnvFail samples rest bad).descent k = (sampleEnv samples rest).descent k := by
    simp [sampleEnvFail, sampleEnv, hk]
  rw [e]
  exact sampleEnv_rejected cfg hB hD h6 samples rest sc oz cl k h

/-- C5, worked example: in the single-probe policy started at Z = 10 (no fast
pre-descent), the slow descent reaches its target without a trigger and
`run_z_probe` returns NaN. -/
theorem run_z_probe_failed_descent_witness :
    descent_fails sampleConfig ((sampleEnvFail [5 / 2] 0 0).descent 0) = true
      ∧ (run_z_probe sampleConfig (sampleEnvFail [5 / 2] 0 0) true sampleMachine).1 = NAN :=
  ⟨sampleEnvFail_descent_fails _ rfl rfl _ _ _,
    run_z_probe_failed_descent sampleConfig (sampleEnvFail [5 / 2] 0 0) true sampleMachine 0
      (by
        unfold tried_from
        rw [sample_loop_entry _ _ rfl]
        simp [sampleMachine])
      (by
        rw [run_z_probe_single_descents _ _ _ _ (by decide), sample_loop_entry _ _ rfl]
        simp [sampleMachine])
      (sampleEnvFail_descent_fails _ rfl rfl _ _ _)⟩

/-- C5 as stated fails for the fast pre-descent: in the single-probe policy
started at Z = 30, the pre-descent (descent 0 of the call) reaches its target
without a trigger, `probe_down_to_z` reports failure, and `run_z_probe` goes on
to return the Z resolved by the slow descent, not NaN. -/
theorem run_z_probe_failed_descent_counterexample :
    (probe_down_to_z sampleConfig (sampleEnvFail [17, 5 / 2] 0 0) 17
        sampleConfig.z_probe_fast_mm_s
        { sampleMachine with current_position := ⟨0, 0, 30⟩ }).1 = true
      ∧ (loop_entry sampleConfig (sampleEnvFail [17, 5 / 2] 0 0)
          { sampleMachine with current_position := ⟨0, 0, 30⟩ }).descents
          = ({ sampleMachine with current_position := ⟨0, 0, 30⟩ } : Machine).descents + 1
      ∧ (run_z_probe sampleConfig (sampleEnvFail [17, 5 / 2] 0 0) true
          { sampleMachine with current_position := ⟨0, 0, 30⟩ }).1 = some (5 / 2)
      ∧ (run_z_probe sampleConfig (sampleEnvFail [17, 5 / 2] 0 0) true
          { sampleMachine with current_position := ⟨0, 0, 30⟩ }).1 ≠ NAN := by
  have e : (loop_entry sampleConfig (sampleEnvFail [17, 5 / 2] 0 0)
      { sampleMachine with current_position := ⟨0, 0, 30⟩ }).descents = 1 := by
    norm_num [loop_entry, fast_pre_descent, sampleConfig, sampleMachine,
      apply_ite Machine.descents]
  have h := run_z_probe_single_value sampleConfig (sampleEnvFail [17, 5 / 2] 0 0) true
    { sampleMachine with current_position := ⟨0, 0, 30⟩ } (by decide)
    (by
      rw [e]
      apply sampleEnvFail_rejected _ rfl rfl rfl _ _ _ _ _ _ _ (by decide)
      norm_num [sampleMachine, sampleConfig])
  rw [e] at h
  have hv : (sampleEnvFail [17, 5 / 2] 0 0).descent 1 = ⟨false, 64, 5 / 2, false⟩ := by
    simp [sampleEnvFail]
  rw [hv] at h
  refine ⟨?_, ?_, h, ?_⟩
  · rw [probe_down_to_z_fst]
    exact sampleEnvFail_descent_fails _ rfl rfl _ _ _
  · rw [e]; rfl
  · rw [h]; simp [NAN]

/-! ## The sorted insertion on the array `probes` -/

theorem getD_append_cons_length (A : List ℚ) (b : ℚ) (R : List ℚ) (d : ℚ) :
    (A ++ b :: R).getD A.length d = b := by
  rw [List.getD_append_right _ _ _ _ (le_refl _), Nat.sub_self, List.getD_cons_zero]

theorem set_append_cons_length (A : List ℚ) (b v : ℚ) (R : List ℚ) :
    (A ++ b :: R).set A.length v = A ++ v :: R := by
  rw [List.set_append_right _ _ (le_refl _), Nat.sub_self, List.set_cons_zero]

theorem slot_le (z : ℚ) (l : List ℚ) : slot z l ≤ l.length := by
  induction l with
  | nil => simp [slot]
  | cons b l ih =>
    unfold slot
    split_ifs
    · exact Nat.zero_le _
    · simpa using ih

theorem sorted_ins_eq (z : ℚ) (l : List ℚ) :
    sorted_ins z l = l.take (slot z l) ++ z :: l.drop (slot z l) := by
  induction l with
  | nil => simp [sorted_ins, slot]
  | cons b l ih =>
    unfold sorted_ins slot
    split_ifs
    · simp
    · simp [ih]

theorem find_slot_eq (z : ℚ) (R : List ℚ) :
    ∀ (B A : List ℚ) (n : ℕ), B.length + 1 ≤ n →
      find_slot (A ++ B ++ R) (A.length + B.length) z n A.length = A.length + slot z B := by
  intro B
  induction B with
  | nil =>
    intro A n hn
    obtain ⟨n, rfl⟩ : ∃ k, n = k + 1 := ⟨n - 1, by simp at hn; omega⟩
    simp [find_slot, slot]
  | cons b B ih =>
    intro A n hn
    obtain ⟨n, rfl⟩ : ∃ k, n = k + 1 := ⟨n - 1, by omega⟩
    have hg : (A ++ b :: B ++ R).getD A.length 0 = b := by
      rw [List.append_assoc, List.cons_append]
      exact getD_append_cons_length A b (B ++ R) 0
    have hne : ¬ (A.length = A.length + (b :: B).length) := by simp
    unfold find_slot slot
    rw [hg]
    by_cases hb : b > z
    · simp [hb]
    · have := ih (A ++ [b]) n (by simp at hn ⊢; omega)
      simp only [List.length_append, List.length_singleton, List.append_assoc,
        List.singleton_append] at this
      simp only [hb, decide_False, Bool.or_false, beq_iff_eq, hne, if_false,
        Bool.false_eq_true]
      rw [show A.length + (b :: B).length = A.length + 1 + B.length by simp; omega,
        List.append_assoc, List.cons_append]
      rw [List.cons_append] at this
      rw [this]
      omega

theorem toInt8_small (k : ℤ) (h1 : -128 ≤ k) (h2 : k ≤ 127) : toInt8 k = k := by
  unfold toInt8
  omega

theorem toInt8_pred (p : ℕ) (h : p ≤ 128) : toInt8 (toInt8 (p : ℤ) - 1) = (p : ℤ) - 1 := by
  unfold toInt8
  omega

theorem shift_items_eq (A : List ℚ) :
    ∀ (n : ℕ) (B : List ℚ) (x : ℚ) (C : List ℚ) (m : ℤ) (fuel : ℕ), B.length = n →
      toInt8 (m - 1) = ((A.length + n : ℕ) : ℤ) - 1 → A.length + n ≤ 128 → n + 1 ≤ fuel →
      shift_items A.length fuel m (A ++ B ++ x :: C) = A ++ (B.head?.getD x) :: B ++ C := by
  intro n
  induction n with
  | zero =>
    intro B x C m fuel hB hm _ hf
    obtain ⟨fuel, rfl⟩ : ∃ k, fuel = k + 1 := ⟨fuel - 1, by omega⟩
    rw [List.length_eq_zero] at hB
    subst hB
    unfold shift_items
    simp only [hm]
    have : ¬ (((A.length + 0 : ℕ) : ℤ) - 1 ≥ (A.length : ℤ)) := by push_cast; omega
    simp [this]
  | succ n ih =>
    intro B x C m fuel hB hm hle hf
    obtain ⟨fuel, rfl⟩ : ∃ k, fuel = k + 1 := ⟨fuel - 1, by omega⟩
    obtain ⟨B', b, rfl⟩ : ∃ B' b, B = B' ++ [b] := by
      rcases List.eq_nil_or_concat B with h | ⟨L, b, h⟩
      · subst h; simp at hB
      · exact ⟨L, b, by simpa using h⟩
    have hB' : B'.length = n := by simpa using hB
    unfold shift_items
    simp only [hm]
    have hge : ((A.length + (n + 1) : ℕ) : ℤ) - 1 ≥ (A.length : ℤ) := by push_cast; omega
    have e1 : (((A.length + (n + 1) : ℕ) : ℤ) - 1).toNat = (A ++ B').length := by
      simp only [List.length_append, hB']; omega
    have e2 : (((A.length + (n + 1) : ℕ) : ℤ) - 1 + 1).toNat = (A ++ B' ++ [b]).length := by
      simp only [List.length_append, hB', List.length_singleton]; omega
    simp only [hge, if_true]
    rw [e1, e2]
    have g : (A ++ (B' ++ [b]) ++ x :: C).getD (A ++ B').length 0 = b := by
      rw [show A ++ (B' ++ [b]) ++ x :: C = (A ++ B') ++ b :: (x :: C) by simp]
      exact getD_append_cons_length _ _ _ _
    rw [g]
    rw [show A ++ (B' ++ [b]) ++ x :: C = (A ++ B' ++ [b]) ++ x :: C by simp,
      set_append_cons_length]
    rw [show A ++ B' ++ [b] ++ b :: C = A ++ B' ++ b :: (b :: C) by simp]
    rw [ih B' b (b :: C) _ fuel hB' (by
        rw [toInt8_small]
        · push_cast; ring
        · push_cast; omega
        · push_cast; omega) (by omega) (by omega)]
    cases B' with
    | nil => simp
    | cons c B'' => simp

theorem insert_sample_eq (A : List ℚ) (x : ℚ) (C : List ℚ) (z : ℚ) (h : A.length ≤ 128) :
    insert_sample (A ++ x :: C) A.length z = sorted_ins z A ++ C := by
  unfold insert_sample
  have hs := find_slot_eq z (x :: C) A [] (A.length + 1) (le_refl _)
  simp only [List.nil_append, List.length_nil, Nat.zero_add] at hs
  simp only [hs]
  have hle := slot_le z A
  have hA : A = A.take (slot z A) ++ A.drop (slot z A) := (List.take_append_drop _ _).symm
  have hl : (A.take (slot z A)).length = slot z A := by
    rw [List.length_take]; omega
  have e := shift_items_eq (A.take (slot z A)) (A.drop (slot z A)).length (A.drop (slot z A)) x C
    (toInt8 (A.length : ℤ)) 256 rfl
    (by
      rw [toInt8_pred _ h, hl, List.length_drop]
      congr 2; omega)
    (by rw [hl, List.length_drop]; omega)
    (by rw [List.length_drop]; omega)
  rw [hl, ← hA] at e
  rw [e, sorted_ins_eq]
  have := set_append_cons_length (A.take (slot z A))
    ((A.drop (slot z A)).head?.getD x) z (A.drop (slot z A) ++ C)
  rw [hl] at this
  simp only [List.append_assoc, List.cons_append] at this ⊢
  exact this

theorem sorted_ins_length (z : ℚ) (l : List ℚ) : (sorted_ins z l).length = l.length + 1 := by
  induction l with
  | nil => simp [sorted_ins]
  | cons b l ih =>
    unfold sorted_ins
    split_ifs <;> simp [ih]

theorem sorted_ins_perm (z : ℚ) (l : List ℚ) : (sorted_ins z l).Perm (z :: l) := by
  induction l with
  | nil => simp [sorted_ins]
  | cons b l ih =>
    unfold sorted_ins
    split_ifs
    · exact List.Perm.refl _
    · exact (List.Perm.cons b ih).trans (List.Perm.swap z b l)

theorem sorted_ins_sorted (z : ℚ) (l : List ℚ) (h : l.Sorted (· ≤ ·)) :
    (sorted_ins z l).Sorted (· ≤ ·) := by
  induction l with
  | nil => simp [sorted_ins]
  | cons b l ih =>
    unfold sorted_ins
    rw [List.sorted_cons] at h
    split_ifs with hb
    · rw [List.sorted_cons]
      refine ⟨?_, List.sorted_cons.mpr h⟩
      intro y hy
      rcases List.mem_cons.mp hy with rfl | hy
      · exact le_of_lt hb
      · exact le_trans (le_of_lt hb) (h.1 y hy)
    · rw [List.sorted_cons]
      refine ⟨?_, ih h.2⟩
      intro y hy
      rcases List.mem_cons.mp ((sorted_ins_perm z l).subset hy) with rfl | hy
      · exact not_lt.mp hb
      · exact h.1 y hy

theorem insert_all_eq :
    ∀ (zs S R : List ℚ), zs.length ≤ R.length → S.length + zs.length ≤ 129 →
      insert_all (S ++ R) S.length zs
        = zs.foldl (fun acc z => sorted_ins z acc) S ++ R.drop zs.length := by
  intro zs
  induction zs with
  | nil => intro S R _ _; simp [insert_all]
  | cons z zs ih =>
    intro S R hR hS
    obtain ⟨x, R', rfl⟩ : ∃ x R', R = x :: R' := by
      cases R with
      | nil => simp at hR
      | cons x R' => exact ⟨x, R', rfl⟩
    simp only [List.length_cons] at hR hS
    unfold insert_all
    rw [insert_sample_eq S x R' z (by omega)]
    have := ih (sorted_ins z S) R' (by omega) (by rw [sorted_ins_length]; omega)
    rw [sorted_ins_length] at this
    rw [this]
    simp

theorem foldl_sorted_ins_sorted (zs : List ℚ) :
    ∀ S : List ℚ, S.Sorted (· ≤ ·) →
      (zs.foldl (fun acc z => sorted_ins z acc) S).Sorted (· ≤ ·) := by
  induction zs with
  | nil => intro S h; simpa using h
  | cons z zs ih => intro S h; exact ih _ (sorted_ins_sorted z S h)

theorem foldl_sorted_ins_perm (zs : List ℚ) :
    ∀ S : List ℚ, (zs.foldl (fun acc z => sorted_ins z acc) S).Perm (zs ++ S) := by
  induction zs with
  | nil => intro S; simp
  | cons z zs ih =>
    intro S
    refine (ih (sorted_ins z S)).trans ?_
    refine ((sorted_ins_perm z S).append_left zs).trans ?_
    simp

theorem foldl_sorted_ins_eq (zs : List ℚ) :
    zs.foldl (fun acc z => sorted_ins z acc) [] = zs.insertionSort (· ≤ ·) := by
  apply List.eq_of_perm_of_sorted (r := (· ≤ ·))
  · refine (foldl_sorted_ins_perm zs []).trans ?_
    rw [List.append_nil]
    exact (List.perm_insertionSort _ zs).symm
  · exact foldl_sorted_ins_sorted zs [] List.sorted_nil
  · exact List.sorted_insertionSort _ zs

theorem insert_all_sorted (init zs : List ℚ) (h1 : init.length = zs.length)
    (h2 : zs.length ≤ 129) :
    insert_all init 0 zs = zs.insertionSort (· ≤ ·) := by
  have := insert_all_eq zs [] init (by omega) (by simpa using h2)
  simp only [List.nil_append, List.length_nil] at this
  rw [this, foldl_sorted_ins_eq, List.drop_of_length_le (by omega), List.append_nil]

theorem trimmed_loop_ok (cfg : Config) (env : Env) (sc : Bool) (zl : ℚ) (oz : ℚ) :
    ∀ (n p : ℕ) (probes : List ℚ) (s : Machine), s.offset.z = oz →
      (∀ k, k < n → rejected cfg sc oz cfg.Z_CLEARANCE_MULTI_PROBE
        (env.descent (s.descents + k)) = false) →
      (trimmed_loop cfg env sc zl n p probes s).1
          = Except.ok (insert_all probes p (resolved env s.descents n))
        ∧ (trimmed_loop cfg env sc zl n p probes s).2.descents = s.descents + n := by
  intro n
  induction n with
  | zero => intro p probes s _ _; simp [trimmed_loop, resolved, insert_all]
  | succ n ih =>
    intro p probes s ho h
    have hD : detect_times_active cfg none = false := by simp [detect_times_active]
    have h0 : rejected cfg sc s.offset.z cfg.Z_CLEARANCE_MULTI_PROBE
        (env.descent s.descents) = false := by simpa [ho] using h 0 (Nat.succ_pos n)
    have e1 := slow_probe_fst_ok cfg env sc zl none s hD h0
    have e2 := slow_probe_descents cfg env sc zl none s hD
    have e3 := slow_probe_offset cfg env sc zl none s hD
    unfold trimmed_loop
    rw [pair_of_fst _ _ e1]
    simp only []
    set s2 := (if p < cfg.TOTAL_PROBING - 1 then
        do_blocking_move_to_z ((env.descent s.descents).stepper_z + cfg.Z_CLEARANCE_MULTI_PROBE)
          cfg.z_probe_fast_mm_s (slow_probe cfg env sc zl none s).2
      else (slow_probe cfg env sc zl none s).2) with hs2
    have d2 : s2.descents = s.descents + 1 := by
      rw [hs2]; split_ifs <;> simp [e2]
    have o2 : s2.offset.z = oz := by
      rw [hs2]; split_ifs <;> simp [e3, ho]
    have hk : ∀ k, k < n → rejected cfg sc oz cfg.Z_CLEARANCE_MULTI_PROBE
        (env.descent (s2.descents + k)) = false := by
      intro k hk
      have := h (k + 1) (Nat.succ_lt_succ hk)
      rw [d2]
      rwa [show s.descents + 1 + k = s.descents + (k + 1) by omega]
    obtain ⟨r1, r2⟩ := ih (p + 1) (insert_sample probes p (env.descent s.descents).stepper_z)
      s2 o2 hk
    refine ⟨?_, ?_⟩
    · rw [r1, resolved_succ, d2]; rfl
    · rw [r2, d2]; omega

/-! ## The trimming loop against the specification -/

theorem ABS_eq_abs (v : ℚ) : ABS v = |v| := by
  unfold ABS
  split_ifs with h
  · exact (abs_of_neg h).symm
  · exact (abs_of_nonneg (not_lt.mp h)).symm

theorem window_length (S : List ℚ) (a b : ℕ) (hb : b < S.length) :
    (window S a b).length = b + 1 - a := by
  unfold window
  rw [List.length_take, List.length_drop]
  omega

theorem window_head (S : List ℚ) (a b : ℕ) (hab : a ≤ b) (hb : b < S.length) :
    (window S a b).head? = some (S.getD a 0) := by
  unfold window
  rw [List.head?_take, if_neg (by omega), List.head?_drop, List.getD_eq_getElem?_getD,
    List.getElem?_eq_getElem (by omega)]
  rfl

theorem window_last (S : List ℚ) (a b : ℕ) (hab : a ≤ b) (hb : b < S.length) :
    (window S a b).getLast? = some (S.getD b 0) := by
  unfold window
  rw [List.getLast?_take, if_neg (by omega), List.getElem?_drop,
    show a + (b + 1 - a - 1) = b by omega, List.getD_eq_getElem?_getD,
    List.getElem?_eq_getElem hb]
  rfl

theorem window_tail (S : List ℚ) (a b : ℕ) (hab : a ≤ b) :
    (window S a b).tail = window S (a + 1) b := by
  unfold window
  rw [show b + 1 - a = (b + 1 - (a + 1)) + 1 by omega, ← List.drop_one, List.drop_take,
    List.drop_drop]
  simp [Nat.add_comm]

theorem window_dropLast (S : List ℚ) (a b : ℕ) (hab : a < b) (hb : b < S.length) :
    (window S a b).dropLast = window S a (b - 1) := by
  unfold window
  rw [List.dropLast_eq_take, List.take_take, List.length_take, List.length_drop]
  congr 1
  omega

theorem window_full (S : List ℚ) (h : 0 < S.length) : window S 0 (S.length - 1) = S := by
  unfold window
  rw [List.drop_zero, show S.length - 1 + 1 - 0 = S.length by omega, List.take_length]

theorem spec_trim_step_window (S : List ℚ) (m : ℚ) (a b : ℕ) (hab : a < b)
    (hb : b < S.length) :
    spec_trim_step m (window S a b)
      = if |S.getD b 0 - m| > |S.getD a 0 - m| then window S a (b - 1)
        else window S (a + 1) b := by
  unfold spec_trim_step
  rw [window_head S a b (le_of_lt hab) hb, window_last S a b (le_of_lt hab) hb]
  simp only []
  rw [window_dropLast S a b hab hb, window_tail S a b (le_of_lt hab)]

theorem trim_loop_eq (S : List ℚ) (m : ℚ) :
    ∀ (n a b : ℕ), a + n ≤ b → b < S.length → b ≤ 255 →
      window S (trim_loop S m n a b).1 (trim_loop S m n a b).2 = spec_trim m n (window S a b)
        ∧ (trim_loop S m n a b).1 ≤ (trim_loop S m n a b).2
        ∧ (trim_loop S m n a b).2 < S.length := by
  intro n
  induction n with
  | zero => intro a b hab hb _; exact ⟨rfl, by simpa [trim_loop] using hab, by simpa [trim_loop] using hb⟩
  | succ n ih =>
    intro a b hab hb h255
    unfold trim_loop spec_trim
    rw [spec_trim_step_window S m a b (by omega) hb, ABS_eq_abs, ABS_eq_abs]
    have u1 : toUInt8 ((b : ℤ) - 1) = b - 1 := by unfold toUInt8; omega
    have u2 : toUInt8 ((a : ℤ) + 1) = a + 1 := by unfold toUInt8; omega
    rw [u1, u2]
    split_ifs
    · exact ih a (b - 1) (by omega) (by omega) (by omega)
    · exact ih (a + 1) b (by omega) hb h255

theorem sum_range_eq (S : List ℚ) (a b : ℕ) :
    sum_range S a b 0 = (window S a b).sum := by
  unfold sum_range window
  generalize b + 1 - a = n
  have key : ∀ (k : ℕ) (acc : ℚ),
      (List.range k).foldl (fun acc k => acc + S.getD (a + k) 0) acc
        = acc + ((S.drop a).take k).sum := by
    intro k
    induction k with
    | zero => intro acc; simp
    | succ k ih =>
      intro acc
      rw [List.range_succ, List.foldl_append, ih]
      simp only [List.foldl_cons, List.foldl_nil]
      rw [List.take_succ, List.sum_append, add_assoc]
      congr 2
      rw [List.getD_eq_getElem?_getD, List.getElem?_drop]
      cases h : S[a + k]? <;> simp
  rw [key, zero_add]

theorem probes_median_eq (cfg : Config) (samples : List ℚ)
    (h : samples.length = cfg.TOTAL_PROBING) (hT : 2 < cfg.TOTAL_PROBING) :
    probes_median cfg (samples.insertionSort (· ≤ ·)) = spec_median samples := by
  unfold probes_median spec_median
  simp only [List.length_insertionSort, h]
  by_cases hodd : cfg.TOTAL_PROBING % 2 = 1
  · simp only [hodd, if_true]
    congr 1
    omega
  · simp only [hodd, if_false]
    rw [show (cfg.TOTAL_PROBING - 1) / 2 + 1 = cfg.TOTAL_PROBING / 2 by omega,
      show (cfg.TOTAL_PROBING - 1) / 2 = cfg.TOTAL_PROBING / 2 - 1 by omega]
    norm_num
    ring

theorem sorted_bounds (l : List ℚ) (hs : l.Sorted (· ≤ ·)) (lo hi : ℚ)
    (h1 : l.head? = some lo) (h2 : l.getLast? = some hi) :
    ∀ x ∈ l, lo ≤ x ∧ x ≤ hi := by
  intro x hx
  constructor
  · cases l with
    | nil => simp at h1
    | cons b t =>
      simp only [List.head?_cons, Option.some.injEq] at h1
      subst h1
      rcases List.mem_cons.mp hx with rfl | hx
      · exact le_refl _
      · exact (List.sorted_cons.mp hs).1 x hx
  · have e := List.dropLast_append_getLast? hi (by simpa using h2)
    rw [← e] at hs hx
    rcases List.mem_append.mp hx with hx | hx
    · exact (List.pairwise_append.mp hs).2.2 x hx hi (by simp)
    · simp only [List.mem_singleton] at hx
      rw [hx]

theorem far_of_bounds (m lo hi x : ℚ) (h1 : lo ≤ x) (h2 : x ≤ hi) :
    |x - m| ≤ max |lo - m| |hi - m| := by
  rcases le_total x m with hx | hx
  · apply le_trans _ (le_max_left _ _)
    rw [abs_of_nonpos (by linarith), abs_of_nonpos (by linarith)]
    linarith
  · apply le_trans _ (le_max_right _ _)
    rw [abs_of_nonneg (by linarith), abs_of_nonneg (by linarith)]
    linarith

theorem spec_trim_step_spec (m : ℚ) (l : List ℚ) (hs : l.Sorted (· ≤ ·)) (hl : 0 < l.length) :
    ∃ e, (e :: spec_trim_step m l).Perm l ∧ (spec_trim_step m l).Sorted (· ≤ ·)
      ∧ (spec_trim_step m l).length = l.length - 1 ∧ ∀ x ∈ l, |x - m| ≤ |e - m| := by
  obtain ⟨lo, h1⟩ : ∃ lo, l.head? = some lo := by
    cases l with
    | nil => simp at hl
    | cons b t => exact ⟨b, rfl⟩
  obtain ⟨hi, h2⟩ : ∃ hi, l.getLast? = some hi := by
    cases h : l.getLast? with
    | none => rw [List.getLast?_eq_none_iff] at h; subst h; simp at hl
    | some hi => exact ⟨hi, rfl⟩
  have hb := sorted_bounds l hs lo hi h1 h2
  unfold spec_trim_step
  rw [h1, h2]
  simp only []
  split_ifs with hc
  · refine ⟨hi, ?_, ?_, by simp, ?_⟩
    · have e := List.dropLast_append_getLast? hi (by simpa using h2)
      calc (hi :: l.dropLast).Perm (l.dropLast ++ [hi]) := (List.perm_append_singleton _ _).symm
        _ = l := e
    · exact hs.sublist (List.dropLast_sublist l)
    · intro x hx
      have := far_of_bounds m lo hi x (hb x hx).1 (hb x hx).2
      rwa [max_eq_right (le_of_lt hc)] at this
  · refine ⟨lo, ?_, ?_, by simp, ?_⟩
    · cases l with
      | nil => simp at hl
      | cons b t =>
        simp only [List.head?_cons, Option.some.injEq] at h1
        subst h1
        simp
    · exact hs.sublist (List.tail_sublist l)
    · intro x hx
      have := far_of_bounds m lo hi x (hb x hx).1 (hb x hx).2
      rwa [max_eq_left (not_lt.mp hc)] at this

theorem spec_trim_spec (m : ℚ) :
    ∀ (K : ℕ) (l : List ℚ), l.Sorted (· ≤ ·) → K ≤ l.length →
      (spec_trim m K l).length = l.length - K
        ∧ ∃ removed : List ℚ, removed.length = K ∧ (spec_trim m K l ++ removed).Perm l
          ∧ ∀ r ∈ removed, ∀ x ∈ spec_trim m K l, |x - m| ≤ |r - m| := by
  intro K
  induction K with
  | zero => intro l _ _; exact ⟨rfl, [], rfl, by simp [spec_trim], by simp⟩
  | succ K ih =>
    intro l hs hK
    obtain ⟨e, p1, s1, l1, f1⟩ := spec_trim_step_spec m l hs (by omega)
    obtain ⟨l2, removed, r1, p2, f2⟩ := ih (spec_trim_step m l) s1 (by omega)
    unfold spec_trim
    refine ⟨by omega, e :: removed, by simp [r1], ?_, ?_⟩
    · exact (List.perm_middle.trans (List.Perm.cons e p2)).trans p1
    · intro r hr x hx
      rcases List.mem_cons.mp hr with rfl | hr
      · apply f1
        have : x ∈ spec_trim_step m l := p2.subset (List.mem_append_left _ hx)
        exact p1.subset (List.mem_cons_of_mem _ this)
      · exact f2 r hr x hx

theorem trimmed_mean_eq (cfg : Config) (samples : List ℚ)
    (h : samples.length = cfg.TOTAL_PROBING) (hT : 2 < cfg.TOTAL_PROBING)
    (hT255 : cfg.TOTAL_PROBING ≤ 255) (hM : 0 < cfg.MULTIPLE_PROBING) :
    trimmed_mean cfg (samples.insertionSort (· ≤ ·))
      = spec_trimmed_mean cfg.EXTRA_PROBING samples := by
  have hKT : cfg.EXTRA_PROBING + cfg.MULTIPLE_PROBING = cfg.TOTAL_PROBING := by
    unfold Config.TOTAL_PROBING; omega
  have hS : (samples.insertionSort (· ≤ ·)).length = cfg.TOTAL_PROBING := by
    rw [List.length_insertionSort, h]
  unfold trimmed_mean spec_trimmed_mean spec_retained
  simp only []
  rw [probes_median_eq cfg samples h hT]
  have u1 : toUInt8 (cfg.EXTRA_PROBING : ℤ) = cfg.EXTRA_PROBING := by unfold toUInt8; omega
  have u2 : toUInt8 ((cfg.TOTAL_PROBING : ℤ) - 1) = cfg.TOTAL_PROBING - 1 := by
    unfold toUInt8; omega
  rw [u1, u2]
  obtain ⟨w, -, -⟩ := trim_loop_eq (samples.insertionSort (· ≤ ·)) (spec_median samples)
    cfg.EXTRA_PROBING 0 (cfg.TOTAL_PROBING - 1) (by omega) (by omega) (by omega)
  rw [sum_range_eq, w]
  have hw : window (samples.insertionSort (· ≤ ·)) 0 (cfg.TOTAL_PROBING - 1)
      = samples.insertionSort (· ≤ ·) := by
    rw [← hS]; exact window_full _ (by omega)
  rw [hw]
  have hl := (spec_trim_spec (spec_median samples) cfg.EXTRA_PROBING
    (samples.insertionSort (· ≤ ·)) (List.sorted_insertionSort _ _) (by omega)).1
  rw [hl, hS, show cfg.TOTAL_PROBING - cfg.EXTRA_PROBING = cfg.MULTIPLE_PROBING by omega]
  unfold RECIPROCAL
  push_cast
  ring

theorem run_z_probe_trimmed_value (cfg : Config) (env : Env) (sc : Bool) (s : Machine)
    (hT : 2 < cfg.TOTAL_PROBING) (hT129 : cfg.TOTAL_PROBING ≤ 129)
    (hK : 0 < cfg.EXTRA_PROBING) (hKT : cfg.EXTRA_PROBING < cfg.TOTAL_PROBING)
    (hok : ∀ k, k < cfg.TOTAL_PROBING →
      rejected cfg sc s.offset.z cfg.Z_CLEARANCE_MULTI_PROBE
        (env.descent ((loop_entry cfg env s).descents + k)) = false) :
    (run_z_probe cfg env sc s).1
      = some (spec_trimmed_mean cfg.EXTRA_PROBING
          (resolved env (loop_entry cfg env s).descents cfg.TOTAL_PROBING)) := by
  have hM : 0 < cfg.MULTIPLE_PROBING := by
    unfold Config.TOTAL_PROBING at hKT; omega
  obtain ⟨r1, -⟩ := trimmed_loop_ok cfg env sc (z_probe_low_point cfg s) s.offset.z
    cfg.TOTAL_PROBING 0 ((List.range cfg.TOTAL_PROBING).map env.probes_uninit)
    (loop_entry cfg env s) (by simp) hok
  rw [insert_all_sorted _ _ (by simp [resolved_length]) (by rw [resolved_length]; exact hT129)]
    at r1
  unfold run_z_probe
  simp only [show ¬ cfg.TOTAL_PROBING = 2 by omega, if_false, gt_iff_lt, hT, if_true, hK]
  rw [pair_of_fst _ _ r1]
  simp only []
  rw [trimmed_mean_eq cfg _ (resolved_length _ _ _) hT (by omega) hM]

/-- C1 (amended).  Trimmed-mean policy: with `TOTAL_PROBING = T`, `2 < T ≤ 129`,
`EXTRA_PROBING = K`, `0 < K < T`, and all `T` slow descents accepted,
`run_z_probe` returns the arithmetic mean of the `T - K` samples that remain
after `K` trim steps on the sorted samples, each step removing whichever of the
lowest and highest remaining sample is farther from the median of all `T`
samples, the lowest on a tie; and every removed sample is at least as far from
the median as every retained one. -/
theorem run_z_probe_trimmed_mean (cfg : Config) (env : Env) (sc : Bool) (s : Machine)
    (hT : 2 < cfg.TOTAL_PROBING) (hT129 : cfg.TOTAL_PROBING ≤ 129)
    (hK : 0 < cfg.EXTRA_PROBING) (hKT : cfg.EXTRA_PROBING < cfg.TOTAL_PROBING)
    (hok : ∀ k, k < cfg.TOTAL_PROBING →
      rejected cfg sc s.offset.z cfg.Z_CLEARANCE_MULTI_PROBE
        (env.descent ((loop_entry cfg env s).descents + k)) = false) :
    (run_z_probe cfg env sc s).1
        = some (spec_trimmed_mean cfg.EXTRA_PROBING
            (resolved env (loop_entry cfg env s).descents cfg.TOTAL_PROBING))
      ∧ (spec_retained cfg.EXTRA_PROBING
          (resolved env (loop_entry cfg env s).descents cfg.TOTAL_PROBING)).length
          = cfg.TOTAL_PROBING - cfg.EXTRA_PROBING
      ∧ ∃ removed : List ℚ, removed.length = cfg.EXTRA_PROBING
        ∧ (spec_retained cfg.EXTRA_PROBING
            (resolved env (loop_entry cfg env s).descents cfg.TOTAL_PROBING) ++ removed).Perm
            (resolved env (loop_entry cfg env s).descents cfg.TOTAL_PROBING)
        ∧ ∀ r ∈ removed, ∀ x ∈ spec_retained cfg.EXTRA_PROBING
            (resolved env (loop_entry cfg env s).descents cfg.TOTAL_PROBING),
          |x - spec_median (resolved env (loop_entry cfg env s).descents cfg.TOTAL_PROBING)|
            ≤ |r - spec_median
                (resolved env (loop_entry cfg env s).descents cfg.TOTAL_PROBING)| := by
  refine ⟨run_z_probe_trimmed_value cfg env sc s hT hT129 hK hKT hok, ?_⟩
  obtain ⟨l1, removed, r1, p1, f1⟩ := spec_trim_spec
    (spec_median (resolved env (loop_entry cfg env s).descents cfg.TOTAL_PROBING))
    cfg.EXTRA_PROBING
    ((resolved env (loop_entry cfg env s).descents cfg.TOTAL_PROBING).insertionSort (· ≤ ·))
    (List.sorted_insertionSort _ _)
    (by rw [List.length_insertionSort, resolved_length]; omega)
  rw [List.length_insertionSort, resolved_length] at l1
  exact ⟨l1, removed, r1, p1.trans (List.perm_insertionSort _ _), f1⟩

theorem resolved_sampleEnv (samples : List ℚ) (rest : ℚ) (n : ℕ) :
    resolved (sampleEnv samples rest) 0 n = (List.range n).map (fun k => samples.getD k rest) := by
  unfold resolved sampleEnv
  simp

theorem sample_sorted_five :
    ([201 / 100, 2, 99 / 50, 5 / 2, 101 / 50] : List ℚ).insertionSort (· ≤ ·)
      = [99 / 50, 2, 201 / 100, 101 / 50, 5 / 2] := by
  norm_num [List.insertionSort, List.orderedInsert]

theorem sample_median_five :
    spec_median [201 / 100, 2, 99 / 50, 5 / 2, 101 / 50] = 201 / 100 := by
  unfold spec_median
  rw [sample_sorted_five]
  norm_num

theorem sample_retained_five :
    spec_retained 2 [201 / 100, 2, 99 / 50, 5 / 2, 101 / 50] = [2, 201 / 100, 101 / 50] := by
  unfold spec_retained
  rw [sample_sorted_five, sample_median_five]
  norm_num [spec_trim, spec_trim_step, abs_of_nonneg, abs_of_nonpos]

/-- C1, worked example: `T = 5`, `K = 2` and the samples 2.01, 2.00, 1.98,
2.50, 2.02 give the median 2.01, the retained samples 2.00, 2.01, 2.02 and the
result 2.01. -/
theorem run_z_probe_trimmed_mean_witness :
    (run_z_probe (sampleConfigN 3 2) (sampleEnv [2.01, 2.00, 1.98, 2.50, 2.02] 0) true
        sampleMachine).1 = some 2.01
      ∧ spec_median [2.01, 2.00, 1.98, 2.50, 2.02] = 2.01
      ∧ spec_retained 2 [2.01, 2.00, 1.98, 2.50, 2.02] = [2.00, 2.01, 2.02] := by
  have e : ([2.01, 2.00, 1.98, 2.50, 2.02] : List ℚ)
      = [201 / 100, 2, 99 / 50, 5 / 2, 101 / 50] := by norm_num
  have e2 : ([2.00, 2.01, 2.02] : List ℚ) = [2, 201 / 100, 101 / 50] := by norm_num
  have e3 : (2.01 : ℚ) = 201 / 100 := by norm_num
  rw [e, e2, e3]
  have h := (run_z_probe_trimmed_mean (sampleConfigN 3 2)
    (sampleEnv [201 / 100, 2, 99 / 50, 5 / 2, 101 / 50] 0) true sampleMachine
    (by decide) (by decide) (by decide) (by decide)
    (by
      intro k hk
      apply sampleEnv_rejected _ rfl rfl rfl
      have hk5 : k < 5 := hk
      rw [sample_loop_entry _ _ rfl]
      interval_cases k <;> norm_num [sampleMachine, sampleConfigN, sampleConfig])).1
  rw [sample_loop_entry _ _ rfl] at h
  have hr : resolved (sampleEnv [201 / 100, 2, 99 / 50, 5 / 2, 101 / 50] 0)
      sampleMachine.descents (sampleConfigN 3 2).TOTAL_PROBING
      = [201 / 100, 2, 99 / 50, 5 / 2, 101 / 50] := by
    rw [show sampleMachine.descents = 0 from rfl,
      show (sampleConfigN 3 2).TOTAL_PROBING = 5 from rfl, resolved_sampleEnv]
    simp [List.range_succ]
  rw [hr] at h
  refine ⟨?_, sample_median_five, sample_retained_five⟩
  rw [h, show (sampleConfigN 3 2).EXTRA_PROBING = 2 from rfl]
  unfold spec_trimmed_mean
  rw [sample_retained_five]
  norm_num

/-! ## The trimmed mean beyond the range of the `int8_t` shift index -/

theorem insert_all_append (A : List ℚ) :
    ∀ (P : List ℚ) (p : ℕ) (B : List ℚ),
      insert_all P p (A ++ B) = insert_all (insert_all P p A) (p + A.length) B := by
  induction A with
  | nil => intro P p B; simp [insert_all]
  | cons a A ih =>
    intro P p B
    show insert_all (insert_sample P p a) (p + 1) (A ++ B)
      = insert_all (insert_all (insert_sample P p a) (p + 1) A) (p + (A.length + 1)) B
    rw [ih]
    congr 1
    omega

theorem getD_replicate_append (n : ℕ) (a : ℚ) (R : List ℚ) (k : ℕ) (d : ℚ) (h : k < n) :
    (List.replicate n a ++ R).getD k d = a := by
  rw [List.getD_append _ _ _ _ (by simpa using h), List.getD_eq_getElem _ _ (by simpa using h)]
  simp

theorem getD_replicate_append_length (n : ℕ) (a x : ℚ) (R : List ℚ) (d : ℚ) :
    (List.replicate n a ++ x :: R).getD n d = x := by
  have := getD_append_cons_length (List.replicate n a) x R d
  rwa [List.length_replicate] at this

theorem sorted_replicate (n : ℕ) (a : ℚ) : (List.replicate n a).Sorted (· ≤ ·) := by
  unfold List.Sorted
  rw [List.pairwise_replicate]
  exact Or.inr (le_refl a)

theorem resolved_ones_zero :
    resolved (sampleEnv (List.replicate 129 1) 0) 0 130 = List.replicate 129 1 ++ [0] := by
  have a : (List.range 129).map (fun k => (List.replicate 129 (1 : ℚ)).getD k 0)
      = List.replicate 129 1 := by
    rw [List.eq_replicate_iff]
    refine ⟨by rw [List.length_map, List.length_range], ?_⟩
    intro b hb
    obtain ⟨k, hk, rfl⟩ := List.mem_map.mp hb
    have hk' : k < 129 := List.mem_range.mp hk
    have := getD_replicate_append 129 1 [] k 0 hk'
    rwa [List.append_nil] at this
  have b : (List.replicate 129 (1 : ℚ)).getD 129 0 = 0 :=
    List.getD_eq_default _ _ (by rw [List.length_replicate])
  rw [resolved_sampleEnv, List.range_succ, List.map_append, a, List.map_singleton, b]

theorem insert_ones_zero :
    insert_all (List.replicate 130 0) 0 (List.replicate 129 1 ++ [0])
      = 0 :: (List.replicate 128 1 ++ [0]) := by
  rw [insert_all_append]
  have h := insert_all_eq (List.replicate 129 1) [] (List.replicate 130 0)
    (by rw [List.length_replicate, List.length_replicate]; norm_num)
    (by rw [List.length_replicate]; norm_num)
  simp only [List.nil_append, List.length_nil, List.length_replicate, List.drop_replicate]
    at h
  rw [h, foldl_sorted_ins_eq, List.Sorted.insertionSort_eq (sorted_replicate 129 1)]
  simp only [Nat.zero_add, List.length_replicate, insert_all, insert_sample]
  have g0 : (List.replicate 129 (1 : ℚ) ++ List.replicate (130 - 129) 0).getD 0 0 = 1 :=
    getD_replicate_append 129 1 _ 0 0 (by norm_num)
  have f : find_slot (List.replicate 129 (1 : ℚ) ++ List.replicate (130 - 129) 0) 129 0
      (129 + 1) 0 = 0 := by
    unfold find_slot
    rw [g0]
    norm_num
  rw [f]
  have t : ¬ (toInt8 (toInt8 ((129 : ℕ) : ℤ) - 1) ≥ ((0 : ℕ) : ℤ)) := by
    unfold toInt8
    norm_num
  unfold shift_items
  simp only [t, if_false]
  rw [show List.replicate 129 (1 : ℚ) = 1 :: List.replicate 128 1 from rfl,
    show List.replicate (130 - 129) (0 : ℚ) = [0] from rfl, List.cons_append,
    List.set_cons_zero]

theorem getD_ones_zero (k : ℕ) (h1 : 1 ≤ k) (h2 : k ≤ 128) :
    (0 :: (List.replicate 128 (1 : ℚ) ++ [0])).getD k 0 = 1 := by
  obtain ⟨j, rfl⟩ : ∃ j, k = j + 1 := ⟨k - 1, by omega⟩
  rw [List.getD_cons_succ]
  exact getD_replicate_append 128 1 _ j 0 (by omega)

theorem trimmed_ones_zero :
    trimmed_mean (sampleConfigN 129 1) (0 :: (List.replicate 128 1 ++ [0])) = 128 / 129 := by
  have hT : (sampleConfigN 129 1).TOTAL_PROBING = 130 := rfl
  have hK : (sampleConfigN 129 1).EXTRA_PROBING = 1 := rfl
  have hM : (sampleConfigN 129 1).MULTIPLE_PROBING = 129 := rfl
  have m : probes_median (sampleConfigN 129 1) (0 :: (List.replicate 128 1 ++ [0])) = 1 := by
    unfold probes_median
    simp only [hT]
    rw [show (130 - 1) / 2 = 64 from rfl, getD_ones_zero 64 (by norm_num) (by norm_num),
      getD_ones_zero (64 + 1) (by norm_num) (by norm_num)]
    norm_num
  have g129 : (0 :: (List.replicate 128 (1 : ℚ) ++ [0])).getD 129 0 = 0 := by
    rw [List.getD_cons_succ]
    exact getD_replicate_append_length 128 1 0 [] 0
  have u1 : toUInt8 ((1 : ℕ) : ℤ) = 1 := by decide
  have u2 : toUInt8 (((130 : ℕ) : ℤ) - 1) = 129 := by decide
  have u3 : toUInt8 (((0 : ℕ) : ℤ) + 1) = 1 := by decide
  have tl : trim_loop (0 :: (List.replicate 128 1 ++ [0])) 1 1 0 129 = (1, 129) := by
    unfold trim_loop
    rw [g129, List.getD_cons_zero, u3]
    norm_num [ABS, trim_loop]
  unfold trimmed_mean
  simp only [m, hT, hK, hM, u1, u2, tl]
  rw [sum_range_eq]
  unfold window RECIPROCAL
  rw [List.drop_one, List.tail_cons, show 129 + 1 - 1 = 129 from rfl,
    List.take_of_length_le (by rw [List.length_append, List.length_replicate]; norm_num),
    List.sum_append, List.sum_replicate]
  norm_num

theorem sorted_ones_zero :
    (List.replicate 129 (1 : ℚ) ++ [0]).insertionSort (· ≤ ·) = 0 :: List.replicate 129 1 := by
  apply List.eq_of_perm_of_sorted (r := (· ≤ ·))
  · exact (List.perm_insertionSort _ _).trans (List.perm_append_singleton _ _)
  · exact List.sorted_insertionSort _ _
  · rw [List.sorted_cons]
    refine ⟨?_, sorted_replicate 129 1⟩
    intro b hb
    rw [List.eq_of_mem_replicate hb]
    norm_num

theorem spec_ones_zero : spec_trimmed_mean 1 (List.replicate 129 1 ++ [0]) = 1 := by
  have m : spec_median (List.replicate 129 1 ++ [0]) = 1 := by
    unfold spec_median
    rw [sorted_ones_zero]
    simp only []
    rw [List.length_cons, List.length_replicate, show (129 + 1) % 2 = 0 from rfl,
      show (129 + 1) / 2 = 64 + 1 from rfl, if_neg (by decide), Nat.add_sub_cancel,
      List.getD_cons_succ, show (64 : ℕ) = 63 + 1 from rfl, List.getD_cons_succ]
    have a := getD_replicate_append 129 1 [] 63 0 (by norm_num)
    have b := getD_replicate_append 129 1 [] 64 0 (by norm_num)
    rw [List.append_nil] at a b
    rw [a, b]
    norm_num
  have r : spec_retained 1 (List.replicate 129 1 ++ [0]) = List.replicate 129 1 := by
    unfold spec_retained
    rw [m, sorted_ones_zero]
    have l : (0 :: List.replicate 129 (1 : ℚ)).getLast? = some 1 := by
      rw [List.getLast?_eq_getElem?, List.length_cons, List.length_replicate,
        Nat.add_sub_cancel, List.getElem?_cons_succ, List.getElem?_replicate]
      norm_num
    unfold spec_trim spec_trim
    unfold spec_trim_step
    rw [l, List.head?_cons]
    simp only []
    rw [if_neg (by norm_num), List.tail_cons]
  unfold spec_trimmed_mean
  rw [r, List.sum_replicate, List.length_replicate]
  norm_num

/-- C1 as stated fails at `TOTAL_PROBING = 130`, `EXTRA_PROBING = 1`: for
`p = 129` the shift index `int8_t m = p` is negative, nothing is shifted, and
the insertion overwrites `probes[0]`.  With 129 samples at Z = 1 followed by
one at Z = 0 (and `probes[129]` holding 0 when declared) the result is
128/129, while the trimmed mean of the samples is 1. -/
theorem run_z_probe_trimmed_mean_counterexample :
    2 < (sampleConfigN 129 1).TOTAL_PROBING ∧ 0 < (sampleConfigN 129 1).EXTRA_PROBING
      ∧ (sampleConfigN 129 1).EXTRA_PROBING < (sampleConfigN 129 1).TOTAL_PROBING
      ∧ (∀ k, k < (sampleConfigN 129 1).TOTAL_PROBING →
          rejected (sampleConfigN 129 1) true sampleMachine.offset.z
            (sampleConfigN 129 1).Z_CLEARANCE_MULTI_PROBE
            ((sampleEnv (List.replicate 129 1) 0).descent
              ((loop_entry (sampleConfigN 129 1) (sampleEnv (List.replicate 129 1) 0)
                sampleMachine).descents + k)) = false)
      ∧ (run_z_probe (sampleConfigN 129 1) (sampleEnv (List.replicate 129 1) 0) true
          sampleMachine).1 = some (128 / 129)
      ∧ spec_trimmed_mean (sampleConfigN 129 1).EXTRA_PROBING
          (resolved (sampleEnv (List.replicate 129 1) 0)
            (loop_entry (sampleConfigN 129 1) (sampleEnv (List.replicate 129 1) 0)
              sampleMachine).descents (sampleConfigN 129 1).TOTAL_PROBING) = 1 := by
  have hok : ∀ k, k < (sampleConfigN 129 1).TOTAL_PROBING →
      rejected (sampleConfigN 129 1) true sampleMachine.offset.z
        (sampleConfigN 129 1).Z_CLEARANCE_MULTI_PROBE
        ((sampleEnv (List.replicate 129 1) 0).descent
          ((loop_entry (sampleConfigN 129 1) (sampleEnv (List.replicate 129 1) 0)
            sampleMachine).descents + k)) = false := by
    intro k _
    apply sampleEnv_rejected _ rfl rfl rfl
    have h7 : -sampleMachine.offset.z + (sampleConfigN 129 1).Z_CLEARANCE_MULTI_PROBE = 7 := by
      norm_num [sampleMachine, sampleConfigN, sampleConfig]
    rw [h7, sample_loop_entry _ _ rfl, show sampleMachine.descents = 0 from rfl, Nat.zero_add]
    by_cases hk : k < 129
    · have := getD_replicate_append 129 1 [] k 0 hk
      rw [List.append_nil] at this
      rw [this]; norm_num
    · rw [List.getD_eq_default _ _ (by rw [List.length_replicate]; omega)]; norm_num
  refine ⟨by decide, by decide, by decide, hok, ?_, ?_⟩
  · obtain ⟨r1, -⟩ := trimmed_loop_ok (sampleConfigN 129 1)
      (sampleEnv (List.replicate 129 1) 0) true
      (z_probe_low_point (sampleConfigN 129 1) sampleMachine) sampleMachine.offset.z
      (sampleConfigN 129 1).TOTAL_PROBING 0
      ((List.range (sampleConfigN 129 1).TOTAL_PROBING).map
        (sampleEnv (List.replicate 129 1) 0).probes_uninit)
      (loop_entry (sampleConfigN 129 1) (sampleEnv (List.replicate 129 1) 0) sampleMachine)
      (by simp) hok
    have hi : (List.range (sampleConfigN 129 1).TOTAL_PROBING).map
        (sampleEnv (List.replicate 129 1) 0).probes_uninit = List.replicate 130 0 := by
      rw [List.eq_replicate_iff]
      refine ⟨by rw [List.length_map, List.length_range]; rfl, ?_⟩
      intro b hb
      obtain ⟨k, -, rfl⟩ := List.mem_map.mp hb
      rfl
    rw [sample_loop_entry _ _ rfl, show sampleMachine.descents = 0 from rfl,
      show (sampleConfigN 129 1).TOTAL_PROBING = 130 from rfl] at r1
    rw [show (sampleConfigN 129 1).TOTAL_PROBING = 130 from rfl] at hi
    rw [hi, resolved_ones_zero, insert_ones_zero] at r1
    unfold run_z_probe
    simp only [show ¬ (sampleConfigN 129 1).TOTAL_PROBING = 2 by decide, if_false, gt_iff_lt,
      show 2 < (sampleConfigN 129 1).TOTAL_PROBING by decide, if_true,
      show 0 < (sampleConfigN 129 1).EXTRA_PROBING by decide]
    rw [sample_loop_entry _ _ rfl, show (sampleConfigN 129 1).TOTAL_PROBING = 130 from rfl, hi,
      pair_of_fst _ _ r1]
    simp only []
    rw [trimmed_ones_zero]
  · rw [sample_loop_entry _ _ rfl, show sampleMachine.descents = 0 from rfl,
      show (sampleConfigN 129 1).TOTAL_PROBING = 130 from rfl,
      show (sampleConfigN 129 1).EXTRA_PROBING = 1 from rfl, resolved_ones_zero]
    exact spec_ones_zero

/-! ## The descent primitive: trigger test -/

theorem and_mask_ne_zero (t x y z : ℕ) :
    ((t &&& (2 ^ x ||| 2 ^ y ||| 2 ^ z)) != 0)
      = (t.testBit x || t.testBit y || t.testBit z) := by
  have key : ∀ i, (t &&& (2 ^ x ||| 2 ^ y ||| 2 ^ z)).testBit i
      = (t.testBit i && (decide (x = i) || decide (y = i) || decide (z = i))) := by
    intro i
    simp [Nat.testBit_and, Nat.testBit_or, Nat.testBit_two_pow]
  cases h : (t.testBit x || t.testBit y || t.testBit z)
  · simp only [Bool.or_eq_false_iff] at h
    have hz : t &&& (2 ^ x ||| 2 ^ y ||| 2 ^ z) = 0 := by
      apply Nat.eq_of_testBit_eq
      intro i
      rw [key, Nat.zero_testBit]
      by_cases hx : x = i
      · subst hx; simp [h.1.1]
      · by_cases hy : y = i
        · subst hy; simp [h.1.2]
        · by_cases hz : z = i
          · subst hz; simp [h.2]
          · simp [hx, hy, hz]
    simp [hz]
  · have hne : t &&& (2 ^ x ||| 2 ^ y ||| 2 ^ z) ≠ 0 := by
      intro h0
      have k := key
      rw [h0] at k
      simp only [Nat.zero_testBit] at k
      simp only [Bool.or_eq_true] at h
      rcases h with (h | h) | h
      · have := k x; simp [h] at this
      · have := k y; simp [h] at this
      · have := k z; simp [h] at this
    simpa using hne

/-- C10.  With no per-action BLTOUCH deploy or stow failure, `probe_down_to_z`
reports failure if and only if the latched trigger state read after the
blocking move shows no trigger: on a delta with `SENSORLESS_PROBING` none of
the bits `X_MAX`, `Y_MAX`, `Z_MAX` is set, otherwise the bit `Z_MIN_PROBE` is
not set.  No other bit of the trigger state enters the result. -/
theorem probe_down_to_z_fails_iff (cfg : Config) (env : Env) (z fr : ℚ) (s : Machine)
    (hd : (cfg.BLTOUCH_SLOW_MODE && (env.descent s.descents).bltouch_deploy_fail) = false)
    (hs : (cfg.BLTOUCH_SLOW_MODE && (env.descent s.descents).bltouch_stow_fail) = false) :
    ((probe_down_to_z cfg env z fr s).1 = true ↔
      if cfg.DELTA = true ∧ cfg.SENSORLESS_PROBING = true then
        TEST (env.descent s.descents).trigger_state cfg.X_MAX = false
          ∧ TEST (env.descent s.descents).trigger_state cfg.Y_MAX = false
          ∧ TEST (env.descent s.descents).trigger_state cfg.Z_MAX = false
      else TEST (env.descent s.descents).trigger_state cfg.Z_MIN_PROBE = false) := by
  rw [probe_down_to_z_fst]
  unfold descent_fails probe_triggered
  rw [hd, hs]
  by_cases h : cfg.DELTA = true ∧ cfg.SENSORLESS_PROBING = true
  · simp only [h, and_self, if_true, Bool.and_self, _BV, and_mask_ne_zero, TEST]
    simp [Bool.or_eq_false_iff, and_assoc]
  · have h' : (cfg.DELTA && cfg.SENSORLESS_PROBING) = false := by
      simpa [Bool.and_eq_true] using h
    simp [h, h']

/-- C10, worked example: on the sample machine a descent whose latched trigger
state has only bit 3 set (not the probe bit 6) reports failure, and one with
bits 6 and 0 set does not. -/
theorem probe_down_to_z_fails_iff_witness :
    (probe_down_to_z sampleConfig
        { sampleEnv [] 0 with descent := fun _ => ⟨false, 8, 0, false⟩ } 0 2 sampleMachine).1
        = true
      ∧ (probe_down_to_z sampleConfig
        { sampleEnv [] 0 with descent := fun _ => ⟨false, 65, 0, false⟩ } 0 2 sampleMachine).1
        = false := by
  constructor
  · apply (probe_down_to_z_fails_iff sampleConfig
      { sampleEnv [] 0 with descent := fun _ => ⟨false, 8, 0, false⟩ } 0 2 sampleMachine
      rfl rfl).mpr
    decide
  · have h := (probe_down_to_z_fails_iff sampleConfig
      { sampleEnv [] 0 with descent := fun _ => ⟨false, 65, 0, false⟩ } 0 2 sampleMachine
      rfl rfl).not
    have h2 : ¬ (TEST 65 6 = false) := by decide
    simpa using h.mpr (by simpa [sampleConfig, sampleEnv] using h2)

/-! ## Stall/current coordinator -/

theorem toUInt16_toInt16 (n : ℕ) (h : n < 65536) : toUInt16 (toInt16 (n : ℤ)) = n := by
  unfold toUInt16 toInt16
  omega

theorem rms_current_restore (d : Driver) (home : ℤ) (h : d.val_mA < 65536) :
    (d.rms_current home).rms_current (toInt16 d.getMilliamps) = d := by
  unfold Driver.rms_current Driver.getMilliamps
  simp only [toUInt16_toInt16 _ h]

theorem homing_current_off_on (enabled : Bool) (home : ℤ) (d : Driver) (saved : ℤ)
    (h : d.val_mA < 65536) :
    homing_current_off enabled (homing_current_on enabled home d saved).1
      (homing_current_on enabled home d saved).2 = d := by
  unfold homing_current_off homing_current_on
  cases enabled
  · rfl
  · exact rms_current_restore d home h

theorem logIf_stepperX (s : Machine) (c : Bool) (e : Event) :
    (s.logIf c e).stepperX = s.stepperX := by
  unfold Machine.logIf; split_ifs <;> rfl

theorem logIf_stepperY (s : Machine) (c : Bool) (e : Event) :
    (s.logIf c e).stepperY = s.stepperY := by
  unfold Machine.logIf; split_ifs <;> rfl

theorem logIf_stepperZ (s : Machine) (c : Bool) (e : Event) :
    (s.logIf c e).stepperZ = s.stepperZ := by
  unfold Machine.logIf; split_ifs <;> rfl

theorem logIf_stepperZ2 (s : Machine) (c : Bool) (e : Event) :
    (s.logIf c e).stepperZ2 = s.stepperZ2 := by
  unfold Machine.logIf; split_ifs <;> rfl

theorem logIf_saved_current_X (s : Machine) (c : Bool) (e : Event) :
    (s.logIf c e).saved_current_X = s.saved_current_X := by
  unfold Machine.logIf; split_ifs <;> rfl

theorem logIf_saved_current_Y (s : Machine) (c : Bool) (e : Event) :
    (s.logIf c e).saved_current_Y = s.saved_current_Y := by
  unfold Machine.logIf; split_ifs <;> rfl

theorem logIf_saved_current_Z (s : Machine) (c : Bool) (e : Event) :
    (s.logIf c e).saved_current_Z = s.saved_current_Z := by
  unfold Machine.logIf; split_ifs <;> rfl

theorem set_homing_current_round_trip (cfg : Config) (s : Machine)
    (hx : s.stepperX.val_mA < 65536) (hy : s.stepperY.val_mA < 65536)
    (hz : s.stepperZ.val_mA < 65536) :
    (set_homing_current cfg false (set_homing_current cfg true s)).stepperX = s.stepperX
      ∧ (set_homing_current cfg false (set_homing_current cfg true s)).stepperY = s.stepperY
      ∧ (set_homing_current cfg false (set_homing_current cfg true s)).stepperZ = s.stepperZ
      ∧ (set_homing_current cfg false (set_homing_current cfg true s)).stepperZ2
          = s.stepperZ2 := by
  unfold set_homing_current
  simp only []
  by_cases hg : (HAS_CURRENT_HOME cfg.X_CURRENT_HOME cfg.X_CURRENT
      || HAS_CURRENT_HOME cfg.Y_CURRENT_HOME cfg.Y_CURRENT
      || HAS_CURRENT_HOME cfg.Z_CURRENT_HOME cfg.Z_CURRENT) = true
  · simp only [hg, if_true, Bool.false_eq_true, if_false, logIf_stepperX, logIf_stepperY,
      logIf_stepperZ, logIf_stepperZ2, logIf_saved_current_X, logIf_saved_current_Y,
      logIf_saved_current_Z]
    exact ⟨homing_current_off_on _ _ _ _ hx, homing_current_off_on _ _ _ _ hy,
      homing_current_off_on _ _ _ _ hz, trivial⟩
  · simp only [hg, if_false]
    exact ⟨rfl, rfl, rfl, rfl⟩

/-- C8.  Stall/current round trip: for every initial driver currents (values
of `uint16_t`), `set_homing_current(true)` immediately followed by
`set_homing_current(false)` leaves the X, Y, Z and Z2 drivers, hence the
current of every axis with a distinct homing current and of every other axis,
exactly as they were before the enable call. -/
theorem set_homing_current_restores (cfg : Config) (s : Machine)
    (hx : s.stepperX.val_mA < 65536) (hy : s.stepperY.val_mA < 65536)
    (hz : s.stepperZ.val_mA < 65536) :
    (set_homing_current cfg false (set_homing_current cfg true s)).stepperX.val_mA
        = s.stepperX.val_mA
      ∧ (set_homing_current cfg false (set_homing_current cfg true s)).stepperY.val_mA
        = s.stepperY.val_mA
      ∧ (set_homing_current cfg false (set_homing_current cfg true s)).stepperZ.val_mA
        = s.stepperZ.val_mA
      ∧ (set_homing_current cfg false (set_homing_current cfg true s)).stepperZ2.val_mA
        = s.stepperZ2.val_mA := by
  obtain ⟨a, b, c, d⟩ := set_homing_current_round_trip cfg s hx hy hz
  rw [a, b, c, d]
  exact ⟨rfl, rfl, rfl, rfl⟩

/-- C8, worked example: on the sample machine (Z normal current 800 mA, Z
homing current 500 mA) enabling sets the Z driver to 500 mA and disabling
brings all drivers back to 800 mA. -/
theorem set_homing_current_restores_witness :
    (set_homing_current sampleConfig true sampleMachine).stepperZ.val_mA = 500
      ∧ (set_homing_current sampleConfig false
          (set_homing_current sampleConfig true sampleMachine)).stepperX.val_mA = 800
      ∧ (set_homing_current sampleConfig false
          (set_homing_current sampleConfig true sampleMachine)).stepperY.val_mA = 800
      ∧ (set_homing_current sampleConfig false
          (set_homing_current sampleConfig true sampleMachine)).stepperZ.val_mA = 800
      ∧ (set_homing_current sampleConfig false
          (set_homing_current sampleConfig true sampleMachine)).stepperZ2.val_mA = 800 :=
  ⟨by decide,
    set_homing_current_restores sampleConfig sampleMachine (by decide) (by decide) (by decide)⟩

/-! ## Device actuator -/

theorem set_deployed_finish_enabled (cfg : Config) (env : Env) (d : Bool) (x y : ℚ)
    (s : Machine) : (set_deployed_finish cfg env d x y s).z_probe_enabled = d := rfl

theorem set_deployed_noop (cfg : Config) (env : Env) (d : Bool) (s : Machine)
    (h : s.z_probe_enabled = d) : set_deployed cfg env d s = (false, s) := by
  unfold set_deployed
  simp [h]

theorem set_deployed_state (cfg : Config) (env : Env) (d : Bool) (s : Machine)
    (h : (set_deployed cfg env d s).1 = false) :
    (set_deployed cfg env d s).2.z_probe_enabled = d := by
  unfold set_deployed at h ⊢
  by_cases he : s.z_probe_enabled = d
  · simp [he]
  · simp only [beq_iff_eq, he, if_false] at h ⊢
    split_ifs at h ⊢ <;> exact set_deployed_finish_enabled _ _ _ _ _ _

/-- C9.  `set_deployed` and the DeviceState: whenever `set_deployed(d)` returns
success, `endstops.z_probe_enabled` equals `d` on return; in every state in
which it already equals `d`, `set_deployed(d)` returns success and leaves the
whole machine, trace of collaborator calls included, unchanged (no clearance
raise, no homing check, no device action, no preheat, no move); hence a second
`set_deployed(true)` after a successful one does nothing. -/
theorem set_deployed_idempotent (cfg : Config) (env : Env) (d : Bool) (s : Machine) :
    ((set_deployed cfg env d s).1 = false → (set_deployed cfg env d s).2.z_probe_enabled = d)
      ∧ (s.z_probe_enabled = d → set_deployed cfg env d s = (false, s))
      ∧ ((set_deployed cfg env true s).1 = false →
          set_deployed cfg env true (set_deployed cfg env true s).2
            = (false, (set_deployed cfg env true s).2)) :=
  ⟨set_deployed_state cfg env d s, set_deployed_noop cfg env d s,
    fun h => set_deployed_noop cfg env true _ (set_deployed_state cfg env true s h)⟩

theorem set_deployed_simple (cfg : Config) (env : Env) (d : Bool) (s : Machine)
    (h1 : cfg.PROBE_TRIGGERED_WHEN_STOWED_TEST = false) (h2 : env.homing_needed_error = false) :
    (set_deployed cfg env d s).1 = false := by
  unfold set_deployed
  simp only [h1, h2, Bool.and_false, Bool.false_eq_true, if_false]
  split_ifs <;> rfl

/-- C9, worked example: on the sample machine (probe stowed) the first
`set_deployed(true)` succeeds, raises Z to 12 and sets the DeviceState; the
second call returns success and changes nothing. -/
theorem set_deployed_idempotent_witness :
    (set_deployed sampleConfig (sampleEnv [] 0) true sampleMachine).1 = false
      ∧ (set_deployed sampleConfig (sampleEnv [] 0) true sampleMachine).2.z_probe_enabled = true
      ∧ (set_deployed sampleConfig (sampleEnv [] 0) true sampleMachine).2.current_position.z
          = 12
      ∧ set_deployed sampleConfig (sampleEnv [] 0) true
          (set_deployed sampleConfig (sampleEnv [] 0) true sampleMachine).2
          = (false, (set_deployed sampleConfig (sampleEnv [] 0) true sampleMachine).2) := by
  have h1 := set_deployed_simple sampleConfig (sampleEnv [] 0) true sampleMachine rfl rfl
  have h := set_deployed_idempotent sampleConfig (sampleEnv [] 0) true sampleMachine
  refine ⟨h1, h.1 h1, ?_, h.2.2 h1⟩
  norm_num [set_deployed, sampleConfig, sampleMachine, sampleEnv, do_z_raise, do_z_clearance,
    do_blocking_move_to_z, Machine.log, Config.z_probe_fast_mm_s, set_deployed_finish,
    probe_specific_action, enable_z_probe, do_blocking_move_to_xy]

/-- C9 as stated fails in its last sentence: with a servo probe under
`PROBE_TRIGGERED_WHEN_STOWED_TEST` whose input stays triggered, the first
`set_deployed(true)` moves the servo to the deploy angle, reads the input
unchanged and returns failure without updating the DeviceState; the second
call then moves the servo again, so two calls in a row actuate twice. -/
theorem set_deployed_idempotent_counterexample :
    sampleMachine.z_probe_enabled = false
      ∧ (set_deployed servoConfig stuckEnv true sampleMachine).1 = true
      ∧ (set_deployed servoConfig stuckEnv true sampleMachine).2.z_probe_enabled = false
      ∧ (set_deployed servoConfig stuckEnv true sampleMachine).2.trace.count
          (Event.servo true) = 1
      ∧ (set_deployed servoConfig stuckEnv true
          (set_deployed servoConfig stuckEnv true sampleMachine).2).1 = true
      ∧ (set_deployed servoConfig stuckEnv true
          (set_deployed servoConfig stuckEnv true sampleMachine).2).2.trace.count
          (Event.servo true) = 2 := by
  refine ⟨rfl, ?_, ?_, ?_, ?_, ?_⟩ <;>
    simp [set_deployed, servoConfig, stuckEnv, sampleConfig, sampleMachine, sampleEnv,
      stowed_test_action, PROBE_TRIGGERED, probe_specific_action, do_z_raise, do_z_clearance,
      do_blocking_move_to_z, Machine.log, Machine.logIf, stop, enable_z_probe]

/-! ## The device actuator leaves the offset and the descent count alone -/

theorem do_blocking_move_to_keep (p : XYZ) (fr : ℚ) (s : Machine) :
    (do_blocking_move_to p fr s).offset = s.offset
      ∧ (do_blocking_move_to p fr s).descents = s.descents := ⟨rfl, rfl⟩

theorem do_blocking_move_to_x_keep (x fr : ℚ) (s : Machine) :
    (do_blocking_move_to_x x fr s).offset = s.offset
      ∧ (do_blocking_move_to_x x fr s).descents = s.descents := ⟨rfl, rfl⟩

theorem do_z_raise_keep (cfg : Config) (z : ℚ) (s : Machine) :
    (do_z_raise cfg z s).offset = s.offset ∧ (do_z_raise cfg z s).descents = s.descents := by
  unfold do_z_raise
  split_ifs <;> exact ⟨rfl, rfl⟩

theorem stop_keep (s : Machine) :
    (stop s).offset = s.offset ∧ (stop s).descents = s.descents := ⟨rfl, rfl⟩

theorem PROBE_TRIGGERED_keep (env : Env) (s : Machine) :
    (PROBE_TRIGGERED env s).2.offset = s.offset
      ∧ (PROBE_TRIGGERED env s).2.descents = s.descents := ⟨rfl, rfl⟩

theorem ANKER_OVERPRESSURE_TRIGGER_keep (env : Env) (s : Machine) :
    (ANKER_OVERPRESSURE_TRIGGER env s).2.offset = s.offset
      ∧ (ANKER_OVERPRESSURE_TRIGGER env s).2.descents = s.descents := ⟨rfl, rfl⟩

theorem dock_sled_keep (cfg : Config) (b : Bool) (s : Machine) :
    (dock_sled cfg b s).offset = s.offset ∧ (dock_sled cfg b s).descents = s.descents := by
  unfold dock_sled
  simp [(do_blocking_move_to_x_keep _ _ _).1, (do_blocking_move_to_x_keep _ _ _).2]

theorem run_moves_script_keep (script : List (XYZ × ℚ)) (s : Machine) :
    (run_moves_script script s).offset = s.offset
      ∧ (run_moves_script script s).descents = s.descents := by
  unfold run_moves_script
  induction script generalizing s with
  | nil => exact ⟨rfl, rfl⟩
  | cons w ws ih =>
    rw [List.foldl_cons]
    exact ⟨(ih _).1.trans rfl, (ih _).2.trans rfl⟩

theorem touch_mi_deploy_keep (cfg : Config) (s : Machine) :
    (touch_mi_deploy cfg s).offset = s.offset
      ∧ (touch_mi_deploy cfg s).descents = s.descents := by
  unfold touch_mi_deploy
  split_ifs
  · exact ⟨rfl, rfl⟩
  · cases cfg.TOUCH_MI_DEPLOY_YPOS <;> exact ⟨rfl, rfl⟩

theorem touch_mi_stow_keep (cfg : Config) (s : Machine) :
    (touch_mi_stow cfg s).offset = s.offset ∧ (touch_mi_stow cfg s).descents = s.descents :=
  ⟨rfl, rfl⟩

theorem user_rounds_keep (env : Env) (d : Bool) (l : List ℕ) (s : Machine) :
    (l.foldl (fun t _ => (PROBE_TRIGGERED env t).2.log (Event.wait_for_user d)) s).offset
        = s.offset
      ∧ (l.foldl (fun t _ => (PROBE_TRIGGERED env t).2.log (Event.wait_for_user d)) s).descents
        = s.descents := by
  induction l generalizing s with
  | nil => exact ⟨rfl, rfl⟩
  | cons w ws ih =>
    rw [List.foldl_cons]
    exact ⟨(ih _).1.trans rfl, (ih _).2.trans rfl⟩

theorem pause_before_deploy_stow_keep (cfg : Config) (env : Env) (d : Bool) (s : Machine) :
    (pause_before_deploy_stow cfg env d s).offset = s.offset
      ∧ (pause_before_deploy_stow cfg env d s).descents = s.descents := by
  unfold pause_before_deploy_stow
  split_ifs
  · exact ⟨((PROBE_TRIGGERED_keep env _).1).trans (user_rounds_keep env d _ s).1,
      ((PROBE_TRIGGERED_keep env _).2).trans (user_rounds_keep env d _ s).2⟩
  · exact ⟨rfl, rfl⟩

theorem probe_specific_action_keep (cfg : Config) (env : Env) (d : Bool) (s : Machine) :
    (probe_specific_action cfg env d s).offset = s.offset
      ∧ (probe_specific_action cfg env d s).descents = s.descents := by
  have h0 : (if cfg.PAUSE_BEFORE_DEPLOY_STOW then pause_before_deploy_stow cfg env d s
      else s).offset = s.offset
      ∧ (if cfg.PAUSE_BEFORE_DEPLOY_STOW then pause_before_deploy_stow cfg env d s
      else s).descents = s.descents := by
    split_ifs
    · exact pause_before_deploy_stow_keep cfg env d s
    · exact ⟨rfl, rfl⟩
  unfold probe_specific_action
  simp only []
  generalize (if cfg.PAUSE_BEFORE_DEPLOY_STOW then pause_before_deploy_stow cfg env d s
      else s) = s1 at h0 ⊢
  cases cfg.kind
  · simp only [logIf_offset, logIf_descents]; exact h0
  · exact ⟨(dock_sled_keep _ _ _).1.trans h0.1, (dock_sled_keep _ _ _).2.trans h0.2⟩
  · simp only [log_offset, log_descents]; exact h0
  · simp only [log_offset, log_descents]; exact h0
  · cases d
    · exact ⟨(touch_mi_stow_keep _ _).1.trans h0.1, (touch_mi_stow_keep _ _).2.trans h0.2⟩
    · exact ⟨(touch_mi_deploy_keep _ _).1.trans h0.1, (touch_mi_deploy_keep _ _).2.trans h0.2⟩
  · cases d
    · exact ⟨(run_moves_script_keep _ _).1.trans h0.1, (run_moves_script_keep _ _).2.trans h0.2⟩
    · exact ⟨(run_moves_script_keep _ _).1.trans h0.1, (run_moves_script_keep _ _).2.trans h0.2⟩
  · exact ⟨(do_blocking_move_to_x_keep _ _ _).1.trans h0.1,
      (do_blocking_move_to_x_keep _ _ _).2.trans h0.2⟩
  · exact h0

theorem preheat_for_probing_keep (cfg : Config) (env : Env) (a b : ℤ) (s : Machine) :
    (preheat_for_probing cfg env a b s).offset = s.offset
      ∧ (preheat_for_probing cfg env a b s).descents = s.descents := by
  unfold preheat_for_probing
  simp only [logIf_offset, logIf_descents, and_self]

theorem stowed_test_action_keep (cfg : Config) (env : Env) (d : Bool) (s : Machine) :
    (stowed_test_action cfg env d s).2.offset = s.offset
      ∧ (stowed_test_action cfg env d s).2.descents = s.descents := by
  have h1 : (if (PROBE_TRIGGERED env s).1 == d then
        probe_specific_action cfg env d
          (if !d then enable_z_probe false (PROBE_TRIGGERED env s).2
            else (PROBE_TRIGGERED env s).2)
      else (PROBE_TRIGGERED env s).2).offset = s.offset
      ∧ (if (PROBE_TRIGGERED env s).1 == d then
        probe_specific_action cfg env d
          (if !d then enable_z_probe false (PROBE_TRIGGERED env s).2
            else (PROBE_TRIGGERED env s).2)
      else (PROBE_TRIGGERED env s).2).descents = s.descents := by
    split_ifs
    · exact ⟨(probe_specific_action_keep _ _ _ _).1, (probe_specific_action_keep _ _ _ _).2⟩
    · exact ⟨(probe_specific_action_keep _ _ _ _).1, (probe_specific_action_keep _ _ _ _).2⟩
    · exact ⟨rfl, rfl⟩
  unfold stowed_test_action
  simp only []
  generalize (if (PROBE_TRIGGERED env s).1 == d then
        probe_specific_action cfg env d
          (if !d then enable_z_probe false (PROBE_TRIGGERED env s).2
            else (PROBE_TRIGGERED env s).2)
      else (PROBE_TRIGGERED env s).2) = s1 at h1 ⊢
  split_ifs
  · simp only [(stop_keep _).1, (stop_keep _).2, logIf_offset, logIf_descents,
      (PROBE_TRIGGERED_keep _ _).1, (PROBE_TRIGGERED_keep _ _).2]
    exact h1
  · simp only [(PROBE_TRIGGERED_keep _ _).1, (PROBE_TRIGGERED_keep _ _).2]
    exact h1

theorem set_deployed_finish_keep (cfg : Config) (env : Env) (d : Bool) (x y : ℚ)
    (s : Machine) :
    (set_deployed_finish cfg env d x y s).offset = s.offset
      ∧ (set_deployed_finish cfg env d x y s).descents = s.descents := by
  unfold set_deployed_finish
  split_ifs
  · exact preheat_for_probing_keep _ _ _ _ _
  · exact ⟨rfl, rfl⟩

theorem set_deployed_keep (cfg : Config) (env : Env) (d : Bool) (s : Machine) :
    (set_deployed cfg env d s).2.offset = s.offset
      ∧ (set_deployed cfg env d s).2.descents = s.descents := by
  have h1 : (if (if (cfg.FIX_MOUNTED_PROBE || cfg.NOZZLE_AS_PROBE)
        && !cfg.PAUSE_BEFORE_DEPLOY_STOW then d else true) then
        do_z_raise cfg (max cfg.Z_CLEARANCE_BETWEEN_PROBES cfg.Z_CLEARANCE_DEPLOY_PROBE) s
      else s).offset = s.offset
      ∧ (if (if (cfg.FIX_MOUNTED_PROBE || cfg.NOZZLE_AS_PROBE)
        && !cfg.PAUSE_BEFORE_DEPLOY_STOW then d else true) then
        do_z_raise cfg (max cfg.Z_CLEARANCE_BETWEEN_PROBES cfg.Z_CLEARANCE_DEPLOY_PROBE) s
      else s).descents = s.descents := by
    split_ifs <;> first | exact do_z_raise_keep _ _ _ | exact ⟨rfl, rfl⟩
  unfold set_deployed
  simp only []
  generalize (if (if (cfg.FIX_MOUNTED_PROBE || cfg.NOZZLE_AS_PROBE)
        && !cfg.PAUSE_BEFORE_DEPLOY_STOW then d else true) then
        do_z_raise cfg (max cfg.Z_CLEARANCE_BETWEEN_PROBES cfg.Z_CLEARANCE_DEPLOY_PROBE) s
      else s) = s1 at h1 ⊢
  split_ifs
  · exact ⟨rfl, rfl⟩
  · exact h1
  · exact ⟨(stowed_test_action_keep _ _ _ _).1.trans h1.1,
      (stowed_test_action_keep _ _ _ _).2.trans h1.2⟩
  · exact ⟨((set_deployed_finish_keep _ _ _ _ _ _).1.trans
        (stowed_test_action_keep _ _ _ _).1).trans h1.1,
      ((set_deployed_finish_keep _ _ _ _ _ _).2.trans
        (stowed_test_action_keep _ _ _ _).2).trans h1.2⟩
  · exact ⟨((set_deployed_finish_keep _ _ _ _ _ _).1.trans
        (probe_specific_action_keep _ _ _ _).1).trans h1.1,
      ((set_deployed_finish_keep _ _ _ _ _ _).2.trans
        (probe_specific_action_keep _ _ _ _).2).trans h1.2⟩

/-! ## Point orchestrator -/

theorem bltouch_hs_reset_keep (cfg : Config) (env : Env) (s : Machine) :
    (bltouch_hs_reset cfg env s).current_position = s.current_position
      ∧ (bltouch_hs_reset cfg env s).stepper_z = s.stepper_z
      ∧ (bltouch_hs_reset cfg env s).z_probe_enabled = s.z_probe_enabled
      ∧ (bltouch_hs_reset cfg env s).descents = s.descents
      ∧ (bltouch_hs_reset cfg env s).offset = s.offset := by
  unfold bltouch_hs_reset
  split_ifs
  · simp only [logIf_current_position, logIf_stepper_z, logIf_z_probe_enabled, logIf_descents,
      logIf_offset]
    exact ⟨rfl, rfl, rfl, rfl, rfl⟩
  · exact ⟨rfl, rfl, rfl, rfl, rfl⟩

theorem bltouch_hs_reset_trace (cfg : Config) (env : Env) (s : Machine) :
    ∃ l, (bltouch_hs_reset cfg env s).trace = s.trace ++ l
      ∧ ∀ e ∈ l, e = Event.bltouch_reset := by
  unfold bltouch_hs_reset Machine.logIf
  split_ifs
  · exact ⟨[Event.bltouch_reset], rfl, by simp⟩
  · exact ⟨[], by simp [PROBE_TRIGGERED], by simp⟩
  · exact ⟨[], by simp, by simp⟩

theorem target_reachable_reset (cfg : Config) (env : Env) (rx ry : ℚ) (pr : Bool)
    (s : Machine) :
    target_reachable cfg env rx ry pr (bltouch_hs_reset cfg env s)
      = target_reachable cfg env rx ry pr s := by
  have h := (bltouch_hs_reset_keep cfg env s).1
  unfold target_reachable probe_npos
  rw [h]

theorem probe_at_point_unreachable_state (cfg : Config) (env : Env) (rx ry : ℚ)
    (ra : ProbePtRaise) (vl : ℕ) (pr sc : Bool) (s : Machine)
    (h : target_reachable cfg env rx ry pr s = false) :
    probe_at_point cfg env rx ry ra vl pr sc s = (NAN, bltouch_hs_reset cfg env s) := by
  unfold probe_at_point
  simp only [target_reachable_reset, h, Bool.not_false, if_true]

/-- C6.  `probe_at_point` with an unreachable target (`can_reach` fails for a
probe-relative request, `position_is_reachable` fails for a nozzle-relative
one) returns NaN; the machine it leaves is the one left by the BLTouch
high-speed-mode reset alone, so position, stepper Z, DeviceState and the count
of descents are those of the call, and the trace of collaborator calls is
extended by nothing but BLTouch resets: no move, no deploy or stow action, no
probing descent. -/
theorem probe_at_point_unreachable (cfg : Config) (env : Env) (rx ry : ℚ)
    (ra : ProbePtRaise) (vl : ℕ) (pr sc : Bool) (s : Machine)
    (h : (if pr then env.can_reach (probe_npos cfg rx ry s)
      else env.position_is_reachable (probe_npos cfg rx ry s)) = false) :
    (probe_at_point cfg env rx ry ra vl pr sc s).1 = NAN
      ∧ (probe_at_point cfg env rx ry ra vl pr sc s).2 = bltouch_hs_reset cfg env s
      ∧ (probe_at_point cfg env rx ry ra vl pr sc s).2.current_position = s.current_position
      ∧ (probe_at_point cfg env rx ry ra vl pr sc s).2.stepper_z = s.stepper_z
      ∧ (probe_at_point cfg env rx ry ra vl pr sc s).2.z_probe_enabled = s.z_probe_enabled
      ∧ (probe_at_point cfg env rx ry ra vl pr sc s).2.descents = s.descents
      ∧ ∃ l, (probe_at_point cfg env rx ry ra vl pr sc s).2.trace = s.trace ++ l
          ∧ ∀ e ∈ l, e = Event.bltouch_reset := by
  rw [probe_at_point_unreachable_state cfg env rx ry ra vl pr sc s h]
  have k := bltouch_hs_reset_keep cfg env s
  exact ⟨rfl, rfl, k.1, k.2.1, k.2.2.1, k.2.2.2.1, bltouch_hs_reset_trace cfg env s⟩

/-- C6, worked example: with nothing reachable, a probe-relative request to
(50, 50) on the sample machine returns NaN and leaves the machine exactly as
it was, the empty trace included. -/
theorem probe_at_point_unreachable_witness :
    (probe_at_point sampleConfig { sampleEnv [] 0 with can_reach := fun _ => false } 50 50
        ProbePtRaise.PROBE_PT_STOW 0 true true sampleMachine).1 = NAN
      ∧ (probe_at_point sampleConfig { sampleEnv [] 0 with can_reach := fun _ => false } 50 50
        ProbePtRaise.PROBE_PT_STOW 0 true true sampleMachine).2 = sampleMachine := by
  have h := probe_at_point_unreachable sampleConfig
    { sampleEnv [] 0 with can_reach := fun _ => false } 50 50
    ProbePtRaise.PROBE_PT_STOW 0 true true sampleMachine rfl
  exact ⟨h.1, h.2.1⟩

theorem approach_keep (cfg : Config) (rx ry : ℚ) (pr : Bool) (s : Machine) :
    (approach cfg rx ry pr s).offset = s.offset
      ∧ (approach cfg rx ry pr s).descents = s.descents := by
  unfold approach
  simp only [logIf_offset, logIf_descents]
  exact ⟨rfl, rfl⟩

theorem probing_state_keep (cfg : Config) (env : Env) (rx ry : ℚ) (pr : Bool) (s : Machine) :
    (deploy cfg env (approach cfg rx ry pr (bltouch_hs_reset cfg env s))).2.offset = s.offset
      ∧ (deploy cfg env (approach cfg rx ry pr (bltouch_hs_reset cfg env s))).2.descents
        = s.descents := by
  have k1 := set_deployed_keep cfg env true (approach cfg rx ry pr (bltouch_hs_reset cfg env s))
  have k2 := approach_keep cfg rx ry pr (bltouch_hs_reset cfg env s)
  have k3 := bltouch_hs_reset_keep cfg env s
  unfold deploy
  exact ⟨(k1.1.trans k2.1).trans k3.2.2.2.2, (k1.2.trans k2.2).trans k3.2.2.2.1⟩

theorem apply_raise_fst (cfg : Config) (env : Env) (rx ry : ℚ) (ra : ProbePtRaise) (vl : ℕ)
    (v : ℚ) (s : Machine)
    (hstow : ra = ProbePtRaise.PROBE_PT_STOW ∨ ra = ProbePtRaise.PROBE_PT_LAST_STOW →
      (stow cfg env s).1 = false) :
    (apply_raise cfg env rx ry ra vl (some v) s).1 = some v := by
  unfold apply_raise
  cases ra
  · simp [isnan]
  · simp [isnan, hstow (Or.inl rfl)]
  · simp [isnan, hstow (Or.inr rfl)]
  · simp [isnan]
  · simp [isnan]

theorem failure_stow_fst (cfg : Config) (env : Env) (v : ℚ) (s : Machine)
    (hop : env.overpressure s.overpressure_reads = false) :
    (failure_stow cfg env (some v) s).1 = some v := by
  unfold failure_stow
  simp [isnan, ANKER_OVERPRESSURE_TRIGGER, hop]

theorem probe_at_point_value (cfg : Config) (env : Env) (rx ry : ℚ) (ra : ProbePtRaise)
    (vl : ℕ) (pr sc : Bool) (s : Machine) (m : ℚ)
    (hreach : target_reachable cfg env rx ry pr s = true)
    (hdep : (deploy cfg env (approach cfg rx ry pr (bltouch_hs_reset cfg env s))).1 = false)
    (hm : (run_z_probe cfg env sc
      (deploy cfg env (approach cfg rx ry pr (bltouch_hs_reset cfg env s))).2).1 = some m)
    (hop : ∀ k, env.overpressure k = false)
    (hstow : ra = ProbePtRaise.PROBE_PT_STOW ∨ ra = ProbePtRaise.PROBE_PT_LAST_STOW →
      (stow cfg env (run_z_probe cfg env sc
        (deploy cfg env (approach cfg rx ry pr (bltouch_hs_reset cfg env s))).2).2).1 = false) :
    (probe_at_point cfg env rx ry ra vl pr sc s).1 = some (m + s.offset.z) := by
  unfold probe_at_point
  simp only [target_reachable_reset, hreach, Bool.not_true, Bool.false_eq_true, if_false, hdep,
    Bool.not_false, if_true, hm, (probing_state_keep cfg env rx ry pr s).1, FloatQ.add,
    Option.map_some']
  rw [apply_raise_fst cfg env rx ry ra vl _ _ hstow]
  exact failure_stow_fst _ _ _ _ (hop _)
/-- C7.  For every reachable target where `deploy` succeeds, the estimator
returns a non-NaN value `m`, no overpressure trigger is observed and the raise
policy does not fail a stow, `probe_at_point` returns exactly `m + offset.z`. -/
theorem probe_at_point_offset (cfg : Config) (env : Env) (rx ry : ℚ) (ra : ProbePtRaise)
    (vl : ℕ) (pr sc : Bool) (s : Machine) (m : ℚ)
    (hreach : (if pr then env.can_reach (probe_npos cfg rx ry s)
      else env.position_is_reachable (probe_npos cfg rx ry s)) = true)
    (hdep : (deploy cfg env (approach cfg rx ry pr (bltouch_hs_reset cfg env s))).1 = false)
    (hm : (run_z_probe cfg env sc
      (deploy cfg env (approach cfg rx ry pr (bltouch_hs_reset cfg env s))).2).1 = some m)
    (hop : ∀ k, env.overpressure k = false)
    (hstow : ra = ProbePtRaise.PROBE_PT_STOW ∨ ra = ProbePtRaise.PROBE_PT_LAST_STOW →
      (stow cfg env (run_z_probe cfg env sc
        (deploy cfg env (approach cfg rx ry pr (bltouch_hs_reset cfg env s))).2).2).1 = false) :
    (probe_at_point cfg env rx ry ra vl pr sc s).1 = some (m + s.offset.z) :=
  probe_at_point_value cfg env rx ry ra vl pr sc s m hreach hdep hm hop hstow

theorem sample_point_estimate :
    (run_z_probe (sampleConfigN 2 0) (sampleEnv [1, 4 / 5] 0) true
      (deploy (sampleConfigN 2 0) (sampleEnv [1, 4 / 5] 0)
        (approach (sampleConfigN 2 0) 0 0 true
          (bltouch_hs_reset (sampleConfigN 2 0) (sampleEnv [1, 4 / 5] 0) sampleMachine))).2).1
      = some (22 / 25) := by
  have k := probing_state_keep (sampleConfigN 2 0) (sampleEnv [1, 4 / 5] 0) 0 0 true
    sampleMachine
  have h := run_z_probe_double_value (sampleConfigN 2 0) (sampleEnv [1, 4 / 5] 0) true
    (deploy (sampleConfigN 2 0) (sampleEnv [1, 4 / 5] 0)
      (approach (sampleConfigN 2 0) 0 0 true
        (bltouch_hs_reset (sampleConfigN 2 0) (sampleEnv [1, 4 / 5] 0) sampleMachine))).2
    (by decide) rfl
    (by rw [k.1]; exact sample_double_accepted _ rfl rfl rfl _ rfl _)
    (by rw [k.1]; exact sample_double_accepted _ rfl rfl rfl _ rfl _)
  rw [h, k.2]
  norm_num [sampleEnv, sampleMachine, sampleConfigN, sampleConfig]

/-- C7, worked example: offset (0, 0, -2), double probing with fast sample 1 and
slow sample 4/5, stow after probing: the estimator returns 22/25 and
`probe_at_point` returns `22/25 - 2 = -28/25`. -/
theorem probe_at_point_offset_witness :
    sampleMachine.offset = ⟨0, 0, -2⟩
      ∧ (run_z_probe (sampleConfigN 2 0) (sampleEnv [1, 4 / 5] 0) true
          (deploy (sampleConfigN 2 0) (sampleEnv [1, 4 / 5] 0)
            (approach (sampleConfigN 2 0) 0 0 true
              (bltouch_hs_reset (sampleConfigN 2 0) (sampleEnv [1, 4 / 5] 0)
                sampleMachine))).2).1 = some (22 / 25)
      ∧ (probe_at_point (sampleConfigN 2 0) (sampleEnv [1, 4 / 5] 0) 0 0
          ProbePtRaise.PROBE_PT_STOW 0 true true sampleMachine).1 = some (-28 / 25) := by
  have h := probe_at_point_offset (sampleConfigN 2 0) (sampleEnv [1, 4 / 5] 0) 0 0
    ProbePtRaise.PROBE_PT_STOW 0 true true sampleMachine (22 / 25) rfl
    (set_deployed_simple _ _ _ _ rfl rfl) sample_point_estimate
    (fun _ => rfl) (fun _ => set_deployed_simple _ _ _ _ rfl rfl)
  refine ⟨rfl, sample_point_estimate, ?_⟩
  rw [h]
  norm_num [sampleMachine]

/-- C7 as stated fails in its worked values: with offset (0, 0, -2), fast sample
1.0 and slow sample 0.8 the estimator returns 0.88, not 0.86, and
`probe_at_point` returns -1.12, not -1.14. -/
theorem probe_at_point_offset_counterexample :
    sampleMachine.offset = ⟨0, 0, -2⟩
      ∧ (sampleConfigN 2 0).TOTAL_PROBING = 2
      ∧ (run_z_probe (sampleConfigN 2 0) (sampleEnv [1.0, 0.8] 0) true
          (deploy (sampleConfigN 2 0) (sampleEnv [1.0, 0.8] 0)
            (approach (sampleConfigN 2 0) 0 0 true
              (bltouch_hs_reset (sampleConfigN 2 0) (sampleEnv [1.0, 0.8] 0)
                sampleMachine))).2).1 = some 0.88
      ∧ (run_z_probe (sampleConfigN 2 0) (sampleEnv [1.0, 0.8] 0) true
          (deploy (sampleConfigN 2 0) (sampleEnv [1.0, 0.8] 0)
            (approach (sampleConfigN 2 0) 0 0 true
              (bltouch_hs_reset (sampleConfigN 2 0) (sampleEnv [1.0, 0.8] 0)
                sampleMachine))).2).1 ≠ some 0.86
      ∧ (probe_at_point (sampleConfigN 2 0) (sampleEnv [1.0, 0.8] 0) 0 0
          ProbePtRaise.PROBE_PT_STOW 0 true true sampleMachine).1 = some (-1.12)
      ∧ (probe_at_point (sampleConfigN 2 0) (sampleEnv [1.0, 0.8] 0) 0 0
          ProbePtRaise.PROBE_PT_STOW 0 true true sampleMachine).1 ≠ some (-1.14) := by
  have e : ([1.0, 0.8] : List ℚ) = [1, 4 / 5] := by norm_num
  have h := probe_at_point_value (sampleConfigN 2 0) (sampleEnv [1, 4 / 5] 0) 0 0
    ProbePtRaise.PROBE_PT_STOW 0 true true sampleMachine (22 / 25) rfl
    (set_deployed_simple _ _ _ _ rfl rfl) sample_point_estimate
    (fun _ => rfl) (fun _ => set_deployed_simple _ _ _ _ rfl rfl)
  rw [e, h, sample_point_estimate]
  refine ⟨rfl, by decide, ?_, ?_, ?_, ?_⟩ <;> norm_num [sampleMachine]

/-! ## Clearance target of `do_z_raise` -/

/-- C17.  `do_z_raise` clearance target: for every `z_raise` and every
`offset.z`, the height handed to `do_z_clearance` (to `WS1_do_z_clearance`
under `WS1_HOMING_5X`) is `z_raise - offset.z` when `offset.z < 0` and
`z_raise` otherwise; at that target the lower of the nozzle height and the
probe-tip height `target + offset.z` is exactly `z_raise`, and the target is
never below `z_raise`. -/
theorem do_z_raise_target (cfg : Config) (z_raise : ℚ) (s : Machine) :
    do_z_raise cfg z_raise s
        = (if cfg.WS1_HOMING_5X then
            WS1_do_z_clearance cfg (if s.offset.z < 0 then z_raise - s.offset.z else z_raise) s
          else do_z_clearance cfg (if s.offset.z < 0 then z_raise - s.offset.z else z_raise) s)
      ∧ min (if s.offset.z < 0 then z_raise - s.offset.z else z_raise)
          ((if s.offset.z < 0 then z_raise - s.offset.z else z_raise) + s.offset.z) = z_raise
      ∧ z_raise ≤ (if s.offset.z < 0 then z_raise - s.offset.z else z_raise) := by
  refine ⟨rfl, ?_, ?_⟩
  · split_ifs with h
    · rw [min_eq_right (by linarith)]
      ring
    · rw [min_eq_left (by linarith)]
  · split_ifs with h <;> linarith

/-! ## Raise policy of the point orchestrator -/

/-- The block `if (!isnan(measured_z))` of `probe_at_point` on a measurement
`v`, in the machine `s` left by the estimator: `PROBE_PT_RAISE` issues exactly
one Z move, to `current_position.z + Z_CLEARANCE_BETWEEN_PROBES`, and no stow;
`PROBE_PT_BIG_RAISE` exactly one Z move, to `current_position.z + 25`, and no
stow; `PROBE_PT_STOW` and `PROBE_PT_LAST_STOW` issue no raise and call
`stow()`, and the value is NaN if and only if that stow reports failure;
`PROBE_PT_NONE` issues neither a move nor a stow.  The only other effect is
the bed report at verbose level above 2. -/
theorem apply_raise_policy (cfg : Config) (env : Env) (rx ry : ℚ) (vl : ℕ) (v : ℚ)
    (s : Machine) :
    (apply_raise cfg env rx ry ProbePtRaise.PROBE_PT_RAISE vl (some v) s
        = (some v,
            (do_blocking_move_to_z (s.current_position.z + cfg.Z_CLEARANCE_BETWEEN_PROBES)
              (raise_feedrate cfg) s).logIf (decide (vl > 2)) (Event.bed_report rx ry (some v)))
      ∧ (do_blocking_move_to_z (s.current_position.z + cfg.Z_CLEARANCE_BETWEEN_PROBES)
            (raise_feedrate cfg) s).trace
          = s.trace ++ [Event.move_to_z (s.current_position.z + cfg.Z_CLEARANCE_BETWEEN_PROBES)
              (raise_feedrate cfg)])
      ∧ (apply_raise cfg env rx ry ProbePtRaise.PROBE_PT_BIG_RAISE vl (some v) s
        = (some v,
            (do_blocking_move_to_z (s.current_position.z + 25) (raise_feedrate cfg) s).logIf
              (decide (vl > 2)) (Event.bed_report rx ry (some v)))
      ∧ (do_blocking_move_to_z (s.current_position.z + 25) (raise_feedrate cfg) s).trace
          = s.trace ++ [Event.move_to_z (s.current_position.z + 25) (raise_feedrate cfg)])
      ∧ (apply_raise cfg env rx ry ProbePtRaise.PROBE_PT_STOW vl (some v) s
        = (if (stow cfg env s).1 then NAN else some v,
            (stow cfg env s).2.logIf (decide (vl > 2))
              (Event.bed_report rx ry (if (stow cfg env s).1 then NAN else some v)))
      ∧ ((apply_raise cfg env rx ry ProbePtRaise.PROBE_PT_STOW vl (some v) s).1 = NAN
          ↔ (stow cfg env s).1 = true))
      ∧ (apply_raise cfg env rx ry ProbePtRaise.PROBE_PT_LAST_STOW vl (some v) s
        = (if (stow cfg env s).1 then NAN else some v,
            (stow cfg env s).2.logIf (decide (vl > 2))
              (Event.bed_report rx ry (if (stow cfg env s).1 then NAN else some v)))
      ∧ ((apply_raise cfg env rx ry ProbePtRaise.PROBE_PT_LAST_STOW vl (some v) s).1 = NAN
          ↔ (stow cfg env s).1 = true))
      ∧ apply_raise cfg env rx ry ProbePtRaise.PROBE_PT_NONE vl (some v) s
        = (some v, s.logIf (decide (vl > 2)) (Event.bed_report rx ry (some v))) := by
  refine ⟨⟨?_, rfl⟩, ⟨?_, rfl⟩, ⟨?_, ?_⟩, ⟨?_, ?_⟩, ?_⟩
  · simp [apply_raise, isnan]
  · simp [apply_raise, isnan]
  · simp [apply_raise, isnan]
  · cases h : (stow cfg env s).1 <;> simp [apply_raise, isnan, h, NAN]
  · simp [apply_raise, isnan]
  · cases h : (stow cfg env s).1 <;> simp [apply_raise, isnan, h, NAN]
  · simp [apply_raise, isnan]

/-! ## The DeviceState across the device actuator -/

theorem do_z_raise_enabled (cfg : Config) (z : ℚ) (s : Machine) :
    (do_z_raise cfg z s).z_probe_enabled = s.z_probe_enabled
      ∧ (do_z_raise cfg z s).pin_reads = s.pin_reads
      ∧ (do_z_raise cfg z s).running = s.running := by
  unfold do_z_raise
  split_ifs <;> exact ⟨rfl, rfl, rfl⟩

theorem dock_sled_enabled (cfg : Config) (b : Bool) (s : Machine) :
    (dock_sled cfg b s).z_probe_enabled = s.z_probe_enabled := by
  unfold dock_sled
  simp only [logIf_z_probe_enabled]
  rfl

theorem run_moves_script_enabled (script : List (XYZ × ℚ)) (s : Machine) :
    (run_moves_script script s).z_probe_enabled = s.z_probe_enabled := by
  unfold run_moves_script
  induction script generalizing s with
  | nil => rfl
  | cons w ws ih =>
    rw [List.foldl_cons]
    exact (ih _).trans rfl

theorem touch_mi_deploy_enabled (cfg : Config) (s : Machine) :
    (touch_mi_deploy cfg s).z_probe_enabled = s.z_probe_enabled := by
  unfold touch_mi_deploy
  split_ifs
  · rfl
  · cases cfg.TOUCH_MI_DEPLOY_YPOS <;> rfl

theorem user_rounds_enabled (env : Env) (d : Bool) (l : List ℕ) (s : Machine) :
    (l.foldl (fun t _ => (PROBE_TRIGGERED env t).2.log (Event.wait_for_user d))
      s).z_probe_enabled = s.z_probe_enabled := by
  induction l generalizing s with
  | nil => rfl
  | cons w ws ih =>
    rw [List.foldl_cons]
    exact (ih _).trans rfl

theorem pause_before_deploy_stow_enabled (cfg : Config) (env : Env) (d : Bool) (s : Machine) :
    (pause_before_deploy_stow cfg env d s).z_probe_enabled = s.z_probe_enabled := by
  unfold pause_before_deploy_stow
  split_ifs
  · exact (rfl : (PROBE_TRIGGERED env _).2.z_probe_enabled = _).trans
      (user_rounds_enabled env d _ s)
  · rfl

/-- The device action leaves the DeviceState alone, except that the stow script
of the TOUCH_MI probe switches it off. -/
theorem probe_specific_action_enabled (cfg : Config) (env : Env) (d : Bool) (s : Machine) :
    (probe_specific_action cfg env d s).z_probe_enabled
      = if cfg.kind = ProbeKind.TOUCH_MI_PROBE ∧ d = false then false
        else s.z_probe_enabled := by
  have h0 : (if cfg.PAUSE_BEFORE_DEPLOY_STOW then pause_before_deploy_stow cfg env d s
      else s).z_probe_enabled = s.z_probe_enabled := by
    split_ifs
    · exact pause_before_deploy_stow_enabled cfg env d s
    · rfl
  unfold probe_specific_action
  simp only []
  generalize (if cfg.PAUSE_BEFORE_DEPLOY_STOW then pause_before_deploy_stow cfg env d s
      else s) = s1 at h0 ⊢
  cases cfg.kind
  · simpa using h0
  · simpa [dock_sled_enabled] using h0
  · simpa using h0
  · simpa using h0
  · cases d
    · simp [touch_mi_stow, do_blocking_move_to, do_blocking_move_to_z, enable_z_probe]
    · simpa [touch_mi_deploy_enabled] using h0
  · cases d
    · simpa [run_moves_script_enabled] using h0
    · simpa [run_moves_script_enabled] using h0
  · simpa [do_blocking_move_to_x] using h0
  · simpa using h0
theorem stowed_test_action_enabled (cfg : Config) (env : Env) (d : Bool) (s : Machine) :
    (stowed_test_action cfg env d s).2.z_probe_enabled
      = if env.pin s.pin_reads = d ∧ d = false then false else s.z_probe_enabled := by
  have h1 : (if (PROBE_TRIGGERED env s).1 == d then
        probe_specific_action cfg env d
          (if !d then enable_z_probe false (PROBE_TRIGGERED env s).2
            else (PROBE_TRIGGERED env s).2)
      else (PROBE_TRIGGERED env s).2).z_probe_enabled
      = if env.pin s.pin_reads = d ∧ d = false then false else s.z_probe_enabled := by
    by_cases hp : env.pin s.pin_reads = d
    · have hp' : ((PROBE_TRIGGERED env s).1 == d) = true := by
        simpa [PROBE_TRIGGERED] using hp
      rw [if_pos hp', probe_specific_action_enabled]
      cases d
      · simp [enable_z_probe, hp]
      · simp [PROBE_TRIGGERED]
    · have hp' : ¬ ((PROBE_TRIGGERED env s).1 == d) = true := by
        simpa [PROBE_TRIGGERED] using hp
      rw [if_neg hp', if_neg (fun c => hp c.1)]
      rfl
  unfold stowed_test_action
  simp only []
  generalize (if (PROBE_TRIGGERED env s).1 == d then
        probe_specific_action cfg env d
          (if !d then enable_z_probe false (PROBE_TRIGGERED env s).2
            else (PROBE_TRIGGERED env s).2)
      else (PROBE_TRIGGERED env s).2) = s1 at h1 ⊢
  by_cases ht : ((PROBE_TRIGGERED env s1).1 == d) = true
  · rw [if_pos ht]
    simp only [stop, logIf_z_probe_enabled, PROBE_TRIGGERED]
    exact h1
  · rw [if_neg ht]
    exact h1

theorem set_deployed_failure_state (cfg : Config) (env : Env) (d : Bool) (s : Machine)
    (h : (set_deployed cfg env d s).1 = true) :
    ((d = true ∨ cfg.PROBE_TRIGGERED_WHEN_STOWED_TEST = false ∨ env.pin s.pin_reads = true) →
        (set_deployed cfg env d s).2.z_probe_enabled = s.z_probe_enabled)
      ∧ ((set_deployed cfg env d s).2.z_probe_enabled = s.z_probe_enabled
        ∨ (set_deployed cfg env d s).2.z_probe_enabled = false) := by
  have h1 : (if (if (cfg.FIX_MOUNTED_PROBE || cfg.NOZZLE_AS_PROBE)
        && !cfg.PAUSE_BEFORE_DEPLOY_STOW then d else true) then
        do_z_raise cfg (max cfg.Z_CLEARANCE_BETWEEN_PROBES cfg.Z_CLEARANCE_DEPLOY_PROBE) s
      else s).z_probe_enabled = s.z_probe_enabled
      ∧ (if (if (cfg.FIX_MOUNTED_PROBE || cfg.NOZZLE_AS_PROBE)
        && !cfg.PAUSE_BEFORE_DEPLOY_STOW then d else true) then
        do_z_raise cfg (max cfg.Z_CLEARANCE_BETWEEN_PROBES cfg.Z_CLEARANCE_DEPLOY_PROBE) s
      else s).pin_reads = s.pin_reads := by
    split_ifs <;>
      first
        | exact ⟨(do_z_raise_enabled _ _ _).1, (do_z_raise_enabled _ _ _).2.1⟩
        | exact ⟨rfl, rfl⟩
  unfold set_deployed at h ⊢
  simp only [] at h ⊢
  generalize (if (if (cfg.FIX_MOUNTED_PROBE || cfg.NOZZLE_AS_PROBE)
        && !cfg.PAUSE_BEFORE_DEPLOY_STOW then d else true) then
        do_z_raise cfg (max cfg.Z_CLEARANCE_BETWEEN_PROBES cfg.Z_CLEARANCE_DEPLOY_PROBE) s
      else s) = s1 at h h1 ⊢
  split_ifs at h ⊢ with a b c e
  · have k : (stop (s1.log (Event.error_msg 0))).z_probe_enabled = s.z_probe_enabled := h1.1
    exact ⟨fun _ => k, Or.inl k⟩
  · have k := stowed_test_action_enabled cfg env d s1
    rw [h1.1, h1.2] at k
    simp only [k]
    constructor
    · rintro (hd | hst | hp)
      · subst hd; simp
      · rw [hst] at c; exact absurd c (by simp)
      · simp [hp]
    · by_cases hp : env.pin s.pin_reads = d ∧ d = false
      · right; rw [if_pos hp]
      · left; rw [if_neg hp]
/-- What a failed call of `set_deployed` leaves of the DeviceState: it differed
from the request on entry; it is kept for a deploy request, without
`PROBE_TRIGGERED_WHEN_STOWED_TEST`, when the homing check stops the call and
when the probe input reads triggered before the action; it is switched off by
a stow under `PROBE_TRIGGERED_WHEN_STOWED_TEST` whose action is taken. -/
theorem set_deployed_failure_exact (cfg : Config) (env : Env) (d : Bool) (s : Machine)
    (h : (set_deployed cfg env d s).1 = true) :
    s.z_probe_enabled = !d
      ∧ ((d = true ∨ cfg.PROBE_TRIGGERED_WHEN_STOWED_TEST = false
            ∨ ((cfg.kind == ProbeKind.Z_PROBE_SLED || cfg.kind == ProbeKind.Z_PROBE_ALLEN_KEY)
              && env.homing_needed_error) = true
            ∨ env.pin s.pin_reads = true) →
          (set_deployed cfg env d s).2.z_probe_enabled = s.z_probe_enabled)
      ∧ (d = false → cfg.PROBE_TRIGGERED_WHEN_STOWED_TEST = true →
          ((cfg.kind == ProbeKind.Z_PROBE_SLED || cfg.kind == ProbeKind.Z_PROBE_ALLEN_KEY)
            && env.homing_needed_error) = false →
          env.pin s.pin_reads = false →
          (set_deployed cfg env d s).2.z_probe_enabled = false) := by
  have h1 : (if (if (cfg.FIX_MOUNTED_PROBE || cfg.NOZZLE_AS_PROBE)
        && !cfg.PAUSE_BEFORE_DEPLOY_STOW then d else true) then
        do_z_raise cfg (max cfg.Z_CLEARANCE_BETWEEN_PROBES cfg.Z_CLEARANCE_DEPLOY_PROBE) s
      else s).z_probe_enabled = s.z_probe_enabled
      ∧ (if (if (cfg.FIX_MOUNTED_PROBE || cfg.NOZZLE_AS_PROBE)
        && !cfg.PAUSE_BEFORE_DEPLOY_STOW then d else true) then
        do_z_raise cfg (max cfg.Z_CLEARANCE_BETWEEN_PROBES cfg.Z_CLEARANCE_DEPLOY_PROBE) s
      else s).pin_reads = s.pin_reads := by
    split_ifs <;>
      first
        | exact ⟨(do_z_raise_enabled _ _ _).1, (do_z_raise_enabled _ _ _).2.1⟩
        | exact ⟨rfl, rfl⟩
  unfold set_deployed at h ⊢
  simp only [] at h ⊢
  generalize (if (if (cfg.FIX_MOUNTED_PROBE || cfg.NOZZLE_AS_PROBE)
        && !cfg.PAUSE_BEFORE_DEPLOY_STOW then d else true) then
        do_z_raise cfg (max cfg.Z_CLEARANCE_BETWEEN_PROBES cfg.Z_CLEARANCE_DEPLOY_PROBE) s
      else s) = s1 at h h1 ⊢
  split_ifs at h ⊢ with a b c e
  · have k : (stop (s1.log (Event.error_msg 0))).z_probe_enabled = s.z_probe_enabled := h1.1
    refine ⟨?_, fun _ => k, ?_⟩
    · cases hs : s.z_probe_enabled <;> cases d <;> simp_all
    · intro _ _ hh _
      rw [b] at hh
      exact absurd hh (by simp)
  · have k := stowed_test_action_enabled cfg env d s1
    rw [h1.1, h1.2] at k
    refine ⟨?_, ?_, ?_⟩
    · cases hs : s.z_probe_enabled <;> cases d <;> simp_all
    · simp only [k]
      rintro (hd | hst | hh | hp)
      · subst hd; simp
      · rw [hst] at c; exact absurd c (by simp)
      · exact absurd hh b
      · simp [hp]
    · intro hd _ _ hp
      simp only [k]
      rw [if_pos ⟨hp.trans hd.symm, hd⟩]

/-- C14 (amended).  `set_deployed` and the DeviceState on failure, for every
configuration and both requests.  A call that returns failure was entered with
the DeviceState opposite to the request.  On return `endstops.z_probe_enabled`
equals its value on entry for a deploy request, without
`PROBE_TRIGGERED_WHEN_STOWED_TEST`, when the homing check stops the call, and
when the probe input reads triggered before the action.  In the remaining
case, a stow under `PROBE_TRIGGERED_WHEN_STOWED_TEST` that passes the homing
check and finds the input not triggered, so that its action is taken, the
DeviceState on return is "stowed" although it was "deployed" on entry. -/
theorem set_deployed_failure_keeps_state (cfg : Config) (env : Env) (d : Bool) (s : Machine)
    (h : (set_deployed cfg env d s).1 = true) :
    s.z_probe_enabled = !d
      ∧ ((d = true ∨ cfg.PROBE_TRIGGERED_WHEN_STOWED_TEST = false
            ∨ ((cfg.kind == ProbeKind.Z_PROBE_SLED || cfg.kind == ProbeKind.Z_PROBE_ALLEN_KEY)
              && env.homing_needed_error) = true
            ∨ env.pin s.pin_reads = true) →
          (set_deployed cfg env d s).2.z_probe_enabled = s.z_probe_enabled)
      ∧ (d = false → cfg.PROBE_TRIGGERED_WHEN_STOWED_TEST = true →
          ((cfg.kind == ProbeKind.Z_PROBE_SLED || cfg.kind == ProbeKind.Z_PROBE_ALLEN_KEY)
            && env.homing_needed_error) = false →
          env.pin s.pin_reads = false →
          s.z_probe_enabled = true ∧ (set_deployed cfg env d s).2.z_probe_enabled = false) := by
  obtain ⟨h0, h1, h2⟩ := set_deployed_failure_exact cfg env d s h
  refine ⟨h0, h1, fun hd ht hh hp => ⟨?_, h2 hd ht hh hp⟩⟩
  rw [h0, hd]
  rfl

theorem sample_deploy_stuck :
    (set_deployed servoConfig stuckEnv true sampleMachine).1 = true := by
  simp [set_deployed, servoConfig, stuckEnv, sampleConfig, sampleMachine, sampleEnv,
    stowed_test_action, PROBE_TRIGGERED, probe_specific_action, do_z_raise, do_z_clearance,
    do_blocking_move_to_z, Machine.log, Machine.logIf, stop, enable_z_probe]

theorem sample_stow_unchanged :
    (set_deployed servoConfig (sampleEnv [] 0) false deployedMachine).1 = true := by
  simp [set_deployed, servoConfig, sampleConfig, sampleMachine, sampleEnv, deployedMachine,
    stowed_test_action, PROBE_TRIGGERED, probe_specific_action, do_z_raise, do_z_clearance,
    do_blocking_move_to_z, Machine.log, Machine.logIf, stop, enable_z_probe]

/-- C14, worked examples.  The servo probe whose input stays triggered fails to
deploy from the stowed sample machine, and the DeviceState stays "stowed".  The
deployed servo probe whose input never reads triggered fails to stow, and the
DeviceState, "deployed" on entry, is "stowed" on return. -/
theorem set_deployed_failure_keeps_state_witness :
    ((set_deployed servoConfig stuckEnv true sampleMachine).1 = true
        ∧ (set_deployed servoConfig stuckEnv true sampleMachine).2.z_probe_enabled
          = sampleMachine.z_probe_enabled)
      ∧ (set_deployed servoConfig (sampleEnv [] 0) false deployedMachine).1 = true
      ∧ deployedMachine.z_probe_enabled = true
      ∧ (set_deployed servoConfig (sampleEnv [] 0) false deployedMachine).2.z_probe_enabled
          = false :=
  ⟨⟨sample_deploy_stuck,
    (set_deployed_failure_keeps_state servoConfig stuckEnv true sampleMachine
      sample_deploy_stuck).2.1 (Or.inl rfl)⟩,
    sample_stow_unchanged,
    (set_deployed_failure_keeps_state servoConfig (sampleEnv [] 0) false deployedMachine
      sample_stow_unchanged).2.2 rfl rfl rfl rfl⟩

/-- C14 as stated fails for a stow under `PROBE_TRIGGERED_WHEN_STOWED_TEST`: a
deployed servo probe whose input never reads triggered is asked to stow; the
DeviceState is switched off before the servo moves, the readback is unchanged,
`set_deployed` returns failure, and the DeviceState on return is "stowed"
although it was "deployed" on entry. -/
theorem set_deployed_failure_keeps_state_counterexample :
    ({ sampleMachine with z_probe_enabled := true } : Machine).z_probe_enabled = true
      ∧ (set_deployed servoConfig (sampleEnv [] 0) false
          { sampleMachine with z_probe_enabled := true }).1 = true
      ∧ (set_deployed servoConfig (sampleEnv [] 0) false
          { sampleMachine with z_probe_enabled := true }).2.z_probe_enabled = false := by
  refine ⟨rfl, ?_, ?_⟩ <;>
    simp [set_deployed, servoConfig, sampleConfig, sampleMachine, sampleEnv,
      stowed_test_action, PROBE_TRIGGERED, probe_specific_action, do_z_raise, do_z_clearance,
      do_blocking_move_to_z, Machine.log, Machine.logIf, stop, enable_z_probe]

/-! ## The estimator leaves the offset and the DeviceState alone -/

@[simp] theorem probe_down_to_z_z_probe_enabled (cfg : Config) (env : Env) (z fr : ℚ)
    (s : Machine) : (probe_down_to_z cfg env z fr s).2.z_probe_enabled = s.z_probe_enabled := by
  unfold probe_down_to_z
  simp only []
  split_ifs <;> simp [hit_on_purpose, set_current_from_steppers_for_axis_Z, do_blocking_move_to_z]

@[simp] theorem tare_z_probe_enabled (s : Machine) :
    (tare s).2.z_probe_enabled = s.z_probe_enabled := rfl

@[simp] theorem try_to_probe_z_probe_enabled (cfg : Config) (env : Env) (zl fr : ℚ) (sc : Bool)
    (cl : ℚ) (s : Machine) :
    (try_to_probe cfg env zl fr sc cl s).2.z_probe_enabled = s.z_probe_enabled := by
  unfold try_to_probe
  cases hT : cfg.PROBE_TARE <;> simp

@[simp] theorem do_blocking_move_to_z_z_probe_enabled (z fr : ℚ) (s : Machine) :
    (do_blocking_move_to_z z fr s).z_probe_enabled = s.z_probe_enabled := rfl

@[simp] theorem do_blocking_move_to_xy_z_probe_enabled (x y fr : ℚ) (s : Machine) :
    (do_blocking_move_to_xy x y fr s).z_probe_enabled = s.z_probe_enabled := rfl

@[simp] theorem set_buff_z_probe_enabled (s : Machine) (i : ℕ) (v : ℚ) :
    (s.set_buff i v).z_probe_enabled = s.z_probe_enabled := rfl

theorem double_probe_first_frame (cfg : Config) (env : Env) (sc : Bool) (zl : ℚ)
    (s : Machine) :
    (double_probe_first cfg env sc zl s).2.offset = s.offset
      ∧ (double_probe_first cfg env sc zl s).2.z_probe_enabled = s.z_probe_enabled := by
  unfold double_probe_first
  cases hT : cfg.PROBE_TARE <;> simp only [] <;> split_ifs <;> simp

theorem fast_pre_descent_z_probe_enabled (cfg : Config) (env : Env) (s : Machine) :
    (fast_pre_descent cfg env s).z_probe_enabled = s.z_probe_enabled := by
  unfold fast_pre_descent
  simp only []
  split_ifs <;> simp

theorem loop_entry_z_probe_enabled (cfg : Config) (env : Env) (s : Machine) :
    (loop_entry cfg env s).z_probe_enabled = s.z_probe_enabled := by
  unfold loop_entry
  split_ifs
  · exact fast_pre_descent_z_probe_enabled cfg env s
  · rfl

theorem detect_times_loop_frame (cfg : Config) (env : Env) (sc : Bool) (zl : ℚ) :
    ∀ (fuel ta ic : ℕ) (f : ℚ) (s : Machine),
      (detect_times_loop cfg env sc zl fuel ta ic f s).2.offset = s.offset
        ∧ (detect_times_loop cfg env sc zl fuel ta ic f s).2.z_probe_enabled
          = s.z_probe_enabled := by
  intro fuel
  induction fuel with
  | zero => intro ta ic f s; exact ⟨rfl, rfl⟩
  | succ n ih =>
    intro ta ic f s
    simp only [detect_times_loop]
    split_ifs
    any_goals simp
    rw [(ih _ _ _ _).1, (ih _ _ _ _).2]
    simp
theorem detect_times_finish_frame (r : Except FloatQ (ℕ × ℕ × ℚ) × Machine) :
    (detect_times_finish r).2.offset = r.2.offset
      ∧ (detect_times_finish r).2.z_probe_enabled = r.2.z_probe_enabled := by
  obtain ⟨r1, r2⟩ := r
  cases r1 with
  | error v => exact ⟨rfl, rfl⟩
  | ok t =>
    obtain ⟨ta, ic, f1⟩ := t
    simp only [detect_times_finish]
    split_ifs <;> exact ⟨rfl, rfl⟩

theorem detect_times_probe_frame (cfg : Config) (env : Env) (sc : Bool) (zl f : ℚ)
    (s : Machine) :
    (detect_times_probe cfg env sc zl f s).2.offset = s.offset
      ∧ (detect_times_probe cfg env sc zl f s).2.z_probe_enabled = s.z_probe_enabled := by
  unfold detect_times_probe
  have a := detect_times_finish_frame
    (detect_times_loop cfg env sc zl 6 0 0 f (s.set_buff 0 f))
  have b := detect_times_loop_frame cfg env sc zl 6 0 0 f (s.set_buff 0 f)
  exact ⟨a.1.trans b.1, a.2.trans b.2⟩

theorem plain_attempt_z_probe_enabled (cfg : Config) (env : Env) (sc : Bool) (zl f : ℚ)
    (s : Machine) : (plain_attempt cfg env sc zl f s).2.z_probe_enabled = s.z_probe_enabled := by
  unfold plain_attempt
  simp only []
  split_ifs <;> simp

theorem slow_probe_frame (cfg : Config) (env : Env) (sc : Bool) (zl : ℚ) (f : Option ℚ)
    (s : Machine) :
    (slow_probe cfg env sc zl f s).2.offset = s.offset
      ∧ (slow_probe cfg env sc zl f s).2.z_probe_enabled = s.z_probe_enabled := by
  rw [slow_probe_eq]
  have c := slow_finish_core cfg
    (slow_attempt cfg env sc zl f (if cfg.PROBE_TARE then (tare s).2 else s))
  have c1 := congrArg Core.offset c
  have c2 := congrArg Core.z_probe_enabled c
  simp only [Machine.core] at c1 c2
  rw [c1, c2]
  have t1 : (if cfg.PROBE_TARE then (tare s).2 else s).z_probe_enabled = s.z_probe_enabled := by
    cases cfg.PROBE_TARE <;> rfl
  have t2 := tare_if_offset cfg.PROBE_TARE s
  clear c c1 c2
  generalize (if cfg.PROBE_TARE then (tare s).2 else s) = s1 at t1 t2 ⊢
  unfold slow_attempt
  split_ifs
  · have k := detect_times_probe_frame cfg env sc zl (f.getD 0) s1
    exact ⟨k.1.trans t2, k.2.trans t1⟩
  · exact ⟨(plain_attempt_offset _ _ _ _ _ _).trans t2,
      (plain_attempt_z_probe_enabled _ _ _ _ _ _).trans t1⟩

theorem trimmed_loop_frame (cfg : Config) (env : Env) (sc : Bool) (zl : ℚ) :
    ∀ (n p : ℕ) (probes : List ℚ) (s : Machine),
      (trimmed_loop cfg env sc zl n p probes s).2.offset = s.offset
        ∧ (trimmed_loop cfg env sc zl n p probes s).2.z_probe_enabled = s.z_probe_enabled := by
  intro n
  induction n with
  | zero => intro p probes s; exact ⟨rfl, rfl⟩
  | succ n ih =>
    intro p probes s
    have k := slow_probe_frame cfg env sc zl none s
    rw [trimmed_loop]
    generalize slow_probe cfg env sc zl none s = r at k ⊢
    obtain ⟨r1, r2⟩ := r
    cases r1 with
    | error v => exact k
    | ok t =>
      obtain ⟨z, f1⟩ := t
      simp only [] at k ⊢
      rw [(ih _ _ _).1, (ih _ _ _).2]
      split_ifs <;> exact k

theorem plain_loop_frame (cfg : Config) (env : Env) (sc : Bool) (zl : ℚ) :
    ∀ (p : ℕ) (sum : ℚ) (s : Machine),
      (plain_loop cfg env sc zl p sum s).2.offset = s.offset
        ∧ (plain_loop cfg env sc zl p sum s).2.z_probe_enabled = s.z_probe_enabled := by
  intro p
  induction p with
  | zero => intro sum s; exact ⟨rfl, rfl⟩
  | succ n ih =>
    intro sum s
    have k := slow_probe_frame cfg env sc zl none s
    rw [plain_loop]
    generalize slow_probe cfg env sc zl none s = r at k ⊢
    obtain ⟨r1, r2⟩ := r
    cases r1 with
    | error v => exact k
    | ok t =>
      obtain ⟨z, f1⟩ := t
      simp only [] at k ⊢
      rw [(ih _ _).1, (ih _ _).2]
      split_ifs <;> exact k

/-- The estimator changes neither the probe offset nor the DeviceState. -/
theorem run_z_probe_frame (cfg : Config) (env : Env) (sc : Bool) (s : Machine) :
    (run_z_probe cfg env sc s).2.offset = s.offset
      ∧ (run_z_probe cfg env sc s).2.z_probe_enabled = s.z_probe_enabled := by
  have e : (loop_entry cfg env s).offset = s.offset
      ∧ (loop_entry cfg env s).z_probe_enabled = s.z_probe_enabled :=
    ⟨loop_entry_offset cfg env s, loop_entry_z_probe_enabled cfg env s⟩
  unfold run_z_probe
  by_cases h2 : cfg.TOTAL_PROBING = 2
  · simp only [h2, if_true]
    have c := double_probe_first_frame cfg env sc (z_probe_low_point cfg s) s
    generalize double_probe_first cfg env sc (z_probe_low_point cfg s) s = r at c ⊢
    obtain ⟨r1, r2⟩ := r
    cases r1 with
    | error v => exact c
    | ok f =>
      simp only [] at c ⊢
      have d := slow_probe_frame cfg env sc (z_probe_low_point cfg s) (some f) r2
      generalize slow_probe cfg env sc (z_probe_low_point cfg s) (some f) r2 = q at d ⊢
      obtain ⟨q1, q2⟩ := q
      cases q1 with
      | error v => exact ⟨d.1.trans c.1, d.2.trans c.2⟩
      | ok t =>
        simp only [] at d ⊢
        split_ifs <;> exact ⟨d.1.trans c.1, d.2.trans c.2⟩
  · simp only [h2, if_false]
    by_cases hT : cfg.TOTAL_PROBING > 2
    · simp only [hT, if_true]
      by_cases hK : cfg.EXTRA_PROBING > 0
      · simp only [hK, if_true]
        have c := trimmed_loop_frame cfg env sc (z_probe_low_point cfg s) cfg.TOTAL_PROBING 0
          ((List.range cfg.TOTAL_PROBING).map env.probes_uninit) (loop_entry cfg env s)
        generalize trimmed_loop cfg env sc (z_probe_low_point cfg s) cfg.TOTAL_PROBING 0
          ((List.range cfg.TOTAL_PROBING).map env.probes_uninit) (loop_entry cfg env s) = r
          at c ⊢
        obtain ⟨r1, r2⟩ := r
        cases r1 <;> exact ⟨c.1.trans e.1, c.2.trans e.2⟩
      · simp only [hK, if_false]
        have c := plain_loop_frame cfg env sc (z_probe_low_point cfg s)
          (toUInt8 cfg.TOTAL_PROBING) 0 (loop_entry cfg env s)
        generalize plain_loop cfg env sc (z_probe_low_point cfg s)
          (toUInt8 cfg.TOTAL_PROBING) 0 (loop_entry cfg env s) = r at c ⊢
        obtain ⟨r1, r2⟩ := r
        cases r1 <;> exact ⟨c.1.trans e.1, c.2.trans e.2⟩
    · simp only [hT, if_false]
      have c := slow_probe_frame cfg env sc (z_probe_low_point cfg s) none
        (loop_entry cfg env s)
      generalize slow_probe cfg env sc (z_probe_low_point cfg s) none
        (loop_entry cfg env s) = r at c ⊢
      obtain ⟨r1, r2⟩ := r
      cases r1 <;> exact ⟨c.1.trans e.1, c.2.trans e.2⟩

/-! ## The forced stow of the point orchestrator -/

@[simp] theorem log_running (s : Machine) (e : Event) : (s.log e).running = s.running :=
  congrArg Core.running (log_core s e)

@[simp] theorem logIf_running (s : Machine) (c : Bool) (e : Event) :
    (s.logIf c e).running = s.running :=
  congrArg Core.running (logIf_core s c e)

theorem stowed_test_action_stops (cfg : Config) (env : Env) (d : Bool) (s : Machine)
    (h : (stowed_test_action cfg env d s).1 = true) :
    (stowed_test_action cfg env d s).2.running = false := by
  unfold stowed_test_action at h ⊢
  simp only [] at h ⊢
  split_ifs at h ⊢ <;> rfl

theorem set_deployed_failure_stops (cfg : Config) (env : Env) (d : Bool) (s : Machine)
    (h : (set_deployed cfg env d s).1 = true) : (set_deployed cfg env d s).2.running = false := by
  unfold set_deployed at h ⊢
  simp only [] at h ⊢
  generalize (if (if (cfg.FIX_MOUNTED_PROBE || cfg.NOZZLE_AS_PROBE)
        && !cfg.PAUSE_BEFORE_DEPLOY_STOW then d else true) then
        do_z_raise cfg (max cfg.Z_CLEARANCE_BETWEEN_PROBES cfg.Z_CLEARANCE_DEPLOY_PROBE) s
      else s) = s1 at h ⊢
  split_ifs at h ⊢ with a b c e
  · rfl
  · exact stowed_test_action_stops cfg env d s1 e

theorem stow_off_or_stopped (cfg : Config) (env : Env) (s : Machine) :
    (stow cfg env s).2.z_probe_enabled = false ∨ (stow cfg env s).2.running = false := by
  unfold stow
  cases h : (set_deployed cfg env false s).1
  · exact Or.inl (set_deployed_state cfg env false s h)
  · exact Or.inr (set_deployed_failure_stops cfg env false s h)

/-- When the last block of `probe_at_point` returns NaN it has called `stow()`,
in a machine with the DeviceState it was entered with, and nothing after that
call changes the DeviceState or the running flag. -/
theorem failure_stow_nan (cfg : Config) (env : Env) (mz : FloatQ) (s : Machine)
    (h : (failure_stow cfg env mz s).1 = NAN) :
    ∃ u, u.z_probe_enabled = s.z_probe_enabled
      ∧ (failure_stow cfg env mz s).2.z_probe_enabled = (stow cfg env u).2.z_probe_enabled
      ∧ (failure_stow cfg env mz s).2.running = (stow cfg env u).2.running := by
  unfold failure_stow at h ⊢
  simp only [] at h ⊢
  by_cases ht : (if isnan mz then (true, s) else ANKER_OVERPRESSURE_TRIGGER env s).1 = true
  · rw [if_pos ht]
    refine ⟨(ANKER_OVERPRESSURE_TRIGGER env
        (if isnan mz then (true, s) else ANKER_OVERPRESSURE_TRIGGER env s).2).2.logIf
        (ANKER_OVERPRESSURE_TRIGGER env
          (if isnan mz then (true, s) else ANKER_OVERPRESSURE_TRIGGER env s).2).1
        Event.closed_overpressure, ?_, ?_, ?_⟩
    · simp only [logIf_z_probe_enabled, ANKER_OVERPRESSURE_TRIGGER]
      split_ifs <;> rfl
    · simp only [logIf_z_probe_enabled, log_z_probe_enabled]
    · simp only [logIf_running, log_running]
  · rw [if_neg ht] at h
    exfalso
    cases mz with
    | none => simp [isnan] at ht
    | some v => simp [NAN] at h

theorem probe_at_point_reachable (cfg : Config) (env : Env) (rx ry : ℚ)
    (ra : ProbePtRaise) (vl : ℕ) (pr sc : Bool) (s : Machine)
    (h : target_reachable cfg env rx ry pr s = true) :
    probe_at_point cfg env rx ry ra vl pr sc s
      = failure_stow cfg env (measure_and_raise cfg env rx ry ra vl pr sc s).1
          (measure_and_raise cfg env rx ry ra vl pr sc s).2 := by
  unfold probe_at_point measure_and_raise
  simp only [target_reachable_reset, h, Bool.not_true, Bool.false_eq_true, if_false]

/-- When the last block of `probe_at_point` returns NaN it has called `stow()`
in the machine `forced_stow_entry`, and what follows is the failure report. -/
theorem failure_stow_nan_machine (cfg : Config) (env : Env) (mz : FloatQ) (s : Machine)
    (h : (failure_stow cfg env mz s).1 = NAN) :
    (failure_stow cfg env mz s).2
      = failure_report cfg (stow cfg env (forced_stow_entry env mz s)).2 := by
  unfold failure_stow at h ⊢
  simp only [] at h ⊢
  by_cases ht : (if isnan mz then (true, s) else ANKER_OVERPRESSURE_TRIGGER env s).1 = true
  · rw [if_pos ht]
    rfl
  · rw [if_neg ht] at h
    exfalso
    cases mz with
    | none => simp [isnan] at ht
    | some v => simp [NAN] at h

theorem failure_report_keep (cfg : Config) (s : Machine) :
    (failure_report cfg s).z_probe_enabled = s.z_probe_enabled
      ∧ (failure_report cfg s).running = s.running := by
  unfold failure_report
  exact ⟨by simp only [logIf_z_probe_enabled, log_z_probe_enabled],
    by simp only [logIf_running, log_running]⟩

theorem forced_stow_entry_enabled (env : Env) (mz : FloatQ) (s : Machine) :
    (forced_stow_entry env mz s).z_probe_enabled = s.z_probe_enabled := by
  unfold forced_stow_entry
  simp only [logIf_z_probe_enabled, ANKER_OVERPRESSURE_TRIGGER]
  split_ifs <;> rfl

/-- C12 (amended).  For every call of `probe_at_point` with a reachable target
that returns NaN (deploy failure, estimator failure, stow failure under a stow
policy, or overpressure trigger), a stow has been attempted before the return:
the machine returned is the one left by `stow()` called in the machine that
the measurement, the raise policy and the overpressure reads have produced,
followed by the failure report.  The DeviceState is "stowed" when the call
returns, unless that stow reports failure, in which case the machine has been
stopped.  For an unreachable target the call returns NaN with nothing
attempted: the machine is that of entry up to BLTouch resets, and the
DeviceState is as on entry. -/
theorem probe_at_point_failure_stows (cfg : Config) (env : Env) (rx ry : ℚ)
    (ra : ProbePtRaise) (vl : ℕ) (pr sc : Bool) (s : Machine) :
    ((if pr then env.can_reach (probe_npos cfg rx ry s)
        else env.position_is_reachable (probe_npos cfg rx ry s)) = true →
      (probe_at_point cfg env rx ry ra vl pr sc s).1 = NAN →
      ∃ u, u = forced_stow_entry env (measure_and_raise cfg env rx ry ra vl pr sc s).1
            (measure_and_raise cfg env rx ry ra vl pr sc s).2
        ∧ (probe_at_point cfg env rx ry ra vl pr sc s).2
            = failure_report cfg (stow cfg env u).2
        ∧ ((stow cfg env u).1 = false →
            (probe_at_point cfg env rx ry ra vl pr sc s).2.z_probe_enabled = false)
        ∧ ((stow cfg env u).1 = true →
            (probe_at_point cfg env rx ry ra vl pr sc s).2.running = false))
      ∧ ((if pr then env.can_reach (probe_npos cfg rx ry s)
          else env.position_is_reachable (probe_npos cfg rx ry s)) = false →
        (probe_at_point cfg env rx ry ra vl pr sc s).1 = NAN
          ∧ (probe_at_point cfg env rx ry ra vl pr sc s).2 = bltouch_hs_reset cfg env s
          ∧ (probe_at_point cfg env rx ry ra vl pr sc s).2.z_probe_enabled = s.z_probe_enabled
          ∧ ∃ l, (probe_at_point cfg env rx ry ra vl pr sc s).2.trace = s.trace ++ l
              ∧ ∀ e ∈ l, e = Event.bltouch_reset) := by
  constructor
  · intro hreach hnan
    have hr : target_reachable cfg env rx ry pr s = true := hreach
    rw [probe_at_point_reachable cfg env rx ry ra vl pr sc s hr] at hnan ⊢
    have e := failure_stow_nan_machine cfg env _ _ hnan
    refine ⟨_, rfl, e, ?_, ?_⟩
    · intro hs
      rw [e, (failure_report_keep cfg _).1]
      exact set_deployed_state cfg env false _ hs
    · intro hs
      rw [e, (failure_report_keep cfg _).2]
      exact set_deployed_failure_stops cfg env false _ hs
  · intro hun
    have hr : target_reachable cfg env rx ry pr s = false := hun
    rw [probe_at_point_unreachable_state cfg env rx ry ra vl pr sc s hr]
    exact ⟨rfl, rfl, (bltouch_hs_reset_keep cfg env s).2.2.1, bltouch_hs_reset_trace cfg env s⟩

theorem failure_stow_overpressure (cfg : Config) (env : Env) (mz : FloatQ) (s : Machine)
    (hop : ∀ k, env.overpressure k = true) : (failure_stow cfg env mz s).1 = NAN := by
  unfold failure_stow
  cases mz <;> simp [isnan, ANKER_OVERPRESSURE_TRIGGER, hop]

theorem probe_at_point_overpressure (cfg : Config) (env : Env) (rx ry : ℚ)
    (ra : ProbePtRaise) (vl : ℕ) (pr sc : Bool) (s : Machine)
    (hop : ∀ k, env.overpressure k = true) :
    (probe_at_point cfg env rx ry ra vl pr sc s).1 = NAN := by
  unfold probe_at_point
  simp only []
  split_ifs <;> first | rfl | exact failure_stow_overpressure cfg env _ _ hop

theorem approach_z_probe_enabled (cfg : Config) (rx ry : ℚ) (pr : Bool) (s : Machine) :
    (approach cfg rx ry pr s).z_probe_enabled = s.z_probe_enabled := by
  unfold approach
  simp only [logIf_z_probe_enabled]
  rfl

theorem apply_raise_none_enabled (cfg : Config) (env : Env) (rx ry : ℚ) (vl : ℕ)
    (mz : FloatQ) (s : Machine) :
    (apply_raise cfg env rx ry ProbePtRaise.PROBE_PT_NONE vl mz s).2.z_probe_enabled
      = s.z_probe_enabled := by
  unfold apply_raise
  cases mz <;> simp [isnan]

/-- Once the target is reachable, the machine in which the last block of
`probe_at_point` calls `stow()` after a NaN has the DeviceState that `deploy`
left, when the raise policy is `PROBE_PT_NONE`. -/
theorem probe_at_point_none_nan (cfg : Config) (env : Env) (rx ry : ℚ) (vl : ℕ)
    (pr sc : Bool) (s : Machine)
    (hreach : target_reachable cfg env rx ry pr s = true)
    (hnan : (probe_at_point cfg env rx ry ProbePtRaise.PROBE_PT_NONE vl pr sc s).1 = NAN) :
    ∃ u, u.z_probe_enabled
        = (deploy cfg env (approach cfg rx ry pr (bltouch_hs_reset cfg env s))).2.z_probe_enabled
      ∧ (probe_at_point cfg env rx ry ProbePtRaise.PROBE_PT_NONE vl pr sc s).2.z_probe_enabled
        = (stow cfg env u).2.z_probe_enabled := by
  unfold probe_at_point at hnan ⊢
  simp only [target_reachable_reset, hreach, Bool.not_true, Bool.false_eq_true, if_false]
    at hnan ⊢
  obtain ⟨u, h1, h2, _⟩ := failure_stow_nan cfg env _ _ hnan
  refine ⟨u, ?_, h2⟩
  rw [h1, apply_raise_none_enabled]
  split_ifs
  · exact (run_z_probe_frame cfg env sc _).2
  · rfl
theorem measure_and_raise_none_enabled (cfg : Config) (env : Env) (rx ry : ℚ) (vl : ℕ)
    (pr sc : Bool) (s : Machine) :
    (measure_and_raise cfg env rx ry ProbePtRaise.PROBE_PT_NONE vl pr sc s).2.z_probe_enabled
      = (deploy cfg env (approach cfg rx ry pr (bltouch_hs_reset cfg env s))).2.z_probe_enabled := by
  unfold measure_and_raise
  simp only []
  rw [apply_raise_none_enabled]
  split_ifs
  · exact (run_z_probe_frame cfg env sc _).2
  · rfl

theorem sled_stow_unhomed_fails (u : Machine) (hu : u.z_probe_enabled = true) :
    (stow sledConfig { overpressureEnv [1] with homing_needed_error := true } u).1 = true := by
  unfold stow set_deployed
  simp [hu, sledConfig, sampleConfig]

/-- C12, worked examples.  On the sample machine an overpressure trigger after
the measurement turns the result into NaN; the forced stow succeeds and the
DeviceState is "stowed" on return.  A deployed sled probe on an unhomed machine
measures, the overpressure trigger turns the result into NaN, the forced stow
stops at the homing check and the machine is stopped.  With nothing reachable
the call returns NaN and a probe deployed on entry is still deployed. -/
theorem probe_at_point_failure_stows_witness :
    ((probe_at_point sampleConfig (overpressureEnv [1]) 0 0 ProbePtRaise.PROBE_PT_NONE 0
          true true sampleMachine).1 = NAN
        ∧ (probe_at_point sampleConfig (overpressureEnv [1]) 0 0 ProbePtRaise.PROBE_PT_NONE 0
          true true sampleMachine).2.z_probe_enabled = false)
      ∧ ((probe_at_point sledConfig { overpressureEnv [1] with homing_needed_error := true } 0 0
            ProbePtRaise.PROBE_PT_NONE 0 true true deployedMachine).1 = NAN
        ∧ (probe_at_point sledConfig { overpressureEnv [1] with homing_needed_error := true } 0 0
            ProbePtRaise.PROBE_PT_NONE 0 true true deployedMachine).2.running = false)
      ∧ ((probe_at_point sampleConfig { sampleEnv [] 0 with can_reach := fun _ => false } 50 50
            ProbePtRaise.PROBE_PT_STOW 0 true true deployedMachine).1 = NAN
        ∧ (probe_at_point sampleConfig { sampleEnv [] 0 with can_reach := fun _ => false } 50 50
            ProbePtRaise.PROBE_PT_STOW 0 true true deployedMachine).2.z_probe_enabled
          = deployedMachine.z_probe_enabled) := by
  have hnan := probe_at_point_overpressure sampleConfig (overpressureEnv [1]) 0 0
    ProbePtRaise.PROBE_PT_NONE 0 true true sampleMachine (fun _ => rfl)
  have hnan2 := probe_at_point_overpressure sledConfig
    { overpressureEnv [1] with homing_needed_error := true } 0 0
    ProbePtRaise.PROBE_PT_NONE 0 true true deployedMachine (fun _ => rfl)
  refine ⟨⟨hnan, ?_⟩, ⟨hnan2, ?_⟩, ?_⟩
  · obtain ⟨u, _, _, h1, _⟩ := (probe_at_point_failure_stows sampleConfig (overpressureEnv [1])
      0 0 ProbePtRaise.PROBE_PT_NONE 0 true true sampleMachine).1 rfl hnan
    exact h1 (set_deployed_simple _ _ false u rfl rfl)
  · obtain ⟨u, hu, _, _, h2⟩ := (probe_at_point_failure_stows sledConfig
      { overpressureEnv [1] with homing_needed_error := true } 0 0
      ProbePtRaise.PROBE_PT_NONE 0 true true deployedMachine).1 rfl hnan2
    apply h2
    apply sled_stow_unhomed_fails
    rw [hu, forced_stow_entry_enabled, measure_and_raise_none_enabled]
    have hd : (approach sledConfig 0 0 true (bltouch_hs_reset sledConfig
        { overpressureEnv [1] with homing_needed_error := true }
        deployedMachine)).z_probe_enabled = true := by
      rw [approach_z_probe_enabled]
      exact (bltouch_hs_reset_keep _ _ _).2.2.1
    unfold deploy
    rw [set_deployed_noop _ _ _ _ hd]
    exact hd
  · have h := (probe_at_point_failure_stows sampleConfig
      { sampleEnv [] 0 with can_reach := fun _ => false } 50 50 ProbePtRaise.PROBE_PT_STOW 0
      true true deployedMachine).2 rfl
    exact ⟨h.1, h.2.2.1⟩

theorem sled_stow_unhomed (u : Machine) (hu : u.z_probe_enabled = true) :
    (stow sledConfig { overpressureEnv [1] with homing_needed_error := true }
      u).2.z_probe_enabled = true := by
  have hf : (set_deployed sledConfig { overpressureEnv [1] with homing_needed_error := true }
      false u).1 = true := by
    unfold set_deployed
    simp [hu, sledConfig, sampleConfig]
  exact ((set_deployed_failure_state _ _ false u hf).1 (Or.inr (Or.inl rfl))).trans hu

/-- C12 as stated fails on two paths.  An unreachable target returns NaN at
once, with no stow: a probe that was deployed on entry is still deployed.  And
the forced stow can itself fail: a deployed sled probe on an unhomed machine
measures, the overpressure input turns the result into NaN, the stow stops at
the homing check, and the DeviceState is still "deployed" on return. -/
theorem probe_at_point_failure_stows_counterexample :
    deployedMachine.z_probe_enabled = true
      ∧ (probe_at_point sampleConfig { sampleEnv [] 0 with can_reach := fun _ => false } 50 50
          ProbePtRaise.PROBE_PT_STOW 0 true true deployedMachine).1 = NAN
      ∧ (probe_at_point sampleConfig { sampleEnv [] 0 with can_reach := fun _ => false } 50 50
          ProbePtRaise.PROBE_PT_STOW 0 true true deployedMachine).2.z_probe_enabled = true
      ∧ (probe_at_point sledConfig { overpressureEnv [1] with homing_needed_error := true } 0 0
          ProbePtRaise.PROBE_PT_NONE 0 true true deployedMachine).1 = NAN
      ∧ (probe_at_point sledConfig { overpressureEnv [1] with homing_needed_error := true } 0 0
          ProbePtRaise.PROBE_PT_NONE 0 true true deployedMachine).2.z_probe_enabled = true := by
  have h1 := probe_at_point_unreachable_state sampleConfig
    { sampleEnv [] 0 with can_reach := fun _ => false } 50 50 ProbePtRaise.PROBE_PT_STOW 0
    true true deployedMachine rfl
  have hnan := probe_at_point_overpressure sledConfig
    { overpressureEnv [1] with homing_needed_error := true } 0 0
    ProbePtRaise.PROBE_PT_NONE 0 true true deployedMachine (fun _ => rfl)
  refine ⟨rfl, ?_, ?_, hnan, ?_⟩
  · rw [h1]
  · rw [h1]
    exact (bltouch_hs_reset_keep _ _ _).2.2.1
  · obtain ⟨u, hu, h2⟩ := probe_at_point_none_nan sledConfig
      { overpressureEnv [1] with homing_needed_error := true } 0 0 0 true true deployedMachine
      rfl hnan
    rw [h2]
    apply sled_stow_unhomed
    rw [hu]
    have hd : (approach sledConfig 0 0 true (bltouch_hs_reset sledConfig
        { overpressureEnv [1] with homing_needed_error := true }
        deployedMachine)).z_probe_enabled = true := by
      rw [approach_z_probe_enabled]
      exact (bltouch_hs_reset_keep _ _ _).2.2.1
    unfold deploy
    rw [set_deployed_noop _ _ _ _ hd]
    exact hd

/-! ## Raise policy of `probe_at_point` -/

theorem probe_at_point_measured (cfg : Config) (env : Env) (rx ry : ℚ) (ra : ProbePtRaise)
    (vl : ℕ) (pr sc : Bool) (s : Machine) (m : ℚ) (t : Machine)
    (hreach : target_reachable cfg env rx ry pr s = true)
    (hdep : (deploy cfg env (approach cfg rx ry pr (bltouch_hs_reset cfg env s))).1 = false)
    (hm : run_z_probe cfg env sc
      (deploy cfg env (approach cfg rx ry pr (bltouch_hs_reset cfg env s))).2 = (some m, t)) :
    probe_at_point cfg env rx ry ra vl pr sc s
      = failure_stow cfg env (apply_raise cfg env rx ry ra vl (some (m + s.offset.z)) t).1
          (apply_raise cfg env rx ry ra vl (some (m + s.offset.z)) t).2 := by
  unfold probe_at_point
  simp only [target_reachable_reset, hreach, Bool.not_true, Bool.false_eq_true, if_false, hdep,
    Bool.not_false, if_true, hm, (probing_state_keep cfg env rx ry pr s).1, FloatQ.add,
    Option.map_some']

theorem failure_stow_quiet (cfg : Config) (env : Env) (v : ℚ) (s : Machine)
    (hop : env.overpressure s.overpressure_reads = false) :
    failure_stow cfg env (some v) s = (some v, (ANKER_OVERPRESSURE_TRIGGER env s).2) := by
  unfold failure_stow
  simp [isnan, ANKER_OVERPRESSURE_TRIGGER, hop]

theorem failure_stow_of_nan (cfg : Config) (env : Env) (s : Machine) :
    (failure_stow cfg env NAN s).1 = NAN := by
  unfold failure_stow
  simp [isnan, NAN]

/-- With no overpressure trigger, a stow policy of `probe_at_point` after a
successful measurement: the result is NaN exactly when the `stow()` of the
policy reports failure; after a successful stow nothing follows but the bed
report and the read of the overpressure input; after a failed one the last
block is entered with NaN. -/
theorem probe_at_point_stow_policy (cfg : Config) (env : Env) (rx ry : ℚ) (ra : ProbePtRaise)
    (vl : ℕ) (pr sc : Bool) (s : Machine) (m : ℚ) (t : Machine)
    (hra : ra = ProbePtRaise.PROBE_PT_STOW ∨ ra = ProbePtRaise.PROBE_PT_LAST_STOW)
    (hreach : target_reachable cfg env rx ry pr s = true)
    (hdep : (deploy cfg env (approach cfg rx ry pr (bltouch_hs_reset cfg env s))).1 = false)
    (hm : run_z_probe cfg env sc
      (deploy cfg env (approach cfg rx ry pr (bltouch_hs_reset cfg env s))).2 = (some m, t))
    (hop : ∀ k, env.overpressure k = false) :
    ((probe_at_point cfg env rx ry ra vl pr sc s).1 = NAN ↔ (stow cfg env t).1 = true)
      ∧ ((stow cfg env t).1 = false →
          probe_at_point cfg env rx ry ra vl pr sc s
            = (some (m + s.offset.z),
                (ANKER_OVERPRESSURE_TRIGGER env
                  ((stow cfg env t).2.logIf (decide (vl > 2))
                    (Event.bed_report rx ry (some (m + s.offset.z))))).2))
      ∧ ((stow cfg env t).1 = true →
          probe_at_point cfg env rx ry ra vl pr sc s
            = failure_stow cfg env NAN
                ((stow cfg env t).2.logIf (decide (vl > 2)) (Event.bed_report rx ry NAN))) := by
  have A : apply_raise cfg env rx ry ra vl (some (m + s.offset.z)) t
      = (if (stow cfg env t).1 then NAN else some (m + s.offset.z),
          (stow cfg env t).2.logIf (decide (vl > 2))
            (Event.bed_report rx ry (if (stow cfg env t).1 then NAN else some (m + s.offset.z)))) := by
    rcases hra with h | h <;> subst h <;> simp [apply_raise, isnan]
  rw [probe_at_point_measured cfg env rx ry ra vl pr sc s m t hreach hdep hm, A]
  by_cases hs : (stow cfg env t).1 = true
  · rw [if_pos hs]
    exact ⟨⟨fun _ => hs, fun _ => failure_stow_of_nan cfg env _⟩,
      fun h => absurd (hs.symm.trans h) (by simp), fun _ => rfl⟩
  · rw [if_neg hs]
    simp only []
    rw [failure_stow_quiet _ _ _ _ (hop _)]
    exact ⟨⟨fun h => absurd h (by simp [NAN]), fun h => absurd h hs⟩, fun _ => rfl,
      fun h => absurd h hs⟩

/-- C13 (amended).  Raise policy of `probe_at_point` after a successful
measurement, when no overpressure trigger is observed: the target is
reachable, `deploy` succeeds, and the estimator returns `m` and leaves the
machine `t`, whose `current_position.z` is the resolved height `z`.
`PROBE_PT_RAISE` issues exactly one Z move, to `z + Z_CLEARANCE_BETWEEN_PROBES`,
and no stow; `PROBE_PT_BIG_RAISE` exactly one Z move, to `z + 25`, and no stow;
`PROBE_PT_STOW` and `PROBE_PT_LAST_STOW` issue no raise and call `stow()`, and
the result is NaN if and only if that stow reports failure; `PROBE_PT_NONE`
issues neither a move nor a stow.  In each case what else happens after the
measurement is the bed report at verbose level above 2 and one read of the
overpressure input; after a failed stow the last block is entered with NaN. -/
theorem probe_at_point_raise_policy (cfg : Config) (env : Env) (rx ry : ℚ) (vl : ℕ)
    (pr sc : Bool) (s : Machine) (m : ℚ) (t : Machine)
    (hreach : (if pr then env.can_reach (probe_npos cfg rx ry s)
      else env.position_is_reachable (probe_npos cfg rx ry s)) = true)
    (hdep : (deploy cfg env (approach cfg rx ry pr (bltouch_hs_reset cfg env s))).1 = false)
    (hm : run_z_probe cfg env sc
      (deploy cfg env (approach cfg rx ry pr (bltouch_hs_reset cfg env s))).2 = (some m, t))
    (hop : ∀ k, env.overpressure k = false) :
    (probe_at_point cfg env rx ry ProbePtRaise.PROBE_PT_RAISE vl pr sc s
          = (some (m + s.offset.z),
              (ANKER_OVERPRESSURE_TRIGGER env
                ((do_blocking_move_to_z (t.current_position.z + cfg.Z_CLEARANCE_BETWEEN_PROBES)
                  (raise_feedrate cfg) t).logIf (decide (vl > 2))
                    (Event.bed_report rx ry (some (m + s.offset.z))))).2)
        ∧ (probe_at_point cfg env rx ry ProbePtRaise.PROBE_PT_RAISE vl pr sc s).2.trace
          = t.trace
            ++ Event.move_to_z (t.current_position.z + cfg.Z_CLEARANCE_BETWEEN_PROBES)
                (raise_feedrate cfg)
              :: (if vl > 2 then [Event.bed_report rx ry (some (m + s.offset.z))] else [])
        ∧ (probe_at_point cfg env rx ry ProbePtRaise.PROBE_PT_RAISE vl pr sc s).2.z_probe_enabled
          = t.z_probe_enabled)
      ∧ (probe_at_point cfg env rx ry ProbePtRaise.PROBE_PT_BIG_RAISE vl pr sc s
          = (some (m + s.offset.z),
              (ANKER_OVERPRESSURE_TRIGGER env
                ((do_blocking_move_to_z (t.current_position.z + 25)
                  (raise_feedrate cfg) t).logIf (decide (vl > 2))
                    (Event.bed_report rx ry (some (m + s.offset.z))))).2)
        ∧ (probe_at_point cfg env rx ry ProbePtRaise.PROBE_PT_BIG_RAISE vl pr sc s).2.trace
          = t.trace
            ++ Event.move_to_z (t.current_position.z + 25) (raise_feedrate cfg)
              :: (if vl > 2 then [Event.bed_report rx ry (some (m + s.offset.z))] else [])
        ∧ (probe_at_point cfg env rx ry ProbePtRaise.PROBE_PT_BIG_RAISE vl pr sc
            s).2.z_probe_enabled = t.z_probe_enabled)
      ∧ (((probe_at_point cfg env rx ry ProbePtRaise.PROBE_PT_STOW vl pr sc s).1 = NAN
            ↔ (stow cfg env t).1 = true)
        ∧ ((stow cfg env t).1 = false →
            probe_at_point cfg env rx ry ProbePtRaise.PROBE_PT_STOW vl pr sc s
              = (some (m + s.offset.z),
                  (ANKER_OVERPRESSURE_TRIGGER env
                    ((stow cfg env t).2.logIf (decide (vl > 2))
                      (Event.bed_report rx ry (some (m + s.offset.z))))).2))
        ∧ ((stow cfg env t).1 = true →
            probe_at_point cfg env rx ry ProbePtRaise.PROBE_PT_STOW vl pr sc s
              = failure_stow cfg env NAN
                  ((stow cfg env t).2.logIf (decide (vl > 2)) (Event.bed_report rx ry NAN))))
      ∧ (((probe_at_point cfg env rx ry ProbePtRaise.PROBE_PT_LAST_STOW vl pr sc s).1 = NAN
            ↔ (stow cfg env t).1 = true)
        ∧ ((stow cfg env t).1 = false →
            probe_at_point cfg env rx ry ProbePtRaise.PROBE_PT_LAST_STOW vl pr sc s
              = (some (m + s.offset.z),
                  (ANKER_OVERPRESSURE_TRIGGER env
                    ((stow cfg env t).2.logIf (decide (vl > 2))
                      (Event.bed_report rx ry (some (m + s.offset.z))))).2))
        ∧ ((stow cfg env t).1 = true →
            probe_at_point cfg env rx ry ProbePtRaise.PROBE_PT_LAST_STOW vl pr sc s
              = failure_stow cfg env NAN
                  ((stow cfg env t).2.logIf (decide (vl > 2)) (Event.bed_report rx ry NAN))))
      ∧ (probe_at_point cfg env rx ry ProbePtRaise.PROBE_PT_NONE vl pr sc s
          = (some (m + s.offset.z),
              (ANKER_OVERPRESSURE_TRIGGER env
                (t.logIf (decide (vl > 2))
                  (Event.bed_report rx ry (some (m + s.offset.z))))).2)
        ∧ (probe_at_point cfg env rx ry ProbePtRaise.PROBE_PT_NONE vl pr sc s).2.trace
          = t.trace ++ (if vl > 2 then [Event.bed_report rx ry (some (m + s.offset.z))] else [])
        ∧ (probe_at_point cfg env rx ry ProbePtRaise.PROBE_PT_NONE vl pr sc s).2.z_probe_enabled
          = t.z_probe_enabled) := by
  have hr : target_reachable cfg env rx ry pr s = true := hreach
  have A := apply_raise_policy cfg env rx ry vl (m + s.offset.z) t
  have e1 : probe_at_point cfg env rx ry ProbePtRaise.PROBE_PT_RAISE vl pr sc s
      = (some (m + s.offset.z),
          (ANKER_OVERPRESSURE_TRIGGER env
            ((do_blocking_move_to_z (t.current_position.z + cfg.Z_CLEARANCE_BETWEEN_PROBES)
              (raise_feedrate cfg) t).logIf (decide (vl > 2))
                (Event.bed_report rx ry (some (m + s.offset.z))))).2) := by
    rw [probe_at_point_measured cfg env rx ry _ vl pr sc s m t hr hdep hm, A.1.1]
    exact failure_stow_quiet _ _ _ _ (hop _)
  have e2 : probe_at_point cfg env rx ry ProbePtRaise.PROBE_PT_BIG_RAISE vl pr sc s
      = (some (m + s.offset.z),
          (ANKER_OVERPRESSURE_TRIGGER env
            ((do_blocking_move_to_z (t.current_position.z + 25)
              (raise_feedrate cfg) t).logIf (decide (vl > 2))
                (Event.bed_report rx ry (some (m + s.offset.z))))).2) := by
    rw [probe_at_point_measured cfg env rx ry _ vl pr sc s m t hr hdep hm, A.2.1.1]
    exact failure_stow_quiet _ _ _ _ (hop _)
  have e5 : probe_at_point cfg env rx ry ProbePtRaise.PROBE_PT_NONE vl pr sc s
      = (some (m + s.offset.z),
          (ANKER_OVERPRESSURE_TRIGGER env
            (t.logIf (decide (vl > 2))
              (Event.bed_report rx ry (some (m + s.offset.z))))).2) := by
    rw [probe_at_point_measured cfg env rx ry _ vl pr sc s m t hr hdep hm, A.2.2.2.2]
    exact failure_stow_quiet _ _ _ _ (hop _)
  refine ⟨⟨e1, ?_, ?_⟩, ⟨e2, ?_, ?_⟩,
    probe_at_point_stow_policy cfg env rx ry _ vl pr sc s m t (Or.inl rfl) hr hdep hm hop,
    probe_at_point_stow_policy cfg env rx ry _ vl pr sc s m t (Or.inr rfl) hr hdep hm hop,
    ⟨e5, ?_, ?_⟩⟩
  · rw [e1]
    by_cases hv : vl > 2 <;>
      simp [ANKER_OVERPRESSURE_TRIGGER, Machine.logIf, Machine.log, do_blocking_move_to_z, hv]
  · rw [e1]
    simp only [ANKER_OVERPRESSURE_TRIGGER, logIf_z_probe_enabled]
    rfl
  · rw [e2]
    by_cases hv : vl > 2 <;>
      simp [ANKER_OVERPRESSURE_TRIGGER, Machine.logIf, Machine.log, do_blocking_move_to_z, hv]
  · rw [e2]
    simp only [ANKER_OVERPRESSURE_TRIGGER, logIf_z_probe_enabled]
    rfl
  · rw [e5]
    by_cases hv : vl > 2 <;>
      simp [ANKER_OVERPRESSURE_TRIGGER, Machine.logIf, Machine.log, hv]
  · rw [e5]
    simp only [ANKER_OVERPRESSURE_TRIGGER, logIf_z_probe_enabled]

theorem run_z_probe_double_z (cfg : Config) (env : Env) (sc : Bool) (s : Machine)
    (h2 : cfg.TOTAL_PROBING = 2) (hD : cfg.ANKER_PROBE_DETECT_TIMES = false)
    (hfast : rejected cfg sc s.offset.z cfg.Z_CLEARANCE_BETWEEN_PROBES
      (env.descent s.descents) = false)
    (hslow : rejected cfg sc s.offset.z cfg.Z_CLEARANCE_MULTI_PROBE
      (env.descent (s.descents + 1)) = false) :
    (run_z_probe cfg env sc s).2.current_position.z = (env.descent (s.descents + 1)).stepper_z := by
  obtain ⟨f1, f2, f3⟩ := double_probe_first_ok cfg env sc (z_probe_low_point cfg s) s hfast
  have hA : detect_times_active cfg (some (env.descent s.descents).stepper_z) = false := by
    simp [detect_times_active, hD]
  have hok1 : rejected cfg sc
      (double_probe_first cfg env sc (z_probe_low_point cfg s) s).2.offset.z
      cfg.Z_CLEARANCE_MULTI_PROBE
      (env.descent (double_probe_first cfg env sc (z_probe_low_point cfg s) s).2.descents)
      = false := by rw [f2, f3]; exact hslow
  have e1 := slow_probe_fst_ok cfg env sc (z_probe_low_point cfg s)
    (some (env.descent s.descents).stepper_z) _ hA hok1
  have e2 := slow_probe_z cfg env sc (z_probe_low_point cfg s)
    (some (env.descent s.descents).stepper_z) _ hA hok1
  rw [f3] at e1 e2
  unfold run_z_probe
  simp only [h2, if_true]
  rw [pair_of_fst _ _ f1]
  simp only []
  rw [pair_of_fst _ _ e1]
  simp only []
  split_ifs <;> exact e2

theorem sample_point_deploy (env : Env) (h : env.homing_needed_error = false) :
    (deploy (sampleConfigN 2 0) env
      (approach (sampleConfigN 2 0) 0 0 true
        (bltouch_hs_reset (sampleConfigN 2 0) env sampleMachine))).1 = false :=
  set_deployed_simple _ _ _ _ rfl h

theorem sample_point_z :
    (run_z_probe (sampleConfigN 2 0) (sampleEnv [1, 4 / 5] 0) true
      (deploy (sampleConfigN 2 0) (sampleEnv [1, 4 / 5] 0)
        (approach (sampleConfigN 2 0) 0 0 true
          (bltouch_hs_reset (sampleConfigN 2 0) (sampleEnv [1, 4 / 5] 0)
            sampleMachine))).2).2.current_position.z = 4 / 5 := by
  have k := probing_state_keep (sampleConfigN 2 0) (sampleEnv [1, 4 / 5] 0) 0 0 true
    sampleMachine
  have h := run_z_probe_double_z (sampleConfigN 2 0) (sampleEnv [1, 4 / 5] 0) true
    (deploy (sampleConfigN 2 0) (sampleEnv [1, 4 / 5] 0)
      (approach (sampleConfigN 2 0) 0 0 true
        (bltouch_hs_reset (sampleConfigN 2 0) (sampleEnv [1, 4 / 5] 0) sampleMachine))).2
    (by decide) rfl
    (by rw [k.1]; exact sample_double_accepted _ rfl rfl rfl _ rfl _)
    (by rw [k.1]; exact sample_double_accepted _ rfl rfl rfl _ rfl _)
  rw [h, k.2]
  norm_num [sampleEnv, sampleMachine, sampleConfigN, sampleConfig]

/-- C13, worked example: offset (0, 0, -2), double probing with fast sample 1
and slow sample 4/5, no overpressure trigger.  The estimator returns 22/25 at
the resolved height 4/5.  `PROBE_PT_RAISE` returns -28/25 after the single
move to `4/5 + 5`, `PROBE_PT_BIG_RAISE` after the single move to `4/5 + 25`,
`PROBE_PT_NONE` with nothing issued, and `PROBE_PT_STOW` returns -28/25 as its
stow succeeds. -/
theorem probe_at_point_raise_policy_witness :
    ((probe_at_point (sampleConfigN 2 0) (sampleEnv [1, 4 / 5] 0) 0 0
          ProbePtRaise.PROBE_PT_RAISE 0 true true sampleMachine).1 = some (-28 / 25)
        ∧ (probe_at_point (sampleConfigN 2 0) (sampleEnv [1, 4 / 5] 0) 0 0
            ProbePtRaise.PROBE_PT_RAISE 0 true true sampleMachine).2.trace
          = (run_z_probe (sampleConfigN 2 0) (sampleEnv [1, 4 / 5] 0) true
              (deploy (sampleConfigN 2 0) (sampleEnv [1, 4 / 5] 0)
                (approach (sampleConfigN 2 0) 0 0 true
                  (bltouch_hs_reset (sampleConfigN 2 0) (sampleEnv [1, 4 / 5] 0)
                    sampleMachine))).2).2.trace
            ++ [Event.move_to_z (29 / 5) 10])
      ∧ (probe_at_point (sampleConfigN 2 0) (sampleEnv [1, 4 / 5] 0) 0 0
            ProbePtRaise.PROBE_PT_BIG_RAISE 0 true true sampleMachine).2.trace
          = (run_z_probe (sampleConfigN 2 0) (sampleEnv [1, 4 / 5] 0) true
              (deploy (sampleConfigN 2 0) (sampleEnv [1, 4 / 5] 0)
                (approach (sampleConfigN 2 0) 0 0 true
                  (bltouch_hs_reset (sampleConfigN 2 0) (sampleEnv [1, 4 / 5] 0)
                    sampleMachine))).2).2.trace
            ++ [Event.move_to_z (129 / 5) 10]
      ∧ (probe_at_point (sampleConfigN 2 0) (sampleEnv [1, 4 / 5] 0) 0 0
            ProbePtRaise.PROBE_PT_STOW 0 true true sampleMachine).1 = some (-28 / 25)
      ∧ (probe_at_point (sampleConfigN 2 0) (sampleEnv [1, 4 / 5] 0) 0 0
            ProbePtRaise.PROBE_PT_NONE 0 true true sampleMachine).2.trace
          = (run_z_probe (sampleConfigN 2 0) (sampleEnv [1, 4 / 5] 0) true
              (deploy (sampleConfigN 2 0) (sampleEnv [1, 4 / 5] 0)
                (approach (sampleConfigN 2 0) 0 0 true
                  (bltouch_hs_reset (sampleConfigN 2 0) (sampleEnv [1, 4 / 5] 0)
                    sampleMachine))).2).2.trace := by
  have h := probe_at_point_raise_policy (sampleConfigN 2 0) (sampleEnv [1, 4 / 5] 0) 0 0 0
    true true sampleMachine (22 / 25) _ rfl (sample_point_deploy _ rfl)
    (pair_of_fst _ _ sample_point_estimate) (fun _ => rfl)
  have ev : (22 / 25 + sampleMachine.offset.z : ℚ) = -28 / 25 := by norm_num [sampleMachine]
  have ef : raise_feedrate (sampleConfigN 2 0) = 10 := by
    norm_num [raise_feedrate, sampleConfigN, sampleConfig, MMM_TO_MMS]
  have ec : (sampleConfigN 2 0).Z_CLEARANCE_BETWEEN_PROBES = 5 := rfl
  rw [sample_point_z, ev, ef, ec] at h
  refine ⟨⟨?_, ?_⟩, ?_, ?_, ?_⟩
  · rw [h.1.1]
  · rw [h.1.2.1]
    norm_num
  · rw [h.2.1.2.1]
    norm_num
  · rw [h.2.2.1.2.1 (set_deployed_simple _ _ _ _ rfl rfl)]
  · rw [h.2.2.2.2.2.1]
    simp

theorem overpressure_point_estimate :
    (run_z_probe (sampleConfigN 2 0) (overpressureEnv [1, 4 / 5]) true
      (deploy (sampleConfigN 2 0) (overpressureEnv [1, 4 / 5])
        (approach (sampleConfigN 2 0) 0 0 true
          (bltouch_hs_reset (sampleConfigN 2 0) (overpressureEnv [1, 4 / 5])
            sampleMachine))).2).1
      = some (22 / 25) := by
  have k := probing_state_keep (sampleConfigN 2 0) (overpressureEnv [1, 4 / 5]) 0 0 true
    sampleMachine
  have h := run_z_probe_double_value (sampleConfigN 2 0) (overpressureEnv [1, 4 / 5]) true
    (deploy (sampleConfigN 2 0) (overpressureEnv [1, 4 / 5])
      (approach (sampleConfigN 2 0) 0 0 true
        (bltouch_hs_reset (sampleConfigN 2 0) (overpressureEnv [1, 4 / 5]) sampleMachine))).2
    (by decide) rfl
    (by rw [k.1]; exact sample_double_accepted _ rfl rfl rfl _ rfl _)
    (by rw [k.1]; exact sample_double_accepted _ rfl rfl rfl _ rfl _)
  rw [h, k.2]
  norm_num [overpressureEnv, sampleEnv, sampleMachine, sampleConfigN, sampleConfig]

/-- C13 as stated fails when the overpressure input reads triggered after the
measurement.  Double probing with fast sample 1 and slow sample 4/5 on the
sample machine: `deploy` succeeds and the estimator returns 22/25.  Under
`PROBE_PT_NONE` the call returns NaN and the probe, deployed after the
measurement, is stowed on return: a stow was issued.  Under `PROBE_PT_STOW`
the `stow()` of the policy reports success and the call returns NaN all the
same. -/
theorem probe_at_point_raise_policy_counterexample :
    (deploy (sampleConfigN 2 0) (overpressureEnv [1, 4 / 5])
        (approach (sampleConfigN 2 0) 0 0 true
          (bltouch_hs_reset (sampleConfigN 2 0) (overpressureEnv [1, 4 / 5])
            sampleMachine))).1 = false
      ∧ (run_z_probe (sampleConfigN 2 0) (overpressureEnv [1, 4 / 5]) true
          (deploy (sampleConfigN 2 0) (overpressureEnv [1, 4 / 5])
            (approach (sampleConfigN 2 0) 0 0 true
              (bltouch_hs_reset (sampleConfigN 2 0) (overpressureEnv [1, 4 / 5])
                sampleMachine))).2).1 = some (22 / 25)
      ∧ (run_z_probe (sampleConfigN 2 0) (overpressureEnv [1, 4 / 5]) true
          (deploy (sampleConfigN 2 0) (overpressureEnv [1, 4 / 5])
            (approach (sampleConfigN 2 0) 0 0 true
              (bltouch_hs_reset (sampleConfigN 2 0) (overpressureEnv [1, 4 / 5])
                sampleMachine))).2).2.z_probe_enabled = true
      ∧ (probe_at_point (sampleConfigN 2 0) (overpressureEnv [1, 4 / 5]) 0 0
          ProbePtRaise.PROBE_PT_NONE 0 true true sampleMachine).1 = NAN
      ∧ (probe_at_point (sampleConfigN 2 0) (overpressureEnv [1, 4 / 5]) 0 0
          ProbePtRaise.PROBE_PT_NONE 0 true true sampleMachine).2.z_probe_enabled = false
      ∧ (stow (sampleConfigN 2 0) (overpressureEnv [1, 4 / 5])
          (run_z_probe (sampleConfigN 2 0) (overpressureEnv [1, 4 / 5]) true
            (deploy (sampleConfigN 2 0) (overpressureEnv [1, 4 / 5])
              (approach (sampleConfigN 2 0) 0 0 true
                (bltouch_hs_reset (sampleConfigN 2 0) (overpressureEnv [1, 4 / 5])
                  sampleMachine))).2).2).1 = false
      ∧ (probe_at_point (sampleConfigN 2 0) (overpressureEnv [1, 4 / 5]) 0 0
          ProbePtRaise.PROBE_PT_STOW 0 true true sampleMachine).1 = NAN := by
  have hd := sample_point_deploy (overpressureEnv [1, 4 / 5]) rfl
  have hnan := probe_at_point_overpressure (sampleConfigN 2 0) (overpressureEnv [1, 4 / 5]) 0 0
    ProbePtRaise.PROBE_PT_NONE 0 true true sampleMachine (fun _ => rfl)
  refine ⟨hd, overpressure_point_estimate, ?_, hnan, ?_, set_deployed_simple _ _ _ _ rfl rfl,
    probe_at_point_overpressure _ _ _ _ _ _ _ _ _ (fun _ => rfl)⟩
  · rw [(run_z_probe_frame _ _ _ _).2]
    exact set_deployed_state _ _ true _ hd
  · obtain ⟨u, _, h2⟩ := probe_at_point_none_nan (sampleConfigN 2 0)
      (overpressureEnv [1, 4 / 5]) 0 0 0 true true sampleMachine rfl hnan
    rw [h2]
    exact set_deployed_state _ _ false u (set_deployed_simple _ _ false u rfl rfl)

/-! ## The fast pre-descent -/

/-- What the fast pre-descent does when the nozzle is above the travel height:
it probes down fast and raises by `Z_CLEARANCE_BETWEEN_PROBES` exactly when
`probe_down_to_z` returns `false`, that is when the probe triggered. -/
theorem fast_pre_descent_raise (cfg : Config) (env : Env) (s : Machine)
    (h : s.current_position.z
      > cfg.Z_CLEARANCE_DEPLOY_PROBE + 5 + (if s.offset.z < 0 then -s.offset.z else 0)) :
    fast_pre_descent cfg env s
      = if descent_fails cfg (env.descent s.descents) then
          (probe_down_to_z cfg env
            (cfg.Z_CLEARANCE_DEPLOY_PROBE + 5 + (if s.offset.z < 0 then -s.offset.z else 0))
            cfg.z_probe_fast_mm_s s).2
        else
          do_blocking_move_to_z
            ((env.descent s.descents).stepper_z + cfg.Z_CLEARANCE_BETWEEN_PROBES)
            cfg.z_probe_fast_mm_s
            (probe_down_to_z cfg env
              (cfg.Z_CLEARANCE_DEPLOY_PROBE + 5 + (if s.offset.z < 0 then -s.offset.z else 0))
              cfg.z_probe_fast_mm_s s).2 := by
  unfold fast_pre_descent
  simp only [h, if_true]
  rw [probe_down_to_z_fst]
  cases hf : descent_fails cfg (env.descent s.descents)
  · simp only [Bool.not_false, if_true, Bool.false_eq_true, if_false]
    rw [probe_down_to_z_z cfg env _ _ s hf]
  · simp

theorem probe_down_to_z_z_plain (cfg : Config) (env : Env) (z fr : ℚ) (s : Machine)
    (hB : cfg.BLTOUCH_SLOW_MODE = false) :
    (probe_down_to_z cfg env z fr s).2.current_position.z
      = (env.descent s.descents).stepper_z := by
  unfold probe_down_to_z
  simp [hB, hit_on_purpose, set_current_from_steppers_for_axis_Z]

/-- C19.  The fast pre-descent of the single-probe policy at two concrete
inputs, the sample machine at Z = 30 above the travel height of 17.  When the
probe never triggers during the pre-descent, which ends at 17, no raise
follows: the machine is the one the descent left, at Z = 17.  When the probe
triggers, at 20, the descent is followed by a raise of
`Z_CLEARANCE_BETWEEN_PROBES = 5` to 25.  The raise follows a trigger, not its
absence. -/
theorem fast_pre_descent_raises_on_trigger :
    sampleConfig.TOTAL_PROBING = 1
      ∧ sampleConfig.Z_PROBE_FEEDRATE_FAST ≠ sampleConfig.Z_PROBE_FEEDRATE_SLOW
      ∧ (probe_down_to_z sampleConfig (sampleEnvFail [17] 0 0) 17
          sampleConfig.z_probe_fast_mm_s
          { sampleMachine with current_position := ⟨0, 0, 30⟩ }).1 = true
      ∧ loop_entry sampleConfig (sampleEnvFail [17] 0 0)
          { sampleMachine with current_position := ⟨0, 0, 30⟩ }
        = (probe_down_to_z sampleConfig (sampleEnvFail [17] 0 0) 17
            sampleConfig.z_probe_fast_mm_s
            { sampleMachine with current_position := ⟨0, 0, 30⟩ }).2
      ∧ (loop_entry sampleConfig (sampleEnvFail [17] 0 0)
          { sampleMachine with current_position := ⟨0, 0, 30⟩ }).current_position.z = 17
      ∧ (probe_down_to_z sampleConfig (sampleEnv [20] 0) 17 sampleConfig.z_probe_fast_mm_s
          { sampleMachine with current_position := ⟨0, 0, 30⟩ }).1 = false
      ∧ loop_entry sampleConfig (sampleEnv [20] 0)
          { sampleMachine with current_position := ⟨0, 0, 30⟩ }
        = do_blocking_move_to_z 25 sampleConfig.z_probe_fast_mm_s
          (probe_down_to_z sampleConfig (sampleEnv [20] 0) 17 sampleConfig.z_probe_fast_mm_s
            { sampleMachine with current_position := ⟨0, 0, 30⟩ }).2
      ∧ (loop_entry sampleConfig (sampleEnv [20] 0)
          { sampleMachine with current_position := ⟨0, 0, 30⟩ }).current_position.z = 25 := by
  have h30 : ({ sampleMachine with current_position := ⟨0, 0, 30⟩ } : Machine).current_position.z
      > sampleConfig.Z_CLEARANCE_DEPLOY_PROBE + 5
        + (if ({ sampleMachine with current_position := ⟨0, 0, 30⟩ } : Machine).offset.z < 0
          then -({ sampleMachine with current_position := ⟨0, 0, 30⟩ } : Machine).offset.z
          else 0) := by
    norm_num [sampleMachine, sampleConfig]
  have t17 : sampleConfig.Z_CLEARANCE_DEPLOY_PROBE + 5
        + (if ({ sampleMachine with current_position := ⟨0, 0, 30⟩ } : Machine).offset.z < 0
          then -({ sampleMachine with current_position := ⟨0, 0, 30⟩ } : Machine).offset.z
          else 0) = 17 := by
    norm_num [sampleMachine, sampleConfig]
  have f1 : descent_fails sampleConfig ((sampleEnvFail [17] 0 0).descent
      ({ sampleMachine with current_position := ⟨0, 0, 30⟩ } : Machine).descents) = true :=
    sampleEnvFail_descent_fails sampleConfig rfl rfl [17] 0 0
  have f2 : descent_fails sampleConfig ((sampleEnv [20] 0).descent
      ({ sampleMachine with current_position := ⟨0, 0, 30⟩ } : Machine).descents) = false :=
    sampleEnv_descent_fails sampleConfig rfl rfl rfl [20] 0 0
  have e1 := fast_pre_descent_raise sampleConfig (sampleEnvFail [17] 0 0) _ h30
  have e2 := fast_pre_descent_raise sampleConfig (sampleEnv [20] 0) _ h30
  rw [t17, f1, if_pos rfl] at e1
  rw [t17, f2, if_neg (by simp)] at e2
  have s20 : ((sampleEnv [20] 0).descent
      ({ sampleMachine with current_position := ⟨0, 0, 30⟩ } : Machine).descents).stepper_z
      + sampleConfig.Z_CLEARANCE_BETWEEN_PROBES = 25 := by
    norm_num [sampleEnv, sampleMachine, sampleConfig]
  rw [s20] at e2
  have l : ∀ env s, loop_entry sampleConfig env s = fast_pre_descent sampleConfig env s := by
    intro env s
    unfold loop_entry
    rw [if_pos (by decide)]
  rw [l, l, e1, e2]
  refine ⟨by decide, by decide, ?_, rfl, ?_, ?_, rfl, rfl⟩
  · rw [probe_down_to_z_fst]; exact f1
  · rw [probe_down_to_z_z_plain _ _ _ _ _ rfl]
    norm_num [sampleEnvFail, sampleMachine]
  · rw [probe_down_to_z_fst]; exact f2

/-! ## Index safety of the trimming loop -/

theorem trim_loop_bounds (S : List ℚ) (m : ℚ) :
    ∀ (n a b : ℕ), a + n ≤ b → b ≤ 255 →
      a ≤ (trim_loop S m n a b).1
        ∧ (trim_loop S m n a b).1 ≤ (trim_loop S m n a b).2
        ∧ (trim_loop S m n a b).2 ≤ b
        ∧ (trim_loop S m n a b).2 + a + n = (trim_loop S m n a b).1 + b := by
  intro n
  induction n with
  | zero => intro a b hab _; simp only [trim_loop]; omega
  | succ n ih =>
    intro a b hab h255
    unfold trim_loop
    have u1 : toUInt8 ((b : ℤ) - 1) = b - 1 := by unfold toUInt8; omega
    have u2 : toUInt8 ((a : ℤ) + 1) = a + 1 := by unfold toUInt8; omega
    rw [u1, u2]
    split_ifs
    · have k := ih a (b - 1) (by omega) (by omega)
      omega
    · have k := ih (a + 1) b (by omega) h255
      omega

/-- The trimming loop run for `j + k` rounds is the loop run for `k` rounds from
the state reached after `j` rounds. -/
theorem trim_loop_add (S : List ℚ) (m : ℚ) :
    ∀ (j k a b : ℕ),
      trim_loop S m (j + k) a b
        = trim_loop S m k (trim_loop S m j a b).1 (trim_loop S m j a b).2 := by
  intro j
  induction j with
  | zero => intro k a b; simp [trim_loop]
  | succ j ih =>
    intro k a b
    rw [show j + 1 + k = (j + k) + 1 by omega]
    simp only [trim_loop]
    split_ifs
    · exact ih k a _
    · exact ih k _ b

theorem window_length_le (S : List ℚ) (a b : ℕ) (hab : a ≤ b) (hb : b < S.length) :
    (window S a b).length = b + 1 - a := by
  unfold window
  rw [List.length_take, List.length_drop]
  omega

/-- C20.  Trim-loop index safety for `0 < EXTRA_PROBING < TOTAL_PROBING`
(with `TOTAL_PROBING ≤ 255`, which the `uint8_t` counter of the sampling loop
needs for the trimming loop to be reached): after every number `j ≤
EXTRA_PROBING` of rounds, `0 ≤ min_avg_idx ≤ max_avg_idx ≤ TOTAL_PROBING - 1`
and `max_avg_idx - min_avg_idx + 1 = TOTAL_PROBING - j`; before every round
`min_avg_idx < max_avg_idx`, so the `uint8_t` decrement of `max_avg_idx` never
underflows and the increment of `min_avg_idx` never overflows; the whole loop is
the remaining rounds run from that state; and on exit exactly `TOTAL_PROBING -
EXTRA_PROBING` elements `probes[min_avg_idx..max_avg_idx]` are summed. -/
theorem trim_loop_index_safety (cfg : Config) (probes : List ℚ)
    (hK : 0 < cfg.EXTRA_PROBING) (hKT : cfg.EXTRA_PROBING < cfg.TOTAL_PROBING)
    (hT : cfg.TOTAL_PROBING ≤ 255) (hlen : probes.length = cfg.TOTAL_PROBING) :
    (∀ median j, j ≤ cfg.EXTRA_PROBING →
        (trim_loop probes median j 0 (cfg.TOTAL_PROBING - 1)).1
            ≤ (trim_loop probes median j 0 (cfg.TOTAL_PROBING - 1)).2
          ∧ (trim_loop probes median j 0 (cfg.TOTAL_PROBING - 1)).2 ≤ cfg.TOTAL_PROBING - 1
          ∧ (trim_loop probes median j 0 (cfg.TOTAL_PROBING - 1)).2 + 1
              - (trim_loop probes median j 0 (cfg.TOTAL_PROBING - 1)).1
            = cfg.TOTAL_PROBING - j
          ∧ (j < cfg.EXTRA_PROBING →
              (trim_loop probes median j 0 (cfg.TOTAL_PROBING - 1)).1
                < (trim_loop probes median j 0 (cfg.TOTAL_PROBING - 1)).2
              ∧ toUInt8 (((trim_loop probes median j 0 (cfg.TOTAL_PROBING - 1)).2 : ℤ) - 1)
                = (trim_loop probes median j 0 (cfg.TOTAL_PROBING - 1)).2 - 1
              ∧ toUInt8 (((trim_loop probes median j 0 (cfg.TOTAL_PROBING - 1)).1 : ℤ) + 1)
                = (trim_loop probes median j 0 (cfg.TOTAL_PROBING - 1)).1 + 1)
          ∧ trim_loop probes median (toUInt8 cfg.EXTRA_PROBING) 0
              (toUInt8 ((cfg.TOTAL_PROBING : ℤ) - 1))
            = trim_loop probes median (cfg.EXTRA_PROBING - j)
                (trim_loop probes median j 0 (cfg.TOTAL_PROBING - 1)).1
                (trim_loop probes median j 0 (cfg.TOTAL_PROBING - 1)).2)
      ∧ (window probes
            (trim_loop probes (probes_median cfg probes) cfg.EXTRA_PROBING 0
              (cfg.TOTAL_PROBING - 1)).1
            (trim_loop probes (probes_median cfg probes) cfg.EXTRA_PROBING 0
              (cfg.TOTAL_PROBING - 1)).2).length = cfg.TOTAL_PROBING - cfg.EXTRA_PROBING
      ∧ trimmed_mean cfg probes
          = (window probes
              (trim_loop probes (probes_median cfg probes) cfg.EXTRA_PROBING 0
                (cfg.TOTAL_PROBING - 1)).1
              (trim_loop probes (probes_median cfg probes) cfg.EXTRA_PROBING 0
                (cfg.TOTAL_PROBING - 1)).2).sum * RECIPROCAL cfg.MULTIPLE_PROBING := by
  have u1 : toUInt8 (cfg.EXTRA_PROBING : ℤ) = cfg.EXTRA_PROBING := by unfold toUInt8; omega
  have u2 : toUInt8 ((cfg.TOTAL_PROBING : ℤ) - 1) = cfg.TOTAL_PROBING - 1 := by
    unfold toUInt8; omega
  have u1' : toUInt8 cfg.EXTRA_PROBING = cfg.EXTRA_PROBING := by
    have := u1; simpa using this
  refine ⟨?_, ?_, ?_⟩
  · intro median j hj
    have k := trim_loop_bounds probes median j 0 (cfg.TOTAL_PROBING - 1) (by omega) (by omega)
    refine ⟨k.2.1, k.2.2.1, by omega, ?_, ?_⟩
    · intro hlt
      refine ⟨by omega, ?_, ?_⟩
      · unfold toUInt8; omega
      · unfold toUInt8; omega
    · rw [u1', u2, ← trim_loop_add]
      congr 1
      omega
  · have k := trim_loop_bounds probes (probes_median cfg probes) cfg.EXTRA_PROBING 0
      (cfg.TOTAL_PROBING - 1) (by omega) (by omega)
    rw [window_length_le _ _ _ k.2.1 (by omega)]
    omega
  · unfold trimmed_mean
    simp only []
    rw [u1', u2, sum_range_eq]
/-- C20, worked example: `TOTAL_PROBING = 5`, `EXTRA_PROBING = 2` and the sorted
samples 1.98, 2, 2.01, 2.02, 2.5 with median 2.01: the two rounds first lower
`max_avg_idx` to 3, then raise `min_avg_idx` to 1, and three elements are
summed. -/
theorem trim_loop_index_safety_witness :
    trim_loop [99 / 50, 2, 201 / 100, 101 / 50, 5 / 2] (201 / 100) 1 0 4 = (0, 3)
      ∧ trim_loop [99 / 50, 2, 201 / 100, 101 / 50, 5 / 2] (201 / 100) 2 0 4 = (1, 3)
      ∧ (window [99 / 50, 2, 201 / 100, 101 / 50, 5 / 2]
          (trim_loop [99 / 50, 2, 201 / 100, 101 / 50, 5 / 2]
            (probes_median (sampleConfigN 3 2) [99 / 50, 2, 201 / 100, 101 / 50, 5 / 2])
            (sampleConfigN 3 2).EXTRA_PROBING 0 ((sampleConfigN 3 2).TOTAL_PROBING - 1)).1
          (trim_loop [99 / 50, 2, 201 / 100, 101 / 50, 5 / 2]
            (probes_median (sampleConfigN 3 2) [99 / 50, 2, 201 / 100, 101 / 50, 5 / 2])
            (sampleConfigN 3 2).EXTRA_PROBING 0 ((sampleConfigN 3 2).TOTAL_PROBING - 1)).2).length
        = (sampleConfigN 3 2).TOTAL_PROBING - (sampleConfigN 3 2).EXTRA_PROBING := by
  refine ⟨?_, ?_, (trim_loop_index_safety (sampleConfigN 3 2)
    [99 / 50, 2, 201 / 100, 101 / 50, 5 / 2] (by decide) (by decide) (by decide) rfl).2.1⟩
  · have a : toUInt8 3 = 3 := by decide
    norm_num [trim_loop, ABS, a]
  · have a : toUInt8 3 = 3 := by decide
    have b : toUInt8 1 = 1 := by decide
    norm_num [trim_loop, ABS, a, b]

/-! ## The sorted insertion: invariant and index safety -/

theorem find_slot_checked_eq (probes : List ℚ) (p : ℕ) (z : ℚ) (hp : p < probes.length) :
    ∀ (n i : ℕ), i ≤ p →
      find_slot_checked probes p z n i = some (find_slot probes p z n i) := by
  intro n
  induction n with
  | zero => intro i _; rfl
  | succ n ih =>
    intro i hi
    unfold find_slot_checked find_slot
    by_cases e : i = p
    · simp [e]
    · have hlt : i < probes.length := by omega
      have hg : probes[i]? = some (probes.getD i 0) := by
        rw [List.getD_eq_getElem?_getD, List.getElem?_eq_getElem hlt]
        rfl
      have eb : (i == p) = false := by simpa using e
      rw [hg, eb]
      simp only [Bool.false_eq_true, if_false, Bool.false_or, decide_eq_true_eq]
      by_cases hv : probes.getD i 0 > z
      · rw [if_pos hv, if_pos hv]
      · rw [if_neg hv, if_neg hv]
        exact ih (i + 1) (by omega)

theorem find_slot_le (probes : List ℚ) (p : ℕ) (z : ℚ) :
    ∀ (n i : ℕ), i ≤ p → p + 1 ≤ n + i → find_slot probes p z n i ≤ p := by
  intro n
  induction n with
  | zero => intro i h1 h2; omega
  | succ n ih =>
    intro i h1 h2
    unfold find_slot
    split_ifs with h
    · exact h1
    · have : i ≠ p := by
        intro e; apply h; simp [e]
      exact ih (i + 1) (by omega) (by omega)

theorem shift_items_length (i : ℕ) :
    ∀ (fuel : ℕ) (m : ℤ) (probes : List ℚ),
      (shift_items i fuel m probes).length = probes.length := by
  intro fuel
  induction fuel with
  | zero => intro m probes; rfl
  | succ fuel ih =>
    intro m probes
    unfold shift_items
    simp only []
    split_ifs
    · rw [ih, List.length_set]
    · rfl

theorem shift_items_checked_eq (i : ℕ) :
    ∀ (fuel : ℕ) (m : ℤ) (probes : List ℚ), toInt8 (m - 1) + 1 < (probes.length : ℤ) →
      shift_items_checked i fuel m probes = some (shift_items i fuel m probes) := by
  intro fuel
  induction fuel with
  | zero => intro m probes _; rfl
  | succ fuel ih =>
    intro m probes h
    unfold shift_items_checked shift_items
    simp only []
    by_cases hm : toInt8 (m - 1) ≥ (i : ℤ)
    · have h0 : 0 ≤ toInt8 (m - 1) := le_trans (Int.ofNat_nonneg i) hm
      rw [if_pos hm, if_pos hm, if_pos ⟨h0, h⟩]
      apply ih
      rw [List.length_set]
      have : toInt8 (toInt8 (m - 1) - 1) = toInt8 (m - 1) - 1 := by
        have := h0
        unfold toInt8 at *
        omega
      omega
    · rw [if_neg hm, if_neg hm]

theorem insert_sample_length (probes : List ℚ) (p : ℕ) (z : ℚ) :
    (insert_sample probes p z).length = probes.length := by
  unfold insert_sample
  simp only []
  rw [List.length_set, shift_items_length]

/-- No access of the sorted insertion of the `p`-th measurement leaves the
array: with every access checked, the insertion succeeds and gives the result
of `insert_sample`. -/
theorem insert_sample_checked_eq (probes : List ℚ) (p : ℕ) (z : ℚ)
    (hp : p < probes.length) (h255 : p ≤ 255) :
    insert_sample_checked probes p z = some (insert_sample probes p z) := by
  unfold insert_sample_checked insert_sample
  simp only []
  rw [find_slot_checked_eq probes p z hp (p + 1) 0 (Nat.zero_le p)]
  simp only []
  rw [shift_items_checked_eq]
  · simp only []
    rw [if_pos]
    rw [shift_items_length]
    exact lt_of_le_of_lt (find_slot_le probes p z (p + 1) 0 (Nat.zero_le p) (by omega)) hp
  · unfold toInt8
    omega
theorem insert_all_length :
    ∀ (zs probes : List ℚ) (p : ℕ), (insert_all probes p zs).length = probes.length := by
  intro zs
  induction zs with
  | nil => intro probes p; rfl
  | cons z zs ih =>
    intro probes p
    unfold insert_all
    rw [ih, insert_sample_length]

theorem take_succ_getD (zs : List ℚ) (p : ℕ) (hz : p < zs.length) :
    zs.take (p + 1) = zs.take p ++ [zs.getD p 0] := by
  rw [List.take_succ, List.getD_eq_getElem?_getD, List.getElem?_eq_getElem hz]
  rfl

theorem insert_all_take_sorted (init zs : List ℚ) (p : ℕ) (hp : p < init.length)
    (hz : p < zs.length) (h128 : p ≤ 128) :
    (insert_all init 0 (zs.take (p + 1))).take (p + 1)
      = (zs.take (p + 1)).insertionSort (· ≤ ·) := by
  have hl : (zs.take (p + 1)).length = p + 1 := by
    rw [List.length_take]; omega
  have h := insert_all_eq (zs.take (p + 1)) [] init (by omega) (by simp only [List.length_nil]; omega)
  simp only [List.nil_append, List.length_nil] at h
  rw [h, foldl_sorted_ins_eq]
  have hl2 : ((zs.take (p + 1)).insertionSort (· ≤ ·)).length = p + 1 := by
    rw [List.length_insertionSort, hl]
  rw [List.take_append_of_le_length (by omega), List.take_of_length_le (by omega)]

/-- C18 (amended).  Sorted-insertion invariant (`EXTRA_PROBING > 0`): for every
sample sequence `zs`, every initial content `init` of `probes` and every
`p < TOTAL_PROBING`: if `p ≤ 128`, then after the `p`-th sample (0-based) has
been inserted `probes[0..p]` is in ascending order and is a permutation of the
first `p + 1` samples; and for `p ≤ 255` the insertion of the `p`-th sample
reads and writes no index outside `[0, TOTAL_PROBING - 1]` (with every access
checked it succeeds and gives the same array, of unchanged length). -/
theorem sorted_insertion_invariant (cfg : Config) (init zs : List ℚ) (p : ℕ)
    (hT : init.length = cfg.TOTAL_PROBING) (hp : p < cfg.TOTAL_PROBING)
    (hz : p < zs.length) :
    (p ≤ 128 →
        ((insert_all init 0 (zs.take (p + 1))).take (p + 1)).Sorted (· ≤ ·)
          ∧ ((insert_all init 0 (zs.take (p + 1))).take (p + 1)).Perm (zs.take (p + 1)))
      ∧ (p ≤ 255 →
        insert_sample_checked (insert_all init 0 (zs.take p)) p (zs.getD p 0)
            = some (insert_all init 0 (zs.take (p + 1)))
          ∧ (insert_all init 0 (zs.take (p + 1))).length = cfg.TOTAL_PROBING) := by
  constructor
  · intro h128
    rw [insert_all_take_sorted init zs p (by omega) hz h128]
    exact ⟨List.sorted_insertionSort _ _, List.perm_insertionSort _ _⟩
  · intro h255
    have hl : (zs.take p).length = p := by rw [List.length_take]; omega
    have e : insert_all init 0 (zs.take (p + 1))
        = insert_sample (insert_all init 0 (zs.take p)) p (zs.getD p 0) := by
      rw [take_succ_getD zs p hz, insert_all_append, hl, Nat.zero_add]
      rfl
    refine ⟨?_, ?_⟩
    · rw [e]
      exact insert_sample_checked_eq _ p _ (by rw [insert_all_length]; omega) h255
    · rw [insert_all_length, hT]
/-- C18, worked example: `TOTAL_PROBING = 5`, samples 2.01, 2, 1.98, 2.5, 2.02
into an array of zeros; after the sample number 2 the array is 1.98, 2, 2.01, 0,
0: its first three elements are sorted and are the first three samples. -/
theorem sorted_insertion_invariant_witness :
    insert_all [0, 0, 0, 0, 0] 0 (([201 / 100, 2, 99 / 50, 5 / 2, 101 / 50] : List ℚ).take 3)
        = [99 / 50, 2, 201 / 100, 0, 0]
      ∧ ((insert_all [0, 0, 0, 0, 0] 0
            (([201 / 100, 2, 99 / 50, 5 / 2, 101 / 50] : List ℚ).take (2 + 1))).take
              (2 + 1)).Sorted (· ≤ ·)
      ∧ ((insert_all [0, 0, 0, 0, 0] 0
            (([201 / 100, 2, 99 / 50, 5 / 2, 101 / 50] : List ℚ).take (2 + 1))).take
              (2 + 1)).Perm (([201 / 100, 2, 99 / 50, 5 / 2, 101 / 50] : List ℚ).take (2 + 1))
      ∧ insert_sample_checked
          (insert_all [0, 0, 0, 0, 0] 0
            (([201 / 100, 2, 99 / 50, 5 / 2, 101 / 50] : List ℚ).take 2)) 2
          (([201 / 100, 2, 99 / 50, 5 / 2, 101 / 50] : List ℚ).getD 2 0)
        = some (insert_all [0, 0, 0, 0, 0] 0
            (([201 / 100, 2, 99 / 50, 5 / 2, 101 / 50] : List ℚ).take (2 + 1))) := by
  have h := sorted_insertion_invariant (sampleConfigN 3 2) [0, 0, 0, 0, 0]
    [201 / 100, 2, 99 / 50, 5 / 2, 101 / 50] 2 rfl (by decide) (by decide)
  refine ⟨?_, (h.1 (by decide)).1, (h.1 (by decide)).2, (h.2 (by decide)).1⟩
  have e := insert_all_eq [201 / 100, 2, 99 / 50] [] [0, 0, 0, 0, 0] (by decide) (by decide)
  simp only [List.nil_append, List.length_nil] at e
  rw [show (([201 / 100, 2, 99 / 50, 5 / 2, 101 / 50] : List ℚ).take 3)
    = [201 / 100, 2, 99 / 50] from rfl, e]
  norm_num [sorted_ins]

theorem not_sorted_ones_zero :
    ¬ (0 :: (List.replicate 128 (1 : ℚ) ++ [0])).Sorted (· ≤ ·) := by
  intro h
  have h1 := (List.sorted_cons.mp h).2
  rw [show List.replicate 128 (1 : ℚ) = 1 :: List.replicate 127 1 from rfl,
    List.cons_append] at h1
  have h2 := (List.sorted_cons.mp h1).1 0 (List.mem_append_right _ (List.mem_singleton.mpr rfl))
  norm_num at h2

theorem not_perm_ones_zero :
    ¬ (0 :: (List.replicate 128 (1 : ℚ) ++ [0])).Perm (List.replicate 129 1 ++ [0]) := by
  intro h
  have c := h.count_eq 0
  rw [List.count_cons_self, List.count_append, List.count_append, List.count_replicate,
    List.count_replicate] at c
  simp at c

/-- C18 as stated fails from `p = 129` on: with `TOTAL_PROBING = 130`, 129
samples equal to 1 followed by one sample 0, the insertion of the sample number
129 shifts nothing (`int8_t m = 129` is negative) and overwrites `probes[0]`;
`probes[0..129]` is then 0, 1, ..., 1, 0: not ascending, and not a permutation
of the samples. -/
theorem sorted_insertion_invariant_counterexample :
    129 < (sampleConfigN 129 1).TOTAL_PROBING
      ∧ (List.replicate 130 (0 : ℚ)).length = (sampleConfigN 129 1).TOTAL_PROBING
      ∧ ¬ ((insert_all (List.replicate 130 0) 0
            ((List.replicate 129 (1 : ℚ) ++ [0]).take (129 + 1))).take
              (129 + 1)).Sorted (· ≤ ·)
      ∧ ¬ ((insert_all (List.replicate 130 0) 0
            ((List.replicate 129 (1 : ℚ) ++ [0]).take (129 + 1))).take
              (129 + 1)).Perm ((List.replicate 129 (1 : ℚ) ++ [0]).take (129 + 1)) := by
  have l1 : (List.replicate 129 (1 : ℚ) ++ [0]).length = 130 := by
    rw [List.length_append, List.length_replicate]; rfl
  have l2 : (0 :: (List.replicate 128 (1 : ℚ) ++ [0])).length = 130 := by
    rw [List.length_cons, List.length_append, List.length_replicate]; rfl
  have t1 : (List.replicate 129 (1 : ℚ) ++ [0]).take (129 + 1)
      = List.replicate 129 1 ++ [0] := List.take_of_length_le (by rw [l1])
  rw [t1, insert_ones_zero, List.take_of_length_le (by rw [l2])]
  refine ⟨by decide, ?_, not_sorted_ones_zero, not_perm_ones_zero⟩
  rw [List.length_replicate]
  rfl

/-! ## Every rejection by `try_to_probe` aborts the measurement -/

theorem accepted_nil (cfg : Config) (env : Env) (sc : Bool) (oz : ℚ) (base a : ℕ) :
    accepted cfg env sc oz base a a := by
  intro j h1 h2; omega

theorem accepted_trans (cfg : Config) (env : Env) (sc : Bool) (oz : ℚ) (base a b c : ℕ)
    (h1 : accepted cfg env sc oz base a b) (h2 : accepted cfg env sc oz base b c) :
    accepted cfg env sc oz base a c := by
  intro j ha hc
  by_cases hb : j < b
  · exact h1 j ha hb
  · exact h2 j (by omega) hc

theorem accepted_one (cfg : Config) (env : Env) (sc : Bool) (oz : ℚ) (base a : ℕ)
    (h : rejected cfg sc oz (tried_clearance cfg (a - base)) (env.descent a) = false) :
    accepted cfg env sc oz base a (a + 1) := by
  intro j h1 h2
  have : j = a := by omega
  rw [this]; exact h

theorem tried_clearance_slow (cfg : Config) (k : ℕ)
    (h : cfg.TOTAL_PROBING ≠ 2 ∨ k % 2 = 1) :
    tried_clearance cfg k = cfg.Z_CLEARANCE_MULTI_PROBE := by
  unfold tried_clearance
  rw [if_neg]
  rintro ⟨h1, h2⟩
  rcases h with h | h
  · exact h h1
  · omega

theorem tried_clearance_fast (cfg : Config) (k : ℕ) (hT : cfg.TOTAL_PROBING = 2)
    (h : k % 2 = 0) : tried_clearance cfg k = cfg.Z_CLEARANCE_BETWEEN_PROBES := by
  unfold tried_clearance
  rw [if_pos ⟨hT, h⟩]

theorem try_to_probe_accepted (cfg : Config) (env : Env) (zl fr : ℚ) (sc : Bool) (cl : ℚ)
    (s : Machine) (oz : ℚ) (base : ℕ) (ho : s.offset.z = oz)
    (hcl : tried_clearance cfg (s.descents - base) = cl)
    (h : (try_to_probe cfg env zl fr sc cl s).1 = false) :
    accepted cfg env sc oz base s.descents (try_to_probe cfg env zl fr sc cl s).2.descents := by
  rw [try_to_probe_fst] at h
  rw [try_to_probe_descents]
  apply accepted_one
  rw [hcl, ← ho]
  exact h

theorem detect_times_loop_accepted (cfg : Config) (env : Env) (sc : Bool) (zl oz : ℚ)
    (base : ℕ) (hT : cfg.TOTAL_PROBING = 2) :
    ∀ (fuel ta ic : ℕ) (f : ℚ) (s : Machine), s.offset.z = oz → base ≤ s.descents →
      (s.descents - base) % 2 = 1 →
      (detect_times_loop cfg env sc zl fuel ta ic f s).1 ≠ Except.error NAN →
      accepted cfg env sc oz base s.descents
        (detect_times_loop cfg env sc zl fuel ta ic f s).2.descents := by
  intro fuel
  induction fuel with
  | zero =>
    intro ta ic f s _ _ _ _
    simp only [detect_times_loop]
    exact accepted_nil cfg env sc oz base _
  | succ fuel ih =>
    intro ta ic f s ho hb hodd h
    rw [detect_times_loop] at h ⊢
    simp only [] at h ⊢
    by_cases h4 : ta > 4
    · simp only [h4, if_true]; exact accepted_nil cfg env sc oz base _
    · simp only [h4, if_false] at h ⊢
      cases hp : (try_to_probe cfg env zl (MMM_TO_MMS cfg.Z_PROBE_FEEDRATE_SLOW) sc
          cfg.Z_CLEARANCE_MULTI_PROBE (probe_start cfg s)).1
      · have c1 := try_to_probe_accepted cfg env zl _ sc _ (probe_start cfg s) oz base
          (by simpa using ho)
          (by rw [probe_start_descents]; exact tried_clearance_slow cfg _ (Or.inr hodd)) hp
        simp only [probe_start_descents, try_to_probe_descents] at c1
        simp only [hp, Bool.false_eq_true, if_false] at h ⊢
        split_ifs at h ⊢ with hb' hq
        · simpa using c1
        · exact absurd rfl h
        · have c2 := try_to_probe_accepted cfg env zl cfg.z_probe_fast_mm_s sc
            cfg.Z_CLEARANCE_BETWEEN_PROBES _ oz base
            (by simpa using ho)
            (by
              simp only [probe_start_descents, do_blocking_move_to_xy_descents,
                do_blocking_move_to_z_descents, set_buff_descents, try_to_probe_descents]
              exact tried_clearance_fast cfg _ hT (by omega))
            (Bool.eq_false_iff.mpr hq)
          have c3 := ih _ _ _ _ (by simpa using ho)
            (by
              simp only [probe_start_descents, do_blocking_move_to_xy_descents,
                do_blocking_move_to_z_descents, set_buff_descents, try_to_probe_descents]
              omega)
            (by
              simp only [probe_start_descents, do_blocking_move_to_xy_descents,
                do_blocking_move_to_z_descents, set_buff_descents, try_to_probe_descents]
              omega) h
          simp only [probe_start_descents, try_to_probe_descents, set_buff_descents,
            do_blocking_move_to_xy_descents, do_blocking_move_to_z_descents] at c2 c3 ⊢
          exact accepted_trans cfg env sc oz base _ _ _ c1
            (accepted_trans cfg env sc oz base _ _ _ c2 c3)
      · simp only [hp, if_true] at h
        exact absurd rfl h
theorem detect_times_probe_accepted (cfg : Config) (env : Env) (sc : Bool) (zl f oz : ℚ)
    (base : ℕ) (hT : cfg.TOTAL_PROBING = 2) (s : Machine) (ho : s.offset.z = oz)
    (hb : base ≤ s.descents) (hodd : (s.descents - base) % 2 = 1)
    (h : (detect_times_probe cfg env sc zl f s).1 ≠ Except.error NAN) :
    accepted cfg env sc oz base s.descents (detect_times_probe cfg env sc zl f s).2.descents := by
  unfold detect_times_probe at h ⊢
  rw [detect_times_finish_descents]
  exact detect_times_loop_accepted cfg env sc zl oz base hT 6 0 0 f (s.set_buff 0 f) ho hb hodd
    (detect_times_finish_nan _ h)

theorem plain_attempt_accepted (cfg : Config) (env : Env) (sc : Bool) (zl f oz : ℚ)
    (base : ℕ) (s : Machine) (ho : s.offset.z = oz)
    (hcl : tried_clearance cfg (s.descents - base) = cfg.Z_CLEARANCE_MULTI_PROBE)
    (h : (plain_attempt cfg env sc zl f s).1 ≠ Except.error NAN) :
    accepted cfg env sc oz base s.descents (plain_attempt cfg env sc zl f s).2.descents := by
  rw [plain_attempt_descents]
  rw [plain_attempt_fst] at h
  apply accepted_one
  rw [hcl, ← ho]
  cases hr : rejected cfg sc s.offset.z cfg.Z_CLEARANCE_MULTI_PROBE (env.descent s.descents)
  · rfl
  · rw [hr] at h
    exact absurd rfl h

theorem slow_probe_accepted (cfg : Config) (env : Env) (sc : Bool) (zl oz : ℚ) (base : ℕ)
    (f : Option ℚ) (s : Machine) (ho : s.offset.z = oz)
    (hc : (f = none ∧ cfg.TOTAL_PROBING ≠ 2)
      ∨ (cfg.TOTAL_PROBING = 2 ∧ base ≤ s.descents ∧ (s.descents - base) % 2 = 1))
    (h : (slow_probe cfg env sc zl f s).1 ≠ Except.error NAN) :
    accepted cfg env sc oz base s.descents (slow_probe cfg env sc zl f s).2.descents := by
  rw [slow_probe_eq] at h ⊢
  have c := congrArg Core.descents (slow_finish_core cfg
    (slow_attempt cfg env sc zl f (if cfg.PROBE_TARE then (tare s).2 else s)))
  simp only [Machine.core] at c
  rw [c]
  have h1 := slow_finish_nan cfg _ h
  have hd := tare_if_descents cfg.PROBE_TARE s
  have ho' := (congrArg XYZ.z (tare_if_offset cfg.PROBE_TARE s)).trans ho
  generalize (if cfg.PROBE_TARE then (tare s).2 else s) = t at h1 hd ho' ⊢
  rw [← hd] at hc ⊢
  have hcl : tried_clearance cfg (t.descents - base) = cfg.Z_CLEARANCE_MULTI_PROBE := by
    apply tried_clearance_slow
    rcases hc with hc | hc
    · exact Or.inl hc.2
    · exact Or.inr hc.2.2
  unfold slow_attempt at h1 ⊢
  by_cases hA : detect_times_active cfg f = true
  · rw [if_pos hA] at h1 ⊢
    rcases hc with hc | hc
    · rw [hc.1] at hA
      simp [detect_times_active] at hA
    · exact detect_times_probe_accepted cfg env sc zl (f.getD 0) oz base hc.1 t ho' hc.2.1
        hc.2.2 h1
  · rw [if_neg hA] at h1 ⊢
    exact plain_attempt_accepted cfg env sc zl (f.getD 0) oz base t ho' hcl h1

theorem plain_loop_accepted (cfg : Config) (env : Env) (sc : Bool) (zl oz : ℚ) (base : ℕ)
    (hT : cfg.TOTAL_PROBING ≠ 2) :
    ∀ (p : ℕ) (sum : ℚ) (s : Machine), s.offset.z = oz →
      (plain_loop cfg env sc zl p sum s).1 ≠ Except.error NAN →
      accepted cfg env sc oz base s.descents (plain_loop cfg env sc zl p sum s).2.descents := by
  intro p
  induction p with
  | zero => intro sum s _ _; exact accepted_nil cfg env sc oz base _
  | succ p ih =>
    intro sum s ho h
    have c := slow_probe_accepted cfg env sc zl oz base none s ho (Or.inl ⟨rfl, hT⟩)
    have k := (slow_probe_frame cfg env sc zl none s).1
    rw [plain_loop] at h ⊢
    generalize slow_probe cfg env sc zl none s = r at h c k ⊢
    obtain ⟨r1, r2⟩ := r
    cases r1 with
    | error v => exact c (by simpa using h)
    | ok t =>
      obtain ⟨z, f1⟩ := t
      have c1 := c (by simp)
      simp only [] at h c1 k ⊢
      have c2 := ih _ _ (by split_ifs <;> simp [k, ho]) h
      refine accepted_trans cfg env sc oz base _ _ _ c1 ?_
      split_ifs at c2 ⊢ <;> simpa using c2

theorem trimmed_loop_accepted (cfg : Config) (env : Env) (sc : Bool) (zl oz : ℚ) (base : ℕ)
    (hT : cfg.TOTAL_PROBING ≠ 2) :
    ∀ (n p : ℕ) (probes : List ℚ) (s : Machine), s.offset.z = oz →
      (trimmed_loop cfg env sc zl n p probes s).1 ≠ Except.error NAN →
      accepted cfg env sc oz base s.descents
        (trimmed_loop cfg env sc zl n p probes s).2.descents := by
  intro n
  induction n with
  | zero => intro p probes s _ _; exact accepted_nil cfg env sc oz base _
  | succ n ih =>
    intro p probes s ho h
    have c := slow_probe_accepted cfg env sc zl oz base none s ho (Or.inl ⟨rfl, hT⟩)
    have k := (slow_probe_frame cfg env sc zl none s).1
    rw [trimmed_loop] at h ⊢
    generalize slow_probe cfg env sc zl none s = r at h c k ⊢
    obtain ⟨r1, r2⟩ := r
    cases r1 with
    | error v => exact c (by simpa using h)
    | ok t =>
      obtain ⟨z, f1⟩ := t
      have c1 := c (by simp)
      simp only [] at h c1 k ⊢
      have c2 := ih _ _ _ (by split_ifs <;> simp [k, ho]) h
      refine accepted_trans cfg env sc oz base _ _ _ c1 ?_
      split_ifs at c2 ⊢ <;> simpa using c2
theorem double_probe_first_accepted (cfg : Config) (env : Env) (sc : Bool) (zl : ℚ)
    (s : Machine) (hT : cfg.TOTAL_PROBING = 2)
    (h : (double_probe_first cfg env sc zl s).1 ≠ Except.error NAN) :
    accepted cfg env sc s.offset.z s.descents s.descents
        (double_probe_first cfg env sc zl s).2.descents
      ∧ (double_probe_first cfg env sc zl s).2.descents = s.descents + 1 := by
  have hd := tare_if_descents cfg.PROBE_TARE s
  have ho := tare_if_offset cfg.PROBE_TARE s
  have e : double_probe_first cfg env sc zl s
      = if (try_to_probe cfg env zl cfg.z_probe_fast_mm_s sc cfg.Z_CLEARANCE_BETWEEN_PROBES
            (probe_start cfg (if cfg.PROBE_TARE then (tare s).2 else s))).1 = true then
          ((Except.error NAN : Except FloatQ ℚ), (try_to_probe cfg env zl cfg.z_probe_fast_mm_s
            sc cfg.Z_CLEARANCE_BETWEEN_PROBES
            (probe_start cfg (if cfg.PROBE_TARE then (tare s).2 else s))).2)
        else
          (Except.ok (try_to_probe cfg env zl cfg.z_probe_fast_mm_s sc
              cfg.Z_CLEARANCE_BETWEEN_PROBES
              (probe_start cfg (if cfg.PROBE_TARE then (tare s).2 else s))).2.current_position.z,
            do_blocking_move_to_z ((try_to_probe cfg env zl cfg.z_probe_fast_mm_s sc
              cfg.Z_CLEARANCE_BETWEEN_PROBES
              (probe_start cfg (if cfg.PROBE_TARE then (tare s).2 else s))).2.current_position.z
                + cfg.Z_CLEARANCE_MULTI_PROBE) (raise_feedrate cfg)
              (try_to_probe cfg env zl cfg.z_probe_fast_mm_s sc cfg.Z_CLEARANCE_BETWEEN_PROBES
                (probe_start cfg (if cfg.PROBE_TARE then (tare s).2 else s))).2) := by
    unfold double_probe_first
    cases cfg.PROBE_TARE <;> simp
  rw [e] at h ⊢
  generalize (if cfg.PROBE_TARE then (tare s).2 else s) = t at h hd ho ⊢
  cases hp : (try_to_probe cfg env zl cfg.z_probe_fast_mm_s sc cfg.Z_CLEARANCE_BETWEEN_PROBES
      (probe_start cfg t)).1
  · have c1 := try_to_probe_accepted cfg env zl cfg.z_probe_fast_mm_s sc
      cfg.Z_CLEARANCE_BETWEEN_PROBES (probe_start cfg t) s.offset.z s.descents
      (by simp [ho])
      (by
        rw [probe_start_descents, hd, Nat.sub_self]
        exact tried_clearance_fast cfg 0 hT rfl) hp
    simp only [probe_start_descents, try_to_probe_descents, hd] at c1
    simp only [Bool.false_eq_true, if_false, do_blocking_move_to_z_descents,
      try_to_probe_descents, probe_start_descents, hd]
    exact ⟨c1, trivial⟩
  · rw [hp, if_pos rfl] at h
    exact absurd rfl h

/-- If `run_z_probe` returns a value, none of the descents it made through
`try_to_probe` was rejected, neither for a missing trigger nor by the sanity
check. -/
theorem run_z_probe_accepted (cfg : Config) (env : Env) (sc : Bool) (s : Machine)
    (h : (run_z_probe cfg env sc s).1 ≠ NAN) :
    accepted cfg env sc s.offset.z (tried_from cfg env s) (tried_from cfg env s)
      (run_z_probe cfg env sc s).2.descents := by
  have eo := loop_entry_offset cfg env s
  unfold run_z_probe tried_from at *
  by_cases h2 : cfg.TOTAL_PROBING = 2
  · simp only [h2, if_true] at h ⊢
    have c := double_probe_first_accepted cfg env sc (z_probe_low_point cfg s) s h2
    have fo := (double_probe_first_frame cfg env sc (z_probe_low_point cfg s) s).1
    generalize double_probe_first cfg env sc (z_probe_low_point cfg s) s = r at h c fo ⊢
    obtain ⟨r1, r2⟩ := r
    cases r1 with
    | error v => exact (c (by simpa using h)).1
    | ok f =>
      obtain ⟨c1, c2⟩ := c (by simp)
      simp only [] at h c1 c2 fo ⊢
      have d := slow_probe_accepted cfg env sc (z_probe_low_point cfg s) s.offset.z s.descents
        (some f) r2 (by rw [fo]) (Or.inr ⟨h2, by omega, by omega⟩)
      generalize slow_probe cfg env sc (z_probe_low_point cfg s) (some f) r2 = q at h d ⊢
      obtain ⟨q1, q2⟩ := q
      cases q1 with
      | error v => exact accepted_trans cfg env sc _ _ _ _ _ c1 (d (by simpa using h))
      | ok t =>
        have d1 := d (by simp)
        simp only [] at h d1 ⊢
        split_ifs <;> exact accepted_trans cfg env sc _ _ _ _ _ c1 d1
  · simp only [h2, if_false] at h ⊢
    by_cases hT : cfg.TOTAL_PROBING > 2
    · simp only [hT, if_true] at h ⊢
      by_cases hK : cfg.EXTRA_PROBING > 0
      · simp only [hK, if_true] at h ⊢
        have c := trimmed_loop_accepted cfg env sc (z_probe_low_point cfg s) s.offset.z
          (loop_entry cfg env s).descents h2 cfg.TOTAL_PROBING 0
          ((List.range cfg.TOTAL_PROBING).map env.probes_uninit) (loop_entry cfg env s)
          (by rw [eo])
        generalize trimmed_loop cfg env sc (z_probe_low_point cfg s) cfg.TOTAL_PROBING 0
          ((List.range cfg.TOTAL_PROBING).map env.probes_uninit) (loop_entry cfg env s) = r
          at h c ⊢
        obtain ⟨r1, r2⟩ := r
        cases r1 with
        | error v => exact c (by simpa using h)
        | ok f => exact c (by simp)
      · simp only [hK, if_false] at h ⊢
        have c := plain_loop_accepted cfg env sc (z_probe_low_point cfg s) s.offset.z
          (loop_entry cfg env s).descents h2
          (toUInt8 cfg.TOTAL_PROBING) 0 (loop_entry cfg env s) (by rw [eo])
        generalize plain_loop cfg env sc (z_probe_low_point cfg s)
          (toUInt8 cfg.TOTAL_PROBING) 0 (loop_entry cfg env s) = r at h c ⊢
        obtain ⟨r1, r2⟩ := r
        cases r1 with
        | error v => exact c (by simpa using h)
        | ok f => exact c (by simp)
    · simp only [hT, if_false] at h ⊢
      have c := slow_probe_accepted cfg env sc (z_probe_low_point cfg s) s.offset.z
        (loop_entry cfg env s).descents none (loop_entry cfg env s) (by rw [eo])
        (Or.inl ⟨rfl, h2⟩)
      generalize slow_probe cfg env sc (z_probe_low_point cfg s) none
        (loop_entry cfg env s) = r at h c ⊢
      obtain ⟨r1, r2⟩ := r
      cases r1 with
      | error v => exact c (by simpa using h)
      | ok f => exact c (by simp)
theorem try_to_probe_iff (cfg : Config) (env : Env) (zl fr : ℚ) (scheck : Bool)
    (clearance : ℚ) (s : Machine) :
    (try_to_probe cfg env zl fr scheck clearance s).1 = true ↔
      (probe_down_to_z cfg env zl fr (if cfg.PROBE_TARE then (tare s).2 else s)).1 = true
        ∨ (scheck = true
          ∧ (probe_down_to_z cfg env zl fr
              (if cfg.PROBE_TARE then (tare s).2 else s)).2.current_position.z
            > -s.offset.z + clearance) := by
  unfold try_to_probe
  cases hT : cfg.PROBE_TARE <;> simp

theorem run_z_probe_rejected (cfg : Config) (env : Env) (sc : Bool) (s : Machine) (j : ℕ)
    (h1 : tried_from cfg env s ≤ j) (h2 : j < (run_z_probe cfg env sc s).2.descents)
    (hr : rejected cfg sc s.offset.z (tried_clearance cfg (j - tried_from cfg env s))
      (env.descent j) = true) :
    (run_z_probe cfg env sc s).1 = NAN := by
  by_contra h
  have := run_z_probe_accepted cfg env sc s h j h1 h2
  rw [this] at hr
  exact Bool.false_ne_true hr

/-- C16.  Sanity check in `try_to_probe`: the call rejects its descent (returns
`true`) if and only if `probe_down_to_z` reported that the probe did not
trigger, or `scheck` is true and the resolved Z is strictly greater than
`-offset.z + clearance`; with `scheck` false a descent that triggered is
accepted for every resolved Z; and in `run_z_probe` every descent made through
`try_to_probe` that is rejected, by the sanity check as well as for a missing
trigger, makes the call return NaN.  Without `BLTOUCH_SLOW_MODE`, where
`probe_down_to_z` can fail in no other way, "did not trigger" is the trigger
bit of the latched state and the resolved Z is the Z of the steppers. -/
theorem try_to_probe_sanity_check (cfg : Config) (env : Env) (zl fr : ℚ) (scheck : Bool)
    (clearance : ℚ) (s : Machine) :
    ((try_to_probe cfg env zl fr scheck clearance s).1 = true ↔
        (probe_down_to_z cfg env zl fr (if cfg.PROBE_TARE then (tare s).2 else s)).1 = true
          ∨ (scheck = true
            ∧ (probe_down_to_z cfg env zl fr
                (if cfg.PROBE_TARE then (tare s).2 else s)).2.current_position.z
              > -s.offset.z + clearance))
      ∧ ((probe_down_to_z cfg env zl fr (if cfg.PROBE_TARE then (tare s).2 else s)).1 = false →
          (try_to_probe cfg env zl fr false clearance s).1 = false)
      ∧ (∀ j, tried_from cfg env s ≤ j → j < (run_z_probe cfg env scheck s).2.descents →
          (descent_fails cfg (env.descent j) = true
            ∨ (scheck = true ∧ (env.descent j).stepper_z
                > -s.offset.z + tried_clearance cfg (j - tried_from cfg env s))) →
          (run_z_probe cfg env scheck s).1 = NAN)
      ∧ (cfg.BLTOUCH_SLOW_MODE = false →
          ((try_to_probe cfg env zl fr scheck clearance s).1 = true ↔
            probe_triggered cfg (env.descent s.descents).trigger_state = false
              ∨ (scheck = true
                ∧ (env.descent s.descents).stepper_z > -s.offset.z + clearance))) := by
  refine ⟨try_to_probe_iff cfg env zl fr scheck clearance s, ?_, ?_, ?_⟩
  rotate_left 2
  · intro hB
    rw [try_to_probe_fst]
    unfold rejected descent_fails
    simp [hB]
  · intro h
    have k := (try_to_probe_iff cfg env zl fr false clearance s).not
    rw [Bool.not_eq_true] at k
    apply k.mpr
    simp [h]
  · intro j h1 h2 hr
    apply run_z_probe_rejected cfg env scheck s j h1 h2
    unfold rejected
    rcases hr with hr | ⟨hs, hz⟩
    · simp [hr]
    · simp [hs, hz]
/-- C16, worked example: on the sample machine (offset.z = -2, clearance 5, so
threshold 7) a single probe that triggers at Z = 9 is rejected with the sanity
check on, and `run_z_probe` returns NaN; with the sanity check off the same
descent is accepted and 9 is returned. -/
theorem try_to_probe_sanity_check_witness :
    (run_z_probe sampleConfig (sampleEnv [9] 0) true sampleMachine).1 = NAN
      ∧ (run_z_probe sampleConfig (sampleEnv [9] 0) false sampleMachine).1 = some 9 := by
  have le : loop_entry sampleConfig (sampleEnv [9] 0) sampleMachine = sampleMachine :=
    sample_loop_entry sampleConfig (sampleEnv [9] 0) rfl
  have tf : tried_from sampleConfig (sampleEnv [9] 0) sampleMachine = 0 := by
    unfold tried_from
    rw [if_neg (by decide), le]
    rfl
  have hd : (run_z_probe sampleConfig (sampleEnv [9] 0) true sampleMachine).2.descents = 1 := by
    rw [run_z_probe_single_descents _ _ _ _ (by decide), le]
    rfl
  constructor
  · refine (try_to_probe_sanity_check sampleConfig (sampleEnv [9] 0) 0 0 true 0
      sampleMachine).2.2.1 0 (by rw [tf]) (by rw [hd]; decide) (Or.inr ⟨rfl, ?_⟩)
    rw [tf]
    norm_num [sampleEnv, sampleMachine, tried_clearance, sampleConfig, Config.TOTAL_PROBING]
  · rw [run_z_probe_single_value _ _ _ _ (by decide), le]
    · simp [sampleEnv, sampleMachine]
    · rw [le]
      unfold rejected
      rw [sampleEnv_descent_fails sampleConfig rfl rfl rfl]
      simp

/-! ## Stall sensing armed and released around a descent -/

/-- C15.  `probe_down_to_z` at a concrete input under
`USE_Z_SENSORLESS_AS_PROBE` with `USE_Z_SENSORLESS`: a descent of the sample
machine that triggers.  The arming step raises the Z current from 800 to
500 mA, arms the endstops and enables stall reporting on the Z driver; on
return the current is restored and the endstops are back at their global
setting, but stall reporting on the Z driver is still enabled and its
stealthChop mode is still off. -/
theorem probe_down_to_z_leaves_stall_enabled :
    sampleMachine.stepperZ.diag1_stall = false
      ∧ sampleMachine.stepperZ.stealthChop = true
      ∧ (descent_arm stallProbeConfig
          (descent_entry stallProbeConfig
            { sampleMachine with descents := 1 })).2.stepperZ.diag1_stall = true
      ∧ (descent_arm stallProbeConfig
          (descent_entry stallProbeConfig
            { sampleMachine with descents := 1 })).2.stepperZ.val_mA = 500
      ∧ (descent_arm stallProbeConfig
          (descent_entry stallProbeConfig
            { sampleMachine with descents := 1 })).2.endstops_enabled = true
      ∧ (probe_down_to_z stallProbeConfig (sampleEnv [1] 0) 0 4 sampleMachine).1 = false
      ∧ (probe_down_to_z stallProbeConfig (sampleEnv [1] 0) 0 4
          sampleMachine).2.stepperZ.val_mA = 800
      ∧ (probe_down_to_z stallProbeConfig (sampleEnv [1] 0) 0 4
          sampleMachine).2.endstops_enabled = sampleMachine.endstops_enabled_globally
      ∧ (probe_down_to_z stallProbeConfig (sampleEnv [1] 0) 0 4
          sampleMachine).2.stepperZ.diag1_stall = true
      ∧ (probe_down_to_z stallProbeConfig (sampleEnv [1] 0) 0 4
          sampleMachine).2.stepperZ.stealthChop = false := by
  have h64 : Nat.testBit 64 6 = true := by decide
  refine ⟨rfl, rfl, ?_, ?_, ?_, ?_, ?_, ?_, ?_, ?_⟩ <;>
    simp [probe_down_to_z, descent_entry, descent_arm, descent_release, sensorless_as_probe_arm,
      sensorless_as_probe_release, quiet_probing_enter, set_homing_current, homing_current_on,
      homing_current_off, HAS_CURRENT_HOME, anker_tmc_enable_stallguard, stallProbeConfig,
      sampleConfig, sampleMachine, sampleEnv, sampleDriver, Machine.log, Machine.logIf,
      anker_level_set_probing_paused, set_probing_paused, probing_paused_steps,
      do_blocking_move_to_z, hit_on_purpose, set_current_from_steppers_for_axis_Z,
      probe_triggered, TEST, h64, Driver.rms_current, Driver.getMilliamps, toUInt16, toInt16]

/-! ## The three call sites of `tare()` -/

theorem try_to_probe_with_tare (cfg : Config) (env : Env) (zl fr : ℚ) (sc : Bool) (cl : ℚ)
    (s : Machine) :
    try_to_probe_with tare cfg env zl fr sc cl s = try_to_probe cfg env zl fr sc cl s := rfl

theorem double_probe_first_with_tare (cfg : Config) (env : Env) (sc : Bool) (zl : ℚ)
    (s : Machine) :
    double_probe_first_with tare cfg env sc zl s = double_probe_first cfg env sc zl s := rfl

theorem detect_times_loop_with_tare (cfg : Config) (env : Env) (sc : Bool) (zl : ℚ) :
    ∀ (fuel ta ic : ℕ) (f : ℚ) (s : Machine),
      detect_times_loop_with tare cfg env sc zl fuel ta ic f s
        = detect_times_loop cfg env sc zl fuel ta ic f s := by
  intro fuel
  induction fuel with
  | zero => intro ta ic f s; rfl
  | succ fuel ih =>
    intro ta ic f s
    simp only [detect_times_loop_with, detect_times_loop, try_to_probe_with_tare, ih]

theorem slow_probe_with_tare (cfg : Config) (env : Env) (sc : Bool) (zl : ℚ) (f : Option ℚ)
    (s : Machine) :
    slow_probe_with tare cfg env sc zl f s = slow_probe cfg env sc zl f s := by
  simp only [slow_probe_with, slow_probe, slow_attempt, detect_times_probe, plain_attempt,
    detect_times_loop_with_tare, try_to_probe_with_tare]

theorem trimmed_loop_with_tare (cfg : Config) (env : Env) (sc : Bool) (zl : ℚ) :
    ∀ (n p : ℕ) (probes : List ℚ) (s : Machine),
      trimmed_loop_with tare cfg env sc zl n p probes s
        = trimmed_loop cfg env sc zl n p probes s := by
  intro n
  induction n with
  | zero => intro p probes s; rfl
  | succ n ih =>
    intro p probes s
    simp only [trimmed_loop_with, trimmed_loop, slow_probe_with_tare, ih]

theorem plain_loop_with_tare (cfg : Config) (env : Env) (sc : Bool) (zl : ℚ) :
    ∀ (p : ℕ) (sum : ℚ) (s : Machine),
      plain_loop_with tare cfg env sc zl p sum s = plain_loop cfg env sc zl p sum s := by
  intro p
  induction p with
  | zero => intro sum s; rfl
  | succ p ih =>
    intro sum s
    simp only [plain_loop_with, plain_loop, slow_probe_with_tare, ih]

/-- With the `tare` of the source passed in, `run_z_probe_with` is
`run_z_probe`. -/
theorem run_z_probe_with_tare (cfg : Config) (env : Env) (sc : Bool) (s : Machine) :
    run_z_probe_with tare cfg env sc s = run_z_probe cfg env sc s := by
  simp only [run_z_probe_with, run_z_probe, double_probe_first_with_tare, slow_probe_with_tare,
    trimmed_loop_with_tare, plain_loop_with_tare]

theorem try_to_probe_with_tare_fails (tr : Machine → Bool × Machine) (cfg : Config) (env : Env)
    (zl fr : ℚ) (sc : Bool) (cl : ℚ) (s : Machine) (hP : cfg.PROBE_TARE = true)
    (h : (tr s).1 = true) :
    try_to_probe_with tr cfg env zl fr sc cl s = (true, (tr s).2) := by
  unfold try_to_probe_with
  simp [hP, h]

/-- The call site before the fast probe: a failed tare makes `run_z_probe`
return NaN. -/
theorem run_z_probe_with_first_tare_fails (tr : Machine → Bool × Machine) (cfg : Config)
    (env : Env) (sc : Bool) (s : Machine) (hP : cfg.PROBE_TARE = true)
    (h2 : cfg.TOTAL_PROBING = 2) (h : (tr s).1 = true) :
    (run_z_probe_with tr cfg env sc s).1 = NAN := by
  unfold run_z_probe_with double_probe_first_with
  simp [hP, h2, h]

/-- The call site inside `try_to_probe`, at the fast probe: a failed tare makes
`run_z_probe` return NaN. -/
theorem run_z_probe_with_fast_tare_fails (tr : Machine → Bool × Machine) (cfg : Config)
    (env : Env) (sc : Bool) (s : Machine) (hP : cfg.PROBE_TARE = true)
    (h2 : cfg.TOTAL_PROBING = 2) (h : (tr s).1 = false)
    (hf : (tr (probe_start cfg (tr s).2)).1 = true) :
    (run_z_probe_with tr cfg env sc s).1 = NAN := by
  unfold run_z_probe_with double_probe_first_with
  simp [hP, h2, h, try_to_probe_with_tare_fails tr cfg env _ _ _ _ _ hP hf]

theorem slow_probe_with_tare_fails (tr : Machine → Bool × Machine) (cfg : Config) (env : Env)
    (sc : Bool) (zl : ℚ) (f : Option ℚ) (s : Machine) (hP : cfg.PROBE_TARE = true)
    (h : (tr s).1 = true) :
    slow_probe_with tr cfg env sc zl f s = (Except.error (some 1), (tr s).2) := by
  unfold slow_probe_with
  simp [hP, h]

/-- The call site at the top of the slow probe: a failed tare at the first slow
probe makes `run_z_probe` return `true`, the float 1, in every policy but the
double probe. -/
theorem run_z_probe_with_slow_tare_fails (tr : Machine → Bool × Machine) (cfg : Config)
    (env : Env) (sc : Bool) (s : Machine) (hP : cfg.PROBE_TARE = true)
    (h2 : cfg.TOTAL_PROBING ≠ 2) (h0 : 0 < cfg.TOTAL_PROBING) (h255 : cfg.TOTAL_PROBING ≤ 255)
    (h : (tr (loop_entry cfg env s)).1 = true) :
    run_z_probe_with tr cfg env sc s = (some 1, (tr (loop_entry cfg env s)).2) := by
  have e := slow_probe_with_tare_fails tr cfg env sc (z_probe_low_point cfg s) none
    (loop_entry cfg env s) hP h
  unfold run_z_probe_with
  simp only [h2, if_false]
  by_cases hT : cfg.TOTAL_PROBING > 2
  · simp only [hT, if_true]
    by_cases hK : cfg.EXTRA_PROBING > 0
    · simp only [hK, if_true]
      obtain ⟨n, hn⟩ : ∃ n, cfg.TOTAL_PROBING = n + 1 := ⟨cfg.TOTAL_PROBING - 1, by omega⟩
      rw [hn, trimmed_loop_with, ← hn, e]
    · simp only [hK, if_false]
      obtain ⟨n, hn⟩ : ∃ n, toUInt8 cfg.TOTAL_PROBING = n + 1 :=
        ⟨toUInt8 cfg.TOTAL_PROBING - 1, by unfold toUInt8; omega⟩
      rw [hn, plain_loop_with, e]
  · simp only [hT, if_false]
    rw [e]

/-- The three call sites of `tare()` at concrete inputs, `PROBE_TARE` enabled,
with a function that reports failure passed in as `tare()`, which the `tare`
of the source never does.  Double probe, failure before the fast probe: NaN.
Double probe, the first call succeeding and the call inside `try_to_probe`
failing: NaN.  Single probe, failure at the top of the slow probe: the value
returned is `true`, the float 1. -/
theorem run_z_probe_tare_failure_sites :
    sampleConfig.PROBE_TARE = true
      ∧ (run_z_probe_with (fun s => (true, s)) (sampleConfigN 2 0) (sampleEnv [] 0) true
          sampleMachine).1 = NAN
      ∧ (run_z_probe_with (fun s => (!s.trace.isEmpty, s.log Event.tare_pulse))
          (sampleConfigN 2 0) (sampleEnv [] 0) true sampleMachine).1 = NAN
      ∧ (run_z_probe_with (fun s => (true, s)) sampleConfig (sampleEnv [] 0) true
          sampleMachine).1 = some 1
      ∧ (run_z_probe_with (fun s => (true, s)) sampleConfig (sampleEnv [] 0) true
          sampleMachine).1 ≠ NAN := by
  have h3 := run_z_probe_with_slow_tare_fails (fun s => (true, s)) sampleConfig
    (sampleEnv [] 0) true sampleMachine rfl (by decide) (by decide) (by decide) rfl
  refine ⟨rfl, ?_, ?_, ?_, ?_⟩
  · exact run_z_probe_with_first_tare_fails _ _ _ _ _ rfl (by decide) rfl
  · exact run_z_probe_with_fast_tare_fails _ _ _ _ _ rfl (by decide) rfl rfl
  · rw [h3]
  · rw [h3]
    simp [NAN]

/-! ## The tare of the source never fails -/

theorem log_sensing (s : Machine) (e : Event) : (s.log e).sensing = s.sensing := rfl

theorem logIf_sensing (s : Machine) (c : Bool) (e : Event) :
    (s.logIf c e).sensing = s.sensing := by
  unfold Machine.logIf
  split_ifs <;> rfl

theorem DISABLE_AXIS_X_sensing (s : Machine) : (DISABLE_AXIS_X s).sensing = s.sensing := rfl

theorem DISABLE_AXIS_Y_sensing (s : Machine) : (DISABLE_AXIS_Y s).sensing = s.sensing := rfl

theorem probing_paused_steps_sensing (cfg : Config) (dopause : Bool) (old : ℕ) (s : Machine) :
    ((probing_paused_steps cfg dopause old s).2).sensing = s.sensing := by
  unfold probing_paused_steps
  simp only []
  split_ifs <;> simp only [DISABLE_AXIS_X_sensing, DISABLE_AXIS_Y_sensing, log_sensing] <;> rfl

theorem set_probing_paused_sensing (cfg : Config) (dopause : Bool) (s : Machine) :
    (set_probing_paused cfg dopause s).sensing = s.sensing := by
  unfold set_probing_paused
  exact probing_paused_steps_sensing cfg dopause s.old_trusted s

theorem anker_level_set_probing_paused_sensing (cfg : Config) (dopause : Bool) (ms : ℕ)
    (s : Machine) : (anker_level_set_probing_paused cfg dopause ms s).sensing = s.sensing := by
  unfold anker_level_set_probing_paused
  exact probing_paused_steps_sensing cfg dopause s.anker_old_trusted s

theorem quiet_probing_enter_sensing (cfg : Config) (s : Machine) :
    (quiet_probing_enter cfg s).sensing = s.sensing := by
  unfold quiet_probing_enter
  simp only []
  split_ifs <;>
    simp only [log_sensing, set_probing_paused_sensing, anker_level_set_probing_paused_sensing]

theorem descent_entry_sensing (cfg : Config) (s : Machine) :
    (descent_entry cfg s).sensing = s.sensing := by
  unfold descent_entry
  simp only [logIf_sensing]
theorem sensing_fields (a b : Machine) (h : a.sensing = b.sensing) :
    a.stepperX = b.stepperX ∧ a.stepperY = b.stepperY ∧ a.stepperZ = b.stepperZ
      ∧ a.stepperZ2 = b.stepperZ2 ∧ a.saved_current_X = b.saved_current_X
      ∧ a.saved_current_Y = b.saved_current_Y ∧ a.saved_current_Z = b.saved_current_Z
      ∧ a.test_sensitivity = b.test_sensitivity ∧ a.endstops_enabled = b.endstops_enabled
      ∧ a.endstops_enabled_globally = b.endstops_enabled_globally :=
  ⟨congrArg Sensing.stepperX h, congrArg Sensing.stepperY h, congrArg Sensing.stepperZ h,
    congrArg Sensing.stepperZ2 h, congrArg Sensing.saved_current_X h,
    congrArg Sensing.saved_current_Y h, congrArg Sensing.saved_current_Z h,
    congrArg Sensing.test_sensitivity h, congrArg Sensing.endstops_enabled h,
    congrArg Sensing.endstops_enabled_globally h⟩

theorem set_homing_current_sensing_congr (cfg : Config) (onoff : Bool) (a b : Machine)
    (h : a.sensing = b.sensing) :
    (set_homing_current cfg onoff a).sensing = (set_homing_current cfg onoff b).sensing := by
  obtain ⟨h1, h2, h3, h4, h5, h6, h7, h8, h9, h10⟩ := sensing_fields a b h
  unfold set_homing_current
  simp only []
  split_ifs <;> try simp only [logIf_sensing]
  · simp only [Machine.sensing, h1, h2, h3, h4, h5, h6, h7, h8, h9, h10]
  · simp only [Machine.sensing, h1, h2, h3, h4, h5, h6, h7, h8, h9, h10]
  · exact h

theorem sensorless_release_sensing_congr (cfg : Config) (st : sensorless_t) (a b : Machine)
    (h : a.sensing = b.sensing) :
    (sensorless_release cfg st a).sensing = (sensorless_release cfg st b).sensing := by
  obtain ⟨h1, h2, h3, h4, h5, h6, h7, h8, h9, h10⟩ := sensing_fields a b h
  unfold sensorless_release
  apply set_homing_current_sensing_congr
  simp only [h8, h10]
  split_ifs <;> simp only [Machine.sensing, h1, h2, h3, h4, h5, h6, h7, h8, h9, h10]

theorem do_blocking_move_to_z_sensing (z fr : ℚ) (s : Machine) :
    (do_blocking_move_to_z z fr s).sensing = s.sensing := rfl

theorem hit_on_purpose_sensing (s : Machine) : (hit_on_purpose s).sensing = s.sensing := rfl

theorem set_current_from_steppers_sensing (s : Machine) :
    (set_current_from_steppers_for_axis_Z s).sensing = s.sensing := rfl

theorem sensorless_arm_sensing_congr (cfg : Config) (a b : Machine)
    (h : a.sensing = b.sensing) :
    (sensorless_arm cfg a).1 = (sensorless_arm cfg b).1
      ∧ (sensorless_arm cfg a).2.sensing = (sensorless_arm cfg b).2.sensing := by
  obtain ⟨h1, h2, h3, h4, h5, h6, h7, h8, h9, h10⟩ := sensing_fields a b h
  unfold sensorless_arm
  refine ⟨by simp only [h1, h2, h3, h8], ?_⟩
  apply set_homing_current_sensing_congr
  simp only [Machine.sensing, h1, h2, h3, h4, h5, h6, h7, h8, h9, h10]

/-- Under `SENSORLESS_PROBING` alone, the stall sensing after a descent that
got past the deploy is that of the release block run right after the arming
block. -/
theorem probe_down_to_z_sensorless_sensing (cfg : Config) (env : Env) (z fr : ℚ) (s : Machine)
    (hS : cfg.SENSORLESS_PROBING = true) (hA : cfg.USE_Z_SENSORLESS_AS_PROBE = false)
    (hB : (cfg.BLTOUCH_SLOW_MODE && (env.descent s.descents).bltouch_deploy_fail) = false) :
    (probe_down_to_z cfg env z fr s).2.sensing
      = (sensorless_release cfg (sensorless_arm cfg s).1 (sensorless_arm cfg s).2).sensing := by
  have e : (descent_entry cfg { s with descents := s.descents + 1 }).sensing = s.sensing := by
    rw [descent_entry_sensing]
    rfl
  obtain ⟨a1, a2⟩ := sensorless_arm_sensing_congr cfg _ _ e
  unfold probe_down_to_z descent_arm descent_release
  simp only [hB, hS, hA, Bool.false_eq_true, if_false, if_true]
  have key : ∀ t : Machine,
      t.sensing = (sensorless_arm cfg (descent_entry cfg { s with descents := s.descents + 1 })).2.sensing →
      (sensorless_release cfg (sensorless_arm cfg s).1 t).sensing
        = (sensorless_release cfg (sensorless_arm cfg s).1 (sensorless_arm cfg s).2).sensing :=
    fun t ht => sensorless_release_sensing_congr cfg _ _ _ (ht.trans a2)
  rw [a1]
  split_ifs <;>
    simp only [logIf_sensing, hit_on_purpose_sensing, set_current_from_steppers_sensing] <;>
    apply key <;>
    simp only [logIf_sensing, set_probing_paused_sensing] <;>
    exact quiet_probing_enter_sensing cfg _
theorem homing_current_on_flags (enabled : Bool) (home : ℤ) (d : Driver) (saved : ℤ) :
    (homing_current_on enabled home d saved).1.diag1_stall = d.diag1_stall
      ∧ (homing_current_on enabled home d saved).1.stealthChop = d.stealthChop := by
  unfold homing_current_on
  cases enabled <;> exact ⟨rfl, rfl⟩

theorem homing_current_off_flags (enabled : Bool) (d : Driver) (saved : ℤ) :
    (homing_current_off enabled d saved).diag1_stall = d.diag1_stall
      ∧ (homing_current_off enabled d saved).stealthChop = d.stealthChop := by
  unfold homing_current_off
  cases enabled <;> exact ⟨rfl, rfl⟩

/-- One driver through the whole of arming and release: stall reporting
switched on (`arm`), homing current set, stall reporting switched off
(`disarm`), current restored. -/
theorem driver_round_trip (enabled armed : Bool) (home : ℤ) (d : Driver) (saved : ℤ)
    (st : Bool) (arm : Driver → Driver) (h : d.val_mA < 65536)
    (harm : (arm d).val_mA = d.val_mA) :
    (homing_current_off enabled
        (if armed then
          tmc_disable_stallguard
            (homing_current_on enabled home (if armed then arm d else d) saved).1 st
        else (homing_current_on enabled home (if armed then arm d else d) saved).1)
        (homing_current_on enabled home (if armed then arm d else d) saved).2).val_mA = d.val_mA
      ∧ (homing_current_off enabled
        (if armed then
          tmc_disable_stallguard
            (homing_current_on enabled home (if armed then arm d else d) saved).1 st
        else (homing_current_on enabled home (if armed then arm d else d) saved).1)
        (homing_current_on enabled home (if armed then arm d else d) saved).2).diag1_stall
          = (if armed then false else d.diag1_stall) := by
  cases enabled <;> cases armed <;>
    simp [homing_current_off, homing_current_on, tmc_disable_stallguard, Driver.rms_current,
      Driver.getMilliamps, harm, toUInt16_toInt16 _ h]

theorem has_current_home_group (a b c : Bool) (d : Bool) (h : ¬ (a || b || c) = true) :
    (d && a) = false ∧ (d && b) = false ∧ c = false := by
  cases a <;> cases b <;> cases c <;> cases d <;> simp at h ⊢

/-- The drivers and saved currents after `set_homing_current(true)`. -/
theorem set_homing_current_on_fields (cfg : Config) (s : Machine) :
    (set_homing_current cfg true s).stepperX
        = (homing_current_on (cfg.DELTA && HAS_CURRENT_HOME cfg.X_CURRENT_HOME cfg.X_CURRENT)
            (cfg.X_CURRENT_HOME.getD 0) s.stepperX s.saved_current_X).1
      ∧ (set_homing_current cfg true s).saved_current_X
        = (homing_current_on (cfg.DELTA && HAS_CURRENT_HOME cfg.X_CURRENT_HOME cfg.X_CURRENT)
            (cfg.X_CURRENT_HOME.getD 0) s.stepperX s.saved_current_X).2
      ∧ (set_homing_current cfg true s).stepperY
        = (homing_current_on (cfg.DELTA && HAS_CURRENT_HOME cfg.Y_CURRENT_HOME cfg.Y_CURRENT)
            (cfg.Y_CURRENT_HOME.getD 0) s.stepperY s.saved_current_Y).1
      ∧ (set_homing_current cfg true s).saved_current_Y
        = (homing_current_on (cfg.DELTA && HAS_CURRENT_HOME cfg.Y_CURRENT_HOME cfg.Y_CURRENT)
            (cfg.Y_CURRENT_HOME.getD 0) s.stepperY s.saved_current_Y).2
      ∧ (set_homing_current cfg true s).stepperZ
        = (homing_current_on (HAS_CURRENT_HOME cfg.Z_CURRENT_HOME cfg.Z_CURRENT)
            (cfg.Z_CURRENT_HOME.getD 0) s.stepperZ s.saved_current_Z).1
      ∧ (set_homing_current cfg true s).saved_current_Z
        = (homing_current_on (HAS_CURRENT_HOME cfg.Z_CURRENT_HOME cfg.Z_CURRENT)
            (cfg.Z_CURRENT_HOME.getD 0) s.stepperZ s.saved_current_Z).2
      ∧ (set_homing_current cfg true s).stepperZ2 = s.stepperZ2
      ∧ (set_homing_current cfg true s).test_sensitivity = s.test_sensitivity
      ∧ (set_homing_current cfg true s).endstops_enabled = s.endstops_enabled
      ∧ (set_homing_current cfg true s).endstops_enabled_globally
          = s.endstops_enabled_globally := by
  unfold set_homing_current
  by_cases hg : (HAS_CURRENT_HOME cfg.X_CURRENT_HOME cfg.X_CURRENT
      || HAS_CURRENT_HOME cfg.Y_CURRENT_HOME cfg.Y_CURRENT
      || HAS_CURRENT_HOME cfg.Z_CURRENT_HOME cfg.Z_CURRENT) = true
  · simp only [hg, if_true]
    unfold Machine.logIf
    split_ifs <;> exact ⟨rfl, rfl, rfl, rfl, rfl, rfl, rfl, rfl, rfl, rfl⟩
  · obtain ⟨a, b, c⟩ := has_current_home_group _ _ _ cfg.DELTA hg
    rw [if_neg hg, a, b, c]
    exact ⟨rfl, rfl, rfl, rfl, rfl, rfl, rfl, rfl, rfl, rfl⟩

/-- The drivers after `set_homing_current(false)`. -/
theorem set_homing_current_off_fields (cfg : Config) (s : Machine) :
    (set_homing_current cfg false s).stepperX
        = homing_current_off (cfg.DELTA && HAS_CURRENT_HOME cfg.X_CURRENT_HOME cfg.X_CURRENT)
            s.stepperX s.saved_current_X
      ∧ (set_homing_current cfg false s).stepperY
        = homing_current_off (cfg.DELTA && HAS_CURRENT_HOME cfg.Y_CURRENT_HOME cfg.Y_CURRENT)
            s.stepperY s.saved_current_Y
      ∧ (set_homing_current cfg false s).stepperZ
        = homing_current_off (HAS_CURRENT_HOME cfg.Z_CURRENT_HOME cfg.Z_CURRENT)
            s.stepperZ s.saved_current_Z
      ∧ (set_homing_current cfg false s).stepperZ2 = s.stepperZ2
      ∧ (set_homing_current cfg false s).endstops_enabled = s.endstops_enabled := by
  unfold set_homing_current
  by_cases hg : (HAS_CURRENT_HOME cfg.X_CURRENT_HOME cfg.X_CURRENT
      || HAS_CURRENT_HOME cfg.Y_CURRENT_HOME cfg.Y_CURRENT
      || HAS_CURRENT_HOME cfg.Z_CURRENT_HOME cfg.Z_CURRENT) = true
  · simp only [hg, if_true, Bool.false_eq_true, if_false]
    unfold Machine.logIf
    split_ifs <;> exact ⟨rfl, rfl, rfl, rfl, rfl⟩
  · obtain ⟨a, b, c⟩ := has_current_home_group _ _ _ cfg.DELTA hg
    rw [if_neg hg, a, b, c]
    exact ⟨rfl, rfl, rfl, rfl, rfl⟩

/-- The drivers and the endstop arming after the release block of
`SENSORLESS_PROBING`. -/
theorem sensorless_release_fields (cfg : Config) (st : sensorless_t) (t : Machine) :
    (sensorless_release cfg st t).stepperX
        = homing_current_off (cfg.DELTA && HAS_CURRENT_HOME cfg.X_CURRENT_HOME cfg.X_CURRENT)
            (if cfg.DELTA && t.test_sensitivity.x then tmc_disable_stallguard t.stepperX st.x
              else t.stepperX) t.saved_current_X
      ∧ (sensorless_release cfg st t).stepperY
        = homing_current_off (cfg.DELTA && HAS_CURRENT_HOME cfg.Y_CURRENT_HOME cfg.Y_CURRENT)
            (if cfg.DELTA && t.test_sensitivity.y then tmc_disable_stallguard t.stepperY st.y
              else t.stepperY) t.saved_current_Y
      ∧ (sensorless_release cfg st t).stepperZ
        = homing_current_off (HAS_CURRENT_HOME cfg.Z_CURRENT_HOME cfg.Z_CURRENT)
            (if t.test_sensitivity.z then tmc_disable_stallguard t.stepperZ st.z
              else t.stepperZ) t.saved_current_Z
      ∧ (sensorless_release cfg st t).stepperZ2 = t.stepperZ2
      ∧ (sensorless_release cfg st t).endstops_enabled = t.endstops_enabled_globally := by
  unfold sensorless_release
  simp only []
  refine ⟨(set_homing_current_off_fields cfg _).1.trans ?_,
    (set_homing_current_off_fields cfg _).2.1.trans ?_,
    (set_homing_current_off_fields cfg _).2.2.1.trans ?_,
    (set_homing_current_off_fields cfg _).2.2.2.1.trans ?_,
    (set_homing_current_off_fields cfg _).2.2.2.2.trans ?_⟩ <;>
  split_ifs <;> rfl

/-- The saved stealthChop states and the machine after the arming block of
`SENSORLESS_PROBING`. -/
theorem sensorless_arm_fields (cfg : Config) (s : Machine) :
    (sensorless_arm cfg s).2.stepperX
        = (homing_current_on (cfg.DELTA && HAS_CURRENT_HOME cfg.X_CURRENT_HOME cfg.X_CURRENT)
            (cfg.X_CURRENT_HOME.getD 0)
            (if cfg.DELTA && s.test_sensitivity.x then (tmc_enable_stallguard s.stepperX).2
              else s.stepperX) s.saved_current_X).1
      ∧ (sensorless_arm cfg s).2.saved_current_X
        = (homing_current_on (cfg.DELTA && HAS_CURRENT_HOME cfg.X_CURRENT_HOME cfg.X_CURRENT)
            (cfg.X_CURRENT_HOME.getD 0)
            (if cfg.DELTA && s.test_sensitivity.x then (tmc_enable_stallguard s.stepperX).2
              else s.stepperX) s.saved_current_X).2
      ∧ (sensorless_arm cfg s).2.stepperY
        = (homing_current_on (cfg.DELTA && HAS_CURRENT_HOME cfg.Y_CURRENT_HOME cfg.Y_CURRENT)
            (cfg.Y_CURRENT_HOME.getD 0)
            (if cfg.DELTA && s.test_sensitivity.y then (tmc_enable_stallguard s.stepperY).2
              else s.stepperY) s.saved_current_Y).1
      ∧ (sensorless_arm cfg s).2.saved_current_Y
        = (homing_current_on (cfg.DELTA && HAS_CURRENT_HOME cfg.Y_CURRENT_HOME cfg.Y_CURRENT)
            (cfg.Y_CURRENT_HOME.getD 0)
            (if cfg.DELTA && s.test_sensitivity.y then (tmc_enable_stallguard s.stepperY).2
              else s.stepperY) s.saved_current_Y).2
      ∧ (sensorless_arm cfg s).2.stepperZ
        = (homing_current_on (HAS_CURRENT_HOME cfg.Z_CURRENT_HOME cfg.Z_CURRENT)
            (cfg.Z_CURRENT_HOME.getD 0)
            (if s.test_sensitivity.z then
              (if cfg.USE_Z_SENSORLESS then anker_tmc_enable_stallguard s.stepperZ
                else (tmc_enable_stallguard s.stepperZ).2)
              else s.stepperZ) s.saved_current_Z).1
      ∧ (sensorless_arm cfg s).2.saved_current_Z
        = (homing_current_on (HAS_CURRENT_HOME cfg.Z_CURRENT_HOME cfg.Z_CURRENT)
            (cfg.Z_CURRENT_HOME.getD 0)
            (if s.test_sensitivity.z then
              (if cfg.USE_Z_SENSORLESS then anker_tmc_enable_stallguard s.stepperZ
                else (tmc_enable_stallguard s.stepperZ).2)
              else s.stepperZ) s.saved_current_Z).2
      ∧ (sensorless_arm cfg s).2.stepperZ2 = s.stepperZ2
      ∧ (sensorless_arm cfg s).2.test_sensitivity = s.test_sensitivity
      ∧ (sensorless_arm cfg s).2.endstops_enabled = true
      ∧ (sensorless_arm cfg s).2.endstops_enabled_globally = s.endstops_enabled_globally := by
  unfold sensorless_arm
  exact set_homing_current_on_fields cfg _

/-- The release block run right after the arming block of `SENSORLESS_PROBING`:
every current is back, stall reporting is off on every driver that was armed,
and the endstops are back on their global setting. -/
theorem sensorless_release_arm (cfg : Config) (s : Machine)
    (hx : s.stepperX.val_mA < 65536) (hy : s.stepperY.val_mA < 65536)
    (hz : s.stepperZ.val_mA < 65536) :
    (sensorless_release cfg (sensorless_arm cfg s).1 (sensorless_arm cfg s).2).sensing.stepperX.val_mA
        = s.stepperX.val_mA
      ∧ (sensorless_release cfg (sensorless_arm cfg s).1
          (sensorless_arm cfg s).2).sensing.stepperY.val_mA = s.stepperY.val_mA
      ∧ (sensorless_release cfg (sensorless_arm cfg s).1
          (sensorless_arm cfg s).2).sensing.stepperZ.val_mA = s.stepperZ.val_mA
      ∧ (sensorless_release cfg (sensorless_arm cfg s).1
          (sensorless_arm cfg s).2).sensing.stepperX.diag1_stall
          = (if cfg.DELTA && s.test_sensitivity.x then false else s.stepperX.diag1_stall)
      ∧ (sensorless_release cfg (sensorless_arm cfg s).1
          (sensorless_arm cfg s).2).sensing.stepperY.diag1_stall
          = (if cfg.DELTA && s.test_sensitivity.y then false else s.stepperY.diag1_stall)
      ∧ (sensorless_release cfg (sensorless_arm cfg s).1
          (sensorless_arm cfg s).2).sensing.stepperZ.diag1_stall
          = (if s.test_sensitivity.z then false else s.stepperZ.diag1_stall)
      ∧ (sensorless_release cfg (sensorless_arm cfg s).1
          (sensorless_arm cfg s).2).sensing.stepperZ2 = s.stepperZ2
      ∧ (sensorless_release cfg (sensorless_arm cfg s).1
          (sensorless_arm cfg s).2).sensing.endstops_enabled = s.endstops_enabled_globally := by
  obtain ⟨a1, a2, a3, a4, a5, a6, a7, a8, _, a10⟩ := sensorless_arm_fields cfg s
  obtain ⟨r1, r2, r3, r4, r5⟩ :=
    sensorless_release_fields cfg (sensorless_arm cfg s).1 (sensorless_arm cfg s).2
  have hxa : (tmc_enable_stallguard s.stepperX).2.val_mA = s.stepperX.val_mA := rfl
  have hya : (tmc_enable_stallguard s.stepperY).2.val_mA = s.stepperY.val_mA := rfl
  have hza : (if cfg.USE_Z_SENSORLESS then anker_tmc_enable_stallguard s.stepperZ
      else (tmc_enable_stallguard s.stepperZ).2).val_mA = s.stepperZ.val_mA := by
    split_ifs <;> rfl
  have dx := driver_round_trip
    (cfg.DELTA && HAS_CURRENT_HOME cfg.X_CURRENT_HOME cfg.X_CURRENT)
    (cfg.DELTA && s.test_sensitivity.x) (cfg.X_CURRENT_HOME.getD 0) s.stepperX
    s.saved_current_X (sensorless_arm cfg s).1.x (fun d => (tmc_enable_stallguard d).2) hx hxa
  have dy := driver_round_trip
    (cfg.DELTA && HAS_CURRENT_HOME cfg.Y_CURRENT_HOME cfg.Y_CURRENT)
    (cfg.DELTA && s.test_sensitivity.y) (cfg.Y_CURRENT_HOME.getD 0) s.stepperY
    s.saved_current_Y (sensorless_arm cfg s).1.y (fun d => (tmc_enable_stallguard d).2) hy hya
  have dz := driver_round_trip
    (HAS_CURRENT_HOME cfg.Z_CURRENT_HOME cfg.Z_CURRENT)
    s.test_sensitivity.z (cfg.Z_CURRENT_HOME.getD 0) s.stepperZ
    s.saved_current_Z (sensorless_arm cfg s).1.z
    (fun d => if cfg.USE_Z_SENSORLESS then anker_tmc_enable_stallguard d
      else (tmc_enable_stallguard d).2) hz hza
  show (sensorless_release cfg (sensorless_arm cfg s).1 (sensorless_arm cfg s).2).stepperX.val_mA
        = s.stepperX.val_mA
      ∧ (sensorless_release cfg (sensorless_arm cfg s).1
          (sensorless_arm cfg s).2).stepperY.val_mA = s.stepperY.val_mA
      ∧ (sensorless_release cfg (sensorless_arm cfg s).1
          (sensorless_arm cfg s).2).stepperZ.val_mA = s.stepperZ.val_mA
      ∧ (sensorless_release cfg (sensorless_arm cfg s).1
          (sensorless_arm cfg s).2).stepperX.diag1_stall
          = (if cfg.DELTA && s.test_sensitivity.x then false else s.stepperX.diag1_stall)
      ∧ (sensorless_release cfg (sensorless_arm cfg s).1
          (sensorless_arm cfg s).2).stepperY.diag1_stall
          = (if cfg.DELTA && s.test_sensitivity.y then false else s.stepperY.diag1_stall)
      ∧ (sensorless_release cfg (sensorless_arm cfg s).1
          (sensorless_arm cfg s).2).stepperZ.diag1_stall
          = (if s.test_sensitivity.z then false else s.stepperZ.diag1_stall)
      ∧ (sensorless_release cfg (sensorless_arm cfg s).1
          (sensorless_arm cfg s).2).stepperZ2 = s.stepperZ2
      ∧ (sensorless_release cfg (sensorless_arm cfg s).1
          (sensorless_arm cfg s).2).endstops_enabled = s.endstops_enabled_globally
  rw [r1, r2, r3, r4, r5, a1, a2, a3, a4, a5, a6, a7, a8, a10]
  exact ⟨dx.1, dy.1, dz.1, dx.2, dy.2, dz.2, rfl, rfl⟩
/-- The sibling of the `USE_Z_SENSORLESS_AS_PROBE` block: under
`SENSORLESS_PROBING` alone, a descent that got past the deploy leaves every
driver current as it found it, stall reporting off on every driver it armed,
the Z2 driver untouched and the endstops on their global setting, whether or
not the probe triggered. -/
theorem probe_down_to_z_sensorless_releases (cfg : Config) (env : Env) (z fr : ℚ) (s : Machine)
    (hS : cfg.SENSORLESS_PROBING = true) (hA : cfg.USE_Z_SENSORLESS_AS_PROBE = false)
    (hB : (cfg.BLTOUCH_SLOW_MODE && (env.descent s.descents).bltouch_deploy_fail) = false)
    (hx : s.stepperX.val_mA < 65536) (hy : s.stepperY.val_mA < 65536)
    (hz : s.stepperZ.val_mA < 65536) :
    (probe_down_to_z cfg env z fr s).2.stepperX.val_mA = s.stepperX.val_mA
      ∧ (probe_down_to_z cfg env z fr s).2.stepperY.val_mA = s.stepperY.val_mA
      ∧ (probe_down_to_z cfg env z fr s).2.stepperZ.val_mA = s.stepperZ.val_mA
      ∧ (probe_down_to_z cfg env z fr s).2.stepperX.diag1_stall
          = (if cfg.DELTA && s.test_sensitivity.x then false else s.stepperX.diag1_stall)
      ∧ (probe_down_to_z cfg env z fr s).2.stepperY.diag1_stall
          = (if cfg.DELTA && s.test_sensitivity.y then false else s.stepperY.diag1_stall)
      ∧ (probe_down_to_z cfg env z fr s).2.stepperZ.diag1_stall
          = (if s.test_sensitivity.z then false else s.stepperZ.diag1_stall)
      ∧ (probe_down_to_z cfg env z fr s).2.stepperZ2 = s.stepperZ2
      ∧ (probe_down_to_z cfg env z fr s).2.endstops_enabled = s.endstops_enabled_globally := by
  have e := probe_down_to_z_sensorless_sensing cfg env z fr s hS hA hB
  have r := sensorless_release_arm cfg s hx hy hz
  rw [← e] at r
  exact r

/-- Worked example of the sibling block: on the sample machine with
`SENSORLESS_PROBING` and Z sensitivity set, and stall reporting already on
when the descent starts, the Z driver ends with stall reporting off and at
800 mA. -/
theorem probe_down_to_z_sensorless_releases_sample :
    (probe_down_to_z { sampleConfig with SENSORLESS_PROBING := true }
        (sampleEnv [] 0) 0 2
        { sampleMachine with
          test_sensitivity := ⟨false, false, true⟩,
          stepperZ := { sampleMachine.stepperZ with diag1_stall := true } }).2.stepperZ.diag1_stall
        = false
      ∧ (probe_down_to_z { sampleConfig with SENSORLESS_PROBING := true }
        (sampleEnv [] 0) 0 2
        { sampleMachine with
          test_sensitivity := ⟨false, false, true⟩,
          stepperZ := { sampleMachine.stepperZ with diag1_stall := true } }).2.stepperZ.val_mA
        = 800 := by
  have h := probe_down_to_z_sensorless_releases { sampleConfig with SENSORLESS_PROBING := true }
    (sampleEnv [] 0) 0 2
    { sampleMachine with
      test_sensitivity := ⟨false, false, true⟩,
      stepperZ := { sampleMachine.stepperZ with diag1_stall := true } }
    rfl rfl rfl (by decide) (by decide) (by decide)
  exact ⟨h.2.2.2.2.2.1, h.2.2.1⟩

/-! ## Quiet probing and the trusted axes -/

theorem log_trust (s : Machine) (e : Event) : (s.log e).trust = s.trust := rfl

theorem set_homing_current_off_saved (cfg : Config) (s : Machine) :
    (set_homing_current cfg false s).saved_current_X = s.saved_current_X
      ∧ (set_homing_current cfg false s).saved_current_Y = s.saved_current_Y
      ∧ (set_homing_current cfg false s).saved_current_Z = s.saved_current_Z
      ∧ (set_homing_current cfg false s).test_sensitivity = s.test_sensitivity
      ∧ (set_homing_current cfg false s).endstops_enabled_globally
          = s.endstops_enabled_globally := by
  unfold set_homing_current
  simp only [Bool.false_eq_true, if_false]
  unfold Machine.logIf
  split_ifs <;> exact ⟨rfl, rfl, rfl, rfl, rfl⟩

theorem has_current_home_some (h n : ℕ) (hne : h ≠ n) : HAS_CURRENT_HOME (some h) n = true := by
  simp [HAS_CURRENT_HOME, hne]

theorem toUInt16_of_lt (h : ℕ) (h16 : h < 65536) : toUInt16 (h : ℤ) = h := by
  unfold toUInt16
  omega

/-- One driver with a distinct homing current `h` through enable, enable,
disable, disable: the second enable overwrites the saved current with `h`, and
both disables set `h`. -/
theorem homing_current_nested (h : ℕ) (h16 : h < 65536) (d : Driver) (saved : ℤ) :
    (homing_current_on true h (homing_current_on true h d saved).1
        (homing_current_on true h d saved).2).2 = toInt16 h
      ∧ (homing_current_off true
          (homing_current_on true h (homing_current_on true h d saved).1
            (homing_current_on true h d saved).2).1 (toInt16 h)).val_mA = h
      ∧ ∀ e : Driver, (homing_current_off true e (toInt16 h)).val_mA = h := by
  have u := toUInt16_toInt16 h h16
  have v := toUInt16_of_lt h h16
  refine ⟨?_, ?_, ?_⟩
  · simp [homing_current_on, Driver.rms_current, Driver.getMilliamps, v]
  · simp [homing_current_off, homing_current_on, Driver.rms_current, u]
  · intro e
    simp [homing_current_off, Driver.rms_current, u]

theorem set_homing_current_nested_value (cfg : Config) (s : Machine) (h : ℕ)
    (hH : cfg.Z_CURRENT_HOME = some h) (hne : h ≠ cfg.Z_CURRENT) (h16 : h < 65536) :
    (set_homing_current cfg false (set_homing_current cfg false
      (set_homing_current cfg true (set_homing_current cfg true s)))).stepperZ.val_mA = h := by
  have hz : HAS_CURRENT_HOME cfg.Z_CURRENT_HOME cfg.Z_CURRENT = true := by
    rw [hH]; exact has_current_home_some h _ hne
  have hg : (cfg.Z_CURRENT_HOME.getD 0 : ℕ) = h := by rw [hH]; rfl
  obtain ⟨n1, n2, n3⟩ := homing_current_nested h h16 s.stepperZ s.saved_current_Z
  have a := set_homing_current_on_fields cfg s
  have b := set_homing_current_on_fields cfg (set_homing_current cfg true s)
  have c := set_homing_current_off_fields cfg
    (set_homing_current cfg true (set_homing_current cfg true s))
  have c2 := set_homing_current_off_saved cfg
    (set_homing_current cfg true (set_homing_current cfg true s))
  have d := set_homing_current_off_fields cfg (set_homing_current cfg false
    (set_homing_current cfg true (set_homing_current cfg true s)))
  rw [d.2.2.1, c2.2.2.1, b.2.2.2.2.2.1, a.2.2.2.2.1, a.2.2.2.2.2.1, hz, hg, n1]
  exact n3 _

theorem sensorless_as_probe_arm_sensing_congr (cfg : Config) (a b : Machine)
    (h : a.sensing = b.sensing) :
    (sensorless_as_probe_arm cfg a).sensing = (sensorless_as_probe_arm cfg b).sensing := by
  obtain ⟨h1, h2, h3, h4, h5, h6, h7, h8, h9, h10⟩ := sensing_fields a b h
  unfold sensorless_as_probe_arm
  apply set_homing_current_sensing_congr
  split_ifs <;>
    simp only [Machine.sensing, Machine.log, h1, h2, h3, h4, h5, h6, h7, h8, h9, h10]

theorem sensorless_as_probe_release_sensing_congr (cfg : Config) (a b : Machine)
    (h : a.sensing = b.sensing) :
    (sensorless_as_probe_release cfg a).sensing = (sensorless_as_probe_release cfg b).sensing := by
  obtain ⟨h1, h2, h3, h4, h5, h6, h7, h8, h9, h10⟩ := sensing_fields a b h
  unfold sensorless_as_probe_release
  apply set_homing_current_sensing_congr
  simp only [Machine.sensing, h1, h2, h3, h4, h5, h6, h7, h8, h9, h10]

/-- Under `SENSORLESS_PROBING` together with `USE_Z_SENSORLESS_AS_PROBE`, the
stall sensing after a descent that got past the deploy is that of the two
arming blocks followed by the two release blocks. -/
theorem probe_down_to_z_both_sensing (cfg : Config) (env : Env) (z fr : ℚ) (s : Machine)
    (hS : cfg.SENSORLESS_PROBING = true) (hA : cfg.USE_Z_SENSORLESS_AS_PROBE = true)
    (hB : (cfg.BLTOUCH_SLOW_MODE && (env.descent s.descents).bltouch_deploy_fail) = false) :
    (probe_down_to_z cfg env z fr s).2.sensing
      = (sensorless_as_probe_release cfg
          (sensorless_release cfg (sensorless_arm cfg s).1
            (sensorless_as_probe_arm cfg (sensorless_arm cfg s).2))).sensing := by
  have e : (descent_entry cfg { s with descents := s.descents + 1 }).sensing = s.sensing := by
    rw [descent_entry_sensing]
    rfl
  obtain ⟨a1, a2⟩ := sensorless_arm_sensing_congr cfg _ _ e
  have a3 := sensorless_as_probe_arm_sensing_congr cfg _ _ a2
  unfold probe_down_to_z descent_arm descent_release
  simp only [hB, hS, hA, Bool.false_eq_true, if_false, if_true]
  have key : ∀ t : Machine,
      t.sensing = (sensorless_as_probe_arm cfg
        (sensorless_arm cfg (descent_entry cfg { s with descents := s.descents + 1 })).2).sensing →
      (sensorless_as_probe_release cfg
          (sensorless_release cfg (sensorless_arm cfg s).1 t)).sensing
        = (sensorless_as_probe_release cfg
            (sensorless_release cfg (sensorless_arm cfg s).1
              (sensorless_as_probe_arm cfg (sensorless_arm cfg s).2))).sensing :=
    fun t ht => sensorless_as_probe_release_sensing_congr cfg _ _
      (sensorless_release_sensing_congr cfg _ _ _ (ht.trans a3))
  rw [a1]
  split_ifs <;>
    simp only [logIf_sensing, hit_on_purpose_sensing, set_current_from_steppers_sensing] <;>
    apply key <;>
    simp only [logIf_sensing, set_probing_paused_sensing] <;>
    exact quiet_probing_enter_sensing cfg _

theorem sensorless_as_probe_release_stepperZ (cfg : Config) (s : Machine) :
    (sensorless_as_probe_release cfg s).stepperZ
      = homing_current_off (HAS_CURRENT_HOME cfg.Z_CURRENT_HOME cfg.Z_CURRENT)
          s.stepperZ s.saved_current_Z := by
  unfold sensorless_as_probe_release
  exact (set_homing_current_off_fields cfg _).2.2.1

theorem sensorless_release_saved_Z (cfg : Config) (st : sensorless_t) (s : Machine) :
    (sensorless_release cfg st s).saved_current_Z = s.saved_current_Z := by
  unfold sensorless_release
  simp only []
  refine (set_homing_current_off_saved cfg _).2.2.1.trans ?_
  split_ifs <;> rfl

theorem sensorless_as_probe_arm_saved_Z (cfg : Config) (s : Machine) :
    (sensorless_as_probe_arm cfg s).saved_current_Z
      = (homing_current_on (HAS_CURRENT_HOME cfg.Z_CURRENT_HOME cfg.Z_CURRENT)
          (cfg.Z_CURRENT_HOME.getD 0)
          (if cfg.USE_Z_SENSORLESS then anker_tmc_enable_stallguard s.stepperZ else s.stepperZ)
          s.saved_current_Z).2 := by
  unfold sensorless_as_probe_arm
  simp only []
  refine (set_homing_current_on_fields cfg _).2.2.2.2.2.1.trans ?_
  split_ifs <;> rfl

/-- The Z current after a descent with both `SENSORLESS_PROBING` and
`USE_Z_SENSORLESS_AS_PROBE` on a machine whose Z axis has a distinct homing
current: the second `set_homing_current(true)` has overwritten the saved
current, and the descent returns with the Z driver at the homing current. -/
theorem probe_down_to_z_nested_current (cfg : Config) (env : Env) (z fr : ℚ) (s : Machine)
    (h : ℕ) (hH : cfg.Z_CURRENT_HOME = some h) (hne : h ≠ cfg.Z_CURRENT) (h16 : h < 65536)
    (hS : cfg.SENSORLESS_PROBING = true) (hA : cfg.USE_Z_SENSORLESS_AS_PROBE = true)
    (hB : (cfg.BLTOUCH_SLOW_MODE && (env.descent s.descents).bltouch_deploy_fail) = false) :
    (probe_down_to_z cfg env z fr s).2.stepperZ.val_mA = h := by
  have hz : HAS_CURRENT_HOME cfg.Z_CURRENT_HOME cfg.Z_CURRENT = true := by
    rw [hH]; exact has_current_home_some h _ hne
  have hg : (cfg.Z_CURRENT_HOME.getD 0 : ℕ) = h := by rw [hH]; rfl
  have u := toUInt16_toInt16 h h16
  have v := toUInt16_of_lt h h16
  have e := congrArg Sensing.stepperZ (probe_down_to_z_both_sensing cfg env z fr s hS hA hB)
  change (probe_down_to_z cfg env z fr s).2.stepperZ = (sensorless_as_probe_release cfg
    (sensorless_release cfg (sensorless_arm cfg s).1
      (sensorless_as_probe_arm cfg (sensorless_arm cfg s).2))).stepperZ at e
  have a5 := (sensorless_arm_fields cfg s).2.2.2.2.1
  rw [e, sensorless_as_probe_release_stepperZ, sensorless_release_saved_Z,
    sensorless_as_probe_arm_saved_Z, a5, hz, hg]
  have w : (if cfg.USE_Z_SENSORLESS then
      anker_tmc_enable_stallguard
        (homing_current_on true h
          (if s.test_sensitivity.z then
            (if cfg.USE_Z_SENSORLESS then anker_tmc_enable_stallguard s.stepperZ
              else (tmc_enable_stallguard s.stepperZ).2)
          else s.stepperZ) s.saved_current_Z).1
      else (homing_current_on true h
          (if s.test_sensitivity.z then
            (if cfg.USE_Z_SENSORLESS then anker_tmc_enable_stallguard s.stepperZ
              else (tmc_enable_stallguard s.stepperZ).2)
          else s.stepperZ) s.saved_current_Z).1).val_mA = h := by
    split_ifs <;>
      simp [homing_current_on, Driver.rms_current, anker_tmc_enable_stallguard, v]
  simp only [homing_current_on, homing_current_off, if_true, Driver.rms_current,
    Driver.getMilliamps]
  simp only [homing_current_on, if_true, Driver.rms_current] at w
  rw [w, u]

theorem set_homing_current_idle_Z (cfg : Config) (onoff : Bool) (s : Machine)
    (hz : HAS_CURRENT_HOME cfg.Z_CURRENT_HOME cfg.Z_CURRENT = false) :
    (set_homing_current cfg onoff s).stepperZ = s.stepperZ := by
  cases onoff
  · rw [(set_homing_current_off_fields cfg s).2.2.1, hz]
    rfl
  · rw [(set_homing_current_on_fields cfg s).2.2.2.2.1, hz]
    rfl

/-- C23 (amended).  `set_homing_current` keeps one saved current per axis.  On
a machine whose Z axis has a distinct homing current (`Z_CURRENT_HOME` defined
and different from `Z_CURRENT`, a value of `uint16_t`), for every initial Z
current the sequence enable, enable, disable, disable leaves the Z driver at
`Z_CURRENT_HOME`, which is the initial current only if that was
`Z_CURRENT_HOME`; `probe_down_to_z` with both `SENSORLESS_PROBING` and
`USE_Z_SENSORLESS_AS_PROBE` runs that sequence and returns with the Z driver
at `Z_CURRENT_HOME`.  Without a distinct Z homing current every call leaves
the Z driver as it is. -/
theorem set_homing_current_nested (cfg : Config) (s : Machine) :
    (∀ h : ℕ, cfg.Z_CURRENT_HOME = some h → h ≠ cfg.Z_CURRENT → h < 65536 →
        (set_homing_current cfg false (set_homing_current cfg false
          (set_homing_current cfg true (set_homing_current cfg true s)))).stepperZ.val_mA = h
        ∧ ((set_homing_current cfg false (set_homing_current cfg false
            (set_homing_current cfg true (set_homing_current cfg true s)))).stepperZ.val_mA
            = s.stepperZ.val_mA ↔ s.stepperZ.val_mA = h)
        ∧ ∀ (env : Env) (z fr : ℚ), cfg.SENSORLESS_PROBING = true →
            cfg.USE_Z_SENSORLESS_AS_PROBE = true →
            (cfg.BLTOUCH_SLOW_MODE && (env.descent s.descents).bltouch_deploy_fail) = false →
            (probe_down_to_z cfg env z fr s).2.stepperZ.val_mA = h)
      ∧ (HAS_CURRENT_HOME cfg.Z_CURRENT_HOME cfg.Z_CURRENT = false →
          (set_homing_current cfg false (set_homing_current cfg false
            (set_homing_current cfg true (set_homing_current cfg true s)))).stepperZ
            = s.stepperZ) := by
  constructor
  · intro h hH hne h16
    have e := set_homing_current_nested_value cfg s h hH hne h16
    refine ⟨e, ?_, ?_⟩
    · rw [e]
      exact eq_comm
    · intro env z fr hS hA hB
      exact probe_down_to_z_nested_current cfg env z fr s h hH hne h16 hS hA hB
  · intro hz
    rw [set_homing_current_idle_Z cfg false _ hz, set_homing_current_idle_Z cfg false _ hz,
      set_homing_current_idle_Z cfg true _ hz, set_homing_current_idle_Z cfg true _ hz]

/-- C23, worked example: on the sample machine (Z driver at 800 mA, homing
current 500 mA) enable, enable, disable, disable leaves the Z driver at
500 mA, and so does a descent with both stall-sensing blocks compiled in;
with `Z_CURRENT_HOME` defined as `Z_CURRENT` the four calls leave the Z driver
as it is. -/
theorem set_homing_current_nested_witness :
    sampleMachine.stepperZ.val_mA = 800
      ∧ (set_homing_current sampleConfig false (set_homing_current sampleConfig false
          (set_homing_current sampleConfig true
            (set_homing_current sampleConfig true sampleMachine)))).stepperZ.val_mA = 500
      ∧ (probe_down_to_z bothStallConfig (sampleEnv [1] 0) 0 4 sampleMachine).2.stepperZ.val_mA
          = 500
      ∧ (set_homing_current sameCurrentConfig false (set_homing_current sameCurrentConfig false
          (set_homing_current sameCurrentConfig true
            (set_homing_current sameCurrentConfig true sampleMachine)))).stepperZ
          = sampleMachine.stepperZ :=
  ⟨rfl,
    ((set_homing_current_nested sampleConfig sampleMachine).1 500 rfl (by decide)
      (by decide)).1,
    ((set_homing_current_nested bothStallConfig sampleMachine).1 500 rfl (by decide)
      (by decide)).2.2 (sampleEnv [1] 0) 0 4 rfl rfl rfl,
    (set_homing_current_nested sameCurrentConfig sampleMachine).2 (by decide)⟩

/-- C23 as stated fails where `Z_CURRENT_HOME` is defined as `Z_CURRENT`
(800 mA): the Z block of `set_homing_current` is not compiled in, and with the
Z driver at 900 mA the sequence enable, enable, disable, disable leaves it at
900 mA, not at `Z_CURRENT_HOME`. -/
theorem set_homing_current_nested_counterexample :
    sameCurrentConfig.Z_CURRENT_HOME = some 800
      ∧ sameCurrentConfig.Z_CURRENT = 800
      ∧ ({ sampleMachine with stepperZ := ⟨900, true, false⟩ } : Machine).stepperZ.val_mA = 900
      ∧ (set_homing_current sameCurrentConfig false (set_homing_current sameCurrentConfig false
          (set_homing_current sameCurrentConfig true
            (set_homing_current sameCurrentConfig true
              { sampleMachine with stepperZ := ⟨900, true, false⟩ })))).stepperZ.val_mA = 900 := by
  refine ⟨rfl, rfl, rfl, ?_⟩
  rw [set_homing_current_idle_Z sameCurrentConfig false _ (by decide),
    set_homing_current_idle_Z sameCurrentConfig false _ (by decide),
    set_homing_current_idle_Z sameCurrentConfig true _ (by decide),
    set_homing_current_idle_Z sameCurrentConfig true _ (by decide)]

/-! ## The static array `buff_insert` -/

@[simp] theorem logIf_buff_insert (s : Machine) (c : Bool) (e : Event) :
    (s.logIf c e).buff_insert = s.buff_insert :=
  congrArg Core.buff_insert (logIf_core s c e)

@[simp] theorem descent_entry_buff_insert (cfg : Config) (s : Machine) :
    (descent_entry cfg s).buff_insert = s.buff_insert :=
  congrArg Core.buff_insert (descent_entry_core cfg s)

@[simp] theorem descent_arm_buff_insert (cfg : Config) (s : Machine) :
    ((descent_arm cfg s).2).buff_insert = s.buff_insert :=
  congrArg Core.buff_insert (descent_arm_core cfg s)

@[simp] theorem descent_release_buff_insert (cfg : Config) (st : sensorless_t) (s : Machine) :
    (descent_release cfg st s).buff_insert = s.buff_insert :=
  congrArg Core.buff_insert (descent_release_core cfg st s)

@[simp] theorem probe_start_buff_insert (cfg : Config) (s : Machine) :
    (probe_start cfg s).buff_insert = s.buff_insert :=
  congrArg Core.buff_insert (probe_start_core cfg s)

@[simp] theorem probe_down_to_z_buff_insert (cfg : Config) (env : Env) (z fr : ℚ)
    (s : Machine) : (probe_down_to_z cfg env z fr s).2.buff_insert = s.buff_insert := by
  unfold probe_down_to_z
  simp only []
  split_ifs <;> simp [hit_on_purpose, set_current_from_steppers_for_axis_Z, do_blocking_move_to_z]

@[simp] theorem tare_buff_insert (s : Machine) : (tare s).2.buff_insert = s.buff_insert := rfl

@[simp] theorem try_to_probe_buff_insert (cfg : Config) (env : Env) (zl fr : ℚ) (sc : Bool)
    (cl : ℚ) (s : Machine) :
    (try_to_probe cfg env zl fr sc cl s).2.buff_insert = s.buff_insert := by
  unfold try_to_probe
  cases hT : cfg.PROBE_TARE <;> simp

@[simp] theorem do_blocking_move_to_z_buff_insert (z fr : ℚ) (s : Machine) :
    (do_blocking_move_to_z z fr s).buff_insert = s.buff_insert := rfl

@[simp] theorem do_blocking_move_to_xy_buff_insert (x y fr : ℚ) (s : Machine) :
    (do_blocking_move_to_xy x y fr s).buff_insert = s.buff_insert := rfl

@[simp] theorem set_buff_buff_insert (s : Machine) (i : ℕ) (v : ℚ) :
    (s.set_buff i v).buff_insert = s.buff_insert.set i v := rfl
/-! ## The function `insertion_sort` -/

theorem getElem?_concat_cons (pre post : List ℚ) (x hole : ℚ) :
    ((pre ++ [x]) ++ hole :: post)[pre.length]? = some x := by
  have e : (pre ++ [x]) ++ hole :: post = pre ++ x :: hole :: post := by simp
  rw [e, List.getElem?_append_right (le_refl _)]
  simp

theorem getD_concat_cons (pre post : List ℚ) (x hole : ℚ) :
    ((pre ++ [x]) ++ hole :: post).getD pre.length 0 = x := by
  rw [List.getD_eq_getElem?_getD, getElem?_concat_cons]
  rfl

theorem set_concat_cons (pre post : List ℚ) (x hole v : ℚ) :
    ((pre ++ [x]) ++ hole :: post).set (pre.length + 1) v = pre ++ x :: v :: post := by
  have e : (pre ++ [x]) ++ hole :: post = pre ++ x :: hole :: post := by simp
  rw [e, List.set_append_right _ _ (by omega)]
  simp

theorem set_hole (pre post : List ℚ) (hole v : ℚ) :
    (pre ++ hole :: post).set pre.length v = pre ++ v :: post := by
  rw [List.set_append_right _ _ (le_refl _)]
  simp

/-- The inner loop of `insertion_sort` followed by `arr[j + 1] = key`, on an
array `pre ++ hole :: post` entered with `j + 1 = pre.length`: the elements at
the end of `pre` that are greater than `key` move one place up and `key`
lands below them.  No access is out of bounds. -/
theorem insertion_sort_inner_spec (key : ℚ) :
    ∀ (n : ℕ) (pre post : List ℚ) (hole : ℚ), pre.length = n →
      ∃ pre1 pre2 : List ℚ, pre = pre1 ++ pre2 ∧ (∀ x ∈ pre2, key < x)
        ∧ (∀ y, pre1.getLast? = some y → ¬ key < y)
        ∧ (insertion_sort_inner key n (pre ++ hole :: post)).1.set
            (insertion_sort_inner key n (pre ++ hole :: post)).2 key
            = pre1 ++ key :: (pre2 ++ post)
        ∧ (insertion_sort_inner key n (pre ++ hole :: post)).2
            < (insertion_sort_inner key n (pre ++ hole :: post)).1.length
        ∧ insertion_sort_inner_checked key n (pre ++ hole :: post)
            = some (insertion_sort_inner key n (pre ++ hole :: post)) := by
  intro n
  induction n with
  | zero =>
    intro pre post hole hl
    have hp : pre = [] := List.length_eq_zero.mp hl
    subst hp
    refine ⟨[], [], rfl, by simp, by simp, ?_, ?_, ?_⟩
    · simp [insertion_sort_inner]
    · simp [insertion_sort_inner]
    · simp [insertion_sort_inner, insertion_sort_inner_checked]
  | succ n ih =>
    intro pre post hole hl
    rcases List.eq_nil_or_concat pre with hp | ⟨pre', x, hp⟩
    · subst hp; simp at hl
    · rw [List.concat_eq_append] at hp
      subst hp
      have hl' : pre'.length = n := by simpa using hl
      subst hl'
      by_cases hx : key < x
      · obtain ⟨pre1, pre2, e1, e2, e3, e4, e5, e6⟩ := ih pre' (x :: post) x rfl
        refine ⟨pre1, pre2 ++ [x], by rw [e1]; simp, ?_, e3, ?_, ?_, ?_⟩
        · intro y hy
          rcases List.mem_append.mp hy with h | h
          · exact e2 y h
          · simp at h; rw [h]; exact hx
        · rw [insertion_sort_inner]
          simp only [getD_concat_cons, gt_iff_lt, hx, if_true, set_concat_cons]
          rw [e4]
          simp
        · rw [insertion_sort_inner]
          simp only [getD_concat_cons, gt_iff_lt, hx, if_true, set_concat_cons]
          exact e5
        · rw [insertion_sort_inner, insertion_sort_inner_checked]
          simp only [getD_concat_cons, getElem?_concat_cons, gt_iff_lt, hx, if_true,
            set_concat_cons]
          have hlen : pre'.length + 1 < (pre' ++ [x] ++ hole :: post).length := by
            simp
          simp only [hlen, if_true]
          exact e6
      · refine ⟨pre' ++ [x], [], by simp, by simp, ?_, ?_, ?_, ?_⟩
        · intro y hy
          simp at hy
          rw [← hy]; exact hx
        · rw [insertion_sort_inner]
          simp only [getD_concat_cons, gt_iff_lt, hx, if_false]
          have := set_hole (pre' ++ [x]) post hole key
          simp only [List.length_append, List.length_singleton] at this
          rw [this]
          simp
        · rw [insertion_sort_inner]
          simp only [getD_concat_cons, gt_iff_lt, hx, if_false]
          simp
        · rw [insertion_sort_inner, insertion_sort_inner_checked]
          simp only [getD_concat_cons, getElem?_concat_cons, gt_iff_lt, hx, if_false]

theorem sorted_le_getLast (l : List ℚ) (hs : l.Sorted (· ≤ ·)) (y : ℚ)
    (hy : l.getLast? = some y) : ∀ x ∈ l, x ≤ y := by
  rcases List.eq_nil_or_concat l with hl | ⟨l', z, hl⟩
  · subst hl; simp
  · rw [List.concat_eq_append] at hl
    subst hl
    have hz : z = y := by simpa using hy
    subst hz
    intro x hx
    rcases List.mem_append.mp hx with h | h
    · have := (List.pairwise_append.mp hs).2.2 x h z (by simp)
      exact this
    · simp at h; rw [h]

theorem split_at (a : List ℚ) (i : ℕ) (hi : i < a.length) :
    a = a.take i ++ a.getD i 0 :: a.drop (i + 1) := by
  have h1 : a.drop i = a.getD i 0 :: a.drop (i + 1) := by
    rw [List.drop_eq_getElem_cons hi, List.getD_eq_getElem _ _ hi]
  calc a = a.take i ++ a.drop i := (List.take_append_drop i a).symm
    _ = a.take i ++ a.getD i 0 :: a.drop (i + 1) := by rw [h1]

/-- One round of the outer loop of `insertion_sort`, for `i = m + 1`: if the
first `i` elements are sorted, the first `i + 1` elements are sorted
afterwards and are the same elements as before; the rest of the array is not
touched, and no access is out of bounds. -/
theorem insertion_sort_round (a : List ℚ) (m : ℕ) (hm : m + 1 < a.length)
    (hs : (a.take (m + 1)).Sorted (· ≤ ·)) :
    ((insertion_sort_inner (a.getD (m + 1) 0) (m + 1) a).1.set
        (insertion_sort_inner (a.getD (m + 1) 0) (m + 1) a).2 (a.getD (m + 1) 0)).length
        = a.length
      ∧ (((insertion_sort_inner (a.getD (m + 1) 0) (m + 1) a).1.set
          (insertion_sort_inner (a.getD (m + 1) 0) (m + 1) a).2
          (a.getD (m + 1) 0)).take (m + 2)).Sorted (· ≤ ·)
      ∧ (((insertion_sort_inner (a.getD (m + 1) 0) (m + 1) a).1.set
          (insertion_sort_inner (a.getD (m + 1) 0) (m + 1) a).2
          (a.getD (m + 1) 0)).take (m + 2)).Perm (a.take (m + 2))
      ∧ ((insertion_sort_inner (a.getD (m + 1) 0) (m + 1) a).1.set
          (insertion_sort_inner (a.getD (m + 1) 0) (m + 1) a).2
          (a.getD (m + 1) 0)).drop (m + 2) = a.drop (m + 2)
      ∧ (insertion_sort_inner (a.getD (m + 1) 0) (m + 1) a).2
          < (insertion_sort_inner (a.getD (m + 1) 0) (m + 1) a).1.length
      ∧ insertion_sort_inner_checked (a.getD (m + 1) 0) (m + 1) a
          = some (insertion_sort_inner (a.getD (m + 1) 0) (m + 1) a) := by
  have hsplit := split_at a (m + 1) hm
  have hlen : (a.take (m + 1)).length = m + 1 := by
    rw [List.length_take]; omega
  generalize hk : a.getD (m + 1) 0 = key at hsplit ⊢
  generalize hpre : a.take (m + 1) = pre at hsplit hs hlen
  generalize hpost : a.drop (m + 1 + 1) = post at hsplit
  have ht : a.take (m + 2) = pre ++ [key] := by
    rw [hsplit]
    have : m + 2 = pre.length + 1 := by omega
    rw [this, List.take_append]
    simp
  have hd : a.drop (m + 2) = post := hpost
  obtain ⟨pre1, pre2, e1, e2, e3, e4, e5, e6⟩ :=
    insertion_sort_inner_spec key (m + 1) pre post key hlen
  rw [← hsplit] at e4 e5 e6
  rw [e4, ht]
  try rw [hd]
  have hl1 : (pre1 ++ key :: pre2).length = m + 2 := by
    have : (pre1 ++ pre2).length = m + 1 := by rw [← e1]; exact hlen
    simp only [List.length_append, List.length_cons] at this ⊢
    omega
  have htake : (pre1 ++ key :: (pre2 ++ post)).take (m + 2) = pre1 ++ key :: pre2 := by
    have e : pre1 ++ key :: (pre2 ++ post) = (pre1 ++ key :: pre2) ++ post := by simp
    rw [e, ← hl1, List.take_left']
    rfl
  have hdrop : (pre1 ++ key :: (pre2 ++ post)).drop (m + 2) = post := by
    have e : pre1 ++ key :: (pre2 ++ post) = (pre1 ++ key :: pre2) ++ post := by simp
    rw [e, ← hl1, List.drop_left']
    rfl
  rw [htake, hdrop]
  refine ⟨?_, ?_, ?_, rfl, e5, e6⟩
  · have e : pre1 ++ key :: (pre2 ++ post) = (pre1 ++ key :: pre2) ++ post := by simp
    rw [e, List.length_append, hl1]
    have := congrArg List.length hsplit
    simp only [List.length_append, List.length_cons] at this
    omega
  · rw [e1] at hs
    have hp := List.pairwise_append.mp hs
    unfold List.Sorted
    rw [List.pairwise_append]
    refine ⟨hp.1, ?_, ?_⟩
    · rw [List.pairwise_cons]
      exact ⟨fun x hx => le_of_lt (e2 x hx), hp.2.1⟩
    · intro x hx y hy
      rcases List.mem_cons.mp hy with h | h
      · rw [h]
        rcases List.eq_nil_or_concat pre1 with hn | ⟨p0, z, hz⟩
        · subst hn; simp at hx
        · rw [List.concat_eq_append] at hz
          have hlast : pre1.getLast? = some z := by rw [hz]; simp
          have h1 := sorted_le_getLast pre1 hp.1 z hlast x hx
          have h2 := e3 z hlast
          exact le_trans h1 (not_lt.mp h2)
      · exact hp.2.2 x hx y h
  · rw [e1]
    calc (pre1 ++ key :: pre2).Perm (key :: (pre1 ++ pre2)) := List.perm_middle
      _ |>.Perm (pre1 ++ pre2 ++ [key]) := (List.perm_append_singleton key (pre1 ++ pre2)).symm

theorem insertion_sort_fold (arr : List ℚ) :
    ∀ m : ℕ, m + 1 ≤ arr.length →
      (insertion_sort arr (m + 1)).length = arr.length
        ∧ ((insertion_sort arr (m + 1)).take (m + 1)).Sorted (· ≤ ·)
        ∧ ((insertion_sort arr (m + 1)).take (m + 1)).Perm (arr.take (m + 1))
        ∧ (insertion_sort arr (m + 1)).drop (m + 1) = arr.drop (m + 1)
        ∧ insertion_sort_checked arr (m + 1) = some (insertion_sort arr (m + 1)) := by
  intro m
  induction m with
  | zero =>
    intro h
    have e : insertion_sort arr 1 = arr := by simp [insertion_sort]
    have ec : insertion_sort_checked arr 1 = some arr := by simp [insertion_sort_checked]
    rw [e, ec]
    refine ⟨rfl, ?_, List.Perm.refl _, rfl, rfl⟩
    rcases arr with _ | ⟨x, xs⟩
    · simp
    · simp
  | succ m ih =>
    intro h
    obtain ⟨i1, i2, i3, i4, i5⟩ := ih (by omega)
    have hm : m + 1 < (insertion_sort arr (m + 1)).length := by rw [i1]; omega
    obtain ⟨r1, r2, r3, r4, r5, r6⟩ := insertion_sort_round (insertion_sort arr (m + 1)) m hm i2
    have e : insertion_sort arr (m + 1 + 1)
        = (insertion_sort_inner ((insertion_sort arr (m + 1)).getD (m + 1) 0) (m + 1)
            (insertion_sort arr (m + 1))).1.set
          (insertion_sort_inner ((insertion_sort arr (m + 1)).getD (m + 1) 0) (m + 1)
            (insertion_sort arr (m + 1))).2 ((insertion_sort arr (m + 1)).getD (m + 1) 0) := by
      unfold insertion_sort
      simp only [Nat.add_sub_cancel, List.range_succ, List.foldl_append, List.foldl_cons,
        List.foldl_nil]
    have ec : insertion_sort_checked arr (m + 1 + 1) = some (insertion_sort arr (m + 1 + 1)) := by
      rw [e]
      unfold insertion_sort_checked at i5 ⊢
      simp only [Nat.add_sub_cancel] at i5 ⊢
      rw [List.range_succ, List.foldl_append, i5]
      simp only [List.foldl_cons, List.foldl_nil]
      have hg : (insertion_sort arr (m + 1))[m + 1]?
          = some ((insertion_sort arr (m + 1)).getD (m + 1) 0) := by
        rw [List.getD_eq_getElem _ _ hm, List.getElem?_eq_getElem hm]
      rw [hg]
      simp only [r6, r5, if_true]
    rw [← e] at r1 r2 r3 r4
    refine ⟨r1.trans i1, r2, ?_, ?_, ec⟩
    · refine r3.trans ?_
      have hm' : m + 1 < arr.length := by omega
      have t1 : (insertion_sort arr (m + 1)).take (m + 2)
          = (insertion_sort arr (m + 1)).take (m + 1)
            ++ ((insertion_sort arr (m + 1)).drop (m + 1)).take 1 := by
        rw [← List.take_add]
      have t2 : arr.take (m + 2) = arr.take (m + 1) ++ (arr.drop (m + 1)).take 1 := by
        rw [← List.take_add]
      rw [t1, t2, i4]
      exact List.Perm.append_right _ i3
    · rw [r4]
      have d1 : (insertion_sort arr (m + 1)).drop (m + 2)
          = ((insertion_sort arr (m + 1)).drop (m + 1)).drop 1 := by
        rw [List.drop_drop]
        try (congr 1; omega)
      have d2 : arr.drop (m + 2) = (arr.drop (m + 1)).drop 1 := by
        rw [List.drop_drop]
        try (congr 1; omega)
      rw [d1, d2, i4]

/-- The function `insertion_sort(arr, len)` for `1 ≤ len ≤` the size of the
array: the first `len` elements are sorted ascending afterwards and are the
same elements as before, the rest of the array and its size are unchanged, and
no access is out of bounds. -/
theorem insertion_sort_spec (arr : List ℚ) (len : ℕ) (h1 : 1 ≤ len) (h2 : len ≤ arr.length) :
    (insertion_sort arr len).length = arr.length
      ∧ ((insertion_sort arr len).take len).Sorted (· ≤ ·)
      ∧ ((insertion_sort arr len).take len).Perm (arr.take len)
      ∧ (insertion_sort arr len).drop len = arr.drop len
      ∧ insertion_sort_checked arr len = some (insertion_sort arr len) := by
  obtain ⟨m, rfl⟩ : ∃ m, len = m + 1 := ⟨len - 1, by omega⟩
  exact insertion_sort_fold arr m h2

/-- The first `len` elements after `insertion_sort(arr, len)` are the sorted
list of the first `len` elements before. -/
theorem insertion_sort_take (arr : List ℚ) (len : ℕ) (h1 : 1 ≤ len) (h2 : len ≤ arr.length) :
    (insertion_sort arr len).take len = (arr.take len).insertionSort (· ≤ ·) := by
  obtain ⟨-, s, p, -, -⟩ := insertion_sort_spec arr len h1 h2
  exact List.eq_of_perm_of_sorted (p.trans (List.perm_insertionSort _ _).symm) s
    (List.sorted_insertionSort _ _)

/-! ## The counters of the retry loop -/

theorem set_buff_checked_eq (s : Machine) (i : ℕ) (v : ℚ) (h : i < s.buff_insert.length) :
    s.set_buff_checked i v = some (s.set_buff i v) := by
  unfold Machine.set_buff_checked
  rw [if_pos h]

theorem starts_cons (k n : ℕ) :
    (k, 2 * k) :: (List.range n).map (fun j => (k + 1 + j, 2 * (k + 1 + j)))
      = (List.range (n + 1)).map (fun j => (k + j, 2 * (k + j))) := by
  rw [List.range_succ_eq_map, List.map_cons, List.map_map]
  simp only [Nat.add_zero, List.cons.injEq, true_and]
  apply List.map_congr_left
  intro j _
  simp only [Function.comp, Nat.succ_eq_add_one]
  rw [show k + 1 + j = k + (j + 1) by omega]

theorem starts_one (k : ℕ) :
    [(k, 2 * k)] = (List.range 1).map (fun j => (k + j, 2 * (k + j))) := by
  simp [List.range_succ]

/-- The step from the rest of the loop to the loop: the iteration that
started with `(k, 2 * k)` is put in front of those of the rest. -/
theorem starts_lift {R : Type} (X : Option (R × List (ℕ × ℕ))) (Y : R) (k : ℕ)
    (P : R → Prop)
    (h : ∃ n : ℕ, 0 < n ∧ k + 1 + n ≤ 5
      ∧ X = some (Y, (List.range n).map (fun j => (k + 1 + j, 2 * (k + 1 + j)))) ∧ P Y) :
    ∃ n : ℕ, 0 < n ∧ k + n ≤ 5
      ∧ X.map (fun p => (p.1, (k, 2 * k) :: p.2))
        = some (Y, (List.range n).map (fun j => (k + j, 2 * (k + j)))) ∧ P Y := by
  obtain ⟨n, h0, h5, hX, hP⟩ := h
  refine ⟨n + 1, by omega, by omega, ?_, hP⟩
  rw [hX, Option.map_some', starts_cons]

/-- The retry loop entered at `try_again = k ≤ 4` with `insert_count = 2 * k`
and a 12-element `buff_insert`: every iteration starts with
`insert_count = 2 * try_again`, every write to `buff_insert` is in bounds, and
if the loop is left by `break` then `insert_count = 2 * try_again + 1` with
`try_again ≤ 4`. -/
theorem detect_times_loop_counts (cfg : Config) (env : Env) (sc : Bool) (zl : ℚ) :
    ∀ (fuel k : ℕ) (f : ℚ) (s : Machine), k ≤ 4 → 5 ≤ k + fuel →
      s.buff_insert.length = 12 →
      ∃ n : ℕ, 0 < n ∧ k + n ≤ 5
        ∧ detect_times_loop_checked cfg env sc zl fuel k (2 * k) f s
          = some (detect_times_loop cfg env sc zl fuel k (2 * k) f s,
              (List.range n).map (fun j => (k + j, 2 * (k + j))))
        ∧ ((detect_times_loop cfg env sc zl fuel k (2 * k) f s).2.buff_insert.length = 12
          ∧ ∀ (k1 c : ℕ) (f1 : ℚ),
            (detect_times_loop cfg env sc zl fuel k (2 * k) f s).1 = Except.ok (k1, c, f1) →
            k1 ≤ 4 ∧ c = 2 * k1 + 1) := by
  intro fuel
  induction fuel with
  | zero => intro k f s hk hf; omega
  | succ fuel ih =>
    intro k f s hk hf hlen
    have h4 : ¬ k > 4 := by omega
    have u1 : toUInt8 (((2 * k : ℕ) : ℤ) + 1) = 2 * k + 1 := by unfold toUInt8; omega
    have u2 : toUInt8 (((2 * k + 1 : ℕ) : ℤ) + 1) = 2 * (k + 1) := by unfold toUInt8; omega
    rw [detect_times_loop, detect_times_loop_checked]
    simp only [h4, if_false, u1, u2]
    cases hr : (try_to_probe cfg env zl (MMM_TO_MMS cfg.Z_PROBE_FEEDRATE_SLOW) sc
        cfg.Z_CLEARANCE_MULTI_PROBE (probe_start cfg s)).1
    · simp only [Bool.false_eq_true, if_false]
      rw [set_buff_checked_eq _ _ _ (by simp [hlen]; omega), Option.some_bind]
      by_cases hb : (decide (ABS (f - (try_to_probe cfg env zl
          (MMM_TO_MMS cfg.Z_PROBE_FEEDRATE_SLOW) sc cfg.Z_CLEARANCE_MULTI_PROBE
          (probe_start cfg s)).2.current_position.z) < cfg.Z_PROBE_DETECTION_DEVIATION)
          || decide (k ≥ 4)) = true
      · simp only [hb, if_true]
        refine ⟨1, by omega, by omega, by rw [starts_one], by simp [hlen], ?_⟩
        intro k1 c f1 h
        simp only [Except.ok.injEq, Prod.mk.injEq] at h
        obtain ⟨a, b, -⟩ := h
        subst a; subst b
        exact ⟨hk, rfl⟩
      · simp only [hb, Bool.false_eq_true, if_false]
        have hk3 : k < 4 := by
          by_contra hc
          apply hb
          simp only [Bool.or_eq_true, decide_eq_true_eq]
          right; omega
        split_ifs with hq
        · refine ⟨1, by omega, by omega, by rw [starts_one], by simp [hlen], ?_⟩
          intro k1 c f1 h
          exact absurd h (by simp)
        · rw [set_buff_checked_eq _ _ _ (by simp [hlen]; omega), Option.some_bind]
          apply starts_lift _ _ k
            (fun Y : Except FloatQ (ℕ × ℕ × ℚ) × Machine => Y.2.buff_insert.length = 12
              ∧ ∀ (k1 c : ℕ) (f1 : ℚ), Y.1 = Except.ok (k1, c, f1) → k1 ≤ 4 ∧ c = 2 * k1 + 1)
          exact ih (k + 1) _ _ (by omega) (by omega) (by simp [hlen])
    · simp only [if_true]
      refine ⟨1, by omega, by omega, by rw [starts_one], by simp [hlen], ?_⟩
      intro k1 c f1 h
      exact absurd h (by simp)

/-- The retry loop ends within `5 - try_again` iterations: more fuel does not
change its result. -/
theorem detect_times_loop_fuel (cfg : Config) (env : Env) (sc : Bool) (zl : ℚ) :
    ∀ (fuel k c : ℕ) (f : ℚ) (s : Machine), 5 ≤ k + fuel →
      detect_times_loop cfg env sc zl (fuel + 1) k c f s
        = detect_times_loop cfg env sc zl fuel k c f s := by
  intro fuel
  induction fuel with
  | zero =>
    intro k c f s h
    have h4 : k > 4 := by omega
    simp only [detect_times_loop, h4, if_true]
  | succ fuel ih =>
    intro k c f s h
    rw [detect_times_loop]
    conv_rhs => rw [detect_times_loop]
    simp only []
    by_cases h4 : k > 4
    · simp only [h4, if_true]
    · simp only [h4, if_false]
      split_ifs
      · rfl
      · rfl
      · rfl
      · exact ih _ _ _ _ (by omega)

theorem detect_times_loop_fuel_add (cfg : Config) (env : Env) (sc : Bool) (zl : ℚ)
    (k c : ℕ) (f : ℚ) (s : Machine) (fuel : ℕ) (h : 5 ≤ k + fuel) :
    ∀ m : ℕ, detect_times_loop cfg env sc zl (fuel + m) k c f s
      = detect_times_loop cfg env sc zl fuel k c f s := by
  intro m
  induction m with
  | zero => rfl
  | succ m ih =>
    rw [← Nat.add_assoc, detect_times_loop_fuel cfg env sc zl (fuel + m) k c f s (by omega), ih]

/-- C21.  The retry loop of `ANKER_PROBE_DETECT_TIMES` on a 12-element
`buff_insert`, for every configuration and every sequence of probe outcomes:
the iterations are numbered `try_again = 0, 1, ...`, at most five, and
iteration `k` starts with `insert_count = 2 * k`; the write of
`buff_insert[0]` before the loop and every write in the loop is in bounds;
when the loop is left by `break` then `try_again ≤ 4` and
`insert_count = 2 * try_again + 1`, so `insert_count ≤ 9`, and every access of
`insertion_sort(buff_insert, insert_count + 1)` is in bounds; and the loop
ends within five iterations, whatever fuel above five it is given. -/
theorem detect_times_insert_count (cfg : Config) (env : Env) (sc : Bool) (zl f : ℚ)
    (s : Machine) (hlen : s.buff_insert.length = 12) :
    s.set_buff_checked 0 f = some (s.set_buff 0 f)
      ∧ (∃ n : ℕ, 0 < n ∧ n ≤ 5
        ∧ detect_times_loop_checked cfg env sc zl 6 0 0 f (s.set_buff 0 f)
          = some (detect_times_loop cfg env sc zl 6 0 0 f (s.set_buff 0 f),
              (List.range n).map (fun j => (j, 2 * j))))
      ∧ (∀ (k c : ℕ) (f1 : ℚ) (s1 : Machine),
          detect_times_loop cfg env sc zl 6 0 0 f (s.set_buff 0 f)
            = (Except.ok (k, c, f1), s1) →
          k ≤ 4 ∧ c = 2 * k + 1 ∧ c ≤ 9 ∧ s1.buff_insert.length = 12
            ∧ insertion_sort_checked s1.buff_insert (c + 1)
              = some (insertion_sort s1.buff_insert (c + 1)))
      ∧ ∀ m : ℕ, detect_times_loop cfg env sc zl (5 + m) 0 0 f (s.set_buff 0 f)
          = detect_times_loop cfg env sc zl 6 0 0 f (s.set_buff 0 f) := by
  have hl0 : (s.set_buff 0 f).buff_insert.length = 12 := by simp [hlen]
  obtain ⟨n, n0, n5, e, l, b⟩ :=
    detect_times_loop_counts cfg env sc zl 6 0 f (s.set_buff 0 f) (by omega) (by omega) hl0
  simp only [Nat.mul_zero, Nat.zero_add] at e l b n5
  refine ⟨set_buff_checked_eq s 0 f (by omega), ⟨n, n0, n5, e⟩, ?_, ?_⟩
  · intro k c f1 s1 h
    rw [h] at l b
    obtain ⟨b1, b2⟩ := b k c f1 rfl
    refine ⟨b1, b2, by omega, l, ?_⟩
    exact (insertion_sort_spec s1.buff_insert (c + 1) (by omega)
      (by simp only [] at l; omega)).2.2.2.2
  · intro m
    rw [detect_times_loop_fuel_add cfg env sc zl 0 0 f (s.set_buff 0 f) 5 (by omega) m]
    exact (detect_times_loop_fuel_add cfg env sc zl 0 0 f (s.set_buff 0 f) 5 (by omega) 1).symm

/-- C21, worked example: the sample machine has a 12-element `buff_insert`,
and the statement holds for a first fast sample of 1 in a world where every
descent stops at 1. -/
theorem detect_times_insert_count_witness :
    sampleMachine.buff_insert.length = 12
      ∧ sampleMachine.set_buff_checked 0 1 = some (sampleMachine.set_buff 0 1)
      ∧ ∃ n : ℕ, 0 < n ∧ n ≤ 5
        ∧ detect_times_loop_checked sampleConfig (sampleEnv [] 1) true 0 6 0 0 1
            (sampleMachine.set_buff 0 1)
          = some (detect_times_loop sampleConfig (sampleEnv [] 1) true 0 6 0 0 1
              (sampleMachine.set_buff 0 1), (List.range n).map (fun j => (j, 2 * j))) :=
  ⟨by decide,
    (detect_times_insert_count sampleConfig (sampleEnv [] 1) true 0 1 sampleMachine
      (by decide)).1,
    (detect_times_insert_count sampleConfig (sampleEnv [] 1) true 0 1 sampleMachine
      (by decide)).2.1⟩

/-! ## The retry loop running to its fifth attempt -/

theorem take_set_last (B : List ℚ) (n : ℕ) (a : ℚ) (h : n < B.length) :
    (B.set n a).take (n + 1) = B.take n ++ [a] := by
  induction B generalizing n with
  | nil => simp at h
  | cons x xs ih =>
    cases n with
    | zero => simp
    | succ n =>
      simp only [List.length_cons, Nat.add_lt_add_iff_right] at h
      simp only [List.set_cons_succ, List.take_succ_cons, List.cons_append, ih n h]

theorem take_set_set (B : List ℚ) (n : ℕ) (a b : ℚ) (h : n + 1 < B.length) :
    ((B.set n a).set (n + 1) b).take (n + 1 + 1) = B.take n ++ [a, b] := by
  rw [take_set_last _ _ _ (by simp; exact h)]
  have e : (B.set n a).take (n + 1) = B.take n ++ [a] := take_set_last B n a (by omega)
  rw [e]
  simp

/-- A descent through `try_to_probe` that is accepted: the call returns
`false`, the resolved Z is that of the hardware answer, and `buff_insert`, the
offset and the count of descents are as expected. -/
theorem try_to_probe_sample (cfg : Config) (env : Env) (zl fr : ℚ) (sc : Bool) (cl : ℚ)
    (s : Machine) (h : rejected cfg sc s.offset.z cl (env.descent s.descents) = false) :
    (try_to_probe cfg env zl fr sc cl (probe_start cfg s)).1 = false
      ∧ (try_to_probe cfg env zl fr sc cl (probe_start cfg s)).2.current_position.z
          = (env.descent s.descents).stepper_z
      ∧ (try_to_probe cfg env zl fr sc cl (probe_start cfg s)).2.descents = s.descents + 1
      ∧ (try_to_probe cfg env zl fr sc cl (probe_start cfg s)).2.offset = s.offset
      ∧ (try_to_probe cfg env zl fr sc cl (probe_start cfg s)).2.buff_insert
          = s.buff_insert := by
  have h' : rejected cfg sc (probe_start cfg s).offset.z cl
      (env.descent (probe_start cfg s).descents) = false := by simpa using h
  refine ⟨?_, ?_, by simp, by simp, by simp⟩
  · rw [try_to_probe_fst]; exact h'
  · rw [try_to_probe_z cfg env zl fr sc cl _ h']
    simp

/-- The retry loop entered at `try_again = k ≤ 4` with `insert_count = 2 * k`,
when every remaining descent is accepted and no pair of a fast and the
following slow sample before the fifth attempt agrees: the loop is left by
`break` at `try_again = 4` with `insert_count = 9`, and the samples have been
written to `buff_insert` in the order of the descents. -/
theorem detect_times_loop_exhaust (cfg : Config) (env : Env) (sc : Bool) (zl : ℚ) :
    ∀ (fuel k : ℕ) (f : ℚ) (s : Machine), k ≤ 4 → 5 ≤ k + fuel →
      s.buff_insert.length = 12 →
      (∀ i, i < 9 - 2 * k →
        rejected cfg sc s.offset.z
          (if i % 2 = 0 then cfg.Z_CLEARANCE_MULTI_PROBE else cfg.Z_CLEARANCE_BETWEEN_PROBES)
          (env.descent (s.descents + i)) = false) →
      (k < 4 → ¬ ABS (f - (env.descent s.descents).stepper_z)
        < cfg.Z_PROBE_DETECTION_DEVIATION) →
      (∀ i, i + 1 < 4 - k →
        ¬ ABS ((env.descent (s.descents + 2 * i + 1)).stepper_z
            - (env.descent (s.descents + 2 * i + 2)).stepper_z)
          < cfg.Z_PROBE_DETECTION_DEVIATION) →
      ∃ (f1 : ℚ) (s1 : Machine),
        detect_times_loop cfg env sc zl fuel k (2 * k) f s = (Except.ok (4, 9, f1), s1)
          ∧ s1.buff_insert.take 10
            = s.buff_insert.take (2 * k + 1) ++ resolved env s.descents (9 - 2 * k)
          ∧ s1.buff_insert.length = 12
          ∧ s1.descents = s.descents + (9 - 2 * k) := by
  intro fuel
  induction fuel with
  | zero => intro k f s hk hf; omega
  | succ fuel ih =>
    intro k f s hk hf hlen hacc hd0 hdis
    have h4 : ¬ k > 4 := by omega
    have u1 : toUInt8 (((2 * k : ℕ) : ℤ) + 1) = 2 * k + 1 := by unfold toUInt8; omega
    have u2 : toUInt8 (((2 * k + 1 : ℕ) : ℤ) + 1) = 2 * (k + 1) := by unfold toUInt8; omega
    have a0 := hacc 0 (by omega)
    simp only [Nat.zero_mod, if_true, Nat.add_zero] at a0
    have hs := try_to_probe_sample cfg env zl (MMM_TO_MMS cfg.Z_PROBE_FEEDRATE_SLOW) sc
      cfg.Z_CLEARANCE_MULTI_PROBE s a0
    rw [detect_times_loop]
    simp only [h4, if_false, u1, u2]
    generalize try_to_probe cfg env zl (MMM_TO_MMS cfg.Z_PROBE_FEEDRATE_SLOW) sc
      cfg.Z_CLEARANCE_MULTI_PROBE (probe_start cfg s) = R at hs ⊢
    obtain ⟨r1, r2⟩ := R
    simp only [] at hs ⊢
    obtain ⟨h1, hz, hd, ho, hb⟩ := hs
    subst h1
    simp only [Bool.false_eq_true, if_false, hz]
    by_cases hk4 : k = 4
    · subst hk4
      simp only [ge_iff_le, le_refl, decide_True, Bool.or_true, if_true]
      refine ⟨f, _, rfl, ?_, by simp [hb, hlen], by simp [hd]⟩
      simp only [set_buff_buff_insert, hb]
      have e := take_set_last s.buff_insert 9 (env.descent s.descents).stepper_z (by omega)
      have r1 : resolved env s.descents (9 - 2 * 4) = [(env.descent s.descents).stepper_z] := by
        simp [resolved, List.range_succ]
      rw [r1]
      exact e
    · have hk3 : k < 4 := by omega
      have hnb : (decide (ABS (f - (env.descent s.descents).stepper_z)
          < cfg.Z_PROBE_DETECTION_DEVIATION) || decide (k ≥ 4)) = false := by
        simp only [Bool.or_eq_false_iff, decide_eq_false_iff_not]
        exact ⟨hd0 hk3, by omega⟩
      simp only [hnb, Bool.false_eq_true, if_false]
      generalize hT : do_blocking_move_to_xy _ _ _ _ = T
      have hTd : T.descents = s.descents + 1 := by rw [← hT]; simp [hd]
      have hTo : T.offset = s.offset := by rw [← hT]; simp [ho]
      have hTb : T.buff_insert = s.buff_insert.set (2 * k + 1) (env.descent s.descents).stepper_z := by
        rw [← hT]; simp [hb]
      have a1 := hacc 1 (by omega)
      simp only [show (1 : ℕ) % 2 ≠ 0 by decide, if_false] at a1
      rw [← hTd, ← hTo] at a1
      have hq := try_to_probe_sample cfg env zl cfg.z_probe_fast_mm_s sc
        cfg.Z_CLEARANCE_BETWEEN_PROBES T a1
      generalize try_to_probe cfg env zl cfg.z_probe_fast_mm_s sc
        cfg.Z_CLEARANCE_BETWEEN_PROBES (probe_start cfg T) = Q at hq ⊢
      obtain ⟨q1, q2⟩ := Q
      simp only [] at hq ⊢
      obtain ⟨g1, gz, gd, go, gb⟩ := hq
      subst g1
      simp only [Bool.false_eq_true, if_false, gz]
      generalize hS : do_blocking_move_to_z _ _ _ = S7
      have hSd : S7.descents = s.descents + 2 := by rw [← hS]; simp [gd, hTd]
      have hSo : S7.offset = s.offset := by rw [← hS]; simp [go, hTo]
      have hSb : S7.buff_insert
          = (s.buff_insert.set (2 * k + 1) (env.descent s.descents).stepper_z).set
              (2 * k + 1 + 1) (env.descent (s.descents + 1)).stepper_z := by
        rw [← hS]; simp [gb, hTb, hTd]; rfl
      obtain ⟨f1, s1, e1, e2, e3, e4⟩ := ih (k + 1) (env.descent T.descents).stepper_z S7
        (by omega) (by omega) (by rw [hSb]; simp [hlen])
        (by
          intro i hi
          have := hacc (i + 2) (by omega)
          rw [hSo, hSd]
          have e : (i + 2) % 2 = i % 2 := by omega
          rw [e] at this
          rw [show s.descents + 2 + i = s.descents + (i + 2) by omega]
          exact this)
        (by
          intro _
          have := hdis 0 (by omega)
          rw [hTd, hSd]
          simpa using this)
        (by
          intro i hi
          have := hdis (i + 1) (by omega)
          rw [hSd]
          rw [show s.descents + 2 + 2 * i + 1 = s.descents + 2 * (i + 1) + 1 by omega,
            show s.descents + 2 + 2 * i + 2 = s.descents + 2 * (i + 1) + 2 by omega]
          exact this)
      rw [e1]
      refine ⟨f1, s1, rfl, ?_, e3, by rw [e4, hSd]; omega⟩
      rw [e2, hSb, hSd]
      have t := take_set_set s.buff_insert (2 * k + 1) (env.descent s.descents).stepper_z
        (env.descent (s.descents + 1)).stepper_z (by omega)
      rw [show 2 * (k + 1) + 1 = 2 * k + 1 + 1 + 1 by omega, t]
      have r : resolved env s.descents (9 - 2 * k)
          = (env.descent s.descents).stepper_z :: (env.descent (s.descents + 1)).stepper_z
            :: resolved env (s.descents + 2) (9 - 2 * (k + 1)) := by
        rw [show 9 - 2 * k = (9 - 2 * (k + 1)) + 1 + 1 by omega, resolved_succ, resolved_succ]
      rw [r]
      simp

theorem double_probe_first_buff_insert (cfg : Config) (env : Env) (sc : Bool) (zl : ℚ)
    (s : Machine) : (double_probe_first cfg env sc zl s).2.buff_insert = s.buff_insert := by
  unfold double_probe_first
  cases hT : cfg.PROBE_TARE <;> simp only [] <;> split_ifs <;> simp

theorem tare_if_buff_insert (c : Bool) (s : Machine) :
    (if c then (tare s).2 else s).buff_insert = s.buff_insert := by
  cases c <;> rfl

theorem detect_times_finish_exhausted (k c : ℕ) (hk : 4 ≤ k) (hc : 4 < c) (f1 : ℚ)
    (s1 : Machine) :
    detect_times_finish (Except.ok (k, c, f1), s1)
      = (Except.error (some (sum_range (insertion_sort s1.buff_insert (c + 1)) 2 (c - 2) 0
          * RECIPROCAL ((c : ℤ) - 3))),
        { s1 with buff_insert := insertion_sort s1.buff_insert (c + 1) }) := by
  simp only [detect_times_finish, ge_iff_le, hk, if_true, gt_iff_lt, hc]
  rfl

/-- The retry block of `ANKER_PROBE_DETECT_TIMES` entered with the fast sample
`f`, when the nine following descents are accepted and none of the first four
pairs of a fast and the following slow sample agrees: the block returns the
mean of the sorted samples at positions 2 to 7 of the ten, and leaves the ten
samples sorted in `buff_insert`. -/
theorem detect_times_probe_exhaust (cfg : Config) (env : Env) (sc : Bool) (zl f : ℚ)
    (s : Machine) (hlen : s.buff_insert.length = 12)
    (hacc : ∀ i, i < 9 →
      rejected cfg sc s.offset.z
        (if i % 2 = 0 then cfg.Z_CLEARANCE_MULTI_PROBE else cfg.Z_CLEARANCE_BETWEEN_PROBES)
        (env.descent (s.descents + i)) = false)
    (hd0 : ¬ ABS (f - (env.descent s.descents).stepper_z) < cfg.Z_PROBE_DETECTION_DEVIATION)
    (hdis : ∀ i, i + 1 < 4 →
      ¬ ABS ((env.descent (s.descents + 2 * i + 1)).stepper_z
          - (env.descent (s.descents + 2 * i + 2)).stepper_z)
        < cfg.Z_PROBE_DETECTION_DEVIATION) :
    (detect_times_probe cfg env sc zl f s).1
        = Except.error (some
            (((((f :: resolved env s.descents 9).insertionSort (· ≤ ·)).drop 2).take 6).sum
              / 6))
      ∧ (detect_times_probe cfg env sc zl f s).2.buff_insert.take 10
        = (f :: resolved env s.descents 9).insertionSort (· ≤ ·)
      ∧ (detect_times_probe cfg env sc zl f s).2.descents = s.descents + 9 := by
  obtain ⟨f1, s1, e1, e2, e3, e4⟩ := detect_times_loop_exhaust cfg env sc zl 6 0 f
    (s.set_buff 0 f) (by omega) (by omega) (by simp [hlen])
    (by simpa using hacc) (by intro _; simpa using hd0) (by simpa using hdis)
  simp only [Nat.mul_zero, Nat.zero_add, Nat.sub_zero, set_buff_buff_insert,
    set_buff_descents] at e1 e2 e4
  have t0 : (s.buff_insert.set 0 f).take 1 = [f] := by
    have := take_set_last s.buff_insert 0 f (by omega)
    simpa using this
  rw [t0] at e2
  have hs := insertion_sort_take s1.buff_insert 10 (by omega) (by omega)
  rw [e2] at hs
  simp only [List.singleton_append] at hs
  unfold detect_times_probe
  rw [e1]
  rw [detect_times_finish_exhausted 4 9 (le_refl _) (by omega)]
  simp only [show (9 + 1 : ℕ) = 10 from rfl]
  refine ⟨?_, hs, e4⟩
  rw [sum_range_eq]
  unfold window RECIPROCAL
  have d : ((insertion_sort s1.buff_insert 10).drop 2).take (9 - 2 + 1 - 2)
      = (((insertion_sort s1.buff_insert 10).take 10).drop 2).take 6 := by
    rw [List.drop_take, List.take_take]
    congr 1
  rw [d, hs]
  generalize ((((f :: resolved env s.descents 9).insertionSort (· ≤ ·)).drop 2).take 6).sum = v
  have e : v * (1 / ((((9 : ℕ) : ℤ) - 3 : ℤ) : ℚ)) = v / 6 := by
    norm_num
    ring
  simp only [e]

theorem run_z_probe_exhaust_value (cfg : Config) (env : Env) (sc : Bool) (s : Machine)
    (h2 : cfg.TOTAL_PROBING = 2) (hD : cfg.ANKER_PROBE_DETECT_TIMES = true)
    (hlen : s.buff_insert.length = 12)
    (hacc : ∀ i, i < 10 →
      rejected cfg sc s.offset.z
        (if i % 2 = 0 then cfg.Z_CLEARANCE_BETWEEN_PROBES else cfg.Z_CLEARANCE_MULTI_PROBE)
        (env.descent (s.descents + i)) = false)
    (hdis : ∀ j, j < 4 →
      ¬ ABS ((env.descent (s.descents + 2 * j)).stepper_z
          - (env.descent (s.descents + 2 * j + 1)).stepper_z)
        < cfg.Z_PROBE_DETECTION_DEVIATION) :
    (run_z_probe cfg env sc s).1
        = some (((((resolved env s.descents 10).insertionSort (· ≤ ·)).drop 2).take 6).sum / 6)
      ∧ (run_z_probe cfg env sc s).2.buff_insert.take 10
        = (resolved env s.descents 10).insertionSort (· ≤ ·)
      ∧ (run_z_probe cfg env sc s).2.descents = s.descents + 10 := by
  have a0 := hacc 0 (by omega)
  simp only [Nat.zero_mod, if_true, Nat.add_zero] at a0
  obtain ⟨f1, f2, f3⟩ := double_probe_first_ok cfg env sc (z_probe_low_point cfg s) s a0
  have f4 := double_probe_first_buff_insert cfg env sc (z_probe_low_point cfg s) s
  have hA : detect_times_active cfg (some (env.descent s.descents).stepper_z) = true := by
    simp [detect_times_active, hD]
  have t1 := tare_if_descents cfg.PROBE_TARE
    (double_probe_first cfg env sc (z_probe_low_point cfg s) s).2
  have t2 := tare_if_offset cfg.PROBE_TARE
    (double_probe_first cfg env sc (z_probe_low_point cfg s) s).2
  have t3 := tare_if_buff_insert cfg.PROBE_TARE
    (double_probe_first cfg env sc (z_probe_low_point cfg s) s).2
  have e := slow_probe_eq cfg env sc (z_probe_low_point cfg s)
    (some (env.descent s.descents).stepper_z)
    (double_probe_first cfg env sc (z_probe_low_point cfg s) s).2
  generalize (if cfg.PROBE_TARE then
    (tare (double_probe_first cfg env sc (z_probe_low_point cfg s) s).2).2
    else (double_probe_first cfg env sc (z_probe_low_point cfg s) s).2) = t at t1 t2 t3 e
  rw [f3] at t1
  rw [f2] at t2
  rw [f4] at t3
  obtain ⟨x1, x2, x3⟩ := detect_times_probe_exhaust cfg env sc (z_probe_low_point cfg s)
    (env.descent s.descents).stepper_z t (by rw [t3]; exact hlen)
    (by
      intro i hi
      have := hacc (i + 1) (by omega)
      rw [t1, t2, show s.descents + 1 + i = s.descents + (i + 1) by omega]
      have p : ((i + 1) % 2 = 0) ↔ ¬ (i % 2 = 0) := by omega
      by_cases hp : i % 2 = 0
      · simp only [hp, if_true]
        simp only [p.not.mpr (not_not.mpr hp), if_false] at this
        exact this
      · simp only [hp, if_false]
        simp only [p.mpr hp, if_true] at this
        exact this)
    (by
      have := hdis 0 (by omega)
      rw [t1]
      simpa using this)
    (by
      intro i hi
      have := hdis (i + 1) (by omega)
      rw [t1, show s.descents + 1 + 2 * i + 1 = s.descents + 2 * (i + 1) by omega,
        show s.descents + 1 + 2 * i + 2 = s.descents + 2 * (i + 1) + 1 by omega]
      exact this)
  rw [t1] at x1 x2 x3
  rw [← resolved_succ] at x1 x2
  have e2 : slow_attempt cfg env sc (z_probe_low_point cfg s)
      (some (env.descent s.descents).stepper_z) t
      = detect_times_probe cfg env sc (z_probe_low_point cfg s)
          (env.descent s.descents).stepper_z t := by
    unfold slow_attempt
    simp only [hA, if_true, Option.getD_some]
  rw [e2, slow_finish_error cfg _ _ x1] at e
  unfold run_z_probe
  simp only [h2, if_true]
  rw [pair_of_fst _ _ f1]
  simp only []
  rw [e]
  exact ⟨rfl, x2, by rw [x3]⟩

/-- C22.  Exhaustion of the retry block of `ANKER_PROBE_DETECT_TIMES`
(`TOTAL_PROBING = 2`, 12-element `buff_insert`): when the ten descents from
the first fast probe on are accepted (the even-numbered ones are the fast
probes, the odd-numbered ones the slow probes) and none of the first four
pairs of a fast and the following slow sample agrees within
`Z_PROBE_DETECTION_DEVIATION`, so that the loop reaches its fifth attempt,
`run_z_probe` has made exactly ten descents, the ten samples are in
`buff_insert[0..9]` in ascending order, and the value returned is the mean of
the six samples at sorted positions 2 to 7, whatever the fifth pair is.  And
for every sequence of outcomes, a loop left at `try_again ≥ 4` has
`insert_count > 4`: the branch for `insert_count ≤ 4` is never taken. -/
theorem detect_times_exhaustion (cfg : Config) (env : Env) (sc : Bool) (s : Machine)
    (h2 : cfg.TOTAL_PROBING = 2) (hD : cfg.ANKER_PROBE_DETECT_TIMES = true)
    (hlen : s.buff_insert.length = 12)
    (hacc : ∀ i, i < 10 →
      rejected cfg sc s.offset.z
        (if i % 2 = 0 then cfg.Z_CLEARANCE_BETWEEN_PROBES else cfg.Z_CLEARANCE_MULTI_PROBE)
        (env.descent (s.descents + i)) = false)
    (hdis : ∀ j, j < 4 →
      ¬ ABS ((env.descent (s.descents + 2 * j)).stepper_z
          - (env.descent (s.descents + 2 * j + 1)).stepper_z)
        < cfg.Z_PROBE_DETECTION_DEVIATION) :
    (run_z_probe cfg env sc s).1
        = some (((((resolved env s.descents 10).insertionSort (· ≤ ·)).drop 2).take 6).sum / 6)
      ∧ (run_z_probe cfg env sc s).2.buff_insert.take 10
        = (resolved env s.descents 10).insertionSort (· ≤ ·)
      ∧ (run_z_probe cfg env sc s).2.descents = s.descents + 10
      ∧ ∀ (zl f0 : ℚ) (s0 : Machine) (k c : ℕ) (f1 : ℚ) (s1 : Machine),
          s0.buff_insert.length = 12 →
          detect_times_loop cfg env sc zl 6 0 0 f0 (s0.set_buff 0 f0)
            = (Except.ok (k, c, f1), s1) →
          4 ≤ k → 4 < c := by
  obtain ⟨v1, v2, v3⟩ := run_z_probe_exhaust_value cfg env sc s h2 hD hlen hacc hdis
  refine ⟨v1, v2, v3, ?_⟩
  intro zl f0 s0 k c f1 s1 hl he hk
  obtain ⟨n, -, -, -, -, b⟩ := detect_times_loop_counts cfg env sc zl 6 0 f0 (s0.set_buff 0 f0)
    (by omega) (by omega) (by simp [hl])
  simp only [Nat.mul_zero] at b
  rw [he] at b
  obtain ⟨b1, b2⟩ := b k c f1 rfl
  omega

theorem retry_samples_accepted (i : ℕ) :
    rejected retryConfig true sampleMachine.offset.z
      (if i % 2 = 0 then retryConfig.Z_CLEARANCE_BETWEEN_PROBES
        else retryConfig.Z_CLEARANCE_MULTI_PROBE)
      ((sampleEnv [1, 2, 3, 4, 5, 6, 5, 4, 3, 2] 0).descent (sampleMachine.descents + i))
      = false := by
  apply sampleEnv_rejected _ rfl rfl rfl
  have h : ([1, 2, 3, 4, 5, 6, 5, 4, 3, 2] : List ℚ).getD (sampleMachine.descents + i) 0 ≤ 6 := by
    have e : sampleMachine.descents + i = i := by simp [sampleMachine]
    rw [e]
    rcases i with _ | _ | _ | _ | _ | _ | _ | _ | _ | _ | i <;> norm_num
  have c : (if i % 2 = 0 then retryConfig.Z_CLEARANCE_BETWEEN_PROBES
      else retryConfig.Z_CLEARANCE_MULTI_PROBE) = 5 := by
    split_ifs <;> rfl
  rw [c]
  have e : -sampleMachine.offset.z + 5 = 7 := by norm_num [sampleMachine]
  rw [e]
  linarith

theorem retry_samples_sorted :
    (resolved (sampleEnv [1, 2, 3, 4, 5, 6, 5, 4, 3, 2] 0) sampleMachine.descents
        10).insertionSort (· ≤ ·) = [1, 2, 2, 3, 3, 4, 4, 5, 5, 6] := by
  have e : resolved (sampleEnv [1, 2, 3, 4, 5, 6, 5, 4, 3, 2] 0) sampleMachine.descents 10
      = [1, 2, 3, 4, 5, 6, 5, 4, 3, 2] := by
    simp [resolved, sampleEnv, sampleMachine, List.range_succ]
  rw [e]
  norm_num [List.insertionSort, List.orderedInsert]

theorem retry_loop_accepted (i : ℕ) :
    rejected retryConfig true
      (({ sampleMachine with descents := 1 } : Machine).set_buff 0 1).offset.z
      (if i % 2 = 0 then retryConfig.Z_CLEARANCE_MULTI_PROBE
        else retryConfig.Z_CLEARANCE_BETWEEN_PROBES)
      ((sampleEnv [1, 2, 3, 4, 5, 6, 5, 4, 3, 2] 0).descent
        ((({ sampleMachine with descents := 1 } : Machine).set_buff 0 1).descents + i))
      = false := by
  apply sampleEnv_rejected _ rfl rfl rfl
  have h : ([1, 2, 3, 4, 5, 6, 5, 4, 3, 2] : List ℚ).getD
      ((({ sampleMachine with descents := 1 } : Machine).set_buff 0 1).descents + i) 0 ≤ 6 := by
    have e : (({ sampleMachine with descents := 1 } : Machine).set_buff 0 1).descents + i
        = i + 1 := by
      show 1 + i = i + 1
      omega
    rw [e]
    rcases i with _ | _ | _ | _ | _ | _ | _ | _ | _ | _ | i <;> norm_num
  have c : (if i % 2 = 0 then retryConfig.Z_CLEARANCE_MULTI_PROBE
      else retryConfig.Z_CLEARANCE_BETWEEN_PROBES) = 5 := by
    split_ifs <;> rfl
  rw [c]
  have e : -(({ sampleMachine with descents := 1 } : Machine).set_buff 0 1).offset.z + 5 = 7 := by
    norm_num [sampleMachine, Machine.set_buff]
  rw [e]
  linarith

theorem retry_loop_sample :
    ∃ (f1 : ℚ) (s1 : Machine),
      detect_times_loop retryConfig (sampleEnv [1, 2, 3, 4, 5, 6, 5, 4, 3, 2] 0) true 0 6 0 0 1
          (({ sampleMachine with descents := 1 } : Machine).set_buff 0 1)
        = (Except.ok (4, 9, f1), s1) := by
  obtain ⟨f1, s1, e, -⟩ := detect_times_loop_exhaust retryConfig
    (sampleEnv [1, 2, 3, 4, 5, 6, 5, 4, 3, 2] 0) true 0 6 0 1
    (({ sampleMachine with descents := 1 } : Machine).set_buff 0 1) (by omega) (by omega)
    (by decide)
    (fun i _ => retry_loop_accepted i)
    (by
      intro _
      norm_num [sampleEnv, ABS, retryConfig, sampleConfigN, sampleConfig, Machine.set_buff])
    (by
      intro i hi
      have e : (({ sampleMachine with descents := 1 } : Machine).set_buff 0 1).descents = 1 :=
        rfl
      rw [e]
      have hi3 : i < 3 := by omega
      interval_cases i <;>
        norm_num [sampleEnv, ABS, retryConfig, sampleConfigN, sampleConfig])
  exact ⟨f1, s1, e⟩

/-- C22, worked example: the fast and slow samples 1, 2, 3, 4, 5, 6, 5, 4 of
the first four attempts disagree pairwise, the fifth pair is 3, 2; sorted the
ten samples are 1, 2, 2, 3, 3, 4, 4, 5, 5, 6, and the value returned is the
mean 7/2 of 2, 3, 3, 4, 4, 5.  The retry loop on these samples is left at
`try_again = 4` with `insert_count = 9`. -/
theorem detect_times_exhaustion_witness :
    (run_z_probe retryConfig (sampleEnv [1, 2, 3, 4, 5, 6, 5, 4, 3, 2] 0) true
        sampleMachine).1 = some (7 / 2)
      ∧ (run_z_probe retryConfig (sampleEnv [1, 2, 3, 4, 5, 6, 5, 4, 3, 2] 0) true
        sampleMachine).2.buff_insert.take 10 = [1, 2, 2, 3, 3, 4, 4, 5, 5, 6]
      ∧ (run_z_probe retryConfig (sampleEnv [1, 2, 3, 4, 5, 6, 5, 4, 3, 2] 0) true
        sampleMachine).2.descents = 10
      ∧ ∃ (k c : ℕ) (f1 : ℚ) (s1 : Machine),
          detect_times_loop retryConfig (sampleEnv [1, 2, 3, 4, 5, 6, 5, 4, 3, 2] 0) true 0 6 0 0 1
              (({ sampleMachine with descents := 1 } : Machine).set_buff 0 1)
            = (Except.ok (k, c, f1), s1)
          ∧ 4 ≤ k ∧ 4 < c := by
  have h := detect_times_exhaustion retryConfig (sampleEnv [1, 2, 3, 4, 5, 6, 5, 4, 3, 2] 0)
    true sampleMachine (by decide) rfl (by decide)
    (fun i _ => retry_samples_accepted i)
    (by
      intro j hj
      have e : sampleMachine.descents = 0 := rfl
      rw [e]
      interval_cases j <;>
        norm_num [sampleEnv, ABS, retryConfig, sampleConfigN, sampleConfig])
  rw [retry_samples_sorted] at h
  refine ⟨?_, h.2.1, h.2.2.1, ?_⟩
  · rw [h.1]
    norm_num
  · obtain ⟨f1, s1, e⟩ := retry_loop_sample
    exact ⟨4, 9, f1, s1, e, le_refl 4,
      h.2.2.2 0 1 { sampleMachine with descents := 1 } 4 9 f1 s1 (by decide) e (le_refl 4)⟩

/-! ## Range of the estimate -/

theorem resolved_negs :
    resolved (sampleEnv (List.replicate 129 (-1)) (-3)) 0 130
      = List.replicate 129 (-1) ++ [-3] := by
  have a : (List.range 129).map (fun k => (List.replicate 129 (-1 : ℚ)).getD k (-3))
      = List.replicate 129 (-1) := by
    rw [List.eq_replicate_iff]
    refine ⟨by rw [List.length_map, List.length_range], ?_⟩
    intro b hb
    obtain ⟨k, hk, rfl⟩ := List.mem_map.mp hb
    have hk' : k < 129 := List.mem_range.mp hk
    have := getD_replicate_append 129 (-1) [] k (-3) hk'
    rwa [List.append_nil] at this
  have b : (List.replicate 129 (-1 : ℚ)).getD 129 (-3) = -3 :=
    List.getD_eq_default _ _ (by rw [List.length_replicate])
  rw [resolved_sampleEnv, List.range_succ, List.map_append, a, List.map_singleton, b]

theorem insert_negs :
    insert_all (List.replicate 130 0) 0 (List.replicate 129 (-1) ++ [-3])
      = -3 :: (List.replicate 128 (-1) ++ [0]) := by
  rw [insert_all_append]
  have h := insert_all_eq (List.replicate 129 (-1)) [] (List.replicate 130 0)
    (by rw [List.length_replicate, List.length_replicate]; norm_num)
    (by rw [List.length_replicate]; norm_num)
  simp only [List.nil_append, List.length_nil, List.length_replicate, List.drop_replicate]
    at h
  rw [h, foldl_sorted_ins_eq, List.Sorted.insertionSort_eq (sorted_replicate 129 (-1))]
  simp only [Nat.zero_add, List.length_replicate, insert_all, insert_sample]
  have g0 : (List.replicate 129 (-1 : ℚ) ++ List.replicate (130 - 129) 0).getD 0 0 = -1 :=
    getD_replicate_append 129 (-1) _ 0 0 (by norm_num)
  have f : find_slot (List.replicate 129 (-1 : ℚ) ++ List.replicate (130 - 129) 0) 129 (-3)
      (129 + 1) 0 = 0 := by
    unfold find_slot
    rw [g0]
    norm_num
  rw [f]
  have t : ¬ (toInt8 (toInt8 ((129 : ℕ) : ℤ) - 1) ≥ ((0 : ℕ) : ℤ)) := by
    unfold toInt8
    norm_num
  unfold shift_items
  simp only [t, if_false]
  rw [show List.replicate 129 (-1 : ℚ) = -1 :: List.replicate 128 (-1) from rfl,
    show List.replicate (130 - 129) (0 : ℚ) = [0] from rfl, List.cons_append,
    List.set_cons_zero]

theorem getD_negs (k : ℕ) (h1 : 1 ≤ k) (h2 : k ≤ 128) :
    (-3 :: (List.replicate 128 (-1 : ℚ) ++ [0])).getD k 0 = -1 := by
  obtain ⟨j, rfl⟩ : ∃ j, k = j + 1 := ⟨k - 1, by omega⟩
  rw [List.getD_cons_succ]
  exact getD_replicate_append 128 (-1) _ j 0 (by omega)

theorem trimmed_negs :
    trimmed_mean (sampleConfigN 129 1) (-3 :: (List.replicate 128 (-1) ++ [0]))
      = -128 / 129 := by
  have hT : (sampleConfigN 129 1).TOTAL_PROBING = 130 := rfl
  have hK : (sampleConfigN 129 1).EXTRA_PROBING = 1 := rfl
  have hM : (sampleConfigN 129 1).MULTIPLE_PROBING = 129 := rfl
  have m : probes_median (sampleConfigN 129 1) (-3 :: (List.replicate 128 (-1) ++ [0]))
      = -1 := by
    unfold probes_median
    simp only [hT]
    rw [show (130 - 1) / 2 = 64 from rfl, getD_negs 64 (by norm_num) (by norm_num),
      getD_negs (64 + 1) (by norm_num) (by norm_num)]
    norm_num
  have g129 : (-3 :: (List.replicate 128 (-1 : ℚ) ++ [0])).getD 129 0 = 0 := by
    rw [List.getD_cons_succ]
    exact getD_replicate_append_length 128 (-1) 0 [] 0
  have u1 : toUInt8 ((1 : ℕ) : ℤ) = 1 := by decide
  have u2 : toUInt8 (((130 : ℕ) : ℤ) - 1) = 129 := by decide
  have u3 : toUInt8 (((0 : ℕ) : ℤ) + 1) = 1 := by decide
  have tl : trim_loop (-3 :: (List.replicate 128 (-1) ++ [0])) (-1) 1 0 129 = (1, 129) := by
    unfold trim_loop
    rw [g129, List.getD_cons_zero, u3]
    norm_num [ABS, trim_loop]
  unfold trimmed_mean
  simp only [m, hT, hK, hM, u1, u2, tl]
  rw [sum_range_eq]
  unfold window RECIPROCAL
  rw [List.drop_one, List.tail_cons, show 129 + 1 - 1 = 129 from rfl,
    List.take_of_length_le (by rw [List.length_append, List.length_replicate]; norm_num),
    List.sum_append, List.sum_replicate]
  norm_num

theorem within_range_mean (l : List ℚ) (h : l ≠ []) :
    within_range l (l.sum / (l.length : ℚ)) := by
  have hl : (0 : ℚ) < (l.length : ℚ) := by
    have : 0 < l.length := List.length_pos.mpr h
    exact_mod_cast this
  have e : (l.map (fun _ => l.sum / (l.length : ℚ))).sum = l.sum := by
    rw [List.map_const', List.sum_replicate, nsmul_eq_mul]
    field_simp
  constructor
  · have := List.exists_le_of_sum_le h (fun x => x) (fun _ => l.sum / (l.length : ℚ))
      (by rw [e]; simp)
    exact this
  · have := List.exists_le_of_sum_le h (fun _ => l.sum / (l.length : ℚ)) (fun x => x)
      (by rw [e]; simp)
    exact this

theorem within_range_mono (l m : List ℚ) (v : ℚ) (h : ∀ x ∈ l, x ∈ m)
    (w : within_range l v) : within_range m v := by
  obtain ⟨⟨a, ha, ha'⟩, ⟨b, hb, hb'⟩⟩ := w
  exact ⟨⟨a, h a ha, ha'⟩, ⟨b, h b hb, hb'⟩⟩

theorem within_range_single (z : ℚ) : within_range [z] z :=
  ⟨⟨z, by simp, le_refl z⟩, ⟨z, by simp, le_refl z⟩⟩

theorem within_range_weighted (f z : ℚ) : within_range [f, z] ((z * 3 + f * 2) / 5) := by
  unfold within_range
  rcases le_total f z with h | h
  · refine ⟨⟨f, by simp, ?_⟩, ⟨z, by simp, ?_⟩⟩
    · rw [le_div_iff (by norm_num)]; linarith
    · rw [div_le_iff (by norm_num)]; linarith
  · refine ⟨⟨z, by simp, ?_⟩, ⟨f, by simp, ?_⟩⟩
    · rw [le_div_iff (by norm_num)]; linarith
    · rw [div_le_iff (by norm_num)]; linarith

theorem within_range_slow (f z : ℚ) : within_range [f, z] z :=
  ⟨⟨z, by simp, le_refl z⟩, ⟨z, by simp, le_refl z⟩⟩

theorem spec_retained_subset (K : ℕ) (samples : List ℚ) (hK : K ≤ samples.length) :
    ∀ x ∈ spec_retained K samples, x ∈ samples := by
  obtain ⟨-, removed, -, p, -⟩ := spec_trim_spec (spec_median samples) K
    (samples.insertionSort (· ≤ ·)) (List.sorted_insertionSort _ _)
    (by rw [List.length_insertionSort]; exact hK)
  intro x hx
  have h1 : x ∈ spec_retained K samples ++ removed := List.mem_append_left _ hx
  have h2 := p.subset h1
  exact (List.perm_insertionSort _ _).subset h2

theorem spec_retained_ne_nil (K : ℕ) (samples : List ℚ) (hK : K < samples.length) :
    spec_retained K samples ≠ [] := by
  obtain ⟨l, -⟩ := spec_trim_spec (spec_median samples) K
    (samples.insertionSort (· ≤ ·)) (List.sorted_insertionSort _ _)
    (by rw [List.length_insertionSort]; omega)
  rw [List.length_insertionSort] at l
  intro h
  unfold spec_retained at h
  rw [h] at l
  simp at l
  omega

theorem mem_resolved (env : Env) (d n j : ℕ) (h : j < n) :
    (env.descent (d + j)).stepper_z ∈ resolved env d n := by
  unfold resolved
  exact List.mem_map.mpr ⟨j, List.mem_range.mpr h, rfl⟩

theorem resolved_add (env : Env) (d a b : ℕ) :
    resolved env d (a + b) = resolved env d a ++ resolved env (d + a) b := by
  induction a generalizing d with
  | zero => simp [resolved]
  | succ a ih =>
    rw [show a + 1 + b = (a + b) + 1 by omega, resolved_succ, resolved_succ, ih (d + 1),
      show d + 1 + a = d + (a + 1) by omega]
    rfl

/-- The retry loop entered at `try_again = k ≤ 4` with `insert_count = 2 * k`
when every descent it may make is accepted: the loop is left by `break` at
some `try_again = k1`, after `2 * (k1 - k) + 1` descents whose samples have
been written to `buff_insert` in order; the last sample is the current Z, and
`first_probe_z` is the fast sample before it (the one the loop was entered
with if no retry was made). -/
theorem detect_times_loop_ok (cfg : Config) (env : Env) (sc : Bool) (zl : ℚ) :
    ∀ (fuel k : ℕ) (f : ℚ) (s : Machine), k ≤ 4 → 5 ≤ k + fuel →
      s.buff_insert.length = 12 →
      (∀ i, i < 9 - 2 * k →
        rejected cfg sc s.offset.z
          (if i % 2 = 0 then cfg.Z_CLEARANCE_MULTI_PROBE else cfg.Z_CLEARANCE_BETWEEN_PROBES)
          (env.descent (s.descents + i)) = false) →
      ∃ (m : ℕ) (f1 : ℚ) (s1 : Machine), k + m ≤ 4
        ∧ detect_times_loop cfg env sc zl fuel k (2 * k) f s
            = (Except.ok (k + m, 2 * (k + m) + 1, f1), s1)
        ∧ s1.buff_insert.take (2 * (k + m) + 2)
            = s.buff_insert.take (2 * k + 1) ++ resolved env s.descents (2 * m + 1)
        ∧ s1.buff_insert.length = 12
        ∧ s1.descents = s.descents + (2 * m + 1)
        ∧ s1.current_position.z = (env.descent (s.descents + 2 * m)).stepper_z
        ∧ (f1 = f ∨ f1 ∈ resolved env s.descents (2 * m + 1)) := by
  intro fuel
  induction fuel with
  | zero => intro k f s hk hf; omega
  | succ fuel ih =>
    intro k f s hk hf hlen hacc
    have h4 : ¬ k > 4 := by omega
    have u1 : toUInt8 (((2 * k : ℕ) : ℤ) + 1) = 2 * k + 1 := by unfold toUInt8; omega
    have u2 : toUInt8 (((2 * k + 1 : ℕ) : ℤ) + 1) = 2 * (k + 1) := by unfold toUInt8; omega
    have a0 := hacc 0 (by omega)
    simp only [Nat.zero_mod, if_true, Nat.add_zero] at a0
    have hs := try_to_probe_sample cfg env zl (MMM_TO_MMS cfg.Z_PROBE_FEEDRATE_SLOW) sc
      cfg.Z_CLEARANCE_MULTI_PROBE s a0
    rw [detect_times_loop]
    simp only [h4, if_false, u1, u2]
    generalize try_to_probe cfg env zl (MMM_TO_MMS cfg.Z_PROBE_FEEDRATE_SLOW) sc
      cfg.Z_CLEARANCE_MULTI_PROBE (probe_start cfg s) = R at hs ⊢
    obtain ⟨r1, r2⟩ := R
    simp only [] at hs ⊢
    obtain ⟨h1, hz, hd, ho, hb⟩ := hs
    subst h1
    simp only [Bool.false_eq_true, if_false, hz]
    by_cases hbr : (decide (ABS (f - (env.descent s.descents).stepper_z)
        < cfg.Z_PROBE_DETECTION_DEVIATION) || decide (k ≥ 4)) = true
    · simp only [hbr, if_true]
      refine ⟨0, f, _, by omega, rfl, ?_, by simp [hb, hlen], by simp [hd], by simp [hz],
        Or.inl rfl⟩
      simp only [set_buff_buff_insert, hb, Nat.add_zero, Nat.mul_zero, Nat.zero_add]
      have e := take_set_last s.buff_insert (2 * k + 1) (env.descent s.descents).stepper_z
        (by omega)
      have r1 : resolved env s.descents 1 = [(env.descent s.descents).stepper_z] := by
        simp [resolved, List.range_succ]
      rw [r1]
      exact e
    · have hk3 : k < 4 := by
        by_contra hc
        apply hbr
        simp only [Bool.or_eq_true, decide_eq_true_eq]
        right; omega
      simp only [hbr, Bool.false_eq_true, if_false]
      generalize hT : do_blocking_move_to_xy _ _ _ _ = T
      have hTd : T.descents = s.descents + 1 := by rw [← hT]; simp [hd]
      have hTo : T.offset = s.offset := by rw [← hT]; simp [ho]
      have hTb : T.buff_insert = s.buff_insert.set (2 * k + 1) (env.descent s.descents).stepper_z := by
        rw [← hT]; simp [hb]
      have a1 := hacc 1 (by omega)
      simp only [show (1 : ℕ) % 2 ≠ 0 by decide, if_false] at a1
      rw [← hTd, ← hTo] at a1
      have hq := try_to_probe_sample cfg env zl cfg.z_probe_fast_mm_s sc
        cfg.Z_CLEARANCE_BETWEEN_PROBES T a1
      generalize try_to_probe cfg env zl cfg.z_probe_fast_mm_s sc
        cfg.Z_CLEARANCE_BETWEEN_PROBES (probe_start cfg T) = Q at hq ⊢
      obtain ⟨q1, q2⟩ := Q
      simp only [] at hq ⊢
      obtain ⟨g1, gz, gd, go, gb⟩ := hq
      subst g1
      simp only [Bool.false_eq_true, if_false, gz]
      generalize hS : do_blocking_move_to_z _ _ _ = S7
      have hSd : S7.descents = s.descents + 2 := by rw [← hS]; simp [gd, hTd]
      have hSo : S7.offset = s.offset := by rw [← hS]; simp [go, hTo]
      have hSb : S7.buff_insert
          = (s.buff_insert.set (2 * k + 1) (env.descent s.descents).stepper_z).set
              (2 * k + 1 + 1) (env.descent (s.descents + 1)).stepper_z := by
        rw [← hS]; simp [gb, hTb, hTd]; rfl
      obtain ⟨m, f1, s1, e0, e1, e2, e3, e4, e5, e6⟩ :=
        ih (k + 1) (env.descent T.descents).stepper_z S7
          (by omega) (by omega) (by rw [hSb]; simp [hlen])
          (by
            intro i hi
            have := hacc (i + 2) (by omega)
            rw [hSo, hSd]
            have e : (i + 2) % 2 = i % 2 := by omega
            rw [e] at this
            rw [show s.descents + 2 + i = s.descents + (i + 2) by omega]
            exact this)
      rw [e1]
      have r : resolved env s.descents (2 * (m + 1) + 1)
          = (env.descent s.descents).stepper_z :: (env.descent (s.descents + 1)).stepper_z
            :: resolved env (s.descents + 2) (2 * m + 1) := by
        rw [show 2 * (m + 1) + 1 = (2 * m + 1) + 1 + 1 by omega, resolved_succ, resolved_succ]
      refine ⟨m + 1, f1, s1, by omega, ?_, ?_, e3, by rw [e4, hSd]; omega, ?_, ?_⟩
      · rw [show k + (m + 1) = k + 1 + m by omega]
      · rw [show k + (m + 1) = k + 1 + m by omega, e2, hSb, hSd]
        have t := take_set_set s.buff_insert (2 * k + 1) (env.descent s.descents).stepper_z
          (env.descent (s.descents + 1)).stepper_z (by omega)
        rw [show 2 * (k + 1) + 1 = 2 * k + 1 + 1 + 1 by omega, t, r]
        simp
      · rw [e5, hSd]
        congr 2
        omega
      · right
        rw [r]
        rcases e6 with h | h
        · rw [h, hTd]
          simp
        · rw [hSd] at h
          exact List.mem_cons_of_mem _ (List.mem_cons_of_mem _ h)

theorem detect_times_finish_early (k c : ℕ) (hk : k < 4) (f1 : ℚ) (s1 : Machine) :
    detect_times_finish (Except.ok (k, c, f1), s1)
      = (Except.ok f1, { s1 with buff_insert := insertion_sort s1.buff_insert (c + 1) }) := by
  have h : ¬ k ≥ 4 := by omega
  simp only [detect_times_finish, h, if_false]

theorem detect_times_finish_mean (f1 : ℚ) (s1 : Machine) (samples : List ℚ)
    (hl : s1.buff_insert.length = 12) (h : s1.buff_insert.take 10 = samples) :
    (detect_times_finish (Except.ok (4, 9, f1), s1)).1
        = Except.error (some ((((samples.insertionSort (· ≤ ·)).drop 2).take 6).sum / 6))
      ∧ (detect_times_finish (Except.ok (4, 9, f1), s1)).2.descents = s1.descents := by
  have hs := insertion_sort_take s1.buff_insert 10 (by omega) (by omega)
  rw [h] at hs
  rw [detect_times_finish_exhausted 4 9 (le_refl _) (by omega)]
  simp only [show (9 + 1 : ℕ) = 10 from rfl]
  refine ⟨?_, by trivial⟩
  rw [sum_range_eq]
  unfold window RECIPROCAL
  have d : ((insertion_sort s1.buff_insert 10).drop 2).take (9 - 2 + 1 - 2)
      = (((insertion_sort s1.buff_insert 10).take 10).drop 2).take 6 := by
    rw [List.drop_take, List.take_take]
    congr 1
  rw [d, hs]
  generalize (((samples.insertionSort (· ≤ ·)).drop 2).take 6).sum = v
  have e : v * (1 / ((((9 : ℕ) : ℤ) - 3 : ℤ) : ℚ)) = v / 6 := by
    norm_num
    ring
  simp only [e]

theorem within_range_sorted_middle (samples : List ℚ) (h : samples.length = 10) :
    within_range samples
      ((((samples.insertionSort (· ≤ ·)).drop 2).take 6).sum / 6) := by
  have hl : (samples.insertionSort (· ≤ ·)).length = 10 := by
    rw [List.length_insertionSort, h]
  have hne : (((samples.insertionSort (· ≤ ·)).drop 2).take 6) ≠ [] := by
    intro h
    have := congrArg List.length h
    rw [List.length_take, List.length_drop, hl] at this
    simp at this
  have w := within_range_mean _ hne
  have h6 : (((samples.insertionSort (· ≤ ·)).drop 2).take 6).length = 6 := by
    rw [List.length_take, List.length_drop, hl]
    rfl
  rw [h6] at w
  refine within_range_mono _ _ _ ?_ (by exact_mod_cast w)
  intro x hx
  have h1 := List.mem_of_mem_take hx
  have h2' := List.mem_of_mem_drop h1
  exact (List.perm_insertionSort _ _).subset h2'

/-- The double-probe policy with the retry block of
`ANKER_PROBE_DETECT_TIMES` when every descent it may make is accepted:
`run_z_probe` returns a value after an even number `n ≤ 10` of descents, and
the value is at least the smallest and at most the largest of the `n`
samples. -/
theorem run_z_probe_retry_range (cfg : Config) (env : Env) (sc : Bool) (s : Machine)
    (h2 : cfg.TOTAL_PROBING = 2) (hD : cfg.ANKER_PROBE_DETECT_TIMES = true)
    (hlen : s.buff_insert.length = 12)
    (hacc : ∀ i, i < 10 →
      rejected cfg sc s.offset.z
        (if i % 2 = 0 then cfg.Z_CLEARANCE_BETWEEN_PROBES else cfg.Z_CLEARANCE_MULTI_PROBE)
        (env.descent (s.descents + i)) = false) :
    ∃ (v : ℚ) (n : ℕ), 2 ≤ n ∧ n ≤ 10
      ∧ (run_z_probe cfg env sc s).1 = some v
      ∧ (run_z_probe cfg env sc s).2.descents = s.descents + n
      ∧ within_range (resolved env s.descents n) v := by
  have a0 := hacc 0 (by omega)
  simp only [Nat.zero_mod, if_true, Nat.add_zero] at a0
  obtain ⟨f1, f2, f3⟩ := double_probe_first_ok cfg env sc (z_probe_low_point cfg s) s a0
  have f4 := double_probe_first_buff_insert cfg env sc (z_probe_low_point cfg s) s
  have hA : detect_times_active cfg (some (env.descent s.descents).stepper_z) = true := by
    simp [detect_times_active, hD]
  have t1 := tare_if_descents cfg.PROBE_TARE
    (double_probe_first cfg env sc (z_probe_low_point cfg s) s).2
  have t2 := tare_if_offset cfg.PROBE_TARE
    (double_probe_first cfg env sc (z_probe_low_point cfg s) s).2
  have t3 := tare_if_buff_insert cfg.PROBE_TARE
    (double_probe_first cfg env sc (z_probe_low_point cfg s) s).2
  have e := slow_probe_eq cfg env sc (z_probe_low_point cfg s)
    (some (env.descent s.descents).stepper_z)
    (double_probe_first cfg env sc (z_probe_low_point cfg s) s).2
  generalize (if cfg.PROBE_TARE then
    (tare (double_probe_first cfg env sc (z_probe_low_point cfg s) s).2).2
    else (double_probe_first cfg env sc (z_probe_low_point cfg s) s).2) = t at t1 t2 t3 e
  rw [f3] at t1
  rw [f2] at t2
  rw [f4] at t3
  obtain ⟨m, g, st, m4, l1, l2, l3, l4, l5, l6⟩ := detect_times_loop_ok cfg env sc
    (z_probe_low_point cfg s) 6 0 (env.descent s.descents).stepper_z
    (t.set_buff 0 (env.descent s.descents).stepper_z) (by omega) (by omega)
    (by simp [t3, hlen])
    (by
      intro i hi
      have := hacc (i + 1) (by omega)
      simp only [set_buff_offset, set_buff_descents]
      rw [t1, t2, show s.descents + 1 + i = s.descents + (i + 1) by omega]
      have p : ((i + 1) % 2 = 0) ↔ ¬ (i % 2 = 0) := by omega
      by_cases hp : i % 2 = 0
      · simp only [hp, if_true]
        simp only [p.not.mpr (not_not.mpr hp), if_false] at this
        exact this
      · simp only [hp, if_false]
        simp only [p.mpr hp, if_true] at this
        exact this)
  simp only [Nat.mul_zero, Nat.zero_add, set_buff_buff_insert, set_buff_descents, t1] at l1 l2 l4 l5 l6
  have t0 : (t.buff_insert.set 0 (env.descent s.descents).stepper_z).take 1
      = [(env.descent s.descents).stepper_z] := by
    have := take_set_last t.buff_insert 0 (env.descent s.descents).stepper_z
      (by rw [t3, hlen]; omega)
    simpa using this
  rw [t0, List.singleton_append, ← resolved_succ] at l2
  have hg : g ∈ resolved env s.descents (2 * m + 1 + 1) := by
    rw [resolved_succ]
    rcases l6 with h | h
    · rw [h]; simp
    · exact List.mem_cons_of_mem _ h
  have hz : st.current_position.z ∈ resolved env s.descents (2 * m + 1 + 1) := by
    rw [l5, show s.descents + 1 + 2 * m = s.descents + (2 * m + 1) by omega]
    exact mem_resolved env s.descents _ _ (by omega)
  have e2 : slow_attempt cfg env sc (z_probe_low_point cfg s)
      (some (env.descent s.descents).stepper_z) t
      = detect_times_probe cfg env sc (z_probe_low_point cfg s)
          (env.descent s.descents).stepper_z t := by
    unfold slow_attempt
    simp only [hA, if_true, Option.getD_some]
  rw [e2] at e
  unfold detect_times_probe at e
  rw [l1] at e
  by_cases hm : m = 4
  · subst hm
    obtain ⟨x1, x2⟩ := detect_times_finish_mean g st (resolved env s.descents 10) l3 l2
    rw [slow_finish_error cfg _ _ x1] at e
    refine ⟨_, 10, by omega, by omega, ?_, ?_, within_range_sorted_middle _ (resolved_length _ _ _)⟩
    · unfold run_z_probe
      simp only [h2, if_true]
      rw [pair_of_fst _ _ f1]
      simp only []
      rw [e]
    · unfold run_z_probe
      simp only [h2, if_true]
      rw [pair_of_fst _ _ f1]
      simp only []
      rw [e]
      simp only []
      rw [x2, l4]
  · have hm3 : m < 4 := by omega
    rw [detect_times_finish_early m (2 * m + 1) hm3] at e
    obtain ⟨y1, y2⟩ := slow_finish_ok cfg
      (Except.ok g, { st with buff_insert := insertion_sort st.buff_insert (2 * m + 1 + 1) })
      g rfl
    rw [← e] at y1 y2
    have yz := congrArg Core.current_position y2
    have yd := congrArg Core.descents y2
    simp only [Machine.core] at yz yd
    have hv : within_range (resolved env s.descents (2 * m + 1 + 1))
        (if cfg.ANKER_PROBE_SET then st.current_position.z
          else (st.current_position.z * 3.0 + g * 2.0) * 0.2) := by
      have hsub : ∀ x ∈ [g, st.current_position.z],
          x ∈ resolved env s.descents (2 * m + 1 + 1) := by
        intro x hx
        rcases List.mem_cons.mp hx with h | h
        · rw [h]; exact hg
        · rw [List.mem_singleton.mp h]; exact hz
      apply within_range_mono _ _ _ hsub
      split_ifs
      · exact within_range_slow _ _
      · have ev : (st.current_position.z * 3.0 + g * 2.0) * 0.2
            = (st.current_position.z * 3 + g * 2) / 5 := by
          norm_num
          ring
        rw [ev]
        exact within_range_weighted _ _
    refine ⟨_, 2 * m + 1 + 1, by omega, by omega, ?_, ?_, hv⟩
    · unfold run_z_probe
      simp only [h2, if_true]
      rw [pair_of_fst _ _ f1]
      simp only []
      rw [pair_of_fst _ _ y1]
      simp only [yz]
      split_ifs <;> rfl
    · unfold run_z_probe
      simp only [h2, if_true]
      rw [pair_of_fst _ _ f1]
      simp only []
      rw [pair_of_fst _ _ y1]
      simp only []
      split_ifs <;> (simp only [yd]; rw [l4]; omega)

theorem run_z_probe_plain_value (cfg : Config) (env : Env) (sc : Bool) (s : Machine)
    (hN : 2 < cfg.TOTAL_PROBING) (hN255 : cfg.TOTAL_PROBING ≤ 255)
    (hK : cfg.EXTRA_PROBING = 0)
    (hok : ∀ k, k < cfg.TOTAL_PROBING →
      rejected cfg sc s.offset.z cfg.Z_CLEARANCE_MULTI_PROBE
        (env.descent ((loop_entry cfg env s).descents + k)) = false) :
    (run_z_probe cfg env sc s).1
        = some ((resolved env (loop_entry cfg env s).descents cfg.TOTAL_PROBING).sum
            / (cfg.TOTAL_PROBING : ℚ)) := by
  have hM : cfg.MULTIPLE_PROBING = cfg.TOTAL_PROBING := by
    unfold Config.TOTAL_PROBING; omega
  obtain ⟨r1, r2, -⟩ := plain_loop_ok cfg env sc (z_probe_low_point cfg s) s.offset.z
    cfg.TOTAL_PROBING 0 (loop_entry cfg env s) (by simp) hok
  have e := pair_of_fst _ _ r1
  unfold run_z_probe
  simp only [show ¬ cfg.TOTAL_PROBING = 2 by omega, if_false, gt_iff_lt, hN, if_true, hK,
    lt_irrefl, toUInt8_of_le _ hN255]
  rw [e]
  simp only [hM, RECIPROCAL, zero_add]
  congr 1
  push_cast
  ring

/-- C25 (amended).  Range of the estimate of `run_z_probe` when all descents
are accepted, in exact rational arithmetic.  Single probe: the value is the
sample.  Double probe without `ANKER_PROBE_DETECT_TIMES`: the value lies
between the fast and the slow sample.  Mean of `N` samples, `2 < N ≤ 255`: the
value is at least the smallest and at most the largest of the `N` samples.
Trimmed mean, `2 < T ≤ 129`: the value is at least the smallest and at most
the largest of the retained samples, hence of all `T` samples.  Double probe
with the retry block of `ANKER_PROBE_DETECT_TIMES` (12-element `buff_insert`):
a value is returned after an even number `n ≤ 10` of descents and is at least
the smallest and at most the largest of the `n` samples. -/
theorem run_z_probe_range (cfg : Config) (env : Env) (sc : Bool) (s : Machine) :
    (cfg.TOTAL_PROBING = 1 →
        rejected cfg sc s.offset.z cfg.Z_CLEARANCE_MULTI_PROBE
          (env.descent (loop_entry cfg env s).descents) = false →
        ∃ v, (run_z_probe cfg env sc s).1 = some v
          ∧ within_range [(env.descent (loop_entry cfg env s).descents).stepper_z] v)
      ∧ (cfg.TOTAL_PROBING = 2 → cfg.ANKER_PROBE_DETECT_TIMES = false →
        rejected cfg sc s.offset.z cfg.Z_CLEARANCE_BETWEEN_PROBES
          (env.descent s.descents) = false →
        rejected cfg sc s.offset.z cfg.Z_CLEARANCE_MULTI_PROBE
          (env.descent (s.descents + 1)) = false →
        ∃ v, (run_z_probe cfg env sc s).1 = some v
          ∧ within_range [(env.descent s.descents).stepper_z,
              (env.descent (s.descents + 1)).stepper_z] v)
      ∧ (2 < cfg.TOTAL_PROBING → cfg.TOTAL_PROBING ≤ 255 → cfg.EXTRA_PROBING = 0 →
        (∀ k, k < cfg.TOTAL_PROBING →
          rejected cfg sc s.offset.z cfg.Z_CLEARANCE_MULTI_PROBE
            (env.descent ((loop_entry cfg env s).descents + k)) = false) →
        ∃ v, (run_z_probe cfg env sc s).1 = some v
          ∧ within_range (resolved env (loop_entry cfg env s).descents cfg.TOTAL_PROBING) v)
      ∧ (2 < cfg.TOTAL_PROBING → cfg.TOTAL_PROBING ≤ 129 → 0 < cfg.EXTRA_PROBING →
        cfg.EXTRA_PROBING < cfg.TOTAL_PROBING →
        (∀ k, k < cfg.TOTAL_PROBING →
          rejected cfg sc s.offset.z cfg.Z_CLEARANCE_MULTI_PROBE
            (env.descent ((loop_entry cfg env s).descents + k)) = false) →
        ∃ v, (run_z_probe cfg env sc s).1 = some v
          ∧ within_range (spec_retained cfg.EXTRA_PROBING
              (resolved env (loop_entry cfg env s).descents cfg.TOTAL_PROBING)) v
          ∧ within_range (resolved env (loop_entry cfg env s).descents cfg.TOTAL_PROBING) v)
      ∧ (cfg.TOTAL_PROBING = 2 → cfg.ANKER_PROBE_DETECT_TIMES = true →
        s.buff_insert.length = 12 →
        (∀ i, i < 10 →
          rejected cfg sc s.offset.z
            (if i % 2 = 0 then cfg.Z_CLEARANCE_BETWEEN_PROBES
              else cfg.Z_CLEARANCE_MULTI_PROBE)
            (env.descent (s.descents + i)) = false) →
        ∃ (v : ℚ) (n : ℕ), 2 ≤ n ∧ n ≤ 10
          ∧ (run_z_probe cfg env sc s).1 = some v
          ∧ (run_z_probe cfg env sc s).2.descents = s.descents + n
          ∧ within_range (resolved env s.descents n) v) := by
  refine ⟨?_, ?_, ?_, ?_, ?_⟩
  · intro h1 hok
    exact ⟨_, run_z_probe_single_value cfg env sc s h1 hok, within_range_single _⟩
  · intro h2 hD hfast hslow
    have e := run_z_probe_double_value cfg env sc s h2 hD hfast hslow
    by_cases hA : cfg.ANKER_PROBE_SET = true
    · rw [if_pos hA] at e
      exact ⟨_, e, within_range_slow _ _⟩
    · rw [if_neg hA] at e
      exact ⟨_, e, within_range_weighted _ _⟩
  · intro hN hN255 hK hok
    refine ⟨_, run_z_probe_plain_value cfg env sc s hN hN255 hK hok, ?_⟩
    have w := within_range_mean (resolved env (loop_entry cfg env s).descents cfg.TOTAL_PROBING)
      (by
        intro h
        have := congrArg List.length h
        rw [resolved_length] at this
        simp at this
        omega)
    rw [resolved_length] at w
    exact w
  · intro hT hT129 hK hKT hok
    refine ⟨_, run_z_probe_trimmed_value cfg env sc s hT hT129 hK hKT hok, ?_⟩
    have w := within_range_mean (spec_retained cfg.EXTRA_PROBING
      (resolved env (loop_entry cfg env s).descents cfg.TOTAL_PROBING))
      (spec_retained_ne_nil _ _ (by rw [resolved_length]; exact hKT))
    refine ⟨w, within_range_mono _ _ _ ?_ w⟩
    exact spec_retained_subset _ _ (by rw [resolved_length]; omega)
  · intro h2 hD hlen hacc
    exact run_z_probe_retry_range cfg env sc s h2 hD hlen hacc

/-- C25, worked examples, one for each policy.  Single probe resolving 5/2;
fast sample 1 and slow sample 4/5; the three samples 2, 3, 4; the five samples
2.01, 2.00, 1.98, 2.50, 2.02 with two trimmed; the samples
1, 2, 3, 4, 5, 6, 5, 4, 3, 2 under the retry block. -/
theorem run_z_probe_range_witness :
    (∃ v, (run_z_probe sampleConfig (sampleEnv [5 / 2] 0) true sampleMachine).1 = some v
        ∧ within_range
          [((sampleEnv [5 / 2] 0).descent
            (loop_entry sampleConfig (sampleEnv [5 / 2] 0) sampleMachine).descents).stepper_z]
          v)
      ∧ (∃ v, (run_z_probe (sampleConfigN 2 0) (sampleEnv [1, 4 / 5] 0) true sampleMachine).1
          = some v
        ∧ within_range [((sampleEnv [1, 4 / 5] 0).descent sampleMachine.descents).stepper_z,
            ((sampleEnv [1, 4 / 5] 0).descent (sampleMachine.descents + 1)).stepper_z] v)
      ∧ (∃ v, (run_z_probe (sampleConfigN 3 0) (sampleEnv [2, 3, 4] 0) true sampleMachine).1
          = some v
        ∧ within_range (resolved (sampleEnv [2, 3, 4] 0)
            (loop_entry (sampleConfigN 3 0) (sampleEnv [2, 3, 4] 0) sampleMachine).descents
            (sampleConfigN 3 0).TOTAL_PROBING) v)
      ∧ (∃ v, (run_z_probe (sampleConfigN 3 2)
            (sampleEnv [201 / 100, 2, 99 / 50, 5 / 2, 101 / 50] 0) true sampleMachine).1
          = some v
        ∧ within_range (resolved (sampleEnv [201 / 100, 2, 99 / 50, 5 / 2, 101 / 50] 0)
            (loop_entry (sampleConfigN 3 2)
              (sampleEnv [201 / 100, 2, 99 / 50, 5 / 2, 101 / 50] 0) sampleMachine).descents
            (sampleConfigN 3 2).TOTAL_PROBING) v)
      ∧ (∃ (v : ℚ) (n : ℕ), 2 ≤ n ∧ n ≤ 10
        ∧ (run_z_probe retryConfig (sampleEnv [1, 2, 3, 4, 5, 6, 5, 4, 3, 2] 0) true
            sampleMachine).1 = some v
        ∧ (run_z_probe retryConfig (sampleEnv [1, 2, 3, 4, 5, 6, 5, 4, 3, 2] 0) true
            sampleMachine).2.descents = sampleMachine.descents + n
        ∧ within_range (resolved (sampleEnv [1, 2, 3, 4, 5, 6, 5, 4, 3, 2] 0)
            sampleMachine.descents n) v) := by
  refine ⟨?_, ?_, ?_, ?_, ?_⟩
  · exact (run_z_probe_range sampleConfig (sampleEnv [5 / 2] 0) true sampleMachine).1
      (by decide)
      (by
        apply sampleEnv_rejected _ rfl rfl rfl
        rw [sample_loop_entry _ _ rfl]
        norm_num [sampleMachine, sampleConfig])
  · exact (run_z_probe_range (sampleConfigN 2 0) (sampleEnv [1, 4 / 5] 0) true
      sampleMachine).2.1 (by decide) rfl (sample_double_accepted _ rfl rfl rfl _ rfl _)
      (sample_double_accepted _ rfl rfl rfl _ rfl _)
  · exact (run_z_probe_range (sampleConfigN 3 0) (sampleEnv [2, 3, 4] 0) true
      sampleMachine).2.2.1 (by decide) (by decide) rfl
      (by
        intro k hk
        apply sampleEnv_rejected _ rfl rfl rfl
        have hk3 : k < 3 := hk
        rw [sample_loop_entry _ _ rfl]
        interval_cases k <;> norm_num [sampleMachine, sampleConfigN, sampleConfig])
  · obtain ⟨v, h1, -, h3⟩ := (run_z_probe_range (sampleConfigN 3 2)
      (sampleEnv [201 / 100, 2, 99 / 50, 5 / 2, 101 / 50] 0) true
      sampleMachine).2.2.2.1 (by decide) (by decide) (by decide) (by decide)
      (by
        intro k hk
        apply sampleEnv_rejected _ rfl rfl rfl
        have hk5 : k < 5 := hk
        rw [sample_loop_entry _ _ rfl]
        interval_cases k <;> norm_num [sampleMachine, sampleConfigN, sampleConfig])
    exact ⟨v, h1, h3⟩
  · exact (run_z_probe_range retryConfig (sampleEnv [1, 2, 3, 4, 5, 6, 5, 4, 3, 2] 0) true
      sampleMachine).2.2.2.2 (by decide) rfl (by decide)
      (fun i _ => retry_samples_accepted i)

/-- C25 as stated fails beyond the range of the loop counters.  With
`TOTAL_PROBING = 257` and no extra probes the `uint8_t` counter starts at
`257 mod 256 = 1`: one descent is made, it resolves Z = 2, and the value
returned is 2/257, below the sample.  With `TOTAL_PROBING = 130` and one extra
probe, 129 samples at Z = -1 followed by one at Z = -3 (and `probes[129]`
holding 0 when declared) give -128/129, above every sample. -/
theorem run_z_probe_range_counterexample :
    (run_z_probe (sampleConfigN 257 0) (sampleEnv [] 2) true sampleMachine).1
        = some (2 / 257)
      ∧ (run_z_probe (sampleConfigN 257 0) (sampleEnv [] 2) true sampleMachine).2.descents = 1
      ∧ (∀ k, ((sampleEnv [] 2).descent k).stepper_z = 2)
      ∧ (2 : ℚ) / 257 < 2
      ∧ (run_z_probe (sampleConfigN 129 1) (sampleEnv (List.replicate 129 (-1)) (-3)) true
          sampleMachine).1 = some (-128 / 129)
      ∧ (∀ k, ((sampleEnv (List.replicate 129 (-1)) (-3)).descent k).stepper_z ≤ -1)
      ∧ (-1 : ℚ) < -128 / 129 := by
  have hok : ∀ k, k < (sampleConfigN 129 1).TOTAL_PROBING →
      rejected (sampleConfigN 129 1) true sampleMachine.offset.z
        (sampleConfigN 129 1).Z_CLEARANCE_MULTI_PROBE
        ((sampleEnv (List.replicate 129 (-1)) (-3)).descent
          ((loop_entry (sampleConfigN 129 1) (sampleEnv (List.replicate 129 (-1)) (-3))
            sampleMachine).descents + k)) = false := by
    intro k _
    apply sampleEnv_rejected _ rfl rfl rfl
    have h7 : -sampleMachine.offset.z + (sampleConfigN 129 1).Z_CLEARANCE_MULTI_PROBE = 7 := by
      norm_num [sampleMachine, sampleConfigN, sampleConfig]
    rw [h7, sample_loop_entry _ _ rfl, show sampleMachine.descents = 0 from rfl, Nat.zero_add]
    by_cases hk : k < 129
    · have := getD_replicate_append 129 (-1) [] k (-3) hk
      rw [List.append_nil] at this
      rw [this]; norm_num
    · rw [List.getD_eq_default _ _ (by rw [List.length_replicate]; omega)]; norm_num
  have hok1 : ∀ k, k < 1 →
      rejected (sampleConfigN 257 0) true sampleMachine.offset.z
        (sampleConfigN 257 0).Z_CLEARANCE_MULTI_PROBE
        ((sampleEnv [] 2).descent (sampleMachine.descents + k)) = false := by
    intro k _
    apply sampleEnv_rejected _ rfl rfl rfl
    norm_num [sampleMachine, sampleConfigN, sampleConfig]
  obtain ⟨p1, p2, -⟩ := plain_loop_ok (sampleConfigN 257 0) (sampleEnv [] 2) true
    (z_probe_low_point (sampleConfigN 257 0) sampleMachine) sampleMachine.offset.z 1 0
    sampleMachine rfl hok1
  have u257 : toUInt8 (((sampleConfigN 257 0).TOTAL_PROBING : ℕ) : ℤ) = 1 := by decide
  have ev : run_z_probe (sampleConfigN 257 0) (sampleEnv [] 2) true sampleMachine
      = (some ((0 + (resolved (sampleEnv [] 2) sampleMachine.descents 1).sum)
          * RECIPROCAL (sampleConfigN 257 0).MULTIPLE_PROBING),
        (plain_loop (sampleConfigN 257 0) (sampleEnv [] 2) true
          (z_probe_low_point (sampleConfigN 257 0) sampleMachine) 1 0 sampleMachine).2) := by
    unfold run_z_probe
    simp only [show ¬ (sampleConfigN 257 0).TOTAL_PROBING = 2 by decide, if_false, gt_iff_lt,
      show 2 < (sampleConfigN 257 0).TOTAL_PROBING by decide, if_true,
      show ¬ 0 < (sampleConfigN 257 0).EXTRA_PROBING by decide, u257]
    rw [sample_loop_entry _ _ rfl, pair_of_fst _ _ p1]
  refine ⟨?_, ?_, ?_, by norm_num, ?_, ?_, by norm_num⟩
  · rw [ev]
    norm_num [resolved, sampleEnv, RECIPROCAL, sampleConfigN, sampleMachine, List.range_succ]
  · rw [ev]
    exact p2
  · intro k
    simp [sampleEnv]
  · obtain ⟨r1, -⟩ := trimmed_loop_ok (sampleConfigN 129 1)
      (sampleEnv (List.replicate 129 (-1)) (-3)) true
      (z_probe_low_point (sampleConfigN 129 1) sampleMachine) sampleMachine.offset.z
      (sampleConfigN 129 1).TOTAL_PROBING 0
      ((List.range (sampleConfigN 129 1).TOTAL_PROBING).map
        (sampleEnv (List.replicate 129 (-1)) (-3)).probes_uninit)
      (loop_entry (sampleConfigN 129 1) (sampleEnv (List.replicate 129 (-1)) (-3)) sampleMachine)
      (by simp) hok
    have hi : (List.range (sampleConfigN 129 1).TOTAL_PROBING).map
        (sampleEnv (List.replicate 129 (-1)) (-3)).probes_uninit = List.replicate 130 0 := by
      rw [List.eq_replicate_iff]
      refine ⟨by rw [List.length_map, List.length_range]; rfl, ?_⟩
      intro b hb
      obtain ⟨k, -, rfl⟩ := List.mem_map.mp hb
      rfl
    rw [sample_loop_entry _ _ rfl, show sampleMachine.descents = 0 from rfl,
      show (sampleConfigN 129 1).TOTAL_PROBING = 130 from rfl] at r1
    rw [show (sampleConfigN 129 1).TOTAL_PROBING = 130 from rfl] at hi
    rw [hi, resolved_negs, insert_negs] at r1
    unfold run_z_probe
    simp only [show ¬ (sampleConfigN 129 1).TOTAL_PROBING = 2 by decide, if_false, gt_iff_lt,
      show 2 < (sampleConfigN 129 1).TOTAL_PROBING by decide, if_true,
      show 0 < (sampleConfigN 129 1).EXTRA_PROBING by decide]
    rw [sample_loop_entry _ _ rfl, show (sampleConfigN 129 1).TOTAL_PROBING = 130 from rfl, hi,
      pair_of_fst _ _ r1]
    simp only []
    rw [trimmed_negs]
  · intro k
    show (List.replicate 129 (-1 : ℚ)).getD k (-3) ≤ -1
    by_cases hk : k < 129
    · have := getD_replicate_append 129 (-1) [] k (-3) hk
      rw [List.append_nil] at this
      rw [this]
    · rw [List.getD_eq_default _ _ (by rw [List.length_replicate]; omega)]; norm_num

end Probe
